import Mathlib

/-!
Shallow embedding of the MENACE box-enumeration engine
(source file menace_labels.py) together with proofs of the
specification claims.

A Python board string of length 9 over the alphabet space, X, O is
modelled as a list of characters (`Board`).  Python string comparison
is lexicographic on character code points; it is modelled by `lexLt`
below.  The Python `set`/`dict` values are modelled extensionally:
the visited set of the traversal is carried as a bit mask over the
base-3 encoding of boards together with the list of boards in
insertion order, and the canonical-to-members dictionary is modelled
by its lookup function (`members`) plus its key list (`classKeys`).
-/

namespace menace

/-- A board: the 9-character Python string as a list of characters. -/
abbrev Board := List Char

/-- The rotate permutation from all_symmetries:
rotate(b) = [b[6], b[3], b[0], b[7], b[4], b[1], b[8], b[5], b[2]].
Inputs are always 9 cells long; other lengths are returned unchanged. -/
def rotate : Board → Board
  | [b0, b1, b2, b3, b4, b5, b6, b7, b8] =>
      [b6, b3, b0, b7, b4, b1, b8, b5, b2]
  | b => b

/-- The reflect permutation from all_symmetries:
reflect(b) = [b[2], b[1], b[0], b[5], b[4], b[3], b[8], b[7], b[6]]. -/
def reflect : Board → Board
  | [b0, b1, b2, b3, b4, b5, b6, b7, b8] =>
      [b2, b1, b0, b5, b4, b3, b8, b7, b6]
  | b => b

/-- The 8 boards produced by the generation loop of all_symmetries,
in the order the Python loop appends them: for each of the four
rotations r^k(b) (k = 0..3) it appends r^k(b) and reflect(r^k(b)). -/
def rawSyms (b : Board) : List Board :=
  [b, reflect b,
   rotate b, reflect (rotate b),
   rotate (rotate b), reflect (rotate (rotate b)),
   rotate (rotate (rotate b)), reflect (rotate (rotate (rotate b)))]

/-- The deduplication loop of all_symmetries: walk the list keeping a
seen set, keep each element on first occurrence. -/
def uniqAux : List Board → List Board → List Board
  | _, [] => []
  | seen, x :: xs =>
      if x ∈ seen then uniqAux seen xs else x :: uniqAux (x :: seen) xs

/-- First-occurrence deduplication, as in the uniq loop of all_symmetries. -/
def uniq (l : List Board) : List Board := uniqAux [] l

/-- all_symmetries: the 8 rotations and reflections of a board with
duplicates removed (first occurrence kept). -/
def all_symmetries (b : Board) : List Board := uniq (rawSyms b)

/-- Python string comparison, lexicographic on character code points.
A strict prefix is smaller than the longer string. -/
def lexLt : List Char → List Char → Bool
  | [], [] => false
  | [], _ :: _ => true
  | _ :: _, [] => false
  | a :: as, b :: bs => if a < b then true else if b < a then false else lexLt as bs

/-- Non-strict comparison derived from `lexLt`. -/
def lexLe (a b : List Char) : Bool := !(lexLt b a)

/-- Python min over a list of strings: fold keeping the current
minimum, replacing it only when a strictly smaller element appears
(so the earliest minimal element wins, as in Python). The Python
callers only apply min to non-empty collections; the empty list is
given the empty board as a default. -/
def listMin : List Board → Board
  | [] => []
  | x :: xs => xs.foldl (fun cur y => if lexLt y cur then y else cur) x

/-- canonical: the lexicographically smallest symmetry of the board.
This is also the value computed for each position inside
build_menace_boxes (there the min is taken over the orbit as a set;
deduplication does not change the minimum). -/
def canonical (b : Board) : Board := listMin (all_symmetries b)

/-- Cell access b[i]. All boards handled by the program have length 9
and the program only indexes in range; out of range yields space. -/
def cell (b : Board) (i : Nat) : Char := b.getD i ' '

/-- The 8 win lines of winner: 3 rows, 3 columns, 2 diagonals. -/
def lines : List (Nat × Nat × Nat) :=
  [(0, 1, 2), (3, 4, 5), (6, 7, 8),
   (0, 3, 6), (1, 4, 7), (2, 5, 8),
   (0, 4, 8), (2, 4, 6)]

/-- The test done for one line inside winner:
b[i] != space and b[i] == b[j] == b[k]. -/
def lineWin (b : Board) (t : Nat × Nat × Nat) : Bool :=
  cell b t.1 != ' ' && cell b t.1 == cell b t.2.1 && cell b t.2.1 == cell b t.2.2

/-- winner: return the mark of the first line holding three identical
non-empty values, otherwise none.  The Python loop returns on the
first matching line, which is the find-first semantics used here. -/
def winner (b : Board) : Option Char :=
  (lines.find? (lineWin b)).map (fun t => cell b t.1)

/-- The empty board, start = 9 spaces. -/
def start : Board := List.replicate 9 ' '

/-- Base-3 digit of a cell, used to encode a board as a number for
the visited set: space = 0, X = 1, O = 2. -/
def encodeCell (c : Char) : Nat := if c == 'X' then 1 else if c == 'O' then 2 else 0

/-- Base-3 encoding of a board, the key under which the visited set
stores a board. -/
def encode (b : Board) : Nat := b.foldl (fun n c => 3 * n + encodeCell c) 0

/-- State of the traversal of reachable_positions: the visited set,
modelled as a bit mask indexed by `encode` together with the list of
visited boards in insertion order. -/
structure SearchState where
  mask : Nat
  boards : List Board

/-- Membership test of the visited set. -/
def SearchState.seen (st : SearchState) (b : Board) : Bool := st.mask.testBit (encode b)

/-- Adding a board to the visited set. -/
def SearchState.insert (st : SearchState) (b : Board) : SearchState :=
  { mask := st.mask ||| (1 <<< encode b), boards := b :: st.boards }

/-- The inner loop of reachable_positions: for i, c in enumerate(board),
for each empty cell build the successor, and if it is not visited add
it to the visited set and push it on the stack.  The Python stack is a
list popped from the end; it is modelled head-first, so pushing conses
onto the stack and the last pushed successor is popped first. -/
def pushStep (board : Board) (player np : Char) (acc : SearchState × List (Board × Char))
    (ic : Nat × Char) : SearchState × List (Board × Char) :=
  if ic.2 == ' ' then
    let nb := board.set ic.1 player
    if acc.1.seen nb then acc else (acc.1.insert nb, (nb, np) :: acc.2)
  else acc

def expand (board : Board) (player np : Char) (st : SearchState)
    (stack : List (Board × Char)) : SearchState × List (Board × Char) :=
  board.enum.foldl (pushStep board player np) (st, stack)

/-- The while loop of reachable_positions.  The loop is driven by a
fuel parameter so that it is structurally recursive; `reachLoop` is
shown below to return the same answer for every sufficiently large
fuel, which is the termination statement of the spec.  A result of
none means the fuel ran out with work remaining. -/
def reachLoop : Nat → List (Board × Char) → SearchState → Option SearchState
  | _, [], st => some st
  | 0, _ :: _, _ => none
  | fuel + 1, (board, player) :: rest, st =>
      if (winner board).isSome then reachLoop fuel rest st
      else if !(board.contains ' ') then reachLoop fuel rest st
      else
        let np := if player == 'X' then 'O' else 'X'
        let acc := expand board player np st rest
        reachLoop fuel acc.2 acc.1

/-- Fuel sufficient for the whole game tree (one unit per pop; at
most one push per distinct board, and there are fewer than 3^9
boards). -/
def FUEL : Nat := 20000

/-- The initial visited set: the empty board only. -/
def initState : SearchState :=
  { mask := 1 <<< encode start, boards := [start] }

/-- The visited list of a finished traversal; an unfinished one (fuel
ran out) contributes nothing. -/
def boardsOf : Option SearchState → List Board
  | some st => st.boards
  | none => []

/-- reachable_positions: all boards reachable from the empty board by
alternating legal play, traversal stopped at terminal boards.  The
Python function returns the visited set; here the insertion-order
list of visited boards represents it. -/
def reachable_positions : List Board :=
  boardsOf (reachLoop FUEL [(start, 'X')] initState)

/-- Base-3 digit of an encoded board at cell index i (cell 0 is the
most significant digit, matching `encode`). -/
def dig (e i : Nat) : Nat := e / 3 ^ (8 - i) % 3

/-- The winner test on an encoded board: same 8 lines as `winner`,
each cell read as a base-3 digit (0 = empty). -/
def natWinner (e : Nat) : Bool :=
  lines.any (fun t =>
    dig e t.1 != 0 && dig e t.1 == dig e t.2.1 && dig e t.2.1 == dig e t.2.2)

/-- The space-membership test on an encoded board. -/
def natHasSpace (e : Nat) : Bool := (List.range 9).any (fun i => dig e i == 0)

/-- Encoding of one stack entry of the traversal: board and mover,
packed into one number below 2^16 (and at least 1, so that a packed
stack is empty exactly when it is zero).  The mover bit is 0 for X
and 1 for O. -/
def encodeEntry (ent : Board × Char) : Nat :=
  1 + 2 * encode ent.1 + (if ent.2 == 'X' then 0 else 1)

/-- The whole stack packed into one number, head entry in the low 16 bits. -/
def natOfStack : List (Board × Char) → Nat
  | [] => 0
  | ent :: rest => encodeEntry ent + 65536 * natOfStack rest

/-- One candidate step of the refinement loop on an encoded board eb
with mover bit pb: if cell i is empty, place the mover (digit value
pb + 1), and if the successor is unseen mark it and push it.  The
accumulator is (packed stack, mask, count). -/
def natPush (eb pb : Nat) (a : Nat × Nat × Nat) (i : Nat) : Nat × Nat × Nat :=
  if dig eb i == 0 then
    if a.2.1.testBit (eb + (pb + 1) * 3 ^ (8 - i)) then a
    else (1 + 2 * (eb + (pb + 1) * 3 ^ (8 - i)) + (1 - pb) + 65536 * a.1,
          a.2.1 ||| (1 <<< (eb + (pb + 1) * 3 ^ (8 - i))), a.2.2 + 1)
  else a

/-- Number refinement of `reachLoop`, used to evaluate the traversal:
the state is three numbers (packed stack, visited bit mask, visited
count).  It performs exactly the steps of `reachLoop` on encoded data;
the simulation theorem below ties the two.  When the fuel runs out
the current state is returned, which makes runs composable over fuel.
Placing a mark of value v at empty cell i of an encoded board adds
v * 3 ^ (8 - i); the mover value is pb + 1 and the next mover bit is
1 - pb. -/
def natLoop : Nat → Nat → Nat → Nat → Nat × Nat × Nat
  | 0, s, m, c => (s, m, c)
  | _ + 1, 0, m, c => (0, m, c)
  | fuel + 1, s + 1, m, c =>
      let ent := (s + 1) % 65536
      let rest := (s + 1) / 65536
      let eb := (ent - 1) / 2
      let pb := (ent - 1) % 2
      if natWinner eb then natLoop fuel rest m c
      else if !natHasSpace eb then natLoop fuel rest m c
      else
        let acc := (List.range 9).foldl (natPush eb pb) (rest, m, c)
        natLoop fuel acc.1 acc.2.1 acc.2.2

/-- On an empty stack the loop returns at once, whatever the fuel. -/
theorem natLoop_zero_stack : ∀ f m c, natLoop f 0 m c = (0, m, c) := by
  intro f m c
  cases f <;> rfl

/-- Runs of the refinement loop compose over fuel. -/
theorem natLoop_add (a b : Nat) : ∀ s m c,
    natLoop (a + b) s m c =
      natLoop b (natLoop a s m c).1 (natLoop a s m c).2.1 (natLoop a s m c).2.2 := by
  induction a with
  | zero =>
      intro s m c
      simp [natLoop]
  | succ a ih =>
      intro s m c
      rw [show a + 1 + b = (a + b) + 1 by omega]
      cases s with
      | zero =>
          rw [natLoop_zero_stack, natLoop_zero_stack]
          simp [natLoop_zero_stack]
      | succ s =>
          simp only [natLoop]
          split
          next => exact ih _ _ _
          next =>
            split
            next => exact ih _ _ _
            next => exact ih _ _ _

/-- Composition step with an evaluated first run. -/
theorem natLoop_add2 (a b s m c s2 m2 c2 : Nat)
    (h1 : (natLoop a s m c).1 = s2) (h2 : (natLoop a s m c).2.1 = m2)
    (h3 : (natLoop a s m c).2.2 = c2) :
    natLoop (a + b) s m c = natLoop b s2 m2 c2 := by
  rw [natLoop_add, h1, h2, h3]

set_option maxRecDepth 4000000 in
set_option maxHeartbeats 16000000 in
/-- Traversal evaluation: iterations 1 to 200 of the refinement loop. -/
theorem natChunk1 : (natLoop 200 1 1 1).1 = 625153143649923777255969488943501083234462639176530935881600888903593703824831195438893265975202670599685226521453430786208295739942911800144610 ∧ (natLoop 200 1 1 1).2.1 = 65632141498365078880349533794720420327981500537627909684800818686969960504036873659139871220341533554213954692247823620246552712909863277688128746932055419500327168671988348363797903432182014235252713517201382924030429855776139536779244077749636927477355765126023354854152330177009449122699727690646532454444177905495202757412303207619514629994835068924931895436508116399017157856442551679628684584805352110297510509768202907450059139539015613701519181597945976136778003063295438555087226537231949102736264107196698066525412721059494361686406412438885793830096911042857384818752191644955325810071530271084687590319818736287880353876321852491682304513300337005054003510047202222312041135353545021489320283527885750323025435347459423504593202926138068167718558493993287922706205572548733568268075609383660670232616375155270508706987540628981554403814269965066725899234760181180213117626587671626232672753665892097040866511349015902254744362988405153954252024884797012925321256073612273943875176479963373243786720098449439984734863531380243510535610626908270016734857326400465532324330242551522540634458254515074558393618459399334122440579481859285829662366163401958829996020750063803740024347108680311514997139545897988978162657950376726878549201430439784379550434116067703102226922974705156143925452520453337713151030522557809191952065347656896265554247819139680826190919883290929731057206247366384963841835428257779600420080189053542234026366410114672390570033505976774810153654292704801603137419591301481214553512604143863742996614375012387311989257511004042469774843695434166933032730723943572274983732832706434719290446782471593901735231118747356450045940787733244728811103929324920418883915813348216804670013992667171546732145690977052424991517766450814312023792370013717238399010894080112265999326165369392928408659214773393434792718168838089248856162629495918342860851328008802843453985939111491590733562106792757742908263023242009316305162906754922684607980901152043580442304851519693341735866498795760114670789710528796674515757562454930854277246794974510583152314651602126305980702189593001076597067034825026562654882324031417706993728611381281138550161019569791537398812821209296786366497349564986210618627079417268922156579873410166025291073171752427464549615917825740525576306371398963490939566888948148546762165191535937800402288570005999450082845874772184063263277380263102111845995087871072688134910230590954405578903658627787160449947197172254991125768845916189740596628448600293306569663611121688613619782397505365153845553587767027942228362569915756854879154849220752636989947313487077599687708569128837853599871392527659197825246457600803569826548901616403537465524671862708058485599237460180242254275940120390896077197157705105500964355397770455869343907756250430084199379176717432529570409487842868805554033981936554517493329431953974504513576899038339183856904421237977122495406452016897702071177197540223997786483945202086726569706563647397166110643753403625566631375082226133352996436561526899433173593449130654848706958364230680919498500450390427406507316941548224841547953350974537315183616315010861627839715830888062257949844350611245212115069988795703177827622614607421243618523371499221164529095778458393019051148772238571251563380303961924343548383526101232704730962674967832713052115131287951220785851639255764245791780529796004902359260418439197784486719814173353402836145463704080270509577925542845702806679092518433301949429142853894031098213352256745044445636637380990621521974560362139658606931247474959172430352811945308492480713180354509610201739886587392143697012969962629882312263028168533487895771384508473135014200520552702406128338582245895560313681435291013999663426196150237718322928140783186371251173195887444658822795723357881312613810281242354273692858338028641460074358067168588573883470321502967972296459497189887445090874101366885858202789898392381337447258984281705162443089303722335697914375784785508373403594935031118794501846720403200760146039132104101715942364590674683349939026667555996703779204635623524609436276923950369529454914543417094659445880303946461997280310746598054351334223697216267454622877098517446699131533127898986332746360109422921200540635036810137954647243857406976838278537554613160673477586036838925403054678685112608898241001494593028932770052042305104777252441109749032975639311800390896610710492458693777694106301871653589589948203265947314776527089074527194811132511140760628910475889197535691524780987954452796051238352914719249373924158190910949560421345149882664579897990026433677889323846553000136771031710023186912104306641283806973144781668308316343808905852471055522641959300730077517275598460406899527997176466949824706856172814384041724745880405687670580570140911785660052048399257587564943383877070813841146604077359718137274259834339587547375188080370295553351709102740473115430555757132587465259503668588466934577071419013961209402833265605432023013022913831266114199108358282207619540921309901839013905069049335768341686989891950834100841098888973019469047475037898448965892345539907437889500580877227333683189897049557882762144749612424762773029807647078560618995262261454041795043269130280240353320128759283055822909225839559547828481100759029413281162715533860426323513574177565622710249013263521929463787805782688158294982163325804924154770037487188076095157881910283022494992335082632036797158830304598481511278201214774839156857286637188165713214561496406178670910623461288644163975665196397397462020964374336352788883172093558402779438855301240844438112434660354423349414300321434042155579927670986721968648309818922982097955812153287905402306111203669415169749313968901371982714683415237263692464796501117904436053645930604104601239295500232641593915648409493541556262312543308994868478603 ∧ (natLoop 200 1 1 1).2.2 = 230 :=
  ⟨rfl, rfl, rfl⟩

set_option maxRecDepth 4000000 in
set_option maxHeartbeats 16000000 in
/-- Traversal evaluation: iterations 201 to 400 of the refinement loop. -/
theorem natChunk2 : (natLoop 200 625153143649923777255969488943501083234462639176530935881600888903593703824831195438893265975202670599685226521453430786208295739942911800144610 65632141498365078880349533794720420327981500537627909684800818686969960504036873659139871220341533554213954692247823620246552712909863277688128746932055419500327168671988348363797903432182014235252713517201382924030429855776139536779244077749636927477355765126023354854152330177009449122699727690646532454444177905495202757412303207619514629994835068924931895436508116399017157856442551679628684584805352110297510509768202907450059139539015613701519181597945976136778003063295438555087226537231949102736264107196698066525412721059494361686406412438885793830096911042857384818752191644955325810071530271084687590319818736287880353876321852491682304513300337005054003510047202222312041135353545021489320283527885750323025435347459423504593202926138068167718558493993287922706205572548733568268075609383660670232616375155270508706987540628981554403814269965066725899234760181180213117626587671626232672753665892097040866511349015902254744362988405153954252024884797012925321256073612273943875176479963373243786720098449439984734863531380243510535610626908270016734857326400465532324330242551522540634458254515074558393618459399334122440579481859285829662366163401958829996020750063803740024347108680311514997139545897988978162657950376726878549201430439784379550434116067703102226922974705156143925452520453337713151030522557809191952065347656896265554247819139680826190919883290929731057206247366384963841835428257779600420080189053542234026366410114672390570033505976774810153654292704801603137419591301481214553512604143863742996614375012387311989257511004042469774843695434166933032730723943572274983732832706434719290446782471593901735231118747356450045940787733244728811103929324920418883915813348216804670013992667171546732145690977052424991517766450814312023792370013717238399010894080112265999326165369392928408659214773393434792718168838089248856162629495918342860851328008802843453985939111491590733562106792757742908263023242009316305162906754922684607980901152043580442304851519693341735866498795760114670789710528796674515757562454930854277246794974510583152314651602126305980702189593001076597067034825026562654882324031417706993728611381281138550161019569791537398812821209296786366497349564986210618627079417268922156579873410166025291073171752427464549615917825740525576306371398963490939566888948148546762165191535937800402288570005999450082845874772184063263277380263102111845995087871072688134910230590954405578903658627787160449947197172254991125768845916189740596628448600293306569663611121688613619782397505365153845553587767027942228362569915756854879154849220752636989947313487077599687708569128837853599871392527659197825246457600803569826548901616403537465524671862708058485599237460180242254275940120390896077197157705105500964355397770455869343907756250430084199379176717432529570409487842868805554033981936554517493329431953974504513576899038339183856904421237977122495406452016897702071177197540223997786483945202086726569706563647397166110643753403625566631375082226133352996436561526899433173593449130654848706958364230680919498500450390427406507316941548224841547953350974537315183616315010861627839715830888062257949844350611245212115069988795703177827622614607421243618523371499221164529095778458393019051148772238571251563380303961924343548383526101232704730962674967832713052115131287951220785851639255764245791780529796004902359260418439197784486719814173353402836145463704080270509577925542845702806679092518433301949429142853894031098213352256745044445636637380990621521974560362139658606931247474959172430352811945308492480713180354509610201739886587392143697012969962629882312263028168533487895771384508473135014200520552702406128338582245895560313681435291013999663426196150237718322928140783186371251173195887444658822795723357881312613810281242354273692858338028641460074358067168588573883470321502967972296459497189887445090874101366885858202789898392381337447258984281705162443089303722335697914375784785508373403594935031118794501846720403200760146039132104101715942364590674683349939026667555996703779204635623524609436276923950369529454914543417094659445880303946461997280310746598054351334223697216267454622877098517446699131533127898986332746360109422921200540635036810137954647243857406976838278537554613160673477586036838925403054678685112608898241001494593028932770052042305104777252441109749032975639311800390896610710492458693777694106301871653589589948203265947314776527089074527194811132511140760628910475889197535691524780987954452796051238352914719249373924158190910949560421345149882664579897990026433677889323846553000136771031710023186912104306641283806973144781668308316343808905852471055522641959300730077517275598460406899527997176466949824706856172814384041724745880405687670580570140911785660052048399257587564943383877070813841146604077359718137274259834339587547375188080370295553351709102740473115430555757132587465259503668588466934577071419013961209402833265605432023013022913831266114199108358282207619540921309901839013905069049335768341686989891950834100841098888973019469047475037898448965892345539907437889500580877227333683189897049557882762144749612424762773029807647078560618995262261454041795043269130280240353320128759283055822909225839559547828481100759029413281162715533860426323513574177565622710249013263521929463787805782688158294982163325804924154770037487188076095157881910283022494992335082632036797158830304598481511278201214774839156857286637188165713214561496406178670910623461288644163975665196397397462020964374336352788883172093558402779438855301240844438112434660354423349414300321434042155579927670986721968648309818922982097955812153287905402306111203669415169749313968901371982714683415237263692464796501117904436053645930604104601239295500232641593915648409493541556262312543308994868478603 230).1 = 175964966549455680058633589606722485894027079542180986247167917815592665402517756125553029543549720733016306017249721200996182132824154845297799114856712798324 ∧ (natLoop 200 625153143649923777255969488943501083234462639176530935881600888903593703824831195438893265975202670599685226521453430786208295739942911800144610 65632141498365078880349533794720420327981500537627909684800818686969960504036873659139871220341533554213954692247823620246552712909863277688128746932055419500327168671988348363797903432182014235252713517201382924030429855776139536779244077749636927477355765126023354854152330177009449122699727690646532454444177905495202757412303207619514629994835068924931895436508116399017157856442551679628684584805352110297510509768202907450059139539015613701519181597945976136778003063295438555087226537231949102736264107196698066525412721059494361686406412438885793830096911042857384818752191644955325810071530271084687590319818736287880353876321852491682304513300337005054003510047202222312041135353545021489320283527885750323025435347459423504593202926138068167718558493993287922706205572548733568268075609383660670232616375155270508706987540628981554403814269965066725899234760181180213117626587671626232672753665892097040866511349015902254744362988405153954252024884797012925321256073612273943875176479963373243786720098449439984734863531380243510535610626908270016734857326400465532324330242551522540634458254515074558393618459399334122440579481859285829662366163401958829996020750063803740024347108680311514997139545897988978162657950376726878549201430439784379550434116067703102226922974705156143925452520453337713151030522557809191952065347656896265554247819139680826190919883290929731057206247366384963841835428257779600420080189053542234026366410114672390570033505976774810153654292704801603137419591301481214553512604143863742996614375012387311989257511004042469774843695434166933032730723943572274983732832706434719290446782471593901735231118747356450045940787733244728811103929324920418883915813348216804670013992667171546732145690977052424991517766450814312023792370013717238399010894080112265999326165369392928408659214773393434792718168838089248856162629495918342860851328008802843453985939111491590733562106792757742908263023242009316305162906754922684607980901152043580442304851519693341735866498795760114670789710528796674515757562454930854277246794974510583152314651602126305980702189593001076597067034825026562654882324031417706993728611381281138550161019569791537398812821209296786366497349564986210618627079417268922156579873410166025291073171752427464549615917825740525576306371398963490939566888948148546762165191535937800402288570005999450082845874772184063263277380263102111845995087871072688134910230590954405578903658627787160449947197172254991125768845916189740596628448600293306569663611121688613619782397505365153845553587767027942228362569915756854879154849220752636989947313487077599687708569128837853599871392527659197825246457600803569826548901616403537465524671862708058485599237460180242254275940120390896077197157705105500964355397770455869343907756250430084199379176717432529570409487842868805554033981936554517493329431953974504513576899038339183856904421237977122495406452016897702071177197540223997786483945202086726569706563647397166110643753403625566631375082226133352996436561526899433173593449130654848706958364230680919498500450390427406507316941548224841547953350974537315183616315010861627839715830888062257949844350611245212115069988795703177827622614607421243618523371499221164529095778458393019051148772238571251563380303961924343548383526101232704730962674967832713052115131287951220785851639255764245791780529796004902359260418439197784486719814173353402836145463704080270509577925542845702806679092518433301949429142853894031098213352256745044445636637380990621521974560362139658606931247474959172430352811945308492480713180354509610201739886587392143697012969962629882312263028168533487895771384508473135014200520552702406128338582245895560313681435291013999663426196150237718322928140783186371251173195887444658822795723357881312613810281242354273692858338028641460074358067168588573883470321502967972296459497189887445090874101366885858202789898392381337447258984281705162443089303722335697914375784785508373403594935031118794501846720403200760146039132104101715942364590674683349939026667555996703779204635623524609436276923950369529454914543417094659445880303946461997280310746598054351334223697216267454622877098517446699131533127898986332746360109422921200540635036810137954647243857406976838278537554613160673477586036838925403054678685112608898241001494593028932770052042305104777252441109749032975639311800390896610710492458693777694106301871653589589948203265947314776527089074527194811132511140760628910475889197535691524780987954452796051238352914719249373924158190910949560421345149882664579897990026433677889323846553000136771031710023186912104306641283806973144781668308316343808905852471055522641959300730077517275598460406899527997176466949824706856172814384041724745880405687670580570140911785660052048399257587564943383877070813841146604077359718137274259834339587547375188080370295553351709102740473115430555757132587465259503668588466934577071419013961209402833265605432023013022913831266114199108358282207619540921309901839013905069049335768341686989891950834100841098888973019469047475037898448965892345539907437889500580877227333683189897049557882762144749612424762773029807647078560618995262261454041795043269130280240353320128759283055822909225839559547828481100759029413281162715533860426323513574177565622710249013263521929463787805782688158294982163325804924154770037487188076095157881910283022494992335082632036797158830304598481511278201214774839156857286637188165713214561496406178670910623461288644163975665196397397462020964374336352788883172093558402779438855301240844438112434660354423349414300321434042155579927670986721968648309818922982097955812153287905402306111203669415169749313968901371982714683415237263692464796501117904436053645930604104601239295500232641593915648409493541556262312543308994868478603 230).2.1 = 1182323551982258610639925523534601922074291556056206833508689577844742761287356589340901653535239179286205555301103367548322191286115966183672049422404595934934881983418248548715978826732873735112759968007399724784528612930526750447605117569882000716934036205103520606170694045018986466608007538744387714763683389061367112454292726773846267693800949677694406045315900643390506303132109509829215787298431062948505686526106135750017666149730940021296659502992133636811988227312489564205516920748365662227323527888784487978321738271414945585141605496291072963796771051492966514567509979170977434006809982776413070198880644834239663662010692073285861528019687810701897699863286492104044446089974017820228940892021926122100210199626119493540402095565676013273774827382057724153447745377650891431154614240261767976356878507341074384534009429160748770507611048224417826106911120701588015463721111723246086055450570888017628710251026274294291016394158503001214123312202366166133668418712357689691456956980270458277143848974525654818576637352439241615581694383783992658622381844797199610814648037381694294886986029674385463109977925664137863683357164694090965175968269503713657624466696806392155427490525087083131187192911214814013092865953876115198675094235523286583055917387318619890181569686874375115539513627989922593911410449260070170922988218470112045421674903067808332783033580189304514037046544913188356490645581854738122901465231742881114909343890845194938069005761642918639419088197301296368334734868623092324383148640971627304264728625951274559146814228577897580476341257053738664102573816436203787926848901124039858840588309811592641199716559601890778453944107387272548126438087924646736658574035787887906183259194960560173361287998243633717521255546519647661010112380990809239090406450898960601973326276181811070391108539337270751458005981641994832599369025120516912099252489587904594408210504603211620335950701459093875282601187930244878808531472556994293573634428680717145654956781341510204114584799258425397029261356601560608789957452507661464928322298892480581302746035125662450215332088885413414807766659652739090650873321483953067487170546184875575451131945585687440838662963374560407325652233408532450512533471282694688436898497879340552040393817148372182421668565306176663829710545041416871758983465340369332896959039143963523180456040899881710481212332853833508374294825657828057298077831563540172419406875898847816013918057719665142564767011415712852055094850476086897327459039363805015541040888573099403312814811654279085505279103577179348937356693331978785342909505651216179246749616778302275697616769024741633911830862940194699425746199038142794743508044935214312038509381147255866920260460348852143503540037556054717699044327537889021128054773062458743652499013579440561444229330070504986454270600012490151958879987790051868393116148169017103990574801549411730770994749866893034060295357891352225187690746339159270413546461782766435178716819760203448690936241599149140469120201926122324523085952555067072365970424338960705257393720893044434062178708383992789016517209576754415908600659308782206137398847601801018626626219531288187549135254812606941446322556254000839736861366113395130199907559540753086639223099037624911052281934757318167712728958214913542401476301039784758818903966020642776815263571937903058630125907652853403108729879584616002311362196293677048551092527706894924026515817222783096165463382399385091149447516755924588210500558737902086745589425720758489898635470903000937365718022385601147409415448411088220722101056614691139629757974984941911904444053392173125655939027476165576376683369217351243058229927867116422720676959407355483212832341998559128510679283732257986137725538007846270505639888384359164046931689989291271391313350014712736912433922288244099903034248452937256922637420585307306243217414724542541448371760410662091741704548564790428856440320066975173159821921923574407435008400425650910654681064686033660348533812075761537936087116564227388911329440220351244393390507492606295301122186835037662076115084697623350807544065109252755262759904902404428501368410709486555381070161531561423775577758508316492828847175361180847923539809034506877790090804375967207115597600235059715642895201594474532058685979501644154863010379870721390057858627421699563857753956565649915234600469989047414536245166549539812570587187046300650891445981384498797448320232068752470918923547882595083662963412376190040020913735758393632558283253738848117427094244858569582633173799001871212089770704702610823648683902743697457095615395776750174279587401824701406662286957162595891717245375662713855002978409652497178167485273193012270202764849534650829037770035590608092360040915308212345818589197052540015784591855454719562215829985748888839481617643876032542558473855482592047839238203001546902381239732828460427518257636746964223664947482847916181730063990623051380418003402572453636863012368986945056144018276136065669484755158738705376455118000807482730256855298373320566150211994317795463067575168171495852050838994719770919208928280492371860190695218881841619116874702660895685650290886550565481932276607407265475570495784273759200596834747069189125676036297860938217486090718356302237178403398356829404072439303229020553535811728594236996651771282935282791497801504592422730547334743335649562502837080547219592373235059441591452924147292245857981394151099196216044779945496622881653931739235309098896517470707818290335417185112297194212747514468774551874914936311413546215826903144067347269899607426767009310768048468560565902894961302906826440755574737790371953258432855190055117692415957428491745305725392271527441008554638875389926862265816857075610926208384157719100945238133833723063675329773191684353632577689276909445583288714746197443856511552600095222540865211269771 ∧ (natLoop 200 625153143649923777255969488943501083234462639176530935881600888903593703824831195438893265975202670599685226521453430786208295739942911800144610 65632141498365078880349533794720420327981500537627909684800818686969960504036873659139871220341533554213954692247823620246552712909863277688128746932055419500327168671988348363797903432182014235252713517201382924030429855776139536779244077749636927477355765126023354854152330177009449122699727690646532454444177905495202757412303207619514629994835068924931895436508116399017157856442551679628684584805352110297510509768202907450059139539015613701519181597945976136778003063295438555087226537231949102736264107196698066525412721059494361686406412438885793830096911042857384818752191644955325810071530271084687590319818736287880353876321852491682304513300337005054003510047202222312041135353545021489320283527885750323025435347459423504593202926138068167718558493993287922706205572548733568268075609383660670232616375155270508706987540628981554403814269965066725899234760181180213117626587671626232672753665892097040866511349015902254744362988405153954252024884797012925321256073612273943875176479963373243786720098449439984734863531380243510535610626908270016734857326400465532324330242551522540634458254515074558393618459399334122440579481859285829662366163401958829996020750063803740024347108680311514997139545897988978162657950376726878549201430439784379550434116067703102226922974705156143925452520453337713151030522557809191952065347656896265554247819139680826190919883290929731057206247366384963841835428257779600420080189053542234026366410114672390570033505976774810153654292704801603137419591301481214553512604143863742996614375012387311989257511004042469774843695434166933032730723943572274983732832706434719290446782471593901735231118747356450045940787733244728811103929324920418883915813348216804670013992667171546732145690977052424991517766450814312023792370013717238399010894080112265999326165369392928408659214773393434792718168838089248856162629495918342860851328008802843453985939111491590733562106792757742908263023242009316305162906754922684607980901152043580442304851519693341735866498795760114670789710528796674515757562454930854277246794974510583152314651602126305980702189593001076597067034825026562654882324031417706993728611381281138550161019569791537398812821209296786366497349564986210618627079417268922156579873410166025291073171752427464549615917825740525576306371398963490939566888948148546762165191535937800402288570005999450082845874772184063263277380263102111845995087871072688134910230590954405578903658627787160449947197172254991125768845916189740596628448600293306569663611121688613619782397505365153845553587767027942228362569915756854879154849220752636989947313487077599687708569128837853599871392527659197825246457600803569826548901616403537465524671862708058485599237460180242254275940120390896077197157705105500964355397770455869343907756250430084199379176717432529570409487842868805554033981936554517493329431953974504513576899038339183856904421237977122495406452016897702071177197540223997786483945202086726569706563647397166110643753403625566631375082226133352996436561526899433173593449130654848706958364230680919498500450390427406507316941548224841547953350974537315183616315010861627839715830888062257949844350611245212115069988795703177827622614607421243618523371499221164529095778458393019051148772238571251563380303961924343548383526101232704730962674967832713052115131287951220785851639255764245791780529796004902359260418439197784486719814173353402836145463704080270509577925542845702806679092518433301949429142853894031098213352256745044445636637380990621521974560362139658606931247474959172430352811945308492480713180354509610201739886587392143697012969962629882312263028168533487895771384508473135014200520552702406128338582245895560313681435291013999663426196150237718322928140783186371251173195887444658822795723357881312613810281242354273692858338028641460074358067168588573883470321502967972296459497189887445090874101366885858202789898392381337447258984281705162443089303722335697914375784785508373403594935031118794501846720403200760146039132104101715942364590674683349939026667555996703779204635623524609436276923950369529454914543417094659445880303946461997280310746598054351334223697216267454622877098517446699131533127898986332746360109422921200540635036810137954647243857406976838278537554613160673477586036838925403054678685112608898241001494593028932770052042305104777252441109749032975639311800390896610710492458693777694106301871653589589948203265947314776527089074527194811132511140760628910475889197535691524780987954452796051238352914719249373924158190910949560421345149882664579897990026433677889323846553000136771031710023186912104306641283806973144781668308316343808905852471055522641959300730077517275598460406899527997176466949824706856172814384041724745880405687670580570140911785660052048399257587564943383877070813841146604077359718137274259834339587547375188080370295553351709102740473115430555757132587465259503668588466934577071419013961209402833265605432023013022913831266114199108358282207619540921309901839013905069049335768341686989891950834100841098888973019469047475037898448965892345539907437889500580877227333683189897049557882762144749612424762773029807647078560618995262261454041795043269130280240353320128759283055822909225839559547828481100759029413281162715533860426323513574177565622710249013263521929463787805782688158294982163325804924154770037487188076095157881910283022494992335082632036797158830304598481511278201214774839156857286637188165713214561496406178670910623461288644163975665196397397462020964374336352788883172093558402779438855301240844438112434660354423349414300321434042155579927670986721968648309818922982097955812153287905402306111203669415169749313968901371982714683415237263692464796501117904436053645930604104601239295500232641593915648409493541556262312543308994868478603 230).2.2 = 433 :=
  ⟨rfl, rfl, rfl⟩

set_option maxRecDepth 4000000 in
set_option maxHeartbeats 16000000 in
/-- Traversal evaluation: iterations 401 to 600 of the refinement loop. -/
theorem natChunk3 : (natLoop 200 175964966549455680058633589606722485894027079542180986247167917815592665402517756125553029543549720733016306017249721200996182132824154845297799114856712798324 1182323551982258610639925523534601922074291556056206833508689577844742761287356589340901653535239179286205555301103367548322191286115966183672049422404595934934881983418248548715978826732873735112759968007399724784528612930526750447605117569882000716934036205103520606170694045018986466608007538744387714763683389061367112454292726773846267693800949677694406045315900643390506303132109509829215787298431062948505686526106135750017666149730940021296659502992133636811988227312489564205516920748365662227323527888784487978321738271414945585141605496291072963796771051492966514567509979170977434006809982776413070198880644834239663662010692073285861528019687810701897699863286492104044446089974017820228940892021926122100210199626119493540402095565676013273774827382057724153447745377650891431154614240261767976356878507341074384534009429160748770507611048224417826106911120701588015463721111723246086055450570888017628710251026274294291016394158503001214123312202366166133668418712357689691456956980270458277143848974525654818576637352439241615581694383783992658622381844797199610814648037381694294886986029674385463109977925664137863683357164694090965175968269503713657624466696806392155427490525087083131187192911214814013092865953876115198675094235523286583055917387318619890181569686874375115539513627989922593911410449260070170922988218470112045421674903067808332783033580189304514037046544913188356490645581854738122901465231742881114909343890845194938069005761642918639419088197301296368334734868623092324383148640971627304264728625951274559146814228577897580476341257053738664102573816436203787926848901124039858840588309811592641199716559601890778453944107387272548126438087924646736658574035787887906183259194960560173361287998243633717521255546519647661010112380990809239090406450898960601973326276181811070391108539337270751458005981641994832599369025120516912099252489587904594408210504603211620335950701459093875282601187930244878808531472556994293573634428680717145654956781341510204114584799258425397029261356601560608789957452507661464928322298892480581302746035125662450215332088885413414807766659652739090650873321483953067487170546184875575451131945585687440838662963374560407325652233408532450512533471282694688436898497879340552040393817148372182421668565306176663829710545041416871758983465340369332896959039143963523180456040899881710481212332853833508374294825657828057298077831563540172419406875898847816013918057719665142564767011415712852055094850476086897327459039363805015541040888573099403312814811654279085505279103577179348937356693331978785342909505651216179246749616778302275697616769024741633911830862940194699425746199038142794743508044935214312038509381147255866920260460348852143503540037556054717699044327537889021128054773062458743652499013579440561444229330070504986454270600012490151958879987790051868393116148169017103990574801549411730770994749866893034060295357891352225187690746339159270413546461782766435178716819760203448690936241599149140469120201926122324523085952555067072365970424338960705257393720893044434062178708383992789016517209576754415908600659308782206137398847601801018626626219531288187549135254812606941446322556254000839736861366113395130199907559540753086639223099037624911052281934757318167712728958214913542401476301039784758818903966020642776815263571937903058630125907652853403108729879584616002311362196293677048551092527706894924026515817222783096165463382399385091149447516755924588210500558737902086745589425720758489898635470903000937365718022385601147409415448411088220722101056614691139629757974984941911904444053392173125655939027476165576376683369217351243058229927867116422720676959407355483212832341998559128510679283732257986137725538007846270505639888384359164046931689989291271391313350014712736912433922288244099903034248452937256922637420585307306243217414724542541448371760410662091741704548564790428856440320066975173159821921923574407435008400425650910654681064686033660348533812075761537936087116564227388911329440220351244393390507492606295301122186835037662076115084697623350807544065109252755262759904902404428501368410709486555381070161531561423775577758508316492828847175361180847923539809034506877790090804375967207115597600235059715642895201594474532058685979501644154863010379870721390057858627421699563857753956565649915234600469989047414536245166549539812570587187046300650891445981384498797448320232068752470918923547882595083662963412376190040020913735758393632558283253738848117427094244858569582633173799001871212089770704702610823648683902743697457095615395776750174279587401824701406662286957162595891717245375662713855002978409652497178167485273193012270202764849534650829037770035590608092360040915308212345818589197052540015784591855454719562215829985748888839481617643876032542558473855482592047839238203001546902381239732828460427518257636746964223664947482847916181730063990623051380418003402572453636863012368986945056144018276136065669484755158738705376455118000807482730256855298373320566150211994317795463067575168171495852050838994719770919208928280492371860190695218881841619116874702660895685650290886550565481932276607407265475570495784273759200596834747069189125676036297860938217486090718356302237178403398356829404072439303229020553535811728594236996651771282935282791497801504592422730547334743335649562502837080547219592373235059441591452924147292245857981394151099196216044779945496622881653931739235309098896517470707818290335417185112297194212747514468774551874914936311413546215826903144067347269899607426767009310768048468560565902894961302906826440755574737790371953258432855190055117692415957428491745305725392271527441008554638875389926862265816857075610926208384157719100945238133833723063675329773191684353632577689276909445583288714746197443856511552600095222540865211269771 433).1 = 120400115918320336680676234555938525828916884243773747508181641573783992832444718183143570607478498506946123588 ∧ (natLoop 200 175964966549455680058633589606722485894027079542180986247167917815592665402517756125553029543549720733016306017249721200996182132824154845297799114856712798324 1182323551982258610639925523534601922074291556056206833508689577844742761287356589340901653535239179286205555301103367548322191286115966183672049422404595934934881983418248548715978826732873735112759968007399724784528612930526750447605117569882000716934036205103520606170694045018986466608007538744387714763683389061367112454292726773846267693800949677694406045315900643390506303132109509829215787298431062948505686526106135750017666149730940021296659502992133636811988227312489564205516920748365662227323527888784487978321738271414945585141605496291072963796771051492966514567509979170977434006809982776413070198880644834239663662010692073285861528019687810701897699863286492104044446089974017820228940892021926122100210199626119493540402095565676013273774827382057724153447745377650891431154614240261767976356878507341074384534009429160748770507611048224417826106911120701588015463721111723246086055450570888017628710251026274294291016394158503001214123312202366166133668418712357689691456956980270458277143848974525654818576637352439241615581694383783992658622381844797199610814648037381694294886986029674385463109977925664137863683357164694090965175968269503713657624466696806392155427490525087083131187192911214814013092865953876115198675094235523286583055917387318619890181569686874375115539513627989922593911410449260070170922988218470112045421674903067808332783033580189304514037046544913188356490645581854738122901465231742881114909343890845194938069005761642918639419088197301296368334734868623092324383148640971627304264728625951274559146814228577897580476341257053738664102573816436203787926848901124039858840588309811592641199716559601890778453944107387272548126438087924646736658574035787887906183259194960560173361287998243633717521255546519647661010112380990809239090406450898960601973326276181811070391108539337270751458005981641994832599369025120516912099252489587904594408210504603211620335950701459093875282601187930244878808531472556994293573634428680717145654956781341510204114584799258425397029261356601560608789957452507661464928322298892480581302746035125662450215332088885413414807766659652739090650873321483953067487170546184875575451131945585687440838662963374560407325652233408532450512533471282694688436898497879340552040393817148372182421668565306176663829710545041416871758983465340369332896959039143963523180456040899881710481212332853833508374294825657828057298077831563540172419406875898847816013918057719665142564767011415712852055094850476086897327459039363805015541040888573099403312814811654279085505279103577179348937356693331978785342909505651216179246749616778302275697616769024741633911830862940194699425746199038142794743508044935214312038509381147255866920260460348852143503540037556054717699044327537889021128054773062458743652499013579440561444229330070504986454270600012490151958879987790051868393116148169017103990574801549411730770994749866893034060295357891352225187690746339159270413546461782766435178716819760203448690936241599149140469120201926122324523085952555067072365970424338960705257393720893044434062178708383992789016517209576754415908600659308782206137398847601801018626626219531288187549135254812606941446322556254000839736861366113395130199907559540753086639223099037624911052281934757318167712728958214913542401476301039784758818903966020642776815263571937903058630125907652853403108729879584616002311362196293677048551092527706894924026515817222783096165463382399385091149447516755924588210500558737902086745589425720758489898635470903000937365718022385601147409415448411088220722101056614691139629757974984941911904444053392173125655939027476165576376683369217351243058229927867116422720676959407355483212832341998559128510679283732257986137725538007846270505639888384359164046931689989291271391313350014712736912433922288244099903034248452937256922637420585307306243217414724542541448371760410662091741704548564790428856440320066975173159821921923574407435008400425650910654681064686033660348533812075761537936087116564227388911329440220351244393390507492606295301122186835037662076115084697623350807544065109252755262759904902404428501368410709486555381070161531561423775577758508316492828847175361180847923539809034506877790090804375967207115597600235059715642895201594474532058685979501644154863010379870721390057858627421699563857753956565649915234600469989047414536245166549539812570587187046300650891445981384498797448320232068752470918923547882595083662963412376190040020913735758393632558283253738848117427094244858569582633173799001871212089770704702610823648683902743697457095615395776750174279587401824701406662286957162595891717245375662713855002978409652497178167485273193012270202764849534650829037770035590608092360040915308212345818589197052540015784591855454719562215829985748888839481617643876032542558473855482592047839238203001546902381239732828460427518257636746964223664947482847916181730063990623051380418003402572453636863012368986945056144018276136065669484755158738705376455118000807482730256855298373320566150211994317795463067575168171495852050838994719770919208928280492371860190695218881841619116874702660895685650290886550565481932276607407265475570495784273759200596834747069189125676036297860938217486090718356302237178403398356829404072439303229020553535811728594236996651771282935282791497801504592422730547334743335649562502837080547219592373235059441591452924147292245857981394151099196216044779945496622881653931739235309098896517470707818290335417185112297194212747514468774551874914936311413546215826903144067347269899607426767009310768048468560565902894961302906826440755574737790371953258432855190055117692415957428491745305725392271527441008554638875389926862265816857075610926208384157719100945238133833723063675329773191684353632577689276909445583288714746197443856511552600095222540865211269771 433).2.1 = 1182323551982258610639925523534601922074291556056206833508689577844742761287356589340901653535239179286205555301103367548322191286115966183672049422404595934934881983418248548715978826732873735112759968007414484116829445238278854703340226654387152652613478452374692293536373239847815191998696464470286554340265411254224298083423205499993125507509943389779102219016462135838756422902344820038576093120011340100700883993256281677899982892014370546999584431186676620685996750445019979233807432160968393476132149564287719579789824679488491863019476721589958726263011115921623942070770589712960826882982596446561445425673266053034341838669170561095653709811280144701540566277661466034556245224668554302961731837097965715913140731591908001977901196531730680826868048161911199728188834300636935875573346283802985810714013418640419275870212858185844444791506243933200747421090993226635242899094317693622040191394765872485815451593863262582975826353744843196344608727978403456922737610987846939544434773236890598888185417146631726387405910099325432416674879418741728677393183676625683458138458264055280940245443433346140730123099104737740320981741941230006842720209639370620663710410458946916088463126935021745414191844487353066036579074602872654739924014335486522251929427946397387747704980033406270020255322373603273658193785101027179522527412317202401456151414173338601167419781095901322454615487312627322216791956073174995522986367970601359588068038023720643329767697307138957816592536831845593892674490294471426889425859068317989166220179475325911993362291327967986532903806461312481727993199038905376037014246848312074215041231944622524197416628592392500495078866198354961712691274226574132479093688143110582880857564483818148155732356493025904612636130809931850208378786420853957492036857659863291844411817863078513812846204167799589788425079329770362036866169693413741960505727161875778374879305064766059928671311260067841915783657464012482003987509338079502671478014703868419845224771255039561500877503056897202549031393665233491723921833039018830596978963360434302537361216442418171214915510824111263557105460067472465504514433118557819624769809059358987718265432500856304471288538931597851451163178784925595774572126487956682326461405571497475736844129898640915265887488229889494041452602546345911449478508321788971878779853536371714516297121311491419816096604671509292982906548079131858206277025579624837654753453992422254750379376407479907364131790171779325697186879666014687035288927883532622481568315158807757444487062575617635836153034919987632256537046639716965357211415216560869524525512532091877179477532492294991997414932622498712802748084717725840872571940541366433359039847580255679289958480230043864459969954855094157548385187120271589582809926804969955839838432429346324579685579328866222297158444745822925557083825414733584973397988712549704440226006655492748456277966367534871908743045595761761066494808608683797954572364552102156180528370311724904823100499524019271035534430655807266029182500721630483991315271921620780057021897413160243288594429622128899182228493035361550586328859267455107116213969065123745460377756988522760504309798075392049985787386705901588202402285352858715539594571308802906826187283844456916432744390001061812836862292208581147831990024542264731232295539682165075181266685290976436632109764878391252465629380024833869810862881857497074238655472406367885150451327859270826907525471000095870625809186636178188599277152824262365474143856266613330538183412987018231859799241709110223100361944992164355371657438700440747799695738914857264476895841090440453072105340851216816386901950653834911467885438728485325249848804700674746313125954223754598842039899106996343598513678450793116653860733319269908832660093767181236417648769088413662451205878772083036456216164379891207102194174572352880137078245864218245483861536590395771263567692101399613461715765262022034423674952249968093987173840402462906462003323607197120201459567906810222924454370428263717888231438828577716845362367015965946140268811797559594063711358372280976328090016317868078766002712048858138493683776046561116517809514488310848432150034041772775529550112821484846770168888418696136482879445263278088552083036454840659856033669877967257019212168928558612917811424110118950748085088834912247747327929374178726878774555074578783917186640320000283454988561484736636919790282280659434651457284792498799925768482889274569911332395223450029800757575208559109444195312520758640928937104901869560304504507491979253003811624641491055766615009668273102108056490222919514097514312403106986093454946279044102992047025518612392180046648765429878460325099110844017407262762036728019718369162113658502341351658547925566086340052344281111089905686010806269971656985765551995700274406710714965479520069072523226847685910495035709358900752425683916203218132253364013968841731546090893321527431874675705903609898081165049122041523671282304803271294673866719399201769235220752806013037114937366792937691240856625597495957113222948285538968142817079054922336517723632753570300466971797362248459846009154476126373454528264960582444665247371651034724234375950035639998203699668090877798789434532549394344605147783690310282570913256428363935834769535321599786237951018390265280209107125619344561960514236748371393084278779384141373767227911325197425673185722145949385884687761003173352490078550122000768082285308878474864516633629018616495747190529283701236384271692585223407383879000247823134561828783815334599185073268965243576665188982829603053708758376317913185467480493064246873715531714744034220311196269704428830490312677702838101741403830983571300969513799424418245251729243813676330514771206574180247865795795492771541049513777735179029251422121273414401922539059930479635164474901962545893573556417169289279714165387 ∧ (natLoop 200 175964966549455680058633589606722485894027079542180986247167917815592665402517756125553029543549720733016306017249721200996182132824154845297799114856712798324 1182323551982258610639925523534601922074291556056206833508689577844742761287356589340901653535239179286205555301103367548322191286115966183672049422404595934934881983418248548715978826732873735112759968007399724784528612930526750447605117569882000716934036205103520606170694045018986466608007538744387714763683389061367112454292726773846267693800949677694406045315900643390506303132109509829215787298431062948505686526106135750017666149730940021296659502992133636811988227312489564205516920748365662227323527888784487978321738271414945585141605496291072963796771051492966514567509979170977434006809982776413070198880644834239663662010692073285861528019687810701897699863286492104044446089974017820228940892021926122100210199626119493540402095565676013273774827382057724153447745377650891431154614240261767976356878507341074384534009429160748770507611048224417826106911120701588015463721111723246086055450570888017628710251026274294291016394158503001214123312202366166133668418712357689691456956980270458277143848974525654818576637352439241615581694383783992658622381844797199610814648037381694294886986029674385463109977925664137863683357164694090965175968269503713657624466696806392155427490525087083131187192911214814013092865953876115198675094235523286583055917387318619890181569686874375115539513627989922593911410449260070170922988218470112045421674903067808332783033580189304514037046544913188356490645581854738122901465231742881114909343890845194938069005761642918639419088197301296368334734868623092324383148640971627304264728625951274559146814228577897580476341257053738664102573816436203787926848901124039858840588309811592641199716559601890778453944107387272548126438087924646736658574035787887906183259194960560173361287998243633717521255546519647661010112380990809239090406450898960601973326276181811070391108539337270751458005981641994832599369025120516912099252489587904594408210504603211620335950701459093875282601187930244878808531472556994293573634428680717145654956781341510204114584799258425397029261356601560608789957452507661464928322298892480581302746035125662450215332088885413414807766659652739090650873321483953067487170546184875575451131945585687440838662963374560407325652233408532450512533471282694688436898497879340552040393817148372182421668565306176663829710545041416871758983465340369332896959039143963523180456040899881710481212332853833508374294825657828057298077831563540172419406875898847816013918057719665142564767011415712852055094850476086897327459039363805015541040888573099403312814811654279085505279103577179348937356693331978785342909505651216179246749616778302275697616769024741633911830862940194699425746199038142794743508044935214312038509381147255866920260460348852143503540037556054717699044327537889021128054773062458743652499013579440561444229330070504986454270600012490151958879987790051868393116148169017103990574801549411730770994749866893034060295357891352225187690746339159270413546461782766435178716819760203448690936241599149140469120201926122324523085952555067072365970424338960705257393720893044434062178708383992789016517209576754415908600659308782206137398847601801018626626219531288187549135254812606941446322556254000839736861366113395130199907559540753086639223099037624911052281934757318167712728958214913542401476301039784758818903966020642776815263571937903058630125907652853403108729879584616002311362196293677048551092527706894924026515817222783096165463382399385091149447516755924588210500558737902086745589425720758489898635470903000937365718022385601147409415448411088220722101056614691139629757974984941911904444053392173125655939027476165576376683369217351243058229927867116422720676959407355483212832341998559128510679283732257986137725538007846270505639888384359164046931689989291271391313350014712736912433922288244099903034248452937256922637420585307306243217414724542541448371760410662091741704548564790428856440320066975173159821921923574407435008400425650910654681064686033660348533812075761537936087116564227388911329440220351244393390507492606295301122186835037662076115084697623350807544065109252755262759904902404428501368410709486555381070161531561423775577758508316492828847175361180847923539809034506877790090804375967207115597600235059715642895201594474532058685979501644154863010379870721390057858627421699563857753956565649915234600469989047414536245166549539812570587187046300650891445981384498797448320232068752470918923547882595083662963412376190040020913735758393632558283253738848117427094244858569582633173799001871212089770704702610823648683902743697457095615395776750174279587401824701406662286957162595891717245375662713855002978409652497178167485273193012270202764849534650829037770035590608092360040915308212345818589197052540015784591855454719562215829985748888839481617643876032542558473855482592047839238203001546902381239732828460427518257636746964223664947482847916181730063990623051380418003402572453636863012368986945056144018276136065669484755158738705376455118000807482730256855298373320566150211994317795463067575168171495852050838994719770919208928280492371860190695218881841619116874702660895685650290886550565481932276607407265475570495784273759200596834747069189125676036297860938217486090718356302237178403398356829404072439303229020553535811728594236996651771282935282791497801504592422730547334743335649562502837080547219592373235059441591452924147292245857981394151099196216044779945496622881653931739235309098896517470707818290335417185112297194212747514468774551874914936311413546215826903144067347269899607426767009310768048468560565902894961302906826440755574737790371953258432855190055117692415957428491745305725392271527441008554638875389926862265816857075610926208384157719100945238133833723063675329773191684353632577689276909445583288714746197443856511552600095222540865211269771 433).2.2 = 623 :=
  ⟨rfl, rfl, rfl⟩

set_option maxRecDepth 4000000 in
set_option maxHeartbeats 16000000 in
/-- Traversal evaluation: iterations 601 to 800 of the refinement loop. -/
theorem natChunk4 : (natLoop 200 120400115918320336680676234555938525828916884243773747508181641573783992832444718183143570607478498506946123588 1182323551982258610639925523534601922074291556056206833508689577844742761287356589340901653535239179286205555301103367548322191286115966183672049422404595934934881983418248548715978826732873735112759968007414484116829445238278854703340226654387152652613478452374692293536373239847815191998696464470286554340265411254224298083423205499993125507509943389779102219016462135838756422902344820038576093120011340100700883993256281677899982892014370546999584431186676620685996750445019979233807432160968393476132149564287719579789824679488491863019476721589958726263011115921623942070770589712960826882982596446561445425673266053034341838669170561095653709811280144701540566277661466034556245224668554302961731837097965715913140731591908001977901196531730680826868048161911199728188834300636935875573346283802985810714013418640419275870212858185844444791506243933200747421090993226635242899094317693622040191394765872485815451593863262582975826353744843196344608727978403456922737610987846939544434773236890598888185417146631726387405910099325432416674879418741728677393183676625683458138458264055280940245443433346140730123099104737740320981741941230006842720209639370620663710410458946916088463126935021745414191844487353066036579074602872654739924014335486522251929427946397387747704980033406270020255322373603273658193785101027179522527412317202401456151414173338601167419781095901322454615487312627322216791956073174995522986367970601359588068038023720643329767697307138957816592536831845593892674490294471426889425859068317989166220179475325911993362291327967986532903806461312481727993199038905376037014246848312074215041231944622524197416628592392500495078866198354961712691274226574132479093688143110582880857564483818148155732356493025904612636130809931850208378786420853957492036857659863291844411817863078513812846204167799589788425079329770362036866169693413741960505727161875778374879305064766059928671311260067841915783657464012482003987509338079502671478014703868419845224771255039561500877503056897202549031393665233491723921833039018830596978963360434302537361216442418171214915510824111263557105460067472465504514433118557819624769809059358987718265432500856304471288538931597851451163178784925595774572126487956682326461405571497475736844129898640915265887488229889494041452602546345911449478508321788971878779853536371714516297121311491419816096604671509292982906548079131858206277025579624837654753453992422254750379376407479907364131790171779325697186879666014687035288927883532622481568315158807757444487062575617635836153034919987632256537046639716965357211415216560869524525512532091877179477532492294991997414932622498712802748084717725840872571940541366433359039847580255679289958480230043864459969954855094157548385187120271589582809926804969955839838432429346324579685579328866222297158444745822925557083825414733584973397988712549704440226006655492748456277966367534871908743045595761761066494808608683797954572364552102156180528370311724904823100499524019271035534430655807266029182500721630483991315271921620780057021897413160243288594429622128899182228493035361550586328859267455107116213969065123745460377756988522760504309798075392049985787386705901588202402285352858715539594571308802906826187283844456916432744390001061812836862292208581147831990024542264731232295539682165075181266685290976436632109764878391252465629380024833869810862881857497074238655472406367885150451327859270826907525471000095870625809186636178188599277152824262365474143856266613330538183412987018231859799241709110223100361944992164355371657438700440747799695738914857264476895841090440453072105340851216816386901950653834911467885438728485325249848804700674746313125954223754598842039899106996343598513678450793116653860733319269908832660093767181236417648769088413662451205878772083036456216164379891207102194174572352880137078245864218245483861536590395771263567692101399613461715765262022034423674952249968093987173840402462906462003323607197120201459567906810222924454370428263717888231438828577716845362367015965946140268811797559594063711358372280976328090016317868078766002712048858138493683776046561116517809514488310848432150034041772775529550112821484846770168888418696136482879445263278088552083036454840659856033669877967257019212168928558612917811424110118950748085088834912247747327929374178726878774555074578783917186640320000283454988561484736636919790282280659434651457284792498799925768482889274569911332395223450029800757575208559109444195312520758640928937104901869560304504507491979253003811624641491055766615009668273102108056490222919514097514312403106986093454946279044102992047025518612392180046648765429878460325099110844017407262762036728019718369162113658502341351658547925566086340052344281111089905686010806269971656985765551995700274406710714965479520069072523226847685910495035709358900752425683916203218132253364013968841731546090893321527431874675705903609898081165049122041523671282304803271294673866719399201769235220752806013037114937366792937691240856625597495957113222948285538968142817079054922336517723632753570300466971797362248459846009154476126373454528264960582444665247371651034724234375950035639998203699668090877798789434532549394344605147783690310282570913256428363935834769535321599786237951018390265280209107125619344561960514236748371393084278779384141373767227911325197425673185722145949385884687761003173352490078550122000768082285308878474864516633629018616495747190529283701236384271692585223407383879000247823134561828783815334599185073268965243576665188982829603053708758376317913185467480493064246873715531714744034220311196269704428830490312677702838101741403830983571300969513799424418245251729243813676330514771206574180247865795795492771541049513777735179029251422121273414401922539059930479635164474901962545893573556417169289279714165387 623).1 = 33889619824069499505555119969545817359754809109985751018438763674797041206891805436396367503479952922046847336094093669253143 ∧ (natLoop 200 120400115918320336680676234555938525828916884243773747508181641573783992832444718183143570607478498506946123588 1182323551982258610639925523534601922074291556056206833508689577844742761287356589340901653535239179286205555301103367548322191286115966183672049422404595934934881983418248548715978826732873735112759968007414484116829445238278854703340226654387152652613478452374692293536373239847815191998696464470286554340265411254224298083423205499993125507509943389779102219016462135838756422902344820038576093120011340100700883993256281677899982892014370546999584431186676620685996750445019979233807432160968393476132149564287719579789824679488491863019476721589958726263011115921623942070770589712960826882982596446561445425673266053034341838669170561095653709811280144701540566277661466034556245224668554302961731837097965715913140731591908001977901196531730680826868048161911199728188834300636935875573346283802985810714013418640419275870212858185844444791506243933200747421090993226635242899094317693622040191394765872485815451593863262582975826353744843196344608727978403456922737610987846939544434773236890598888185417146631726387405910099325432416674879418741728677393183676625683458138458264055280940245443433346140730123099104737740320981741941230006842720209639370620663710410458946916088463126935021745414191844487353066036579074602872654739924014335486522251929427946397387747704980033406270020255322373603273658193785101027179522527412317202401456151414173338601167419781095901322454615487312627322216791956073174995522986367970601359588068038023720643329767697307138957816592536831845593892674490294471426889425859068317989166220179475325911993362291327967986532903806461312481727993199038905376037014246848312074215041231944622524197416628592392500495078866198354961712691274226574132479093688143110582880857564483818148155732356493025904612636130809931850208378786420853957492036857659863291844411817863078513812846204167799589788425079329770362036866169693413741960505727161875778374879305064766059928671311260067841915783657464012482003987509338079502671478014703868419845224771255039561500877503056897202549031393665233491723921833039018830596978963360434302537361216442418171214915510824111263557105460067472465504514433118557819624769809059358987718265432500856304471288538931597851451163178784925595774572126487956682326461405571497475736844129898640915265887488229889494041452602546345911449478508321788971878779853536371714516297121311491419816096604671509292982906548079131858206277025579624837654753453992422254750379376407479907364131790171779325697186879666014687035288927883532622481568315158807757444487062575617635836153034919987632256537046639716965357211415216560869524525512532091877179477532492294991997414932622498712802748084717725840872571940541366433359039847580255679289958480230043864459969954855094157548385187120271589582809926804969955839838432429346324579685579328866222297158444745822925557083825414733584973397988712549704440226006655492748456277966367534871908743045595761761066494808608683797954572364552102156180528370311724904823100499524019271035534430655807266029182500721630483991315271921620780057021897413160243288594429622128899182228493035361550586328859267455107116213969065123745460377756988522760504309798075392049985787386705901588202402285352858715539594571308802906826187283844456916432744390001061812836862292208581147831990024542264731232295539682165075181266685290976436632109764878391252465629380024833869810862881857497074238655472406367885150451327859270826907525471000095870625809186636178188599277152824262365474143856266613330538183412987018231859799241709110223100361944992164355371657438700440747799695738914857264476895841090440453072105340851216816386901950653834911467885438728485325249848804700674746313125954223754598842039899106996343598513678450793116653860733319269908832660093767181236417648769088413662451205878772083036456216164379891207102194174572352880137078245864218245483861536590395771263567692101399613461715765262022034423674952249968093987173840402462906462003323607197120201459567906810222924454370428263717888231438828577716845362367015965946140268811797559594063711358372280976328090016317868078766002712048858138493683776046561116517809514488310848432150034041772775529550112821484846770168888418696136482879445263278088552083036454840659856033669877967257019212168928558612917811424110118950748085088834912247747327929374178726878774555074578783917186640320000283454988561484736636919790282280659434651457284792498799925768482889274569911332395223450029800757575208559109444195312520758640928937104901869560304504507491979253003811624641491055766615009668273102108056490222919514097514312403106986093454946279044102992047025518612392180046648765429878460325099110844017407262762036728019718369162113658502341351658547925566086340052344281111089905686010806269971656985765551995700274406710714965479520069072523226847685910495035709358900752425683916203218132253364013968841731546090893321527431874675705903609898081165049122041523671282304803271294673866719399201769235220752806013037114937366792937691240856625597495957113222948285538968142817079054922336517723632753570300466971797362248459846009154476126373454528264960582444665247371651034724234375950035639998203699668090877798789434532549394344605147783690310282570913256428363935834769535321599786237951018390265280209107125619344561960514236748371393084278779384141373767227911325197425673185722145949385884687761003173352490078550122000768082285308878474864516633629018616495747190529283701236384271692585223407383879000247823134561828783815334599185073268965243576665188982829603053708758376317913185467480493064246873715531714744034220311196269704428830490312677702838101741403830983571300969513799424418245251729243813676330514771206574180247865795795492771541049513777735179029251422121273414401922539059930479635164474901962545893573556417169289279714165387 623).2.1 = 1182323551982258610639925523534601922074291556056206833508689577844742761287356589340901653535239179286205555301103367548322191286115966183672049422404595934934881983418248548715978826741569124016965363904685490687275180914187889300975782508798139213259176136428995286146227696496661149769341201484419258688205395573770726095396871617079483797776246943214348726330324112777072069246301696831701886015116203338623712692950295754765581163363081250672993280760942268683571402444906425681315186344450067037733724814160620752713468756455308707764497209832106303103638417973488910191168194693149465403595770522235245581559994993038654172629182662645364133405154792542372956688526755260432261971221633090588644580128715914400131667228135235727714470728323213112401172581531468239984157359979058277324577049208617720614765149516098475392693411185688573778338394342385317933714976985309925703110220268734208234141013426590029072750269505537223235609262790489238933416577380353907979371449717267911213189194880786385852420491925957620005202247272184745581133536138635882086751988152659035495014684742273822826810922020047791796276645242158767674033843170822136871841963869891151142568450159273795756470864859859073906240051720928006512099894739415561570852114846576747222926041652183844474909331216101809900038105114032760884770364854591646123974577314277234586935488833378925102314901660214375251762960186260987206619947437295503379632454193570259071422830801961742539024561237898186951782129558176662983309206110941230758410921014540144985387847788233210775975755919249521394602942860158833553097684155458558928012802387397051323362747698428559516351670235101405642943790441223251086474601844693448534297129541060065169146010802672663707700976973933381053154562337574610085768403840767736809411401206139030208799238285405757808113727672506196581745430849635013369896316103126964672762697072705791909656482918156749424479393797489667329854205706590704745116668520511299205988730726074936651996593060082974615633213696102917891610585181438466881382002453429579336871672389294010155031660403789375421604793015274506935492478901180371192086604750437503112912900147883264342718981330271436858062768353233650310070522875854388452303609497169236873439068079409388744441891240811940862106733039296677085085674539871438750545519699157240871227634648378867565147516053738393995429783066667276289642548413520249840434553179679342916623541819677109645891489684339655320739613823930894665007586777079936238005703915543072664690404980846270520026651996232027168929173885545492898305337048167403924455728411276765157575387790615167580533722852378805511234647403654541099831334332064061372931040240537929737244749541869759424849939580859226233426658696542230621566592033649751494580441596152018937014068123457087204353738810296687509430897860918124071456653445129295499087873912504092855180200958345228935175033657764733302740676899974111437611730921988419507202421677348550920547043100808919003809794834944022175431917341751647119213934314799741536102297521387643573199299168689826612658328771161230843605864373352489564513515765510276014742459981734712380948517787565607094215134221624873139868119561848756999680586823265768089300223967290824150994540834911765478795769007485372289218641313412210298650624581830921033329001676766682881957243277055555100140815900923286214719949429901532832437764053457338120246262950254529856914673039254326774158008692102223665626423092482025450544833420955646487841707210368701712784680153737335389769293136056529994183322617001608034171783656536102721821574743251571088463806994804813822219671551528027819334073121438383633540613020355109433274048014150532020632040001611532489159768224247096842636946950011816734545149871796953496954395949113804966790834759255739151213415510010690533865770794056617786490393656946452844443796067442079971047303329745266321255910961287959440762801334690952947541607953885904885827900496505855619991328176231013785052277381918636947668678518397924793486722706496269730999748059857058830366130450151828976592480791064633479871224330299594578822688771053418310623705023757361325869535602695519603657131835394559689991574313697141630272602908061484432884232733325011685683466463020236581707896756933795720019615854108413350561405475802703935905867717183500711601712249619187805440425029813331084861089435392971674472386456512681333023001758197817798669481141847849993724826692062483656967381765381123125374464839397723979261463201461537466584698654851498066220041495021064795286725217697435024444573447503087838456000206694390062613973546142444813761186232085486594692179758227235853715270492379696703934767133804232381411727974807360333025355174603816205531242180262576314405046321026779663909148559128131288172256041369730786618298655506343883788125609587303250432617278902062902433688594028030177292031503753427698436103317330301351550121733600915297827181138450424215011948859986349103309227157447979289233838282220550829670580485559945060068988773611603114533802052399413001079349577481850821766497655906972451864940689289806440892076597701984798229762797116507963359438043142405735868245857203363971347400552968288844980448239164764975740323514297341910864434220630711201977931186662294850107775169100132674317900307413694129928578112511967741147121174819636231757680164140841153150330041368050018727409482523094563759070897434424169404911566028400664133731836535767304410057468338143210772006134315779736850164889700459391054487523569564659213026521795096284415013387899667544601580751361407029759318348608973268344559887210943953562170252753501278022964527553077646583066010078283920247032492309737541656346408620143117850540409172033717556627946734784278710160594466780674204665467081395744871144068925999168577316708258294006742921163003624815496268415627 ∧ (natLoop 200 120400115918320336680676234555938525828916884243773747508181641573783992832444718183143570607478498506946123588 1182323551982258610639925523534601922074291556056206833508689577844742761287356589340901653535239179286205555301103367548322191286115966183672049422404595934934881983418248548715978826732873735112759968007414484116829445238278854703340226654387152652613478452374692293536373239847815191998696464470286554340265411254224298083423205499993125507509943389779102219016462135838756422902344820038576093120011340100700883993256281677899982892014370546999584431186676620685996750445019979233807432160968393476132149564287719579789824679488491863019476721589958726263011115921623942070770589712960826882982596446561445425673266053034341838669170561095653709811280144701540566277661466034556245224668554302961731837097965715913140731591908001977901196531730680826868048161911199728188834300636935875573346283802985810714013418640419275870212858185844444791506243933200747421090993226635242899094317693622040191394765872485815451593863262582975826353744843196344608727978403456922737610987846939544434773236890598888185417146631726387405910099325432416674879418741728677393183676625683458138458264055280940245443433346140730123099104737740320981741941230006842720209639370620663710410458946916088463126935021745414191844487353066036579074602872654739924014335486522251929427946397387747704980033406270020255322373603273658193785101027179522527412317202401456151414173338601167419781095901322454615487312627322216791956073174995522986367970601359588068038023720643329767697307138957816592536831845593892674490294471426889425859068317989166220179475325911993362291327967986532903806461312481727993199038905376037014246848312074215041231944622524197416628592392500495078866198354961712691274226574132479093688143110582880857564483818148155732356493025904612636130809931850208378786420853957492036857659863291844411817863078513812846204167799589788425079329770362036866169693413741960505727161875778374879305064766059928671311260067841915783657464012482003987509338079502671478014703868419845224771255039561500877503056897202549031393665233491723921833039018830596978963360434302537361216442418171214915510824111263557105460067472465504514433118557819624769809059358987718265432500856304471288538931597851451163178784925595774572126487956682326461405571497475736844129898640915265887488229889494041452602546345911449478508321788971878779853536371714516297121311491419816096604671509292982906548079131858206277025579624837654753453992422254750379376407479907364131790171779325697186879666014687035288927883532622481568315158807757444487062575617635836153034919987632256537046639716965357211415216560869524525512532091877179477532492294991997414932622498712802748084717725840872571940541366433359039847580255679289958480230043864459969954855094157548385187120271589582809926804969955839838432429346324579685579328866222297158444745822925557083825414733584973397988712549704440226006655492748456277966367534871908743045595761761066494808608683797954572364552102156180528370311724904823100499524019271035534430655807266029182500721630483991315271921620780057021897413160243288594429622128899182228493035361550586328859267455107116213969065123745460377756988522760504309798075392049985787386705901588202402285352858715539594571308802906826187283844456916432744390001061812836862292208581147831990024542264731232295539682165075181266685290976436632109764878391252465629380024833869810862881857497074238655472406367885150451327859270826907525471000095870625809186636178188599277152824262365474143856266613330538183412987018231859799241709110223100361944992164355371657438700440747799695738914857264476895841090440453072105340851216816386901950653834911467885438728485325249848804700674746313125954223754598842039899106996343598513678450793116653860733319269908832660093767181236417648769088413662451205878772083036456216164379891207102194174572352880137078245864218245483861536590395771263567692101399613461715765262022034423674952249968093987173840402462906462003323607197120201459567906810222924454370428263717888231438828577716845362367015965946140268811797559594063711358372280976328090016317868078766002712048858138493683776046561116517809514488310848432150034041772775529550112821484846770168888418696136482879445263278088552083036454840659856033669877967257019212168928558612917811424110118950748085088834912247747327929374178726878774555074578783917186640320000283454988561484736636919790282280659434651457284792498799925768482889274569911332395223450029800757575208559109444195312520758640928937104901869560304504507491979253003811624641491055766615009668273102108056490222919514097514312403106986093454946279044102992047025518612392180046648765429878460325099110844017407262762036728019718369162113658502341351658547925566086340052344281111089905686010806269971656985765551995700274406710714965479520069072523226847685910495035709358900752425683916203218132253364013968841731546090893321527431874675705903609898081165049122041523671282304803271294673866719399201769235220752806013037114937366792937691240856625597495957113222948285538968142817079054922336517723632753570300466971797362248459846009154476126373454528264960582444665247371651034724234375950035639998203699668090877798789434532549394344605147783690310282570913256428363935834769535321599786237951018390265280209107125619344561960514236748371393084278779384141373767227911325197425673185722145949385884687761003173352490078550122000768082285308878474864516633629018616495747190529283701236384271692585223407383879000247823134561828783815334599185073268965243576665188982829603053708758376317913185467480493064246873715531714744034220311196269704428830490312677702838101741403830983571300969513799424418245251729243813676330514771206574180247865795795492771541049513777735179029251422121273414401922539059930479635164474901962545893573556417169289279714165387 623).2.2 = 826 :=
  ⟨rfl, rfl, rfl⟩

set_option maxRecDepth 4000000 in
set_option maxHeartbeats 16000000 in
/-- Traversal evaluation: iterations 801 to 1000 of the refinement loop. -/
theorem natChunk5 : (natLoop 200 33889619824069499505555119969545817359754809109985751018438763674797041206891805436396367503479952922046847336094093669253143 1182323551982258610639925523534601922074291556056206833508689577844742761287356589340901653535239179286205555301103367548322191286115966183672049422404595934934881983418248548715978826741569124016965363904685490687275180914187889300975782508798139213259176136428995286146227696496661149769341201484419258688205395573770726095396871617079483797776246943214348726330324112777072069246301696831701886015116203338623712692950295754765581163363081250672993280760942268683571402444906425681315186344450067037733724814160620752713468756455308707764497209832106303103638417973488910191168194693149465403595770522235245581559994993038654172629182662645364133405154792542372956688526755260432261971221633090588644580128715914400131667228135235727714470728323213112401172581531468239984157359979058277324577049208617720614765149516098475392693411185688573778338394342385317933714976985309925703110220268734208234141013426590029072750269505537223235609262790489238933416577380353907979371449717267911213189194880786385852420491925957620005202247272184745581133536138635882086751988152659035495014684742273822826810922020047791796276645242158767674033843170822136871841963869891151142568450159273795756470864859859073906240051720928006512099894739415561570852114846576747222926041652183844474909331216101809900038105114032760884770364854591646123974577314277234586935488833378925102314901660214375251762960186260987206619947437295503379632454193570259071422830801961742539024561237898186951782129558176662983309206110941230758410921014540144985387847788233210775975755919249521394602942860158833553097684155458558928012802387397051323362747698428559516351670235101405642943790441223251086474601844693448534297129541060065169146010802672663707700976973933381053154562337574610085768403840767736809411401206139030208799238285405757808113727672506196581745430849635013369896316103126964672762697072705791909656482918156749424479393797489667329854205706590704745116668520511299205988730726074936651996593060082974615633213696102917891610585181438466881382002453429579336871672389294010155031660403789375421604793015274506935492478901180371192086604750437503112912900147883264342718981330271436858062768353233650310070522875854388452303609497169236873439068079409388744441891240811940862106733039296677085085674539871438750545519699157240871227634648378867565147516053738393995429783066667276289642548413520249840434553179679342916623541819677109645891489684339655320739613823930894665007586777079936238005703915543072664690404980846270520026651996232027168929173885545492898305337048167403924455728411276765157575387790615167580533722852378805511234647403654541099831334332064061372931040240537929737244749541869759424849939580859226233426658696542230621566592033649751494580441596152018937014068123457087204353738810296687509430897860918124071456653445129295499087873912504092855180200958345228935175033657764733302740676899974111437611730921988419507202421677348550920547043100808919003809794834944022175431917341751647119213934314799741536102297521387643573199299168689826612658328771161230843605864373352489564513515765510276014742459981734712380948517787565607094215134221624873139868119561848756999680586823265768089300223967290824150994540834911765478795769007485372289218641313412210298650624581830921033329001676766682881957243277055555100140815900923286214719949429901532832437764053457338120246262950254529856914673039254326774158008692102223665626423092482025450544833420955646487841707210368701712784680153737335389769293136056529994183322617001608034171783656536102721821574743251571088463806994804813822219671551528027819334073121438383633540613020355109433274048014150532020632040001611532489159768224247096842636946950011816734545149871796953496954395949113804966790834759255739151213415510010690533865770794056617786490393656946452844443796067442079971047303329745266321255910961287959440762801334690952947541607953885904885827900496505855619991328176231013785052277381918636947668678518397924793486722706496269730999748059857058830366130450151828976592480791064633479871224330299594578822688771053418310623705023757361325869535602695519603657131835394559689991574313697141630272602908061484432884232733325011685683466463020236581707896756933795720019615854108413350561405475802703935905867717183500711601712249619187805440425029813331084861089435392971674472386456512681333023001758197817798669481141847849993724826692062483656967381765381123125374464839397723979261463201461537466584698654851498066220041495021064795286725217697435024444573447503087838456000206694390062613973546142444813761186232085486594692179758227235853715270492379696703934767133804232381411727974807360333025355174603816205531242180262576314405046321026779663909148559128131288172256041369730786618298655506343883788125609587303250432617278902062902433688594028030177292031503753427698436103317330301351550121733600915297827181138450424215011948859986349103309227157447979289233838282220550829670580485559945060068988773611603114533802052399413001079349577481850821766497655906972451864940689289806440892076597701984798229762797116507963359438043142405735868245857203363971347400552968288844980448239164764975740323514297341910864434220630711201977931186662294850107775169100132674317900307413694129928578112511967741147121174819636231757680164140841153150330041368050018727409482523094563759070897434424169404911566028400664133731836535767304410057468338143210772006134315779736850164889700459391054487523569564659213026521795096284415013387899667544601580751361407029759318348608973268344559887210943953562170252753501278022964527553077646583066010078283920247032492309737541656346408620143117850540409172033717556627946734784278710160594466780674204665467081395744871144068925999168577316708258294006742921163003624815496268415627 826).1 = 517114560303794853295213622582181051021649308929225937171001642987015399275082480413765011072203808860237649872526453875 ∧ (natLoop 200 33889619824069499505555119969545817359754809109985751018438763674797041206891805436396367503479952922046847336094093669253143 1182323551982258610639925523534601922074291556056206833508689577844742761287356589340901653535239179286205555301103367548322191286115966183672049422404595934934881983418248548715978826741569124016965363904685490687275180914187889300975782508798139213259176136428995286146227696496661149769341201484419258688205395573770726095396871617079483797776246943214348726330324112777072069246301696831701886015116203338623712692950295754765581163363081250672993280760942268683571402444906425681315186344450067037733724814160620752713468756455308707764497209832106303103638417973488910191168194693149465403595770522235245581559994993038654172629182662645364133405154792542372956688526755260432261971221633090588644580128715914400131667228135235727714470728323213112401172581531468239984157359979058277324577049208617720614765149516098475392693411185688573778338394342385317933714976985309925703110220268734208234141013426590029072750269505537223235609262790489238933416577380353907979371449717267911213189194880786385852420491925957620005202247272184745581133536138635882086751988152659035495014684742273822826810922020047791796276645242158767674033843170822136871841963869891151142568450159273795756470864859859073906240051720928006512099894739415561570852114846576747222926041652183844474909331216101809900038105114032760884770364854591646123974577314277234586935488833378925102314901660214375251762960186260987206619947437295503379632454193570259071422830801961742539024561237898186951782129558176662983309206110941230758410921014540144985387847788233210775975755919249521394602942860158833553097684155458558928012802387397051323362747698428559516351670235101405642943790441223251086474601844693448534297129541060065169146010802672663707700976973933381053154562337574610085768403840767736809411401206139030208799238285405757808113727672506196581745430849635013369896316103126964672762697072705791909656482918156749424479393797489667329854205706590704745116668520511299205988730726074936651996593060082974615633213696102917891610585181438466881382002453429579336871672389294010155031660403789375421604793015274506935492478901180371192086604750437503112912900147883264342718981330271436858062768353233650310070522875854388452303609497169236873439068079409388744441891240811940862106733039296677085085674539871438750545519699157240871227634648378867565147516053738393995429783066667276289642548413520249840434553179679342916623541819677109645891489684339655320739613823930894665007586777079936238005703915543072664690404980846270520026651996232027168929173885545492898305337048167403924455728411276765157575387790615167580533722852378805511234647403654541099831334332064061372931040240537929737244749541869759424849939580859226233426658696542230621566592033649751494580441596152018937014068123457087204353738810296687509430897860918124071456653445129295499087873912504092855180200958345228935175033657764733302740676899974111437611730921988419507202421677348550920547043100808919003809794834944022175431917341751647119213934314799741536102297521387643573199299168689826612658328771161230843605864373352489564513515765510276014742459981734712380948517787565607094215134221624873139868119561848756999680586823265768089300223967290824150994540834911765478795769007485372289218641313412210298650624581830921033329001676766682881957243277055555100140815900923286214719949429901532832437764053457338120246262950254529856914673039254326774158008692102223665626423092482025450544833420955646487841707210368701712784680153737335389769293136056529994183322617001608034171783656536102721821574743251571088463806994804813822219671551528027819334073121438383633540613020355109433274048014150532020632040001611532489159768224247096842636946950011816734545149871796953496954395949113804966790834759255739151213415510010690533865770794056617786490393656946452844443796067442079971047303329745266321255910961287959440762801334690952947541607953885904885827900496505855619991328176231013785052277381918636947668678518397924793486722706496269730999748059857058830366130450151828976592480791064633479871224330299594578822688771053418310623705023757361325869535602695519603657131835394559689991574313697141630272602908061484432884232733325011685683466463020236581707896756933795720019615854108413350561405475802703935905867717183500711601712249619187805440425029813331084861089435392971674472386456512681333023001758197817798669481141847849993724826692062483656967381765381123125374464839397723979261463201461537466584698654851498066220041495021064795286725217697435024444573447503087838456000206694390062613973546142444813761186232085486594692179758227235853715270492379696703934767133804232381411727974807360333025355174603816205531242180262576314405046321026779663909148559128131288172256041369730786618298655506343883788125609587303250432617278902062902433688594028030177292031503753427698436103317330301351550121733600915297827181138450424215011948859986349103309227157447979289233838282220550829670580485559945060068988773611603114533802052399413001079349577481850821766497655906972451864940689289806440892076597701984798229762797116507963359438043142405735868245857203363971347400552968288844980448239164764975740323514297341910864434220630711201977931186662294850107775169100132674317900307413694129928578112511967741147121174819636231757680164140841153150330041368050018727409482523094563759070897434424169404911566028400664133731836535767304410057468338143210772006134315779736850164889700459391054487523569564659213026521795096284415013387899667544601580751361407029759318348608973268344559887210943953562170252753501278022964527553077646583066010078283920247032492309737541656346408620143117850540409172033717556627946734784278710160594466780674204665467081395744871144068925999168577316708258294006742921163003624815496268415627 826).2.1 = 76851030878846809691595159029749124934828951143653444178064822559908279483678178307158607479790546653603361094571718890640942433597537801887849912730873330054299466245588041206739648819128041268259420592046716104889843236355146174291687794936084546504061300103900169641623615031212942671197811728320626288937773693614940357313580476594025580299382088102897835821037720966085063038293276645119521413371583290861358288724755317887649776610677640725627231692907819854156003713269137845145017862827897432840553426960483832937166409010890886441851532726815068663965344282780707484491289551743066151551874449162196427226293372398613503433772285005878326780161832971384975400859706551198593196998755287057169226101935537362675313849342564842892521353746580794900346318866307237823960038970146217833392887493741564660733727728870136191774252622635828508025152422177057298692586723898019875074200331059478850856956337943473057766630774314053380247686780606675062954181846170894770349268959175990736503221605777417416776482907555088530350103510768538671298411703746614002742861170376192833990453979302699029399409899084577941107944241691583868028824102846584470032067451016068770641137982402498823309118727524962269310595737667290450892092399839925725994000240234786509075399945280233302447354598944017451331117515942777097873111510854628675248464986857246402390933954105889579757600983168005647061704872515757115569426086038700347991667513697198746326804875859932524492461880105104897961792222490241186020323109708472468086822675603093927269225059107187149818581787078925919570767694887569405398689524038714984096743645720507907323160577640477218103070145133763378722773342037040306101662367222764838820773616622393485677148437420728699425670938073624229095293930419544763614983662185318253247137054279693205679159986756760970951249933136464235774174078361370003441109929639376040428909859927327783173644096985241685810214430360709601224640956891591233421532140602134571196486699210154691926771988628824549425632569119426336630773459663710804313218192823889098457380127233382843691981909099149616822454792818335978415590276407359369459793933180792987797057649073029627604010329687949791831554619859496995531521074422223537221414348535217220967614958318899632508261986510920538957888363948212856041923433351453870850571945234375113999152200302242890379827675237262497615094349095410781468343909033043133426573510874014483570189363864070912505405050495113004726834262552833641301400086557079046640249500354388234101558910794279911392636214561243420341937142686765851340532543549924429309699080204808260167883448896506905775456743656457803247170304604873678505025685408026793567578860818358293612333490853856438908434018952938444273633199535725624164762051659692486064955901394153299318521096159255118120770900378119880851511601291213166951268630876029390829762157352609493422458378022541495394306552230323494997515755534063986341673472222043628597094866100681657976313255575738830340280244820771255072070471663453612692778647237592999380754226641797538415079551525286674235461610084895303187678536927612276576308741753262755656566494169768825714329699309460303753917125596202163840747499932719514751074502969374709635536161316223110266436085402023368598536602626279457342110083100385834744290131133211670912457083121779028110587345781304325333141323903288710713231829504402784645230812178040900265926205079518041886863804625285105086886780929989876223425731769627408441338508463161951686923277521491275690484929869606580744011216737304946219325256016436321481222060831791365583570030991847428488852293825240655625209010468382051608428783013831629500525113172537259154721736963755164710994092648268723081723912977705843083828019068934379313997609633946682787166165124855486601968891701024656292827229477293666738660677905491298480910444100250546464991148821511108608127870655165471585112969719189880068954996510415459804158859639162456789162166375119520990619702128719129451325281183246289744940258840224716958004361720132180144607544723502085709422221037231935367300148248094410141502020763705717703599464530133566702101441195059024520872300787711862622090237646268561389299921156917718557639356632426944328833399556074733857751182138489286580381480704881154254123614304917477007683748943717891077198559909750081160913636438206415651180245316334062939378753722636764612259790620963086536239649268061389974127058658879712600716523851672201344723084213997760450792128824886244334581951438952328189675438304938183636880117101309416413340901293571974810473012593725343102327244308305014903383927374757906768876338290343720193367717805265854707678346642359277465937714057565252198688625851107507106163477805805335178119100852542823680896340424583085100311808440488682947978722720592772028293459543196015705137976342728606663707699927595624816271653083452775620156941207661128456783483980447917777699957864575260603136338361555246704934092533363127313252459878469221412703990973733967108977240978907397753985709383350563030596454020616672123299680178302859136852566590217767518332804354601688132666145657842390758871987143372967533601685212384621737960394916428407051545322156443961245561314225675822814301890947369341128474482975416761998748264284053691292506697740038006114396538183752730927838798971167632890046420250892423876440031058637265841647777656668235460467804686400640816084935700484512654407079698200401866940315046210148243956775663149221316444741533919299855401432619800352549940459188633456899747248720784138748684601619172693873814429481761241842307170369485177554695500517757156645036741902073947827594024364806829622891889495840648930797218527371005777034041499739808551210946618445192726214913765380388151290376958722893433651278210582507328631853008460079591530007092407307594407168090680608218505571533451 ∧ (natLoop 200 33889619824069499505555119969545817359754809109985751018438763674797041206891805436396367503479952922046847336094093669253143 1182323551982258610639925523534601922074291556056206833508689577844742761287356589340901653535239179286205555301103367548322191286115966183672049422404595934934881983418248548715978826741569124016965363904685490687275180914187889300975782508798139213259176136428995286146227696496661149769341201484419258688205395573770726095396871617079483797776246943214348726330324112777072069246301696831701886015116203338623712692950295754765581163363081250672993280760942268683571402444906425681315186344450067037733724814160620752713468756455308707764497209832106303103638417973488910191168194693149465403595770522235245581559994993038654172629182662645364133405154792542372956688526755260432261971221633090588644580128715914400131667228135235727714470728323213112401172581531468239984157359979058277324577049208617720614765149516098475392693411185688573778338394342385317933714976985309925703110220268734208234141013426590029072750269505537223235609262790489238933416577380353907979371449717267911213189194880786385852420491925957620005202247272184745581133536138635882086751988152659035495014684742273822826810922020047791796276645242158767674033843170822136871841963869891151142568450159273795756470864859859073906240051720928006512099894739415561570852114846576747222926041652183844474909331216101809900038105114032760884770364854591646123974577314277234586935488833378925102314901660214375251762960186260987206619947437295503379632454193570259071422830801961742539024561237898186951782129558176662983309206110941230758410921014540144985387847788233210775975755919249521394602942860158833553097684155458558928012802387397051323362747698428559516351670235101405642943790441223251086474601844693448534297129541060065169146010802672663707700976973933381053154562337574610085768403840767736809411401206139030208799238285405757808113727672506196581745430849635013369896316103126964672762697072705791909656482918156749424479393797489667329854205706590704745116668520511299205988730726074936651996593060082974615633213696102917891610585181438466881382002453429579336871672389294010155031660403789375421604793015274506935492478901180371192086604750437503112912900147883264342718981330271436858062768353233650310070522875854388452303609497169236873439068079409388744441891240811940862106733039296677085085674539871438750545519699157240871227634648378867565147516053738393995429783066667276289642548413520249840434553179679342916623541819677109645891489684339655320739613823930894665007586777079936238005703915543072664690404980846270520026651996232027168929173885545492898305337048167403924455728411276765157575387790615167580533722852378805511234647403654541099831334332064061372931040240537929737244749541869759424849939580859226233426658696542230621566592033649751494580441596152018937014068123457087204353738810296687509430897860918124071456653445129295499087873912504092855180200958345228935175033657764733302740676899974111437611730921988419507202421677348550920547043100808919003809794834944022175431917341751647119213934314799741536102297521387643573199299168689826612658328771161230843605864373352489564513515765510276014742459981734712380948517787565607094215134221624873139868119561848756999680586823265768089300223967290824150994540834911765478795769007485372289218641313412210298650624581830921033329001676766682881957243277055555100140815900923286214719949429901532832437764053457338120246262950254529856914673039254326774158008692102223665626423092482025450544833420955646487841707210368701712784680153737335389769293136056529994183322617001608034171783656536102721821574743251571088463806994804813822219671551528027819334073121438383633540613020355109433274048014150532020632040001611532489159768224247096842636946950011816734545149871796953496954395949113804966790834759255739151213415510010690533865770794056617786490393656946452844443796067442079971047303329745266321255910961287959440762801334690952947541607953885904885827900496505855619991328176231013785052277381918636947668678518397924793486722706496269730999748059857058830366130450151828976592480791064633479871224330299594578822688771053418310623705023757361325869535602695519603657131835394559689991574313697141630272602908061484432884232733325011685683466463020236581707896756933795720019615854108413350561405475802703935905867717183500711601712249619187805440425029813331084861089435392971674472386456512681333023001758197817798669481141847849993724826692062483656967381765381123125374464839397723979261463201461537466584698654851498066220041495021064795286725217697435024444573447503087838456000206694390062613973546142444813761186232085486594692179758227235853715270492379696703934767133804232381411727974807360333025355174603816205531242180262576314405046321026779663909148559128131288172256041369730786618298655506343883788125609587303250432617278902062902433688594028030177292031503753427698436103317330301351550121733600915297827181138450424215011948859986349103309227157447979289233838282220550829670580485559945060068988773611603114533802052399413001079349577481850821766497655906972451864940689289806440892076597701984798229762797116507963359438043142405735868245857203363971347400552968288844980448239164764975740323514297341910864434220630711201977931186662294850107775169100132674317900307413694129928578112511967741147121174819636231757680164140841153150330041368050018727409482523094563759070897434424169404911566028400664133731836535767304410057468338143210772006134315779736850164889700459391054487523569564659213026521795096284415013387899667544601580751361407029759318348608973268344559887210943953562170252753501278022964527553077646583066010078283920247032492309737541656346408620143117850540409172033717556627946734784278710160594466780674204665467081395744871144068925999168577316708258294006742921163003624815496268415627 826).2.2 = 1025 :=
  ⟨rfl, rfl, rfl⟩

set_option maxRecDepth 4000000 in
set_option maxHeartbeats 16000000 in
/-- Traversal evaluation: iterations 1001 to 1200 of the refinement loop. -/
theorem natChunk6 : (natLoop 200 517114560303794853295213622582181051021649308929225937171001642987015399275082480413765011072203808860237649872526453875 76851030878846809691595159029749124934828951143653444178064822559908279483678178307158607479790546653603361094571718890640942433597537801887849912730873330054299466245588041206739648819128041268259420592046716104889843236355146174291687794936084546504061300103900169641623615031212942671197811728320626288937773693614940357313580476594025580299382088102897835821037720966085063038293276645119521413371583290861358288724755317887649776610677640725627231692907819854156003713269137845145017862827897432840553426960483832937166409010890886441851532726815068663965344282780707484491289551743066151551874449162196427226293372398613503433772285005878326780161832971384975400859706551198593196998755287057169226101935537362675313849342564842892521353746580794900346318866307237823960038970146217833392887493741564660733727728870136191774252622635828508025152422177057298692586723898019875074200331059478850856956337943473057766630774314053380247686780606675062954181846170894770349268959175990736503221605777417416776482907555088530350103510768538671298411703746614002742861170376192833990453979302699029399409899084577941107944241691583868028824102846584470032067451016068770641137982402498823309118727524962269310595737667290450892092399839925725994000240234786509075399945280233302447354598944017451331117515942777097873111510854628675248464986857246402390933954105889579757600983168005647061704872515757115569426086038700347991667513697198746326804875859932524492461880105104897961792222490241186020323109708472468086822675603093927269225059107187149818581787078925919570767694887569405398689524038714984096743645720507907323160577640477218103070145133763378722773342037040306101662367222764838820773616622393485677148437420728699425670938073624229095293930419544763614983662185318253247137054279693205679159986756760970951249933136464235774174078361370003441109929639376040428909859927327783173644096985241685810214430360709601224640956891591233421532140602134571196486699210154691926771988628824549425632569119426336630773459663710804313218192823889098457380127233382843691981909099149616822454792818335978415590276407359369459793933180792987797057649073029627604010329687949791831554619859496995531521074422223537221414348535217220967614958318899632508261986510920538957888363948212856041923433351453870850571945234375113999152200302242890379827675237262497615094349095410781468343909033043133426573510874014483570189363864070912505405050495113004726834262552833641301400086557079046640249500354388234101558910794279911392636214561243420341937142686765851340532543549924429309699080204808260167883448896506905775456743656457803247170304604873678505025685408026793567578860818358293612333490853856438908434018952938444273633199535725624164762051659692486064955901394153299318521096159255118120770900378119880851511601291213166951268630876029390829762157352609493422458378022541495394306552230323494997515755534063986341673472222043628597094866100681657976313255575738830340280244820771255072070471663453612692778647237592999380754226641797538415079551525286674235461610084895303187678536927612276576308741753262755656566494169768825714329699309460303753917125596202163840747499932719514751074502969374709635536161316223110266436085402023368598536602626279457342110083100385834744290131133211670912457083121779028110587345781304325333141323903288710713231829504402784645230812178040900265926205079518041886863804625285105086886780929989876223425731769627408441338508463161951686923277521491275690484929869606580744011216737304946219325256016436321481222060831791365583570030991847428488852293825240655625209010468382051608428783013831629500525113172537259154721736963755164710994092648268723081723912977705843083828019068934379313997609633946682787166165124855486601968891701024656292827229477293666738660677905491298480910444100250546464991148821511108608127870655165471585112969719189880068954996510415459804158859639162456789162166375119520990619702128719129451325281183246289744940258840224716958004361720132180144607544723502085709422221037231935367300148248094410141502020763705717703599464530133566702101441195059024520872300787711862622090237646268561389299921156917718557639356632426944328833399556074733857751182138489286580381480704881154254123614304917477007683748943717891077198559909750081160913636438206415651180245316334062939378753722636764612259790620963086536239649268061389974127058658879712600716523851672201344723084213997760450792128824886244334581951438952328189675438304938183636880117101309416413340901293571974810473012593725343102327244308305014903383927374757906768876338290343720193367717805265854707678346642359277465937714057565252198688625851107507106163477805805335178119100852542823680896340424583085100311808440488682947978722720592772028293459543196015705137976342728606663707699927595624816271653083452775620156941207661128456783483980447917777699957864575260603136338361555246704934092533363127313252459878469221412703990973733967108977240978907397753985709383350563030596454020616672123299680178302859136852566590217767518332804354601688132666145657842390758871987143372967533601685212384621737960394916428407051545322156443961245561314225675822814301890947369341128474482975416761998748264284053691292506697740038006114396538183752730927838798971167632890046420250892423876440031058637265841647777656668235460467804686400640816084935700484512654407079698200401866940315046210148243956775663149221316444741533919299855401432619800352549940459188633456899747248720784138748684601619172693873814429481761241842307170369485177554695500517757156645036741902073947827594024364806829622891889495840648930797218527371005777034041499739808551210946618445192726214913765380388151290376958722893433651278210582507328631853008460079591530007092407307594407168090680608218505571533451 1025).1 = 517114560303794853295213622582181051021649308929225937171001644243936405647394589914771563497897259094906264300908401662 ∧ (natLoop 200 517114560303794853295213622582181051021649308929225937171001642987015399275082480413765011072203808860237649872526453875 76851030878846809691595159029749124934828951143653444178064822559908279483678178307158607479790546653603361094571718890640942433597537801887849912730873330054299466245588041206739648819128041268259420592046716104889843236355146174291687794936084546504061300103900169641623615031212942671197811728320626288937773693614940357313580476594025580299382088102897835821037720966085063038293276645119521413371583290861358288724755317887649776610677640725627231692907819854156003713269137845145017862827897432840553426960483832937166409010890886441851532726815068663965344282780707484491289551743066151551874449162196427226293372398613503433772285005878326780161832971384975400859706551198593196998755287057169226101935537362675313849342564842892521353746580794900346318866307237823960038970146217833392887493741564660733727728870136191774252622635828508025152422177057298692586723898019875074200331059478850856956337943473057766630774314053380247686780606675062954181846170894770349268959175990736503221605777417416776482907555088530350103510768538671298411703746614002742861170376192833990453979302699029399409899084577941107944241691583868028824102846584470032067451016068770641137982402498823309118727524962269310595737667290450892092399839925725994000240234786509075399945280233302447354598944017451331117515942777097873111510854628675248464986857246402390933954105889579757600983168005647061704872515757115569426086038700347991667513697198746326804875859932524492461880105104897961792222490241186020323109708472468086822675603093927269225059107187149818581787078925919570767694887569405398689524038714984096743645720507907323160577640477218103070145133763378722773342037040306101662367222764838820773616622393485677148437420728699425670938073624229095293930419544763614983662185318253247137054279693205679159986756760970951249933136464235774174078361370003441109929639376040428909859927327783173644096985241685810214430360709601224640956891591233421532140602134571196486699210154691926771988628824549425632569119426336630773459663710804313218192823889098457380127233382843691981909099149616822454792818335978415590276407359369459793933180792987797057649073029627604010329687949791831554619859496995531521074422223537221414348535217220967614958318899632508261986510920538957888363948212856041923433351453870850571945234375113999152200302242890379827675237262497615094349095410781468343909033043133426573510874014483570189363864070912505405050495113004726834262552833641301400086557079046640249500354388234101558910794279911392636214561243420341937142686765851340532543549924429309699080204808260167883448896506905775456743656457803247170304604873678505025685408026793567578860818358293612333490853856438908434018952938444273633199535725624164762051659692486064955901394153299318521096159255118120770900378119880851511601291213166951268630876029390829762157352609493422458378022541495394306552230323494997515755534063986341673472222043628597094866100681657976313255575738830340280244820771255072070471663453612692778647237592999380754226641797538415079551525286674235461610084895303187678536927612276576308741753262755656566494169768825714329699309460303753917125596202163840747499932719514751074502969374709635536161316223110266436085402023368598536602626279457342110083100385834744290131133211670912457083121779028110587345781304325333141323903288710713231829504402784645230812178040900265926205079518041886863804625285105086886780929989876223425731769627408441338508463161951686923277521491275690484929869606580744011216737304946219325256016436321481222060831791365583570030991847428488852293825240655625209010468382051608428783013831629500525113172537259154721736963755164710994092648268723081723912977705843083828019068934379313997609633946682787166165124855486601968891701024656292827229477293666738660677905491298480910444100250546464991148821511108608127870655165471585112969719189880068954996510415459804158859639162456789162166375119520990619702128719129451325281183246289744940258840224716958004361720132180144607544723502085709422221037231935367300148248094410141502020763705717703599464530133566702101441195059024520872300787711862622090237646268561389299921156917718557639356632426944328833399556074733857751182138489286580381480704881154254123614304917477007683748943717891077198559909750081160913636438206415651180245316334062939378753722636764612259790620963086536239649268061389974127058658879712600716523851672201344723084213997760450792128824886244334581951438952328189675438304938183636880117101309416413340901293571974810473012593725343102327244308305014903383927374757906768876338290343720193367717805265854707678346642359277465937714057565252198688625851107507106163477805805335178119100852542823680896340424583085100311808440488682947978722720592772028293459543196015705137976342728606663707699927595624816271653083452775620156941207661128456783483980447917777699957864575260603136338361555246704934092533363127313252459878469221412703990973733967108977240978907397753985709383350563030596454020616672123299680178302859136852566590217767518332804354601688132666145657842390758871987143372967533601685212384621737960394916428407051545322156443961245561314225675822814301890947369341128474482975416761998748264284053691292506697740038006114396538183752730927838798971167632890046420250892423876440031058637265841647777656668235460467804686400640816084935700484512654407079698200401866940315046210148243956775663149221316444741533919299855401432619800352549940459188633456899747248720784138748684601619172693873814429481761241842307170369485177554695500517757156645036741902073947827594024364806829622891889495840648930797218527371005777034041499739808551210946618445192726214913765380388151290376958722893433651278210582507328631853008460079591530007092407307594407168090680608218505571533451 1025).2.1 = 76851030878846809691595159029749124934828951143653444178064822559908279483678178307158607479790546653603361094571718890640942433597551153559122071769154048052315964565945961971582500809363345125944954905417683938468683723039550627310119187146220199245811303336451532365262404245778433712243957492051468295322219116584283185991491024093906943411966823409800789814123202882276855502959853080766813769776449734231422997246114571515169586475476179226517843276230718011847675879613139004106981098498440104750968665809670036264569032570301167506352050609705721371397748913169664918868821225179178118838895850652268612046496723511536172240695242810615937650857475087407929818630504117765053176325950314987116869399908962292733881453228308426553556140016862026551323507704510612524922065515282903192653093892328567851342242441996576583997187886955213265509878138339045307815471974583260808564869361164637077334626313754858038460717357211460770260814280874199344777786103657600978665617420346670818732662164082475667389763232593945820724745040313436354470834701571607076533590123879061002886942545747614440560292181722389529012296922661887910791729705504785654880766030317010561787292880807966895226324008771528262565919019894757874156564423098979593712312220415226590299219905334499217600993882949090135604258598087641948498939747190697516364293435034530591675261671315922444786440675306627002121839948186786576750289071314297020708593635271927819597711987272624243866872959172462692329305476086422500615373975164747091191913520171166293081732662249629886018821421885078886503963678812747982044054213311171956122357574104056948765663451897811554429621782763994673537887915592767933450115270815097958796520116101488402455091742949859195941821714140777530367957841851516308007747251083464829166299135620069113580496074685652887663172958151867143924806149103401378589679655467819811571265077751240133808923899457900213816471754462577010943316848702585917835329706648092775767085778479977715179606140135099413329383323393924358256035756773397517279216938732734160161564048804450183948788532435311912706762684339287300151470910888039889912887770097775520304920908690608217883492892202136242587389457551392013481849197799900282749792521289751437460462305811958153932314150400301080958285489777154667683191939656332956730642267482337439458767689172959943130650913987932066779649276397983668155023769020761087198102362024088337345399528673756895890764578858283667132535025421135159909111601450546697218774487099240162898955899718319044714902688733880816049961588014444393280924630321608424457802639640340286587490571816289962517656570004365747154051729985570935177176156568679311749581530205823009659676504889989992264682126449019098578164474634128564389620583754407986278303363420850480229081812476933420677459273510771549222461516317555914588792274000393521664836566192891588774774038525969906784134589896570563127724955437164330942731391355152752704860042871305144874263006372573908655519113098270707082691986770334705156179795010191865780300704880805518265952152764730466955694841442863615840596304207555743642345959600956640602267668749675921835974124768033383898200664262647635669928470054372947027224742999843779401397433286754032692466750692171571097256400253807758354275806472438995331822500532802924999869496909189798029752699604169968139129266847682453178790885724744617407722240490294776022401729665375602175036735714072953288261886335128590882770882921499610167415541814219744359837586448284236785870864242960644094024819317313199851611301567366951057509639828282249497300061097299165928458563894862787082692247843825812707801819703894111779052526824384491859427759638748013055910988728396709190688125251120592259607610576838823574456803008984984688322792741868513996840246792159021792496900714936665813185742683004893577697129599567133561289708869394966916329424193541190298500693324472695939760882663668468870946842952341297897778970113555749944837313582938768147520039112679645027168751235519261450042888275542446999537120005857515128401691624108753973977182776327278163124290350665367674866017053925386735132477785768568009376212615100948961364967529935272656815921942484681899291521338180356419888881004732133721991727781429303679131092679212922973362868466484402190270688027680823391466312171173388650308124818018371240963597096380090176612892146647211123388128653289367177748774906827092551776537099621787438780413254291574800298521920488295934652252584938735773074857008270918755485112546924243050761094119737449129404319850648342271659481561931433033811721760721596320407829318401066715952483122875022715354344016986522696532521311909733707196379073936334000056402512316028297751587458755981364069321434833087621223625136324093397241473486870527543949820044642276901973505368349863770583444089105317621420254201900241461395465825712645604244919843153303323156663234558191608755774079468237946057679617507647478964371497181192036099645851365757875558736654571980789503943844067361840789011584842818823843238712934567956629982185720774753297691976759338233168429029750115522169637537053446317423622331522452640761442364198167222156706533446440137519399562576395331642526582211731662776354470032809875420118125009442151622776697971839929999020719851285578591355749489504369981356284552210236811562069605193621465230248584488236984245318653646397653874475408219686914868542694879052153864450838994964644116734206132548923479273347708875779512538144105902990439390584378694786495941759997164762094208094375195760325855566707317124777833355760604505060007979599699043844375683483616598919574529042733591999467973055899095377977719560644744445809829844150167287292117193848071605230554315594094964215620975461896138337128017609322084835684382749934837039730974593561228496942289775411029756302948244913996235403 ∧ (natLoop 200 517114560303794853295213622582181051021649308929225937171001642987015399275082480413765011072203808860237649872526453875 76851030878846809691595159029749124934828951143653444178064822559908279483678178307158607479790546653603361094571718890640942433597537801887849912730873330054299466245588041206739648819128041268259420592046716104889843236355146174291687794936084546504061300103900169641623615031212942671197811728320626288937773693614940357313580476594025580299382088102897835821037720966085063038293276645119521413371583290861358288724755317887649776610677640725627231692907819854156003713269137845145017862827897432840553426960483832937166409010890886441851532726815068663965344282780707484491289551743066151551874449162196427226293372398613503433772285005878326780161832971384975400859706551198593196998755287057169226101935537362675313849342564842892521353746580794900346318866307237823960038970146217833392887493741564660733727728870136191774252622635828508025152422177057298692586723898019875074200331059478850856956337943473057766630774314053380247686780606675062954181846170894770349268959175990736503221605777417416776482907555088530350103510768538671298411703746614002742861170376192833990453979302699029399409899084577941107944241691583868028824102846584470032067451016068770641137982402498823309118727524962269310595737667290450892092399839925725994000240234786509075399945280233302447354598944017451331117515942777097873111510854628675248464986857246402390933954105889579757600983168005647061704872515757115569426086038700347991667513697198746326804875859932524492461880105104897961792222490241186020323109708472468086822675603093927269225059107187149818581787078925919570767694887569405398689524038714984096743645720507907323160577640477218103070145133763378722773342037040306101662367222764838820773616622393485677148437420728699425670938073624229095293930419544763614983662185318253247137054279693205679159986756760970951249933136464235774174078361370003441109929639376040428909859927327783173644096985241685810214430360709601224640956891591233421532140602134571196486699210154691926771988628824549425632569119426336630773459663710804313218192823889098457380127233382843691981909099149616822454792818335978415590276407359369459793933180792987797057649073029627604010329687949791831554619859496995531521074422223537221414348535217220967614958318899632508261986510920538957888363948212856041923433351453870850571945234375113999152200302242890379827675237262497615094349095410781468343909033043133426573510874014483570189363864070912505405050495113004726834262552833641301400086557079046640249500354388234101558910794279911392636214561243420341937142686765851340532543549924429309699080204808260167883448896506905775456743656457803247170304604873678505025685408026793567578860818358293612333490853856438908434018952938444273633199535725624164762051659692486064955901394153299318521096159255118120770900378119880851511601291213166951268630876029390829762157352609493422458378022541495394306552230323494997515755534063986341673472222043628597094866100681657976313255575738830340280244820771255072070471663453612692778647237592999380754226641797538415079551525286674235461610084895303187678536927612276576308741753262755656566494169768825714329699309460303753917125596202163840747499932719514751074502969374709635536161316223110266436085402023368598536602626279457342110083100385834744290131133211670912457083121779028110587345781304325333141323903288710713231829504402784645230812178040900265926205079518041886863804625285105086886780929989876223425731769627408441338508463161951686923277521491275690484929869606580744011216737304946219325256016436321481222060831791365583570030991847428488852293825240655625209010468382051608428783013831629500525113172537259154721736963755164710994092648268723081723912977705843083828019068934379313997609633946682787166165124855486601968891701024656292827229477293666738660677905491298480910444100250546464991148821511108608127870655165471585112969719189880068954996510415459804158859639162456789162166375119520990619702128719129451325281183246289744940258840224716958004361720132180144607544723502085709422221037231935367300148248094410141502020763705717703599464530133566702101441195059024520872300787711862622090237646268561389299921156917718557639356632426944328833399556074733857751182138489286580381480704881154254123614304917477007683748943717891077198559909750081160913636438206415651180245316334062939378753722636764612259790620963086536239649268061389974127058658879712600716523851672201344723084213997760450792128824886244334581951438952328189675438304938183636880117101309416413340901293571974810473012593725343102327244308305014903383927374757906768876338290343720193367717805265854707678346642359277465937714057565252198688625851107507106163477805805335178119100852542823680896340424583085100311808440488682947978722720592772028293459543196015705137976342728606663707699927595624816271653083452775620156941207661128456783483980447917777699957864575260603136338361555246704934092533363127313252459878469221412703990973733967108977240978907397753985709383350563030596454020616672123299680178302859136852566590217767518332804354601688132666145657842390758871987143372967533601685212384621737960394916428407051545322156443961245561314225675822814301890947369341128474482975416761998748264284053691292506697740038006114396538183752730927838798971167632890046420250892423876440031058637265841647777656668235460467804686400640816084935700484512654407079698200401866940315046210148243956775663149221316444741533919299855401432619800352549940459188633456899747248720784138748684601619172693873814429481761241842307170369485177554695500517757156645036741902073947827594024364806829622891889495840648930797218527371005777034041499739808551210946618445192726214913765380388151290376958722893433651278210582507328631853008460079591530007092407307594407168090680608218505571533451 1025).2.2 = 1225 :=
  ⟨rfl, rfl, rfl⟩

set_option maxRecDepth 4000000 in
set_option maxHeartbeats 16000000 in
/-- Traversal evaluation: iterations 1201 to 1400 of the refinement loop. -/
theorem natChunk7 : (natLoop 200 517114560303794853295213622582181051021649308929225937171001644243936405647394589914771563497897259094906264300908401662 76851030878846809691595159029749124934828951143653444178064822559908279483678178307158607479790546653603361094571718890640942433597551153559122071769154048052315964565945961971582500809363345125944954905417683938468683723039550627310119187146220199245811303336451532365262404245778433712243957492051468295322219116584283185991491024093906943411966823409800789814123202882276855502959853080766813769776449734231422997246114571515169586475476179226517843276230718011847675879613139004106981098498440104750968665809670036264569032570301167506352050609705721371397748913169664918868821225179178118838895850652268612046496723511536172240695242810615937650857475087407929818630504117765053176325950314987116869399908962292733881453228308426553556140016862026551323507704510612524922065515282903192653093892328567851342242441996576583997187886955213265509878138339045307815471974583260808564869361164637077334626313754858038460717357211460770260814280874199344777786103657600978665617420346670818732662164082475667389763232593945820724745040313436354470834701571607076533590123879061002886942545747614440560292181722389529012296922661887910791729705504785654880766030317010561787292880807966895226324008771528262565919019894757874156564423098979593712312220415226590299219905334499217600993882949090135604258598087641948498939747190697516364293435034530591675261671315922444786440675306627002121839948186786576750289071314297020708593635271927819597711987272624243866872959172462692329305476086422500615373975164747091191913520171166293081732662249629886018821421885078886503963678812747982044054213311171956122357574104056948765663451897811554429621782763994673537887915592767933450115270815097958796520116101488402455091742949859195941821714140777530367957841851516308007747251083464829166299135620069113580496074685652887663172958151867143924806149103401378589679655467819811571265077751240133808923899457900213816471754462577010943316848702585917835329706648092775767085778479977715179606140135099413329383323393924358256035756773397517279216938732734160161564048804450183948788532435311912706762684339287300151470910888039889912887770097775520304920908690608217883492892202136242587389457551392013481849197799900282749792521289751437460462305811958153932314150400301080958285489777154667683191939656332956730642267482337439458767689172959943130650913987932066779649276397983668155023769020761087198102362024088337345399528673756895890764578858283667132535025421135159909111601450546697218774487099240162898955899718319044714902688733880816049961588014444393280924630321608424457802639640340286587490571816289962517656570004365747154051729985570935177176156568679311749581530205823009659676504889989992264682126449019098578164474634128564389620583754407986278303363420850480229081812476933420677459273510771549222461516317555914588792274000393521664836566192891588774774038525969906784134589896570563127724955437164330942731391355152752704860042871305144874263006372573908655519113098270707082691986770334705156179795010191865780300704880805518265952152764730466955694841442863615840596304207555743642345959600956640602267668749675921835974124768033383898200664262647635669928470054372947027224742999843779401397433286754032692466750692171571097256400253807758354275806472438995331822500532802924999869496909189798029752699604169968139129266847682453178790885724744617407722240490294776022401729665375602175036735714072953288261886335128590882770882921499610167415541814219744359837586448284236785870864242960644094024819317313199851611301567366951057509639828282249497300061097299165928458563894862787082692247843825812707801819703894111779052526824384491859427759638748013055910988728396709190688125251120592259607610576838823574456803008984984688322792741868513996840246792159021792496900714936665813185742683004893577697129599567133561289708869394966916329424193541190298500693324472695939760882663668468870946842952341297897778970113555749944837313582938768147520039112679645027168751235519261450042888275542446999537120005857515128401691624108753973977182776327278163124290350665367674866017053925386735132477785768568009376212615100948961364967529935272656815921942484681899291521338180356419888881004732133721991727781429303679131092679212922973362868466484402190270688027680823391466312171173388650308124818018371240963597096380090176612892146647211123388128653289367177748774906827092551776537099621787438780413254291574800298521920488295934652252584938735773074857008270918755485112546924243050761094119737449129404319850648342271659481561931433033811721760721596320407829318401066715952483122875022715354344016986522696532521311909733707196379073936334000056402512316028297751587458755981364069321434833087621223625136324093397241473486870527543949820044642276901973505368349863770583444089105317621420254201900241461395465825712645604244919843153303323156663234558191608755774079468237946057679617507647478964371497181192036099645851365757875558736654571980789503943844067361840789011584842818823843238712934567956629982185720774753297691976759338233168429029750115522169637537053446317423622331522452640761442364198167222156706533446440137519399562576395331642526582211731662776354470032809875420118125009442151622776697971839929999020719851285578591355749489504369981356284552210236811562069605193621465230248584488236984245318653646397653874475408219686914868542694879052153864450838994964644116734206132548923479273347708875779512538144105902990439390584378694786495941759997164762094208094375195760325855566707317124777833355760604505060007979599699043844375683483616598919574529042733591999467973055899095377977719560644744445809829844150167287292117193848071605230554315594094964215620975461896138337128017609322084835684382749934837039730974593561228496942289775411029756302948244913996235403 1225).1 = 1519663110912654941835397241099601377506993562690495989134237534715507618913347801 ∧ (natLoop 200 517114560303794853295213622582181051021649308929225937171001644243936405647394589914771563497897259094906264300908401662 76851030878846809691595159029749124934828951143653444178064822559908279483678178307158607479790546653603361094571718890640942433597551153559122071769154048052315964565945961971582500809363345125944954905417683938468683723039550627310119187146220199245811303336451532365262404245778433712243957492051468295322219116584283185991491024093906943411966823409800789814123202882276855502959853080766813769776449734231422997246114571515169586475476179226517843276230718011847675879613139004106981098498440104750968665809670036264569032570301167506352050609705721371397748913169664918868821225179178118838895850652268612046496723511536172240695242810615937650857475087407929818630504117765053176325950314987116869399908962292733881453228308426553556140016862026551323507704510612524922065515282903192653093892328567851342242441996576583997187886955213265509878138339045307815471974583260808564869361164637077334626313754858038460717357211460770260814280874199344777786103657600978665617420346670818732662164082475667389763232593945820724745040313436354470834701571607076533590123879061002886942545747614440560292181722389529012296922661887910791729705504785654880766030317010561787292880807966895226324008771528262565919019894757874156564423098979593712312220415226590299219905334499217600993882949090135604258598087641948498939747190697516364293435034530591675261671315922444786440675306627002121839948186786576750289071314297020708593635271927819597711987272624243866872959172462692329305476086422500615373975164747091191913520171166293081732662249629886018821421885078886503963678812747982044054213311171956122357574104056948765663451897811554429621782763994673537887915592767933450115270815097958796520116101488402455091742949859195941821714140777530367957841851516308007747251083464829166299135620069113580496074685652887663172958151867143924806149103401378589679655467819811571265077751240133808923899457900213816471754462577010943316848702585917835329706648092775767085778479977715179606140135099413329383323393924358256035756773397517279216938732734160161564048804450183948788532435311912706762684339287300151470910888039889912887770097775520304920908690608217883492892202136242587389457551392013481849197799900282749792521289751437460462305811958153932314150400301080958285489777154667683191939656332956730642267482337439458767689172959943130650913987932066779649276397983668155023769020761087198102362024088337345399528673756895890764578858283667132535025421135159909111601450546697218774487099240162898955899718319044714902688733880816049961588014444393280924630321608424457802639640340286587490571816289962517656570004365747154051729985570935177176156568679311749581530205823009659676504889989992264682126449019098578164474634128564389620583754407986278303363420850480229081812476933420677459273510771549222461516317555914588792274000393521664836566192891588774774038525969906784134589896570563127724955437164330942731391355152752704860042871305144874263006372573908655519113098270707082691986770334705156179795010191865780300704880805518265952152764730466955694841442863615840596304207555743642345959600956640602267668749675921835974124768033383898200664262647635669928470054372947027224742999843779401397433286754032692466750692171571097256400253807758354275806472438995331822500532802924999869496909189798029752699604169968139129266847682453178790885724744617407722240490294776022401729665375602175036735714072953288261886335128590882770882921499610167415541814219744359837586448284236785870864242960644094024819317313199851611301567366951057509639828282249497300061097299165928458563894862787082692247843825812707801819703894111779052526824384491859427759638748013055910988728396709190688125251120592259607610576838823574456803008984984688322792741868513996840246792159021792496900714936665813185742683004893577697129599567133561289708869394966916329424193541190298500693324472695939760882663668468870946842952341297897778970113555749944837313582938768147520039112679645027168751235519261450042888275542446999537120005857515128401691624108753973977182776327278163124290350665367674866017053925386735132477785768568009376212615100948961364967529935272656815921942484681899291521338180356419888881004732133721991727781429303679131092679212922973362868466484402190270688027680823391466312171173388650308124818018371240963597096380090176612892146647211123388128653289367177748774906827092551776537099621787438780413254291574800298521920488295934652252584938735773074857008270918755485112546924243050761094119737449129404319850648342271659481561931433033811721760721596320407829318401066715952483122875022715354344016986522696532521311909733707196379073936334000056402512316028297751587458755981364069321434833087621223625136324093397241473486870527543949820044642276901973505368349863770583444089105317621420254201900241461395465825712645604244919843153303323156663234558191608755774079468237946057679617507647478964371497181192036099645851365757875558736654571980789503943844067361840789011584842818823843238712934567956629982185720774753297691976759338233168429029750115522169637537053446317423622331522452640761442364198167222156706533446440137519399562576395331642526582211731662776354470032809875420118125009442151622776697971839929999020719851285578591355749489504369981356284552210236811562069605193621465230248584488236984245318653646397653874475408219686914868542694879052153864450838994964644116734206132548923479273347708875779512538144105902990439390584378694786495941759997164762094208094375195760325855566707317124777833355760604505060007979599699043844375683483616598919574529042733591999467973055899095377977719560644744445809829844150167287292117193848071605230554315594094964215620975461896138337128017609322084835684382749934837039730974593561228496942289775411029756302948244913996235403 1225).2.1 = 337994408231534814547421279556937419986634814033590916522631408529142153442641620275998137170279752723437326997891510799170120266946203219971380826763607246712461810539133034849909354042589383015215762897109385103408745914281364105367170358600167968858383847869086465722955069330351737731047235593573682480888407037163352601168703145500967857864685890347019156395379494613776746479276726541372499207263530474305646326012810775522136566162977423217072897463595444727746153074988133483397460081948868016771926711462758500152999868792822912189604826536382598422725337584099886133942525224253416962145157956665178835272392638045091332461455441438083713664937189743375889516597884720014977482752060580966392594294295205179673104430733518641052557098203160704315810662537000529637514429820078721042905806981209578367511743228982538402632546168112104249629402537875245863360609937093059839127606806161256028234418588495946206709028028439016720901712455859891844847057602705243032558715982949515265918520290515803749953835438714687985150344845922976721163948819249752784948999107483836041718223351685541303775090534347353867328255388923638025457266417680829208829846715551700221079991076410646667332498124919941808522195026954459453457735940793144187031635015498725029761684574118232577543023040395680427529477618626647184395805992235102716512814671464483847596492546755294574205323383228439374413346745335896962717044610850432856686214589887741800115225227346267777125330379664069767900169227373417218104971989097993406415330106632633534926793700426016745470622277850318353595418938603853719270390409794309901940128020615577871949088240185179319330603148234559558831793456255035602416494285637672945586230191304543229599249732419610285384200269351145796002810054937070585589532017675999526991074933235338451236114153127419049917362746383115323917788087559796684120011767590762644131846703788244033424874305466717999569131734707167746788905049470507715144862600787950979721562981319163410404438259168615946337321784357596045836972572158635870081548198471127204473633969574730751604024095840181949179063229246809763777763225142359343963516782876979155231482813290041207552200683996147893980539396835025208715589754941518906518118194228849121582690611783396849782964219586905669617914494643536965734140317309184274288834075771925982530799710871778614165164377820861667623994260782259579499270133084756331967306423644196983442937376186638877230327913016258484829905291618960244208464735198212180066461670261038547131613729960585095398646001708751819578781260148610411250048666150653106671569804027982500048766987888660494337633295249867575282294895133605797658499090276383789239187875920145179357556239975972800259900544043675456544917919032806058961951521966476384919889371246468681124734883738520167932560298917569988202555941228643178321730828928267656414142698815659953394886173109223209604851098759741874619453749179470463568537380573815092078926581420184266604966852928691051195352160472617474003837267751745665535386748637514365722024690944339016336963976990406206323172774331957320434134087447342849030903681191502750066661218607565932875083663070504972116435506383775047967335826889322205524540952824102705167198135163078666422668924573464403161131307644604419559593059660872743119622767692935896921367918608011968006905536390325573781196087420484465967722111930831936973478647550652258443276723828667020294729191694563205604389626631535871515349933359398537682126647874782847561881962201014131392371223084598048930560428584457449155122852790231237383069854200244420218605652295950989459179394435166592265049876453089724377027019208673272876649458137318036069405559736983320495220084186218774832970383764875825074219951486004767984435814255621827155604535427505260491230464711470821393278936661218968692943179615702561082304179329553135285436538739537192075317859798860460300549083902144909527115787354447626879658708139381581927298929848095930950918650784606187878687226788312721477735837453755667619673068714455373454201218446020146495026796184836628153683644893143633949356924024917125938610334513861223587631543401221753993889779260235617850093614162608620923011795754687719800477709500016414529510186345699912743907338174229754558981604894428517572165056153281181299121322487399224920141724473428620844695532738569496109980010452345654481534634635848718775402621755652117148955647955586191304205899034174980827907198577873025135525484633704802272599087895479975820241447388642570491378335357859281426143748475904239564285209975302704848061881928582071882889125516866051858312208391909181587580186416984430482857048800537134788345436301465390372283032095524913671430441687196563104061526366307583674893813267666026905276245098907090732473264476943312637016153163363306847424015320176793509248126117177568401881995733729327158066062527268697039962658003064859298313524128232383435074385781312412826105759172568687565270666765937868484677226815864674014001659362697306086598556532183855117950714793910197856714595146693144956478194019867802249215104702056802491237912725518035001651114220387125724015062749065539444546101226471646441628208800689303868659190880286646601255618712438279644691381869224914829220278277240660341432501227241595956102168329190188089416400530661095697595876072313366003285723257118919981184610706209276281204245940933363366365315993747481965542947366537006311638642952908541487571529590940657310677191571825754503794600032883595790652425662863931808758888258331287032972876114874324615385814146640993803201941673793990595526965739983913493894255141009942270128120088664068089989614483107282434331964043092780856171193770441622777122405258383634324140199751034582334686099933378280046880190749606774599207504620534113536963145182395333086887237079232528593560807867114624836387638521679868445917835 ∧ (natLoop 200 517114560303794853295213622582181051021649308929225937171001644243936405647394589914771563497897259094906264300908401662 76851030878846809691595159029749124934828951143653444178064822559908279483678178307158607479790546653603361094571718890640942433597551153559122071769154048052315964565945961971582500809363345125944954905417683938468683723039550627310119187146220199245811303336451532365262404245778433712243957492051468295322219116584283185991491024093906943411966823409800789814123202882276855502959853080766813769776449734231422997246114571515169586475476179226517843276230718011847675879613139004106981098498440104750968665809670036264569032570301167506352050609705721371397748913169664918868821225179178118838895850652268612046496723511536172240695242810615937650857475087407929818630504117765053176325950314987116869399908962292733881453228308426553556140016862026551323507704510612524922065515282903192653093892328567851342242441996576583997187886955213265509878138339045307815471974583260808564869361164637077334626313754858038460717357211460770260814280874199344777786103657600978665617420346670818732662164082475667389763232593945820724745040313436354470834701571607076533590123879061002886942545747614440560292181722389529012296922661887910791729705504785654880766030317010561787292880807966895226324008771528262565919019894757874156564423098979593712312220415226590299219905334499217600993882949090135604258598087641948498939747190697516364293435034530591675261671315922444786440675306627002121839948186786576750289071314297020708593635271927819597711987272624243866872959172462692329305476086422500615373975164747091191913520171166293081732662249629886018821421885078886503963678812747982044054213311171956122357574104056948765663451897811554429621782763994673537887915592767933450115270815097958796520116101488402455091742949859195941821714140777530367957841851516308007747251083464829166299135620069113580496074685652887663172958151867143924806149103401378589679655467819811571265077751240133808923899457900213816471754462577010943316848702585917835329706648092775767085778479977715179606140135099413329383323393924358256035756773397517279216938732734160161564048804450183948788532435311912706762684339287300151470910888039889912887770097775520304920908690608217883492892202136242587389457551392013481849197799900282749792521289751437460462305811958153932314150400301080958285489777154667683191939656332956730642267482337439458767689172959943130650913987932066779649276397983668155023769020761087198102362024088337345399528673756895890764578858283667132535025421135159909111601450546697218774487099240162898955899718319044714902688733880816049961588014444393280924630321608424457802639640340286587490571816289962517656570004365747154051729985570935177176156568679311749581530205823009659676504889989992264682126449019098578164474634128564389620583754407986278303363420850480229081812476933420677459273510771549222461516317555914588792274000393521664836566192891588774774038525969906784134589896570563127724955437164330942731391355152752704860042871305144874263006372573908655519113098270707082691986770334705156179795010191865780300704880805518265952152764730466955694841442863615840596304207555743642345959600956640602267668749675921835974124768033383898200664262647635669928470054372947027224742999843779401397433286754032692466750692171571097256400253807758354275806472438995331822500532802924999869496909189798029752699604169968139129266847682453178790885724744617407722240490294776022401729665375602175036735714072953288261886335128590882770882921499610167415541814219744359837586448284236785870864242960644094024819317313199851611301567366951057509639828282249497300061097299165928458563894862787082692247843825812707801819703894111779052526824384491859427759638748013055910988728396709190688125251120592259607610576838823574456803008984984688322792741868513996840246792159021792496900714936665813185742683004893577697129599567133561289708869394966916329424193541190298500693324472695939760882663668468870946842952341297897778970113555749944837313582938768147520039112679645027168751235519261450042888275542446999537120005857515128401691624108753973977182776327278163124290350665367674866017053925386735132477785768568009376212615100948961364967529935272656815921942484681899291521338180356419888881004732133721991727781429303679131092679212922973362868466484402190270688027680823391466312171173388650308124818018371240963597096380090176612892146647211123388128653289367177748774906827092551776537099621787438780413254291574800298521920488295934652252584938735773074857008270918755485112546924243050761094119737449129404319850648342271659481561931433033811721760721596320407829318401066715952483122875022715354344016986522696532521311909733707196379073936334000056402512316028297751587458755981364069321434833087621223625136324093397241473486870527543949820044642276901973505368349863770583444089105317621420254201900241461395465825712645604244919843153303323156663234558191608755774079468237946057679617507647478964371497181192036099645851365757875558736654571980789503943844067361840789011584842818823843238712934567956629982185720774753297691976759338233168429029750115522169637537053446317423622331522452640761442364198167222156706533446440137519399562576395331642526582211731662776354470032809875420118125009442151622776697971839929999020719851285578591355749489504369981356284552210236811562069605193621465230248584488236984245318653646397653874475408219686914868542694879052153864450838994964644116734206132548923479273347708875779512538144105902990439390584378694786495941759997164762094208094375195760325855566707317124777833355760604505060007979599699043844375683483616598919574529042733591999467973055899095377977719560644744445809829844150167287292117193848071605230554315594094964215620975461896138337128017609322084835684382749934837039730974593561228496942289775411029756302948244913996235403 1225).2.2 = 1417 :=
  ⟨rfl, rfl, rfl⟩

set_option maxRecDepth 4000000 in
set_option maxHeartbeats 16000000 in
/-- Traversal evaluation: iterations 1401 to 1600 of the refinement loop. -/
theorem natChunk8 : (natLoop 200 1519663110912654941835397241099601377506993562690495989134237534715507618913347801 337994408231534814547421279556937419986634814033590916522631408529142153442641620275998137170279752723437326997891510799170120266946203219971380826763607246712461810539133034849909354042589383015215762897109385103408745914281364105367170358600167968858383847869086465722955069330351737731047235593573682480888407037163352601168703145500967857864685890347019156395379494613776746479276726541372499207263530474305646326012810775522136566162977423217072897463595444727746153074988133483397460081948868016771926711462758500152999868792822912189604826536382598422725337584099886133942525224253416962145157956665178835272392638045091332461455441438083713664937189743375889516597884720014977482752060580966392594294295205179673104430733518641052557098203160704315810662537000529637514429820078721042905806981209578367511743228982538402632546168112104249629402537875245863360609937093059839127606806161256028234418588495946206709028028439016720901712455859891844847057602705243032558715982949515265918520290515803749953835438714687985150344845922976721163948819249752784948999107483836041718223351685541303775090534347353867328255388923638025457266417680829208829846715551700221079991076410646667332498124919941808522195026954459453457735940793144187031635015498725029761684574118232577543023040395680427529477618626647184395805992235102716512814671464483847596492546755294574205323383228439374413346745335896962717044610850432856686214589887741800115225227346267777125330379664069767900169227373417218104971989097993406415330106632633534926793700426016745470622277850318353595418938603853719270390409794309901940128020615577871949088240185179319330603148234559558831793456255035602416494285637672945586230191304543229599249732419610285384200269351145796002810054937070585589532017675999526991074933235338451236114153127419049917362746383115323917788087559796684120011767590762644131846703788244033424874305466717999569131734707167746788905049470507715144862600787950979721562981319163410404438259168615946337321784357596045836972572158635870081548198471127204473633969574730751604024095840181949179063229246809763777763225142359343963516782876979155231482813290041207552200683996147893980539396835025208715589754941518906518118194228849121582690611783396849782964219586905669617914494643536965734140317309184274288834075771925982530799710871778614165164377820861667623994260782259579499270133084756331967306423644196983442937376186638877230327913016258484829905291618960244208464735198212180066461670261038547131613729960585095398646001708751819578781260148610411250048666150653106671569804027982500048766987888660494337633295249867575282294895133605797658499090276383789239187875920145179357556239975972800259900544043675456544917919032806058961951521966476384919889371246468681124734883738520167932560298917569988202555941228643178321730828928267656414142698815659953394886173109223209604851098759741874619453749179470463568537380573815092078926581420184266604966852928691051195352160472617474003837267751745665535386748637514365722024690944339016336963976990406206323172774331957320434134087447342849030903681191502750066661218607565932875083663070504972116435506383775047967335826889322205524540952824102705167198135163078666422668924573464403161131307644604419559593059660872743119622767692935896921367918608011968006905536390325573781196087420484465967722111930831936973478647550652258443276723828667020294729191694563205604389626631535871515349933359398537682126647874782847561881962201014131392371223084598048930560428584457449155122852790231237383069854200244420218605652295950989459179394435166592265049876453089724377027019208673272876649458137318036069405559736983320495220084186218774832970383764875825074219951486004767984435814255621827155604535427505260491230464711470821393278936661218968692943179615702561082304179329553135285436538739537192075317859798860460300549083902144909527115787354447626879658708139381581927298929848095930950918650784606187878687226788312721477735837453755667619673068714455373454201218446020146495026796184836628153683644893143633949356924024917125938610334513861223587631543401221753993889779260235617850093614162608620923011795754687719800477709500016414529510186345699912743907338174229754558981604894428517572165056153281181299121322487399224920141724473428620844695532738569496109980010452345654481534634635848718775402621755652117148955647955586191304205899034174980827907198577873025135525484633704802272599087895479975820241447388642570491378335357859281426143748475904239564285209975302704848061881928582071882889125516866051858312208391909181587580186416984430482857048800537134788345436301465390372283032095524913671430441687196563104061526366307583674893813267666026905276245098907090732473264476943312637016153163363306847424015320176793509248126117177568401881995733729327158066062527268697039962658003064859298313524128232383435074385781312412826105759172568687565270666765937868484677226815864674014001659362697306086598556532183855117950714793910197856714595146693144956478194019867802249215104702056802491237912725518035001651114220387125724015062749065539444546101226471646441628208800689303868659190880286646601255618712438279644691381869224914829220278277240660341432501227241595956102168329190188089416400530661095697595876072313366003285723257118919981184610706209276281204245940933363366365315993747481965542947366537006311638642952908541487571529590940657310677191571825754503794600032883595790652425662863931808758888258331287032972876114874324615385814146640993803201941673793990595526965739983913493894255141009942270128120088664068089989614483107282434331964043092780856171193770441622777122405258383634324140199751034582334686099933378280046880190749606774599207504620534113536963145182395333086887237079232528593560807867114624836387638521679868445917835 1417).1 = 427747138752182595598143544733952573114226269424071871257101026352223989189842619369941977302139 ∧ (natLoop 200 1519663110912654941835397241099601377506993562690495989134237534715507618913347801 337994408231534814547421279556937419986634814033590916522631408529142153442641620275998137170279752723437326997891510799170120266946203219971380826763607246712461810539133034849909354042589383015215762897109385103408745914281364105367170358600167968858383847869086465722955069330351737731047235593573682480888407037163352601168703145500967857864685890347019156395379494613776746479276726541372499207263530474305646326012810775522136566162977423217072897463595444727746153074988133483397460081948868016771926711462758500152999868792822912189604826536382598422725337584099886133942525224253416962145157956665178835272392638045091332461455441438083713664937189743375889516597884720014977482752060580966392594294295205179673104430733518641052557098203160704315810662537000529637514429820078721042905806981209578367511743228982538402632546168112104249629402537875245863360609937093059839127606806161256028234418588495946206709028028439016720901712455859891844847057602705243032558715982949515265918520290515803749953835438714687985150344845922976721163948819249752784948999107483836041718223351685541303775090534347353867328255388923638025457266417680829208829846715551700221079991076410646667332498124919941808522195026954459453457735940793144187031635015498725029761684574118232577543023040395680427529477618626647184395805992235102716512814671464483847596492546755294574205323383228439374413346745335896962717044610850432856686214589887741800115225227346267777125330379664069767900169227373417218104971989097993406415330106632633534926793700426016745470622277850318353595418938603853719270390409794309901940128020615577871949088240185179319330603148234559558831793456255035602416494285637672945586230191304543229599249732419610285384200269351145796002810054937070585589532017675999526991074933235338451236114153127419049917362746383115323917788087559796684120011767590762644131846703788244033424874305466717999569131734707167746788905049470507715144862600787950979721562981319163410404438259168615946337321784357596045836972572158635870081548198471127204473633969574730751604024095840181949179063229246809763777763225142359343963516782876979155231482813290041207552200683996147893980539396835025208715589754941518906518118194228849121582690611783396849782964219586905669617914494643536965734140317309184274288834075771925982530799710871778614165164377820861667623994260782259579499270133084756331967306423644196983442937376186638877230327913016258484829905291618960244208464735198212180066461670261038547131613729960585095398646001708751819578781260148610411250048666150653106671569804027982500048766987888660494337633295249867575282294895133605797658499090276383789239187875920145179357556239975972800259900544043675456544917919032806058961951521966476384919889371246468681124734883738520167932560298917569988202555941228643178321730828928267656414142698815659953394886173109223209604851098759741874619453749179470463568537380573815092078926581420184266604966852928691051195352160472617474003837267751745665535386748637514365722024690944339016336963976990406206323172774331957320434134087447342849030903681191502750066661218607565932875083663070504972116435506383775047967335826889322205524540952824102705167198135163078666422668924573464403161131307644604419559593059660872743119622767692935896921367918608011968006905536390325573781196087420484465967722111930831936973478647550652258443276723828667020294729191694563205604389626631535871515349933359398537682126647874782847561881962201014131392371223084598048930560428584457449155122852790231237383069854200244420218605652295950989459179394435166592265049876453089724377027019208673272876649458137318036069405559736983320495220084186218774832970383764875825074219951486004767984435814255621827155604535427505260491230464711470821393278936661218968692943179615702561082304179329553135285436538739537192075317859798860460300549083902144909527115787354447626879658708139381581927298929848095930950918650784606187878687226788312721477735837453755667619673068714455373454201218446020146495026796184836628153683644893143633949356924024917125938610334513861223587631543401221753993889779260235617850093614162608620923011795754687719800477709500016414529510186345699912743907338174229754558981604894428517572165056153281181299121322487399224920141724473428620844695532738569496109980010452345654481534634635848718775402621755652117148955647955586191304205899034174980827907198577873025135525484633704802272599087895479975820241447388642570491378335357859281426143748475904239564285209975302704848061881928582071882889125516866051858312208391909181587580186416984430482857048800537134788345436301465390372283032095524913671430441687196563104061526366307583674893813267666026905276245098907090732473264476943312637016153163363306847424015320176793509248126117177568401881995733729327158066062527268697039962658003064859298313524128232383435074385781312412826105759172568687565270666765937868484677226815864674014001659362697306086598556532183855117950714793910197856714595146693144956478194019867802249215104702056802491237912725518035001651114220387125724015062749065539444546101226471646441628208800689303868659190880286646601255618712438279644691381869224914829220278277240660341432501227241595956102168329190188089416400530661095697595876072313366003285723257118919981184610706209276281204245940933363366365315993747481965542947366537006311638642952908541487571529590940657310677191571825754503794600032883595790652425662863931808758888258331287032972876114874324615385814146640993803201941673793990595526965739983913493894255141009942270128120088664068089989614483107282434331964043092780856171193770441622777122405258383634324140199751034582334686099933378280046880190749606774599207504620534113536963145182395333086887237079232528593560807867114624836387638521679868445917835 1417).2.1 = 6088765963858021899720017663939589695957411951902470831381330175417306723134423720479792389778481043412291706836631711642988621063593440303139566306294777907638000150734239995894786020824728064490131758060478124612825595466653732117208822382735146110774125670930451923285403709237710600082522423560563097976533010825169436521710368280683395280840718416673544303586523203898330169425785152908048797912173816220300724537671087704623272206395506535802745534494386360696535082533664576997445696918624743411368343072164904596396299529437709406939807005610071677785145802293808732517762552322536371916357800828078256455894311622312464678795470355700071243187960119928104404614864826243066681871928220478182472436794661279398572257210320518519855216690198421210432910302691540392693025736846403841902416400752889221068943904617577108394569822738346409076687922552827570836390612274927687908532282034049085330472675353827095631227337017348984913708741402371311472769654604125901545807111212567665099246702440619986624829562098382760442143929050963757658834961875716346430238233134176278580481816727143354372761873895755410167228702813033279186989378225506860612356936919264517933632345915011717062900421498770269685774913918236033400232966547208362775294774041023087890415116014874862673331357076936440126103680351944411646842577579827463774461825995475282905126048298591370033838750954223107507863893999690804393692126134584690192156628950267083615666251829788054852878406681571855818641939265961350722241942859217547035710712691325525236533954222039336581736946986364498578192268001072010685309438264574780560590793659413453915154860653090274721293366570161536578157852502131327844461718067818189981663498865768107418711757047813223768256286981033064889072136885479677186569557431539029122273412088553716927585032804206556252203659736550317404319147591472408300322476475311246288772504745858960557990496300201091217494867464038319555806570061993230663550713670008516587083936730285620463590161367546583144209990645796923907145181641271198376073143054084285577941671371525301318175695610071145306455287130617666605518430636319789854453715811503071115785176365604870400048280518870279381860256949109342293693450700861312181321838647807187570656611615244234286141379139239703109648795338269373629932991995790765614443012162423460930025049683992354580739766001053079100346515637065269497254680950481604522738435980601698012574555491186159484570844061598728751085884499382258062181136062118315484439046604419756577935860549140025766656718935134308279453845558082181692067938567334037695091012628455449210905189355505318062652553694484791649752973314834999263866094499778611519716650326200300096127803371139787073432712712836950685614974041199810810371030159992190811616410118461834567263870166187225957138357668047202167780403160589663517168991155691623493346234489249230648010754035344279040850166157998798266750627984413519031682969387022086083504900863303773045405608174625458206239870224313901045272853324361271360540322243724661571385307895328139894507348412442449205981926463393108586931975088615844209394194273572767281914845641252006169048293660394082165195157676230470691633261729625166226469156310740548091184500291814126423230367870148831039058151654119037658899229404436615241452925542508586740815663022689773203600238180650265731171891427313857319635236465537633172081276703068001057314584947359432806798445218029548980393012253654902974723952878299103140763871433806897705593949099475552248634766349625680958433962958055221934629015866296940191855925055840164965817815666711312020340278138595389284440309716963317577533082170323270528845803073817746721943841130995485425550716967584779513948088328954159817289645879845844467770293484519012403227193755355365029778950257031965073325157563114720356993449879616584130539122813560335292825419796497091377452955261681386902680975830752620990918391755874173031538308938553320274262322168446285319896203716828125342825416832285212996519731103834196550139802867301701115244546737707961118471877957940481424869072073734344720014505433301621453737374604787053098614732785771698005666488199542312324489941339436137424238000643214443665782619026805440241793261723482930699297459048836542289807952403651666116037381722294595660650547626257740235103816266942259050183624912241439851979318257954378048221152671035425457077866106998911305917320267978655854725064489840407754745344465734574252584118750647904069116520469990860690189350022733139776931567395814396869848231279315019820451561921430281925609284340842068312134186981532576129435050331415363916689246962007776104301474668270838452039146266065586449166418262795369565859029591985510946277496374595107477907093750756237065945524801095111305646474119915750523685021568111101813174693145870096524143319981946665664374618214804595547565503430206742132983663094699207895789142512818546061315205814952513626691786900682288346255481397468785326836972154257705736567310996120133311842450570808121580805370298868660506912404891571091691041995501088582666827626917351189047418520095288794466611813103783374583550520122387667247053037623909038188496387493209774288461286997854136699341431802160657719424557189326078803698678667610337011721787915017108100706513289070886200094976670400220523183729169986684595928023806706447733805072208642584850473969028313758230608722012924996574959111921076313298045105489110498254553853152350820692890478786967742390410527001048577042818598744043555798027795636114848049209968208298914979900999355421701847253340167280935325691367047983932353681241761485868211710069365982329231110083378133302791345833695004386111822407228004271889962268784252763647448248226298741575665555501584523726408531813789568253478850921836599214960651329865264599517899483355121008774673204838408690239872681509832837006737629403264829686411 ∧ (natLoop 200 1519663110912654941835397241099601377506993562690495989134237534715507618913347801 337994408231534814547421279556937419986634814033590916522631408529142153442641620275998137170279752723437326997891510799170120266946203219971380826763607246712461810539133034849909354042589383015215762897109385103408745914281364105367170358600167968858383847869086465722955069330351737731047235593573682480888407037163352601168703145500967857864685890347019156395379494613776746479276726541372499207263530474305646326012810775522136566162977423217072897463595444727746153074988133483397460081948868016771926711462758500152999868792822912189604826536382598422725337584099886133942525224253416962145157956665178835272392638045091332461455441438083713664937189743375889516597884720014977482752060580966392594294295205179673104430733518641052557098203160704315810662537000529637514429820078721042905806981209578367511743228982538402632546168112104249629402537875245863360609937093059839127606806161256028234418588495946206709028028439016720901712455859891844847057602705243032558715982949515265918520290515803749953835438714687985150344845922976721163948819249752784948999107483836041718223351685541303775090534347353867328255388923638025457266417680829208829846715551700221079991076410646667332498124919941808522195026954459453457735940793144187031635015498725029761684574118232577543023040395680427529477618626647184395805992235102716512814671464483847596492546755294574205323383228439374413346745335896962717044610850432856686214589887741800115225227346267777125330379664069767900169227373417218104971989097993406415330106632633534926793700426016745470622277850318353595418938603853719270390409794309901940128020615577871949088240185179319330603148234559558831793456255035602416494285637672945586230191304543229599249732419610285384200269351145796002810054937070585589532017675999526991074933235338451236114153127419049917362746383115323917788087559796684120011767590762644131846703788244033424874305466717999569131734707167746788905049470507715144862600787950979721562981319163410404438259168615946337321784357596045836972572158635870081548198471127204473633969574730751604024095840181949179063229246809763777763225142359343963516782876979155231482813290041207552200683996147893980539396835025208715589754941518906518118194228849121582690611783396849782964219586905669617914494643536965734140317309184274288834075771925982530799710871778614165164377820861667623994260782259579499270133084756331967306423644196983442937376186638877230327913016258484829905291618960244208464735198212180066461670261038547131613729960585095398646001708751819578781260148610411250048666150653106671569804027982500048766987888660494337633295249867575282294895133605797658499090276383789239187875920145179357556239975972800259900544043675456544917919032806058961951521966476384919889371246468681124734883738520167932560298917569988202555941228643178321730828928267656414142698815659953394886173109223209604851098759741874619453749179470463568537380573815092078926581420184266604966852928691051195352160472617474003837267751745665535386748637514365722024690944339016336963976990406206323172774331957320434134087447342849030903681191502750066661218607565932875083663070504972116435506383775047967335826889322205524540952824102705167198135163078666422668924573464403161131307644604419559593059660872743119622767692935896921367918608011968006905536390325573781196087420484465967722111930831936973478647550652258443276723828667020294729191694563205604389626631535871515349933359398537682126647874782847561881962201014131392371223084598048930560428584457449155122852790231237383069854200244420218605652295950989459179394435166592265049876453089724377027019208673272876649458137318036069405559736983320495220084186218774832970383764875825074219951486004767984435814255621827155604535427505260491230464711470821393278936661218968692943179615702561082304179329553135285436538739537192075317859798860460300549083902144909527115787354447626879658708139381581927298929848095930950918650784606187878687226788312721477735837453755667619673068714455373454201218446020146495026796184836628153683644893143633949356924024917125938610334513861223587631543401221753993889779260235617850093614162608620923011795754687719800477709500016414529510186345699912743907338174229754558981604894428517572165056153281181299121322487399224920141724473428620844695532738569496109980010452345654481534634635848718775402621755652117148955647955586191304205899034174980827907198577873025135525484633704802272599087895479975820241447388642570491378335357859281426143748475904239564285209975302704848061881928582071882889125516866051858312208391909181587580186416984430482857048800537134788345436301465390372283032095524913671430441687196563104061526366307583674893813267666026905276245098907090732473264476943312637016153163363306847424015320176793509248126117177568401881995733729327158066062527268697039962658003064859298313524128232383435074385781312412826105759172568687565270666765937868484677226815864674014001659362697306086598556532183855117950714793910197856714595146693144956478194019867802249215104702056802491237912725518035001651114220387125724015062749065539444546101226471646441628208800689303868659190880286646601255618712438279644691381869224914829220278277240660341432501227241595956102168329190188089416400530661095697595876072313366003285723257118919981184610706209276281204245940933363366365315993747481965542947366537006311638642952908541487571529590940657310677191571825754503794600032883595790652425662863931808758888258331287032972876114874324615385814146640993803201941673793990595526965739983913493894255141009942270128120088664068089989614483107282434331964043092780856171193770441622777122405258383634324140199751034582334686099933378280046880190749606774599207504620534113536963145182395333086887237079232528593560807867114624836387638521679868445917835 1417).2.2 = 1620 :=
  ⟨rfl, rfl, rfl⟩

set_option maxRecDepth 4000000 in
set_option maxHeartbeats 16000000 in
/-- Traversal evaluation: iterations 1601 to 1800 of the refinement loop. -/
theorem natChunk9 : (natLoop 200 427747138752182595598143544733952573114226269424071871257101026352223989189842619369941977302139 6088765963858021899720017663939589695957411951902470831381330175417306723134423720479792389778481043412291706836631711642988621063593440303139566306294777907638000150734239995894786020824728064490131758060478124612825595466653732117208822382735146110774125670930451923285403709237710600082522423560563097976533010825169436521710368280683395280840718416673544303586523203898330169425785152908048797912173816220300724537671087704623272206395506535802745534494386360696535082533664576997445696918624743411368343072164904596396299529437709406939807005610071677785145802293808732517762552322536371916357800828078256455894311622312464678795470355700071243187960119928104404614864826243066681871928220478182472436794661279398572257210320518519855216690198421210432910302691540392693025736846403841902416400752889221068943904617577108394569822738346409076687922552827570836390612274927687908532282034049085330472675353827095631227337017348984913708741402371311472769654604125901545807111212567665099246702440619986624829562098382760442143929050963757658834961875716346430238233134176278580481816727143354372761873895755410167228702813033279186989378225506860612356936919264517933632345915011717062900421498770269685774913918236033400232966547208362775294774041023087890415116014874862673331357076936440126103680351944411646842577579827463774461825995475282905126048298591370033838750954223107507863893999690804393692126134584690192156628950267083615666251829788054852878406681571855818641939265961350722241942859217547035710712691325525236533954222039336581736946986364498578192268001072010685309438264574780560590793659413453915154860653090274721293366570161536578157852502131327844461718067818189981663498865768107418711757047813223768256286981033064889072136885479677186569557431539029122273412088553716927585032804206556252203659736550317404319147591472408300322476475311246288772504745858960557990496300201091217494867464038319555806570061993230663550713670008516587083936730285620463590161367546583144209990645796923907145181641271198376073143054084285577941671371525301318175695610071145306455287130617666605518430636319789854453715811503071115785176365604870400048280518870279381860256949109342293693450700861312181321838647807187570656611615244234286141379139239703109648795338269373629932991995790765614443012162423460930025049683992354580739766001053079100346515637065269497254680950481604522738435980601698012574555491186159484570844061598728751085884499382258062181136062118315484439046604419756577935860549140025766656718935134308279453845558082181692067938567334037695091012628455449210905189355505318062652553694484791649752973314834999263866094499778611519716650326200300096127803371139787073432712712836950685614974041199810810371030159992190811616410118461834567263870166187225957138357668047202167780403160589663517168991155691623493346234489249230648010754035344279040850166157998798266750627984413519031682969387022086083504900863303773045405608174625458206239870224313901045272853324361271360540322243724661571385307895328139894507348412442449205981926463393108586931975088615844209394194273572767281914845641252006169048293660394082165195157676230470691633261729625166226469156310740548091184500291814126423230367870148831039058151654119037658899229404436615241452925542508586740815663022689773203600238180650265731171891427313857319635236465537633172081276703068001057314584947359432806798445218029548980393012253654902974723952878299103140763871433806897705593949099475552248634766349625680958433962958055221934629015866296940191855925055840164965817815666711312020340278138595389284440309716963317577533082170323270528845803073817746721943841130995485425550716967584779513948088328954159817289645879845844467770293484519012403227193755355365029778950257031965073325157563114720356993449879616584130539122813560335292825419796497091377452955261681386902680975830752620990918391755874173031538308938553320274262322168446285319896203716828125342825416832285212996519731103834196550139802867301701115244546737707961118471877957940481424869072073734344720014505433301621453737374604787053098614732785771698005666488199542312324489941339436137424238000643214443665782619026805440241793261723482930699297459048836542289807952403651666116037381722294595660650547626257740235103816266942259050183624912241439851979318257954378048221152671035425457077866106998911305917320267978655854725064489840407754745344465734574252584118750647904069116520469990860690189350022733139776931567395814396869848231279315019820451561921430281925609284340842068312134186981532576129435050331415363916689246962007776104301474668270838452039146266065586449166418262795369565859029591985510946277496374595107477907093750756237065945524801095111305646474119915750523685021568111101813174693145870096524143319981946665664374618214804595547565503430206742132983663094699207895789142512818546061315205814952513626691786900682288346255481397468785326836972154257705736567310996120133311842450570808121580805370298868660506912404891571091691041995501088582666827626917351189047418520095288794466611813103783374583550520122387667247053037623909038188496387493209774288461286997854136699341431802160657719424557189326078803698678667610337011721787915017108100706513289070886200094976670400220523183729169986684595928023806706447733805072208642584850473969028313758230608722012924996574959111921076313298045105489110498254553853152350820692890478786967742390410527001048577042818598744043555798027795636114848049209968208298914979900999355421701847253340167280935325691367047983932353681241761485868211710069365982329231110083378133302791345833695004386111822407228004271889962268784252763647448248226298741575665555501584523726408531813789568253478850921836599214960651329865264599517899483355121008774673204838408690239872681509832837006737629403264829686411 1620).1 = 1519663110912654941835397241099601377506993562691535707950171274430051947103740136 ∧ (natLoop 200 427747138752182595598143544733952573114226269424071871257101026352223989189842619369941977302139 6088765963858021899720017663939589695957411951902470831381330175417306723134423720479792389778481043412291706836631711642988621063593440303139566306294777907638000150734239995894786020824728064490131758060478124612825595466653732117208822382735146110774125670930451923285403709237710600082522423560563097976533010825169436521710368280683395280840718416673544303586523203898330169425785152908048797912173816220300724537671087704623272206395506535802745534494386360696535082533664576997445696918624743411368343072164904596396299529437709406939807005610071677785145802293808732517762552322536371916357800828078256455894311622312464678795470355700071243187960119928104404614864826243066681871928220478182472436794661279398572257210320518519855216690198421210432910302691540392693025736846403841902416400752889221068943904617577108394569822738346409076687922552827570836390612274927687908532282034049085330472675353827095631227337017348984913708741402371311472769654604125901545807111212567665099246702440619986624829562098382760442143929050963757658834961875716346430238233134176278580481816727143354372761873895755410167228702813033279186989378225506860612356936919264517933632345915011717062900421498770269685774913918236033400232966547208362775294774041023087890415116014874862673331357076936440126103680351944411646842577579827463774461825995475282905126048298591370033838750954223107507863893999690804393692126134584690192156628950267083615666251829788054852878406681571855818641939265961350722241942859217547035710712691325525236533954222039336581736946986364498578192268001072010685309438264574780560590793659413453915154860653090274721293366570161536578157852502131327844461718067818189981663498865768107418711757047813223768256286981033064889072136885479677186569557431539029122273412088553716927585032804206556252203659736550317404319147591472408300322476475311246288772504745858960557990496300201091217494867464038319555806570061993230663550713670008516587083936730285620463590161367546583144209990645796923907145181641271198376073143054084285577941671371525301318175695610071145306455287130617666605518430636319789854453715811503071115785176365604870400048280518870279381860256949109342293693450700861312181321838647807187570656611615244234286141379139239703109648795338269373629932991995790765614443012162423460930025049683992354580739766001053079100346515637065269497254680950481604522738435980601698012574555491186159484570844061598728751085884499382258062181136062118315484439046604419756577935860549140025766656718935134308279453845558082181692067938567334037695091012628455449210905189355505318062652553694484791649752973314834999263866094499778611519716650326200300096127803371139787073432712712836950685614974041199810810371030159992190811616410118461834567263870166187225957138357668047202167780403160589663517168991155691623493346234489249230648010754035344279040850166157998798266750627984413519031682969387022086083504900863303773045405608174625458206239870224313901045272853324361271360540322243724661571385307895328139894507348412442449205981926463393108586931975088615844209394194273572767281914845641252006169048293660394082165195157676230470691633261729625166226469156310740548091184500291814126423230367870148831039058151654119037658899229404436615241452925542508586740815663022689773203600238180650265731171891427313857319635236465537633172081276703068001057314584947359432806798445218029548980393012253654902974723952878299103140763871433806897705593949099475552248634766349625680958433962958055221934629015866296940191855925055840164965817815666711312020340278138595389284440309716963317577533082170323270528845803073817746721943841130995485425550716967584779513948088328954159817289645879845844467770293484519012403227193755355365029778950257031965073325157563114720356993449879616584130539122813560335292825419796497091377452955261681386902680975830752620990918391755874173031538308938553320274262322168446285319896203716828125342825416832285212996519731103834196550139802867301701115244546737707961118471877957940481424869072073734344720014505433301621453737374604787053098614732785771698005666488199542312324489941339436137424238000643214443665782619026805440241793261723482930699297459048836542289807952403651666116037381722294595660650547626257740235103816266942259050183624912241439851979318257954378048221152671035425457077866106998911305917320267978655854725064489840407754745344465734574252584118750647904069116520469990860690189350022733139776931567395814396869848231279315019820451561921430281925609284340842068312134186981532576129435050331415363916689246962007776104301474668270838452039146266065586449166418262795369565859029591985510946277496374595107477907093750756237065945524801095111305646474119915750523685021568111101813174693145870096524143319981946665664374618214804595547565503430206742132983663094699207895789142512818546061315205814952513626691786900682288346255481397468785326836972154257705736567310996120133311842450570808121580805370298868660506912404891571091691041995501088582666827626917351189047418520095288794466611813103783374583550520122387667247053037623909038188496387493209774288461286997854136699341431802160657719424557189326078803698678667610337011721787915017108100706513289070886200094976670400220523183729169986684595928023806706447733805072208642584850473969028313758230608722012924996574959111921076313298045105489110498254553853152350820692890478786967742390410527001048577042818598744043555798027795636114848049209968208298914979900999355421701847253340167280935325691367047983932353681241761485868211710069365982329231110083378133302791345833695004386111822407228004271889962268784252763647448248226298741575665555501584523726408531813789568253478850921836599214960651329865264599517899483355121008774673204838408690239872681509832837006737629403264829686411 1620).2.1 = 35594965702012687094972663518244639467745944815488673374354153685178380502776267507595360163002673430467726573533351323918105288157986994385189371425781868461548838879639520750368349220355999036121548902419468498643311592964157771965179898584846603913920879329073826730322506399262421723944621861512755806762339995188428395595092887036527567150120568696107435523510843544535490332011452601930976992428711701771510930319062669080326992642938545030528461428379034003985888860772385018063771140207763684632420712581218483859639914187249925247931611757926097741722150489958038265691009626349484664167837715712841413360249798933863780148100237811383067907888988540213637059619115598643103875177356251767967764633355570507809464550647630252928219992245414402770027164123638529916680283117150756888192274634921300857750248829140512463468027460279889711067475454297311126689184492292494643885465463662412761227005306412925110098676163965337126417746375501013067022484761246061774590805451856359652907535332370073585047593893828797272828090315459196975837378710857542572692301091964469011466265626758865412500944365833217800434578604120573971998726142446895486091770632046154382813306370287773911493103254475268856989254538769463767656653937717475372470884836798852961072574240845221617429872191459398640237912579354987606417531009798119557441427881192604302442673364687989551714835769683881431449673946465335827387923050950932969912436531242902313758921672695293296945428306807096284507408842691182977666269129463800427522872740450712966900764462156303132778754962358837316131941935927267718603702147072906712808422717557035724927377545201922645894383959897531029732966584305387782250558644954407128891166004464096668608658473823841387899278751177544699802684971044663103756190341169460467056740857517165262080253469591079107152093060693104058427326555538214359684077907390219584298270326077713511087804110797163742222435684963876891382558417342026157664628707595679444599377462962929402483042848421259304962400320493188765210868301563645826408865715479602654170368934559080599592298825954279957969085701677225430560368473075630168370899641603956987911885687014302184200350916411021834231010517929136486697888058994577167520108194105430764387121657682323893460389739487211981017109674099931788092083181822962972812312288864705523333279016104162494100844850373426480960781153415561966315556311514841689720009208328890757817733486353585041190542796786184473076194481018641377520341860260015160593170323870536963198935967680198159692403538005761925503613737289880724451132789136592133505763528784671715715261988557799513703879111416780980351512642815666666138262838176335126586821835564466970778212518499346795187141732897828590535340327215973880803446020228108028647324930622298142278458838335436775945025503964094931073609446282378714700920874624014575323022688188246406844509924211695285838683914330426626045947989633553213003679709893314050577732786737995064077416089275881127211956924660365375043048238026412323017937829144788948339397224357461287027108229459835049233738441023390722620259418662828130183325851273585407662239872433090052141832277989197616921783564049548689588403860451005710834065895066226156284488133423697371089949058171678745245667425912657649652366505169371264458431923352653757781333559031241819084637626770477420078492922829759053093839741224988860432405457682980494054251562226404029115311668222142460093324707049639702054002895091965557305030072988544543443737398327163347377256881342721506453899240425671449337283754715631602217283793251691961261000782917051987311165144055986410345640133799353704479878568019188583488508768376842027756914354008801019290961322499905626156846132335191945706830928286662283546828256731361199111264831313146769391614691881679769798166856870689725708900060976704639199992582496803721972335362922286783586577845717169450053337482096745163980983750893919921629266074514740445714872455474099262565094754181645787883035998508273645945094554510082584649773095949410923281929932228932666068765394753293928277461789492993773944118277561867128651668827761806156400176470863547857524336711557294710435524342566712201919420026100919940070780080987642218735873204932595630938981534814252763453849041953690384201831513992241809677045273672454814603665450097707331436074134500936982495259285714300575425905560700094257693267236296684625087177030011285721164644306049750108891181298437174643934839251587941937308003034090392655271700649971450163721682115225408303324102077361441469066622094695733088363974506290670472312492412895523358640944047694745876071560266515626710191646714648585676361947814890760265059872458472549415405478627680793454110872756463411995277080548822044854991316583338865917201103759368642333192353014542227683258964035963959085717587024844353186671158146249505874749306699685097163602268313596619950879625078117158436714959248732124149066728315636714097804314552255963655479902947200929385206834745548498111707720435020548860899286720424232404673049370870284915259611887139060320803951149717859399899802048947009224109356006569155435060727619002739771804246194109484701378338116398336246328355360556212784182635502056186087918938670971292607505559371840127644273181767521831420491155407758181714380278206847521597392531267776408069287083312680457689566143205149417422873014437567134017252091990806362622574179437569010021859343858041651359036261235948148541842451697086476106237664655564008483683088639522662804705376886403504319732522899030390926919461963296338688804572422595823728086028233310357482702986957735338484663330602539716619017592877830526484379553016755757184994897922497112651972817908656165058324429208142817170717772635429774472616403583497578834329920044161875863799012341485694897489690514348306582116200966377743693245001449673071493231847544044493307060065105566495920396003066447989012460816637291599037067 ∧ (natLoop 200 427747138752182595598143544733952573114226269424071871257101026352223989189842619369941977302139 6088765963858021899720017663939589695957411951902470831381330175417306723134423720479792389778481043412291706836631711642988621063593440303139566306294777907638000150734239995894786020824728064490131758060478124612825595466653732117208822382735146110774125670930451923285403709237710600082522423560563097976533010825169436521710368280683395280840718416673544303586523203898330169425785152908048797912173816220300724537671087704623272206395506535802745534494386360696535082533664576997445696918624743411368343072164904596396299529437709406939807005610071677785145802293808732517762552322536371916357800828078256455894311622312464678795470355700071243187960119928104404614864826243066681871928220478182472436794661279398572257210320518519855216690198421210432910302691540392693025736846403841902416400752889221068943904617577108394569822738346409076687922552827570836390612274927687908532282034049085330472675353827095631227337017348984913708741402371311472769654604125901545807111212567665099246702440619986624829562098382760442143929050963757658834961875716346430238233134176278580481816727143354372761873895755410167228702813033279186989378225506860612356936919264517933632345915011717062900421498770269685774913918236033400232966547208362775294774041023087890415116014874862673331357076936440126103680351944411646842577579827463774461825995475282905126048298591370033838750954223107507863893999690804393692126134584690192156628950267083615666251829788054852878406681571855818641939265961350722241942859217547035710712691325525236533954222039336581736946986364498578192268001072010685309438264574780560590793659413453915154860653090274721293366570161536578157852502131327844461718067818189981663498865768107418711757047813223768256286981033064889072136885479677186569557431539029122273412088553716927585032804206556252203659736550317404319147591472408300322476475311246288772504745858960557990496300201091217494867464038319555806570061993230663550713670008516587083936730285620463590161367546583144209990645796923907145181641271198376073143054084285577941671371525301318175695610071145306455287130617666605518430636319789854453715811503071115785176365604870400048280518870279381860256949109342293693450700861312181321838647807187570656611615244234286141379139239703109648795338269373629932991995790765614443012162423460930025049683992354580739766001053079100346515637065269497254680950481604522738435980601698012574555491186159484570844061598728751085884499382258062181136062118315484439046604419756577935860549140025766656718935134308279453845558082181692067938567334037695091012628455449210905189355505318062652553694484791649752973314834999263866094499778611519716650326200300096127803371139787073432712712836950685614974041199810810371030159992190811616410118461834567263870166187225957138357668047202167780403160589663517168991155691623493346234489249230648010754035344279040850166157998798266750627984413519031682969387022086083504900863303773045405608174625458206239870224313901045272853324361271360540322243724661571385307895328139894507348412442449205981926463393108586931975088615844209394194273572767281914845641252006169048293660394082165195157676230470691633261729625166226469156310740548091184500291814126423230367870148831039058151654119037658899229404436615241452925542508586740815663022689773203600238180650265731171891427313857319635236465537633172081276703068001057314584947359432806798445218029548980393012253654902974723952878299103140763871433806897705593949099475552248634766349625680958433962958055221934629015866296940191855925055840164965817815666711312020340278138595389284440309716963317577533082170323270528845803073817746721943841130995485425550716967584779513948088328954159817289645879845844467770293484519012403227193755355365029778950257031965073325157563114720356993449879616584130539122813560335292825419796497091377452955261681386902680975830752620990918391755874173031538308938553320274262322168446285319896203716828125342825416832285212996519731103834196550139802867301701115244546737707961118471877957940481424869072073734344720014505433301621453737374604787053098614732785771698005666488199542312324489941339436137424238000643214443665782619026805440241793261723482930699297459048836542289807952403651666116037381722294595660650547626257740235103816266942259050183624912241439851979318257954378048221152671035425457077866106998911305917320267978655854725064489840407754745344465734574252584118750647904069116520469990860690189350022733139776931567395814396869848231279315019820451561921430281925609284340842068312134186981532576129435050331415363916689246962007776104301474668270838452039146266065586449166418262795369565859029591985510946277496374595107477907093750756237065945524801095111305646474119915750523685021568111101813174693145870096524143319981946665664374618214804595547565503430206742132983663094699207895789142512818546061315205814952513626691786900682288346255481397468785326836972154257705736567310996120133311842450570808121580805370298868660506912404891571091691041995501088582666827626917351189047418520095288794466611813103783374583550520122387667247053037623909038188496387493209774288461286997854136699341431802160657719424557189326078803698678667610337011721787915017108100706513289070886200094976670400220523183729169986684595928023806706447733805072208642584850473969028313758230608722012924996574959111921076313298045105489110498254553853152350820692890478786967742390410527001048577042818598744043555798027795636114848049209968208298914979900999355421701847253340167280935325691367047983932353681241761485868211710069365982329231110083378133302791345833695004386111822407228004271889962268784252763647448248226298741575665555501584523726408531813789568253478850921836599214960651329865264599517899483355121008774673204838408690239872681509832837006737629403264829686411 1620).2.2 = 1817 :=
  ⟨rfl, rfl, rfl⟩

set_option maxRecDepth 4000000 in
set_option maxHeartbeats 16000000 in
/-- Traversal evaluation: iterations 1801 to 2000 of the refinement loop. -/
theorem natChunk10 : (natLoop 200 1519663110912654941835397241099601377506993562691535707950171274430051947103740136 35594965702012687094972663518244639467745944815488673374354153685178380502776267507595360163002673430467726573533351323918105288157986994385189371425781868461548838879639520750368349220355999036121548902419468498643311592964157771965179898584846603913920879329073826730322506399262421723944621861512755806762339995188428395595092887036527567150120568696107435523510843544535490332011452601930976992428711701771510930319062669080326992642938545030528461428379034003985888860772385018063771140207763684632420712581218483859639914187249925247931611757926097741722150489958038265691009626349484664167837715712841413360249798933863780148100237811383067907888988540213637059619115598643103875177356251767967764633355570507809464550647630252928219992245414402770027164123638529916680283117150756888192274634921300857750248829140512463468027460279889711067475454297311126689184492292494643885465463662412761227005306412925110098676163965337126417746375501013067022484761246061774590805451856359652907535332370073585047593893828797272828090315459196975837378710857542572692301091964469011466265626758865412500944365833217800434578604120573971998726142446895486091770632046154382813306370287773911493103254475268856989254538769463767656653937717475372470884836798852961072574240845221617429872191459398640237912579354987606417531009798119557441427881192604302442673364687989551714835769683881431449673946465335827387923050950932969912436531242902313758921672695293296945428306807096284507408842691182977666269129463800427522872740450712966900764462156303132778754962358837316131941935927267718603702147072906712808422717557035724927377545201922645894383959897531029732966584305387782250558644954407128891166004464096668608658473823841387899278751177544699802684971044663103756190341169460467056740857517165262080253469591079107152093060693104058427326555538214359684077907390219584298270326077713511087804110797163742222435684963876891382558417342026157664628707595679444599377462962929402483042848421259304962400320493188765210868301563645826408865715479602654170368934559080599592298825954279957969085701677225430560368473075630168370899641603956987911885687014302184200350916411021834231010517929136486697888058994577167520108194105430764387121657682323893460389739487211981017109674099931788092083181822962972812312288864705523333279016104162494100844850373426480960781153415561966315556311514841689720009208328890757817733486353585041190542796786184473076194481018641377520341860260015160593170323870536963198935967680198159692403538005761925503613737289880724451132789136592133505763528784671715715261988557799513703879111416780980351512642815666666138262838176335126586821835564466970778212518499346795187141732897828590535340327215973880803446020228108028647324930622298142278458838335436775945025503964094931073609446282378714700920874624014575323022688188246406844509924211695285838683914330426626045947989633553213003679709893314050577732786737995064077416089275881127211956924660365375043048238026412323017937829144788948339397224357461287027108229459835049233738441023390722620259418662828130183325851273585407662239872433090052141832277989197616921783564049548689588403860451005710834065895066226156284488133423697371089949058171678745245667425912657649652366505169371264458431923352653757781333559031241819084637626770477420078492922829759053093839741224988860432405457682980494054251562226404029115311668222142460093324707049639702054002895091965557305030072988544543443737398327163347377256881342721506453899240425671449337283754715631602217283793251691961261000782917051987311165144055986410345640133799353704479878568019188583488508768376842027756914354008801019290961322499905626156846132335191945706830928286662283546828256731361199111264831313146769391614691881679769798166856870689725708900060976704639199992582496803721972335362922286783586577845717169450053337482096745163980983750893919921629266074514740445714872455474099262565094754181645787883035998508273645945094554510082584649773095949410923281929932228932666068765394753293928277461789492993773944118277561867128651668827761806156400176470863547857524336711557294710435524342566712201919420026100919940070780080987642218735873204932595630938981534814252763453849041953690384201831513992241809677045273672454814603665450097707331436074134500936982495259285714300575425905560700094257693267236296684625087177030011285721164644306049750108891181298437174643934839251587941937308003034090392655271700649971450163721682115225408303324102077361441469066622094695733088363974506290670472312492412895523358640944047694745876071560266515626710191646714648585676361947814890760265059872458472549415405478627680793454110872756463411995277080548822044854991316583338865917201103759368642333192353014542227683258964035963959085717587024844353186671158146249505874749306699685097163602268313596619950879625078117158436714959248732124149066728315636714097804314552255963655479902947200929385206834745548498111707720435020548860899286720424232404673049370870284915259611887139060320803951149717859399899802048947009224109356006569155435060727619002739771804246194109484701378338116398336246328355360556212784182635502056186087918938670971292607505559371840127644273181767521831420491155407758181714380278206847521597392531267776408069287083312680457689566143205149417422873014437567134017252091990806362622574179437569010021859343858041651359036261235948148541842451697086476106237664655564008483683088639522662804705376886403504319732522899030390926919461963296338688804572422595823728086028233310357482702986957735338484663330602539716619017592877830526484379553016755757184994897922497112651972817908656165058324429208142817170717772635429774472616403583497578834329920044161875863799012341485694897489690514348306582116200966377743693245001449673071493231847544044493307060065105566495920396003066447989012460816637291599037067 1817).1 = 145554808818251774007447410594555857587873643147371730994305766910849750945983662428767360480347349533252268655401056554615938622376326 ∧ (natLoop 200 1519663110912654941835397241099601377506993562691535707950171274430051947103740136 35594965702012687094972663518244639467745944815488673374354153685178380502776267507595360163002673430467726573533351323918105288157986994385189371425781868461548838879639520750368349220355999036121548902419468498643311592964157771965179898584846603913920879329073826730322506399262421723944621861512755806762339995188428395595092887036527567150120568696107435523510843544535490332011452601930976992428711701771510930319062669080326992642938545030528461428379034003985888860772385018063771140207763684632420712581218483859639914187249925247931611757926097741722150489958038265691009626349484664167837715712841413360249798933863780148100237811383067907888988540213637059619115598643103875177356251767967764633355570507809464550647630252928219992245414402770027164123638529916680283117150756888192274634921300857750248829140512463468027460279889711067475454297311126689184492292494643885465463662412761227005306412925110098676163965337126417746375501013067022484761246061774590805451856359652907535332370073585047593893828797272828090315459196975837378710857542572692301091964469011466265626758865412500944365833217800434578604120573971998726142446895486091770632046154382813306370287773911493103254475268856989254538769463767656653937717475372470884836798852961072574240845221617429872191459398640237912579354987606417531009798119557441427881192604302442673364687989551714835769683881431449673946465335827387923050950932969912436531242902313758921672695293296945428306807096284507408842691182977666269129463800427522872740450712966900764462156303132778754962358837316131941935927267718603702147072906712808422717557035724927377545201922645894383959897531029732966584305387782250558644954407128891166004464096668608658473823841387899278751177544699802684971044663103756190341169460467056740857517165262080253469591079107152093060693104058427326555538214359684077907390219584298270326077713511087804110797163742222435684963876891382558417342026157664628707595679444599377462962929402483042848421259304962400320493188765210868301563645826408865715479602654170368934559080599592298825954279957969085701677225430560368473075630168370899641603956987911885687014302184200350916411021834231010517929136486697888058994577167520108194105430764387121657682323893460389739487211981017109674099931788092083181822962972812312288864705523333279016104162494100844850373426480960781153415561966315556311514841689720009208328890757817733486353585041190542796786184473076194481018641377520341860260015160593170323870536963198935967680198159692403538005761925503613737289880724451132789136592133505763528784671715715261988557799513703879111416780980351512642815666666138262838176335126586821835564466970778212518499346795187141732897828590535340327215973880803446020228108028647324930622298142278458838335436775945025503964094931073609446282378714700920874624014575323022688188246406844509924211695285838683914330426626045947989633553213003679709893314050577732786737995064077416089275881127211956924660365375043048238026412323017937829144788948339397224357461287027108229459835049233738441023390722620259418662828130183325851273585407662239872433090052141832277989197616921783564049548689588403860451005710834065895066226156284488133423697371089949058171678745245667425912657649652366505169371264458431923352653757781333559031241819084637626770477420078492922829759053093839741224988860432405457682980494054251562226404029115311668222142460093324707049639702054002895091965557305030072988544543443737398327163347377256881342721506453899240425671449337283754715631602217283793251691961261000782917051987311165144055986410345640133799353704479878568019188583488508768376842027756914354008801019290961322499905626156846132335191945706830928286662283546828256731361199111264831313146769391614691881679769798166856870689725708900060976704639199992582496803721972335362922286783586577845717169450053337482096745163980983750893919921629266074514740445714872455474099262565094754181645787883035998508273645945094554510082584649773095949410923281929932228932666068765394753293928277461789492993773944118277561867128651668827761806156400176470863547857524336711557294710435524342566712201919420026100919940070780080987642218735873204932595630938981534814252763453849041953690384201831513992241809677045273672454814603665450097707331436074134500936982495259285714300575425905560700094257693267236296684625087177030011285721164644306049750108891181298437174643934839251587941937308003034090392655271700649971450163721682115225408303324102077361441469066622094695733088363974506290670472312492412895523358640944047694745876071560266515626710191646714648585676361947814890760265059872458472549415405478627680793454110872756463411995277080548822044854991316583338865917201103759368642333192353014542227683258964035963959085717587024844353186671158146249505874749306699685097163602268313596619950879625078117158436714959248732124149066728315636714097804314552255963655479902947200929385206834745548498111707720435020548860899286720424232404673049370870284915259611887139060320803951149717859399899802048947009224109356006569155435060727619002739771804246194109484701378338116398336246328355360556212784182635502056186087918938670971292607505559371840127644273181767521831420491155407758181714380278206847521597392531267776408069287083312680457689566143205149417422873014437567134017252091990806362622574179437569010021859343858041651359036261235948148541842451697086476106237664655564008483683088639522662804705376886403504319732522899030390926919461963296338688804572422595823728086028233310357482702986957735338484663330602539716619017592877830526484379553016755757184994897922497112651972817908656165058324429208142817170717772635429774472616403583497578834329920044161875863799012341485694897489690514348306582116200966377743693245001449673071493231847544044493307060065105566495920396003066447989012460816637291599037067 1817).2.1 = 35594965702012687094972663518244639467745944815488673374354153685178380502776267507631441814369319506231884456942000064215782642773960103317949673484032074799663969169584029220071693314783658804831978820275980683888549818759988433228517574960083919543220643983053999136348887478801692058533986982110796378281918966081323064698616096579755682672619783431464037680555034012320126755083000614852888774818875569829759734337665905108806785124758814177513387458249473144814382468519891268333899291631519823038998609784813468317693804081020075137917497899884532435026237190267755715035026941423087799663499096024392357371684610335038656448162974808217643805207348357101959443340908588694699453554637617153567528440600824377350049610524063302689162348541933276609086325708191322087843763482705981076082218683678542488823826200636272056541415655111524080212890333522640700997030967908707964199411819891230721749528998844021606325205330109155831770060334855642768982276916522433658351061943054088273593379007019247839617249516557270713510137292343521497433060601216577792855767067910128417307486521509777947180345463205605129582055448842275670564980313251903401921227867726929649084196689180389800753541886336797384587865653647594994904248073982796015946921979469623607426235835644893490475742214710507200976141473630464555530220059745341567896818431074732548390791667103558578988841275290517783388573553554628279607939787073821838613011292987209465443006588505856194417084347307754154041772192532123002015408292841976400273495204139011763833242023258494850013834808041062658045914236973501762974895114908654441375048594366936986660044838341446559787822140642230350699429172104899446443912399943327621594530865748781571967443335112265206733538952760342111253819757587642712882181233053265790407558856954259242395604304090949012674450850076615786724184389487932369969537564935784222216461969131870545711282968661992534702259398210316961757360495521215227808220284582546527751000397821713597951851079419147946419225855746842325806820669677270586389093258214373873581468437475091842860732318885648209126081710722875885572107327035842250001329114694129587265727581271367446068827848978926628487518773054475125006973815719772954641481473752335195962588412782985111665453307810382419125340509366320578395496656785932893617211062105534597037172818902512039812837800181005022103763032420381854479550687775875398565858332125828444408808424272801763167013492717006378441712626161799919503348217176390662908180679449524973325968548094559681109158361342938298777476597394190779547327972870822125639667459071671586395210721211436881187627171199282120914006458304299609028384576395913245100293485814918479665302485670178703133448773058831118854139480961715948032079078571666464456319903577361742820170189650515681353493572863706313134671344171364907947775758211439813320348171559097594259209282602652920771151881286702650986143744529684942509278300423330390613396959232917824662589435023133871311416745686169170989670934502046273324610648991325279758131796006094525016780620495979474075253441161141927513866125929093214587523101207467911410461055366657017610910199169730966019923492311573435798583732031427175564244138845781810847783479601792383028130121796653745588658995836844654689893578026072212064563200820421331389167445736821494721795462652784292714852951528068877766306472244049634361698160099614908989262716114172724682992938218208359282138556548416905214708730307257587528864493088605683165832359303888645804903854980224628257074877657901244057395315077391959992246671700789063944191766894456123890772826867977223823154141534517089928097504878265967623650563687130465626804517851432666459967591446620499438061844128971087289453754134796597751418796836178481169653291378822219049044260388576945197814494397971126731598134254070306979140400988703143818222922785687270603873136422212245148452478241320216153959572031352719181341461056942891601543084897462098477885439907439630255034456675316636997451795964794468143184038429286802696981757534087294271948497292233475321264925935602965167900425277606352150462019865995002113528941633001484550388790245140136377313157715518534812614817685582902978194909022530439220283510683213503104096212798249243540388826556856933491702754817539585222304713017284564987883442149201164168970676238815476627527583193052797425034484809330661070695831042795794297781256720136769874520270483943915816162212493404082342803533069890456979937443066795371345080748522347055962002631705172162959129824308420902641551022698735195552349974835168206415208032891843783656741164925265980016423080324692934183112526290996923130246166341491019207558032833061512960017746537550465631366610861156876803617958045192613926162041269115527692613415495475115865147986842820849285020357366911504053105568974836041479163564479752296889082577485833674257944053212404257215043981959767151983898458722507760703298207024753710971096141343870694159717630949624451626753073842062840148717555888178084097454651557401210531655578879998557469419275677578799720599487656077985220104842398001465151612939990876779953392274084494001342165308891308902531798562964029515982590489367588842019887043022859779759863977485379846073053437077182270086414097140936963800775999676195928909749660984340262576741213612591691839283436226872234868846971593760951194266215648797773546797409601536051066911969707534225115717472851699095173076350644488335288170508664189714315052551242349249070263997420193180560035459596461944758848000484895913925455121928631164918146939736900285009788026056405388469361406641955785233885957031194631608818217533732957831193889914359529510281854178203512492464649999366764615860196527238319160910375818983778909499162467295111686221749073762747512169847897912152906580416999767896036910362299613353445114869200910511783155963808075348760018342271518747119618121873983270076969749507086041771 ∧ (natLoop 200 1519663110912654941835397241099601377506993562691535707950171274430051947103740136 35594965702012687094972663518244639467745944815488673374354153685178380502776267507595360163002673430467726573533351323918105288157986994385189371425781868461548838879639520750368349220355999036121548902419468498643311592964157771965179898584846603913920879329073826730322506399262421723944621861512755806762339995188428395595092887036527567150120568696107435523510843544535490332011452601930976992428711701771510930319062669080326992642938545030528461428379034003985888860772385018063771140207763684632420712581218483859639914187249925247931611757926097741722150489958038265691009626349484664167837715712841413360249798933863780148100237811383067907888988540213637059619115598643103875177356251767967764633355570507809464550647630252928219992245414402770027164123638529916680283117150756888192274634921300857750248829140512463468027460279889711067475454297311126689184492292494643885465463662412761227005306412925110098676163965337126417746375501013067022484761246061774590805451856359652907535332370073585047593893828797272828090315459196975837378710857542572692301091964469011466265626758865412500944365833217800434578604120573971998726142446895486091770632046154382813306370287773911493103254475268856989254538769463767656653937717475372470884836798852961072574240845221617429872191459398640237912579354987606417531009798119557441427881192604302442673364687989551714835769683881431449673946465335827387923050950932969912436531242902313758921672695293296945428306807096284507408842691182977666269129463800427522872740450712966900764462156303132778754962358837316131941935927267718603702147072906712808422717557035724927377545201922645894383959897531029732966584305387782250558644954407128891166004464096668608658473823841387899278751177544699802684971044663103756190341169460467056740857517165262080253469591079107152093060693104058427326555538214359684077907390219584298270326077713511087804110797163742222435684963876891382558417342026157664628707595679444599377462962929402483042848421259304962400320493188765210868301563645826408865715479602654170368934559080599592298825954279957969085701677225430560368473075630168370899641603956987911885687014302184200350916411021834231010517929136486697888058994577167520108194105430764387121657682323893460389739487211981017109674099931788092083181822962972812312288864705523333279016104162494100844850373426480960781153415561966315556311514841689720009208328890757817733486353585041190542796786184473076194481018641377520341860260015160593170323870536963198935967680198159692403538005761925503613737289880724451132789136592133505763528784671715715261988557799513703879111416780980351512642815666666138262838176335126586821835564466970778212518499346795187141732897828590535340327215973880803446020228108028647324930622298142278458838335436775945025503964094931073609446282378714700920874624014575323022688188246406844509924211695285838683914330426626045947989633553213003679709893314050577732786737995064077416089275881127211956924660365375043048238026412323017937829144788948339397224357461287027108229459835049233738441023390722620259418662828130183325851273585407662239872433090052141832277989197616921783564049548689588403860451005710834065895066226156284488133423697371089949058171678745245667425912657649652366505169371264458431923352653757781333559031241819084637626770477420078492922829759053093839741224988860432405457682980494054251562226404029115311668222142460093324707049639702054002895091965557305030072988544543443737398327163347377256881342721506453899240425671449337283754715631602217283793251691961261000782917051987311165144055986410345640133799353704479878568019188583488508768376842027756914354008801019290961322499905626156846132335191945706830928286662283546828256731361199111264831313146769391614691881679769798166856870689725708900060976704639199992582496803721972335362922286783586577845717169450053337482096745163980983750893919921629266074514740445714872455474099262565094754181645787883035998508273645945094554510082584649773095949410923281929932228932666068765394753293928277461789492993773944118277561867128651668827761806156400176470863547857524336711557294710435524342566712201919420026100919940070780080987642218735873204932595630938981534814252763453849041953690384201831513992241809677045273672454814603665450097707331436074134500936982495259285714300575425905560700094257693267236296684625087177030011285721164644306049750108891181298437174643934839251587941937308003034090392655271700649971450163721682115225408303324102077361441469066622094695733088363974506290670472312492412895523358640944047694745876071560266515626710191646714648585676361947814890760265059872458472549415405478627680793454110872756463411995277080548822044854991316583338865917201103759368642333192353014542227683258964035963959085717587024844353186671158146249505874749306699685097163602268313596619950879625078117158436714959248732124149066728315636714097804314552255963655479902947200929385206834745548498111707720435020548860899286720424232404673049370870284915259611887139060320803951149717859399899802048947009224109356006569155435060727619002739771804246194109484701378338116398336246328355360556212784182635502056186087918938670971292607505559371840127644273181767521831420491155407758181714380278206847521597392531267776408069287083312680457689566143205149417422873014437567134017252091990806362622574179437569010021859343858041651359036261235948148541842451697086476106237664655564008483683088639522662804705376886403504319732522899030390926919461963296338688804572422595823728086028233310357482702986957735338484663330602539716619017592877830526484379553016755757184994897922497112651972817908656165058324429208142817170717772635429774472616403583497578834329920044161875863799012341485694897489690514348306582116200966377743693245001449673071493231847544044493307060065105566495920396003066447989012460816637291599037067 1817).2.2 = 2028 :=
  ⟨rfl, rfl, rfl⟩

set_option maxRecDepth 4000000 in
set_option maxHeartbeats 16000000 in
/-- Traversal evaluation: iterations 2001 to 2200 of the refinement loop. -/
theorem natChunk11 : (natLoop 200 145554808818251774007447410594555857587873643147371730994305766910849750945983662428767360480347349533252268655401056554615938622376326 35594965702012687094972663518244639467745944815488673374354153685178380502776267507631441814369319506231884456942000064215782642773960103317949673484032074799663969169584029220071693314783658804831978820275980683888549818759988433228517574960083919543220643983053999136348887478801692058533986982110796378281918966081323064698616096579755682672619783431464037680555034012320126755083000614852888774818875569829759734337665905108806785124758814177513387458249473144814382468519891268333899291631519823038998609784813468317693804081020075137917497899884532435026237190267755715035026941423087799663499096024392357371684610335038656448162974808217643805207348357101959443340908588694699453554637617153567528440600824377350049610524063302689162348541933276609086325708191322087843763482705981076082218683678542488823826200636272056541415655111524080212890333522640700997030967908707964199411819891230721749528998844021606325205330109155831770060334855642768982276916522433658351061943054088273593379007019247839617249516557270713510137292343521497433060601216577792855767067910128417307486521509777947180345463205605129582055448842275670564980313251903401921227867726929649084196689180389800753541886336797384587865653647594994904248073982796015946921979469623607426235835644893490475742214710507200976141473630464555530220059745341567896818431074732548390791667103558578988841275290517783388573553554628279607939787073821838613011292987209465443006588505856194417084347307754154041772192532123002015408292841976400273495204139011763833242023258494850013834808041062658045914236973501762974895114908654441375048594366936986660044838341446559787822140642230350699429172104899446443912399943327621594530865748781571967443335112265206733538952760342111253819757587642712882181233053265790407558856954259242395604304090949012674450850076615786724184389487932369969537564935784222216461969131870545711282968661992534702259398210316961757360495521215227808220284582546527751000397821713597951851079419147946419225855746842325806820669677270586389093258214373873581468437475091842860732318885648209126081710722875885572107327035842250001329114694129587265727581271367446068827848978926628487518773054475125006973815719772954641481473752335195962588412782985111665453307810382419125340509366320578395496656785932893617211062105534597037172818902512039812837800181005022103763032420381854479550687775875398565858332125828444408808424272801763167013492717006378441712626161799919503348217176390662908180679449524973325968548094559681109158361342938298777476597394190779547327972870822125639667459071671586395210721211436881187627171199282120914006458304299609028384576395913245100293485814918479665302485670178703133448773058831118854139480961715948032079078571666464456319903577361742820170189650515681353493572863706313134671344171364907947775758211439813320348171559097594259209282602652920771151881286702650986143744529684942509278300423330390613396959232917824662589435023133871311416745686169170989670934502046273324610648991325279758131796006094525016780620495979474075253441161141927513866125929093214587523101207467911410461055366657017610910199169730966019923492311573435798583732031427175564244138845781810847783479601792383028130121796653745588658995836844654689893578026072212064563200820421331389167445736821494721795462652784292714852951528068877766306472244049634361698160099614908989262716114172724682992938218208359282138556548416905214708730307257587528864493088605683165832359303888645804903854980224628257074877657901244057395315077391959992246671700789063944191766894456123890772826867977223823154141534517089928097504878265967623650563687130465626804517851432666459967591446620499438061844128971087289453754134796597751418796836178481169653291378822219049044260388576945197814494397971126731598134254070306979140400988703143818222922785687270603873136422212245148452478241320216153959572031352719181341461056942891601543084897462098477885439907439630255034456675316636997451795964794468143184038429286802696981757534087294271948497292233475321264925935602965167900425277606352150462019865995002113528941633001484550388790245140136377313157715518534812614817685582902978194909022530439220283510683213503104096212798249243540388826556856933491702754817539585222304713017284564987883442149201164168970676238815476627527583193052797425034484809330661070695831042795794297781256720136769874520270483943915816162212493404082342803533069890456979937443066795371345080748522347055962002631705172162959129824308420902641551022698735195552349974835168206415208032891843783656741164925265980016423080324692934183112526290996923130246166341491019207558032833061512960017746537550465631366610861156876803617958045192613926162041269115527692613415495475115865147986842820849285020357366911504053105568974836041479163564479752296889082577485833674257944053212404257215043981959767151983898458722507760703298207024753710971096141343870694159717630949624451626753073842062840148717555888178084097454651557401210531655578879998557469419275677578799720599487656077985220104842398001465151612939990876779953392274084494001342165308891308902531798562964029515982590489367588842019887043022859779759863977485379846073053437077182270086414097140936963800775999676195928909749660984340262576741213612591691839283436226872234868846971593760951194266215648797773546797409601536051066911969707534225115717472851699095173076350644488335288170508664189714315052551242349249070263997420193180560035459596461944758848000484895913925455121928631164918146939736900285009788026056405388469361406641955785233885957031194631608818217533732957831193889914359529510281854178203512492464649999366764615860196527238319160910375818983778909499162467295111686221749073762747512169847897912152906580416999767896036910362299613353445114869200910511783155963808075348760018342271518747119618121873983270076969749507086041771 2028).1 = 9539079950712948261352073500724812682878887077306153762442822740269449277995985300931697737025276413896038678373836198533423404027081090109 ∧ (natLoop 200 145554808818251774007447410594555857587873643147371730994305766910849750945983662428767360480347349533252268655401056554615938622376326 35594965702012687094972663518244639467745944815488673374354153685178380502776267507631441814369319506231884456942000064215782642773960103317949673484032074799663969169584029220071693314783658804831978820275980683888549818759988433228517574960083919543220643983053999136348887478801692058533986982110796378281918966081323064698616096579755682672619783431464037680555034012320126755083000614852888774818875569829759734337665905108806785124758814177513387458249473144814382468519891268333899291631519823038998609784813468317693804081020075137917497899884532435026237190267755715035026941423087799663499096024392357371684610335038656448162974808217643805207348357101959443340908588694699453554637617153567528440600824377350049610524063302689162348541933276609086325708191322087843763482705981076082218683678542488823826200636272056541415655111524080212890333522640700997030967908707964199411819891230721749528998844021606325205330109155831770060334855642768982276916522433658351061943054088273593379007019247839617249516557270713510137292343521497433060601216577792855767067910128417307486521509777947180345463205605129582055448842275670564980313251903401921227867726929649084196689180389800753541886336797384587865653647594994904248073982796015946921979469623607426235835644893490475742214710507200976141473630464555530220059745341567896818431074732548390791667103558578988841275290517783388573553554628279607939787073821838613011292987209465443006588505856194417084347307754154041772192532123002015408292841976400273495204139011763833242023258494850013834808041062658045914236973501762974895114908654441375048594366936986660044838341446559787822140642230350699429172104899446443912399943327621594530865748781571967443335112265206733538952760342111253819757587642712882181233053265790407558856954259242395604304090949012674450850076615786724184389487932369969537564935784222216461969131870545711282968661992534702259398210316961757360495521215227808220284582546527751000397821713597951851079419147946419225855746842325806820669677270586389093258214373873581468437475091842860732318885648209126081710722875885572107327035842250001329114694129587265727581271367446068827848978926628487518773054475125006973815719772954641481473752335195962588412782985111665453307810382419125340509366320578395496656785932893617211062105534597037172818902512039812837800181005022103763032420381854479550687775875398565858332125828444408808424272801763167013492717006378441712626161799919503348217176390662908180679449524973325968548094559681109158361342938298777476597394190779547327972870822125639667459071671586395210721211436881187627171199282120914006458304299609028384576395913245100293485814918479665302485670178703133448773058831118854139480961715948032079078571666464456319903577361742820170189650515681353493572863706313134671344171364907947775758211439813320348171559097594259209282602652920771151881286702650986143744529684942509278300423330390613396959232917824662589435023133871311416745686169170989670934502046273324610648991325279758131796006094525016780620495979474075253441161141927513866125929093214587523101207467911410461055366657017610910199169730966019923492311573435798583732031427175564244138845781810847783479601792383028130121796653745588658995836844654689893578026072212064563200820421331389167445736821494721795462652784292714852951528068877766306472244049634361698160099614908989262716114172724682992938218208359282138556548416905214708730307257587528864493088605683165832359303888645804903854980224628257074877657901244057395315077391959992246671700789063944191766894456123890772826867977223823154141534517089928097504878265967623650563687130465626804517851432666459967591446620499438061844128971087289453754134796597751418796836178481169653291378822219049044260388576945197814494397971126731598134254070306979140400988703143818222922785687270603873136422212245148452478241320216153959572031352719181341461056942891601543084897462098477885439907439630255034456675316636997451795964794468143184038429286802696981757534087294271948497292233475321264925935602965167900425277606352150462019865995002113528941633001484550388790245140136377313157715518534812614817685582902978194909022530439220283510683213503104096212798249243540388826556856933491702754817539585222304713017284564987883442149201164168970676238815476627527583193052797425034484809330661070695831042795794297781256720136769874520270483943915816162212493404082342803533069890456979937443066795371345080748522347055962002631705172162959129824308420902641551022698735195552349974835168206415208032891843783656741164925265980016423080324692934183112526290996923130246166341491019207558032833061512960017746537550465631366610861156876803617958045192613926162041269115527692613415495475115865147986842820849285020357366911504053105568974836041479163564479752296889082577485833674257944053212404257215043981959767151983898458722507760703298207024753710971096141343870694159717630949624451626753073842062840148717555888178084097454651557401210531655578879998557469419275677578799720599487656077985220104842398001465151612939990876779953392274084494001342165308891308902531798562964029515982590489367588842019887043022859779759863977485379846073053437077182270086414097140936963800775999676195928909749660984340262576741213612591691839283436226872234868846971593760951194266215648797773546797409601536051066911969707534225115717472851699095173076350644488335288170508664189714315052551242349249070263997420193180560035459596461944758848000484895913925455121928631164918146939736900285009788026056405388469361406641955785233885957031194631608818217533732957831193889914359529510281854178203512492464649999366764615860196527238319160910375818983778909499162467295111686221749073762747512169847897912152906580416999767896036910362299613353445114869200910511783155963808075348760018342271518747119618121873983270076969749507086041771 2028).2.1 = 35594965702012687094972663518244639467745944815488673374354153685178380502776267803212329809933972166213265340592480582788671656825668480490344134669722396638811304394997413029866514866172484080673865900823802212880095736772344034377501308680661899730979411727976515678132233333292850332448801257337771903018782749560111638928958274815281351771475543167786464730206455612977443470315530003356875740315930199014417055325593417928671547998179803939889633230654281218952971306294887835857857597966042808162819514101491967074513024846957830460970381702799847660848702738456595678698264807939934917306990366340139593991176701710973484254874208887282207861326484947323619802532394807766861869210013030263735819956302231922425613342373720441124350529936341011221475376534146840664538915543609551234460750009596721281968825964418853566663283932817583133689003741665171293940798276377151234224086021647995468968795568312041016002744731428025125436079021476074447845232870644292632830682166472676013215036905127898051334464747582729119407631240536380694230833341055392828605228196707041002067294233008051937796293391273819602078849031782848373393976168832312724188173338571955742204242017290378086360898998140070570077842702348703445643734203600673902978637230873529730251426016354155032193029672265483679054668878874039305261193110749834274065262556760438130918521392568541987515635040448895078217698680578388586392129846210271531368784355743514521811856487400446824739842226765238597468075294414914690195158373842068734836376389663910634707706193939095610652590310960429445527890595361539176945905531079412588296499923742094313785750013275704115405349886665366721814398425780570673330577348661737790655348382495479950874989880143218347744759641777154498884849707742219755895939297757827837233608088612772882751303339624492072621692711078257218972108631423117482212584607048651544055362251435204733930027541417319700529294519322054264381253303449523831678694159450418524822592659659369173031088149301522338066635069153183520514685062223852953755170423383347663691701825499942264449172500205063156838186068139932168131763127652020436271963311371172741102597992859863997088536274981887735041665515068353081446729844277804193300731058400364220652734415014553838076530695107121444257120866068113518627138293613727594699364502002056246529831650306849975542015435548398512438664115489748883312713858138093174003110758423213609601426559896811382236843146350286050502738279933127807753872341689757802927105161463247275686585162367044896311292590325420111184858861793454839100234818920148868954524256908724802745386929023646041958736746301839984626231089978017412414212773800367550285425651967121355719258626475052313185809797625127077209240014756366733325041971769800081793507742056870005646841934573331319064972448042290511689672169812048581020473002734503816811986637287296571283444175872926012008433469446636436769151013590053700204541257248518707654101100425357315255557828217925268189488150115217470685384579463076205693278124082873151705931150171851586362133060445253534015447134086971284867663956378970536022762209608474988140632384693403299557525636319094075419035651663139374086653057856971418249566166391317958479900292735453267991966975247949054422696645297897176897197265969462353120703698005966940401303984696936332246428522565951247948276116993839751472471952111208801486443677498138426170185155293593236654553312141832632740812938826913817681530928060325934552821929185737095420813160108945857662908014125780545339710379808909525876408923979864066992657868581706655275972801762744387667808102170761446387143386682577905948971069688697955396018145315614256155227514977346988886764427921751690856911325794649539191217831766147992714610813771833127486050278538621915601792713144057291623313717071534695379383957578050611281065815694308786955016451204519979500040056361407442816520720950505180766111101627671623353783927598178433190843624761012126976054201844030880811569644039380252511275379298614859631402818627841191798417924462748572065148645423357660940650568584638667507609067166395519687153080716883709885757302413408249942082286124467780545579418305623158159146503399089764797225992608141535579916415305575823490438276221557428660538988418033273952877724707500202410246308500406814983619990324246943139863713810562082220643616525648275325609650925505200036110062124449604545991304811512367966001815090902291657742801926397364633363944407448260438794201881506578682980294962149037779112849856318853185437283604102688262882054801438629062811983869606188826939021443546582335450425946358072120046798639266410535727842866989578494510085766179033392970547498323049623063998030952072227094788048727377211084968655124684154958496393383118340491625705067051821294523199664171389013095694263061924647154612390375676390593869616383665870289791310986601718858181808338213362384014386017985541937876273080622475630934293062755441443432627427530112981515588164076765614704271365610131304841236850197673494973235522522101499684775297724462461852591761608207020825724867543795731048858324744975160007709437656951446091153258601830526053217854765656814551962892436649311702730243753121709103194375889129690324660494349236706617739657954753340574329100180310828324834580651407638338451552030031357421624272224300268957129315871961471350605596741732826878226854080207487907656395228469837226073338772544221706405508198538975642292273820012910688681705495676526929502453982902376156388455259994480978285124625574305390617557726813972166222745578133411299033544612709022397114910433339202440983098909898954579750872847398443817782013040224927317811569334140189589453168720946629776164777221972605199528184565569474846054670096744958439888127494445980703016661029352310457262791221898434870714649314991519638865572361748754427020130166101072252802288318811583303492318500181434006109615528281845600088572587 ∧ (natLoop 200 145554808818251774007447410594555857587873643147371730994305766910849750945983662428767360480347349533252268655401056554615938622376326 35594965702012687094972663518244639467745944815488673374354153685178380502776267507631441814369319506231884456942000064215782642773960103317949673484032074799663969169584029220071693314783658804831978820275980683888549818759988433228517574960083919543220643983053999136348887478801692058533986982110796378281918966081323064698616096579755682672619783431464037680555034012320126755083000614852888774818875569829759734337665905108806785124758814177513387458249473144814382468519891268333899291631519823038998609784813468317693804081020075137917497899884532435026237190267755715035026941423087799663499096024392357371684610335038656448162974808217643805207348357101959443340908588694699453554637617153567528440600824377350049610524063302689162348541933276609086325708191322087843763482705981076082218683678542488823826200636272056541415655111524080212890333522640700997030967908707964199411819891230721749528998844021606325205330109155831770060334855642768982276916522433658351061943054088273593379007019247839617249516557270713510137292343521497433060601216577792855767067910128417307486521509777947180345463205605129582055448842275670564980313251903401921227867726929649084196689180389800753541886336797384587865653647594994904248073982796015946921979469623607426235835644893490475742214710507200976141473630464555530220059745341567896818431074732548390791667103558578988841275290517783388573553554628279607939787073821838613011292987209465443006588505856194417084347307754154041772192532123002015408292841976400273495204139011763833242023258494850013834808041062658045914236973501762974895114908654441375048594366936986660044838341446559787822140642230350699429172104899446443912399943327621594530865748781571967443335112265206733538952760342111253819757587642712882181233053265790407558856954259242395604304090949012674450850076615786724184389487932369969537564935784222216461969131870545711282968661992534702259398210316961757360495521215227808220284582546527751000397821713597951851079419147946419225855746842325806820669677270586389093258214373873581468437475091842860732318885648209126081710722875885572107327035842250001329114694129587265727581271367446068827848978926628487518773054475125006973815719772954641481473752335195962588412782985111665453307810382419125340509366320578395496656785932893617211062105534597037172818902512039812837800181005022103763032420381854479550687775875398565858332125828444408808424272801763167013492717006378441712626161799919503348217176390662908180679449524973325968548094559681109158361342938298777476597394190779547327972870822125639667459071671586395210721211436881187627171199282120914006458304299609028384576395913245100293485814918479665302485670178703133448773058831118854139480961715948032079078571666464456319903577361742820170189650515681353493572863706313134671344171364907947775758211439813320348171559097594259209282602652920771151881286702650986143744529684942509278300423330390613396959232917824662589435023133871311416745686169170989670934502046273324610648991325279758131796006094525016780620495979474075253441161141927513866125929093214587523101207467911410461055366657017610910199169730966019923492311573435798583732031427175564244138845781810847783479601792383028130121796653745588658995836844654689893578026072212064563200820421331389167445736821494721795462652784292714852951528068877766306472244049634361698160099614908989262716114172724682992938218208359282138556548416905214708730307257587528864493088605683165832359303888645804903854980224628257074877657901244057395315077391959992246671700789063944191766894456123890772826867977223823154141534517089928097504878265967623650563687130465626804517851432666459967591446620499438061844128971087289453754134796597751418796836178481169653291378822219049044260388576945197814494397971126731598134254070306979140400988703143818222922785687270603873136422212245148452478241320216153959572031352719181341461056942891601543084897462098477885439907439630255034456675316636997451795964794468143184038429286802696981757534087294271948497292233475321264925935602965167900425277606352150462019865995002113528941633001484550388790245140136377313157715518534812614817685582902978194909022530439220283510683213503104096212798249243540388826556856933491702754817539585222304713017284564987883442149201164168970676238815476627527583193052797425034484809330661070695831042795794297781256720136769874520270483943915816162212493404082342803533069890456979937443066795371345080748522347055962002631705172162959129824308420902641551022698735195552349974835168206415208032891843783656741164925265980016423080324692934183112526290996923130246166341491019207558032833061512960017746537550465631366610861156876803617958045192613926162041269115527692613415495475115865147986842820849285020357366911504053105568974836041479163564479752296889082577485833674257944053212404257215043981959767151983898458722507760703298207024753710971096141343870694159717630949624451626753073842062840148717555888178084097454651557401210531655578879998557469419275677578799720599487656077985220104842398001465151612939990876779953392274084494001342165308891308902531798562964029515982590489367588842019887043022859779759863977485379846073053437077182270086414097140936963800775999676195928909749660984340262576741213612591691839283436226872234868846971593760951194266215648797773546797409601536051066911969707534225115717472851699095173076350644488335288170508664189714315052551242349249070263997420193180560035459596461944758848000484895913925455121928631164918146939736900285009788026056405388469361406641955785233885957031194631608818217533732957831193889914359529510281854178203512492464649999366764615860196527238319160910375818983778909499162467295111686221749073762747512169847897912152906580416999767896036910362299613353445114869200910511783155963808075348760018342271518747119618121873983270076969749507086041771 2028).2.2 = 2229 :=
  ⟨rfl, rfl, rfl⟩

set_option maxRecDepth 4000000 in
set_option maxHeartbeats 16000000 in
/-- Traversal evaluation: iterations 2201 to 2400 of the refinement loop. -/
theorem natChunk12 : (natLoop 200 9539079950712948261352073500724812682878887077306153762442822740269449277995985300931697737025276413896038678373836198533423404027081090109 35594965702012687094972663518244639467745944815488673374354153685178380502776267803212329809933972166213265340592480582788671656825668480490344134669722396638811304394997413029866514866172484080673865900823802212880095736772344034377501308680661899730979411727976515678132233333292850332448801257337771903018782749560111638928958274815281351771475543167786464730206455612977443470315530003356875740315930199014417055325593417928671547998179803939889633230654281218952971306294887835857857597966042808162819514101491967074513024846957830460970381702799847660848702738456595678698264807939934917306990366340139593991176701710973484254874208887282207861326484947323619802532394807766861869210013030263735819956302231922425613342373720441124350529936341011221475376534146840664538915543609551234460750009596721281968825964418853566663283932817583133689003741665171293940798276377151234224086021647995468968795568312041016002744731428025125436079021476074447845232870644292632830682166472676013215036905127898051334464747582729119407631240536380694230833341055392828605228196707041002067294233008051937796293391273819602078849031782848373393976168832312724188173338571955742204242017290378086360898998140070570077842702348703445643734203600673902978637230873529730251426016354155032193029672265483679054668878874039305261193110749834274065262556760438130918521392568541987515635040448895078217698680578388586392129846210271531368784355743514521811856487400446824739842226765238597468075294414914690195158373842068734836376389663910634707706193939095610652590310960429445527890595361539176945905531079412588296499923742094313785750013275704115405349886665366721814398425780570673330577348661737790655348382495479950874989880143218347744759641777154498884849707742219755895939297757827837233608088612772882751303339624492072621692711078257218972108631423117482212584607048651544055362251435204733930027541417319700529294519322054264381253303449523831678694159450418524822592659659369173031088149301522338066635069153183520514685062223852953755170423383347663691701825499942264449172500205063156838186068139932168131763127652020436271963311371172741102597992859863997088536274981887735041665515068353081446729844277804193300731058400364220652734415014553838076530695107121444257120866068113518627138293613727594699364502002056246529831650306849975542015435548398512438664115489748883312713858138093174003110758423213609601426559896811382236843146350286050502738279933127807753872341689757802927105161463247275686585162367044896311292590325420111184858861793454839100234818920148868954524256908724802745386929023646041958736746301839984626231089978017412414212773800367550285425651967121355719258626475052313185809797625127077209240014756366733325041971769800081793507742056870005646841934573331319064972448042290511689672169812048581020473002734503816811986637287296571283444175872926012008433469446636436769151013590053700204541257248518707654101100425357315255557828217925268189488150115217470685384579463076205693278124082873151705931150171851586362133060445253534015447134086971284867663956378970536022762209608474988140632384693403299557525636319094075419035651663139374086653057856971418249566166391317958479900292735453267991966975247949054422696645297897176897197265969462353120703698005966940401303984696936332246428522565951247948276116993839751472471952111208801486443677498138426170185155293593236654553312141832632740812938826913817681530928060325934552821929185737095420813160108945857662908014125780545339710379808909525876408923979864066992657868581706655275972801762744387667808102170761446387143386682577905948971069688697955396018145315614256155227514977346988886764427921751690856911325794649539191217831766147992714610813771833127486050278538621915601792713144057291623313717071534695379383957578050611281065815694308786955016451204519979500040056361407442816520720950505180766111101627671623353783927598178433190843624761012126976054201844030880811569644039380252511275379298614859631402818627841191798417924462748572065148645423357660940650568584638667507609067166395519687153080716883709885757302413408249942082286124467780545579418305623158159146503399089764797225992608141535579916415305575823490438276221557428660538988418033273952877724707500202410246308500406814983619990324246943139863713810562082220643616525648275325609650925505200036110062124449604545991304811512367966001815090902291657742801926397364633363944407448260438794201881506578682980294962149037779112849856318853185437283604102688262882054801438629062811983869606188826939021443546582335450425946358072120046798639266410535727842866989578494510085766179033392970547498323049623063998030952072227094788048727377211084968655124684154958496393383118340491625705067051821294523199664171389013095694263061924647154612390375676390593869616383665870289791310986601718858181808338213362384014386017985541937876273080622475630934293062755441443432627427530112981515588164076765614704271365610131304841236850197673494973235522522101499684775297724462461852591761608207020825724867543795731048858324744975160007709437656951446091153258601830526053217854765656814551962892436649311702730243753121709103194375889129690324660494349236706617739657954753340574329100180310828324834580651407638338451552030031357421624272224300268957129315871961471350605596741732826878226854080207487907656395228469837226073338772544221706405508198538975642292273820012910688681705495676526929502453982902376156388455259994480978285124625574305390617557726813972166222745578133411299033544612709022397114910433339202440983098909898954579750872847398443817782013040224927317811569334140189589453168720946629776164777221972605199528184565569474846054670096744958439888127494445980703016661029352310457262791221898434870714649314991519638865572361748754427020130166101072252802288318811583303492318500181434006109615528281845600088572587 2229).1 = 2220990124790218719596060342324155541807153978689143844517605085919948592315424537157009128418284967255422738715576138220096915723 ∧ (natLoop 200 9539079950712948261352073500724812682878887077306153762442822740269449277995985300931697737025276413896038678373836198533423404027081090109 35594965702012687094972663518244639467745944815488673374354153685178380502776267803212329809933972166213265340592480582788671656825668480490344134669722396638811304394997413029866514866172484080673865900823802212880095736772344034377501308680661899730979411727976515678132233333292850332448801257337771903018782749560111638928958274815281351771475543167786464730206455612977443470315530003356875740315930199014417055325593417928671547998179803939889633230654281218952971306294887835857857597966042808162819514101491967074513024846957830460970381702799847660848702738456595678698264807939934917306990366340139593991176701710973484254874208887282207861326484947323619802532394807766861869210013030263735819956302231922425613342373720441124350529936341011221475376534146840664538915543609551234460750009596721281968825964418853566663283932817583133689003741665171293940798276377151234224086021647995468968795568312041016002744731428025125436079021476074447845232870644292632830682166472676013215036905127898051334464747582729119407631240536380694230833341055392828605228196707041002067294233008051937796293391273819602078849031782848373393976168832312724188173338571955742204242017290378086360898998140070570077842702348703445643734203600673902978637230873529730251426016354155032193029672265483679054668878874039305261193110749834274065262556760438130918521392568541987515635040448895078217698680578388586392129846210271531368784355743514521811856487400446824739842226765238597468075294414914690195158373842068734836376389663910634707706193939095610652590310960429445527890595361539176945905531079412588296499923742094313785750013275704115405349886665366721814398425780570673330577348661737790655348382495479950874989880143218347744759641777154498884849707742219755895939297757827837233608088612772882751303339624492072621692711078257218972108631423117482212584607048651544055362251435204733930027541417319700529294519322054264381253303449523831678694159450418524822592659659369173031088149301522338066635069153183520514685062223852953755170423383347663691701825499942264449172500205063156838186068139932168131763127652020436271963311371172741102597992859863997088536274981887735041665515068353081446729844277804193300731058400364220652734415014553838076530695107121444257120866068113518627138293613727594699364502002056246529831650306849975542015435548398512438664115489748883312713858138093174003110758423213609601426559896811382236843146350286050502738279933127807753872341689757802927105161463247275686585162367044896311292590325420111184858861793454839100234818920148868954524256908724802745386929023646041958736746301839984626231089978017412414212773800367550285425651967121355719258626475052313185809797625127077209240014756366733325041971769800081793507742056870005646841934573331319064972448042290511689672169812048581020473002734503816811986637287296571283444175872926012008433469446636436769151013590053700204541257248518707654101100425357315255557828217925268189488150115217470685384579463076205693278124082873151705931150171851586362133060445253534015447134086971284867663956378970536022762209608474988140632384693403299557525636319094075419035651663139374086653057856971418249566166391317958479900292735453267991966975247949054422696645297897176897197265969462353120703698005966940401303984696936332246428522565951247948276116993839751472471952111208801486443677498138426170185155293593236654553312141832632740812938826913817681530928060325934552821929185737095420813160108945857662908014125780545339710379808909525876408923979864066992657868581706655275972801762744387667808102170761446387143386682577905948971069688697955396018145315614256155227514977346988886764427921751690856911325794649539191217831766147992714610813771833127486050278538621915601792713144057291623313717071534695379383957578050611281065815694308786955016451204519979500040056361407442816520720950505180766111101627671623353783927598178433190843624761012126976054201844030880811569644039380252511275379298614859631402818627841191798417924462748572065148645423357660940650568584638667507609067166395519687153080716883709885757302413408249942082286124467780545579418305623158159146503399089764797225992608141535579916415305575823490438276221557428660538988418033273952877724707500202410246308500406814983619990324246943139863713810562082220643616525648275325609650925505200036110062124449604545991304811512367966001815090902291657742801926397364633363944407448260438794201881506578682980294962149037779112849856318853185437283604102688262882054801438629062811983869606188826939021443546582335450425946358072120046798639266410535727842866989578494510085766179033392970547498323049623063998030952072227094788048727377211084968655124684154958496393383118340491625705067051821294523199664171389013095694263061924647154612390375676390593869616383665870289791310986601718858181808338213362384014386017985541937876273080622475630934293062755441443432627427530112981515588164076765614704271365610131304841236850197673494973235522522101499684775297724462461852591761608207020825724867543795731048858324744975160007709437656951446091153258601830526053217854765656814551962892436649311702730243753121709103194375889129690324660494349236706617739657954753340574329100180310828324834580651407638338451552030031357421624272224300268957129315871961471350605596741732826878226854080207487907656395228469837226073338772544221706405508198538975642292273820012910688681705495676526929502453982902376156388455259994480978285124625574305390617557726813972166222745578133411299033544612709022397114910433339202440983098909898954579750872847398443817782013040224927317811569334140189589453168720946629776164777221972605199528184565569474846054670096744958439888127494445980703016661029352310457262791221898434870714649314991519638865572361748754427020130166101072252802288318811583303492318500181434006109615528281845600088572587 2229).2.1 = 35594965702012687094972663518244639467745944815488673374354153685178380502776267803212329809933972166213265340592480582788671656825668480490344134669722396638811304394997413029866514866172484080673865900823802212880095737160171336197592595531787693128124851442017793672437484134362129195338056664993091350590950016325968106316918914593374963991863840263759523766864913459300771195958174357750423894701772398515227431650696116305840910037856580965569943723186784320770213003835008290920729023641057482374266255190836087599308222598616199685007601445672569787983922562883842480005268521396887582462558498245652693848046697800458080402657659713775295503549581481360930401265467230415868010439881002607699824847156286493827343257221911204619500112754389661160780762076931671493085578500759300590710210470689656445426237047460557089097522094296553479405577285974797418442266707913147931951642921160198936355236383871622967498952201680287135444169846969699602725199367647333860699834495274636464892570459887461996846326624008871265585072982800728555902832255756203352531070358817710896200130348886101963044520576884713116855140941440726177057274867239065694165461755023449381985901570461070309629099464623378226714135463772764164388860851941342901988667846996550955520554918918881190903256318566793719451556902341570929042414870140304213549563302838917866795013130183508179413905987654002280610606822490943049852593103119304598525727490900502793508669397650859625813070898995210672831218027168773696958497846434604133996698625745090641905732199938116587624183551367867077096359884135366978675268725461197584861425151525541666187682829730129055214318852705761264553391581488278588227787832480003565153421857834904355388488344574280963845642184454968278208634730858828676801228658081996364205934395381360738028625618060510511906001790164241672381339543352719439348033945825414517024499713675568545128182718542002766740121550968478480667043218166329029214844676932414030944696379891200254631875084139469391558559545664294701741819817635984065870435433239894649046793647459894040182119634344835160363900851229703879133266164088030207385048491770106564389161242401585421695459377548225985235179414351432690181681816106093349012048893312681863691064433101945851687715054662517769164065067352194581400298222216545243797874280518327617593673441181095034205324261213224841294927197202237868703453971794195881955426571317931528620701783106411884100956599451504628156878858709368346535135402616636602535931047853002521014702915800179680790791088413195597780338865965286119359051797137842036660123421921170554546607685159759834614192363848269551085667759625457158786044789625291809307910930016543182093406480239801689475113694000078859582683940763281297600279097604352032994225555867849224788723954112852057074372382679533925265581632081169230131670601070912881024928815618066129722556791819757726155880413449039815733755411781995743554042146667212169724845805029310301250757580250095471962560024712627946169162557523930627060002907805419313928331828458765400988239498262578431399566177512163524126083876749623988284169306319837220001497138326853738841827678322160788763254383747236764710132118004821926347105951913570884394482147595620692831577256429275261320968652841587422451783355053442764864394677542541709000287799447229970378447970877218125766293693516149430177764972288052278652832317827738816754377646619776915117933137686959388568986858212681662710587172129063145529940847390397831502620000411037294335337458818632019989403473384290457158124457721703174155830051203925258360868162255761103007042908209889185494193835748904662358311117566620210843885753494053166103900653557791708700557248206623045412950934229531690125202511132368066848421504899152658307820938934339006991267205763625012545771740193932411387248398874612882452666807787149566573813056898613772177829524468516995599614437565444244788330796268954975936112025022386443714759995603798360813418006087512226079549058397730063693155231428213209501963122123116959657812874679262052108768383949012844370123119521251194615763901204933404589724535560984398460768950103534594467033822317942572618617823419507558480749179349003195439069745451246274557936209633262318475941429422924547816324947237570932663646731780608207332853970624461251685876361844904789506689450993339411114732676412977628265879420834666582518830158766352760843818524827310700539644534564321785761214776842716948151719439130067300865598255471913043412251011475711144113593974867343414403680321826554662633780799607954291105298057474657159733508726786783197372314729927325605344600588972330099943930821738653700627183096710705279949219420397664979663144150760573183980935555597296166694234735280879365255775348523377016735920402388763384094304270173977044258119619258270969981409275662136319200588779741228801755239753858818571941458893314645623910048602548608331821414243730472014595294758047305090561748270935855833870976543505835498565713701354205311920566907345785621970812334157331462970525857461484070011150166359316223941516070246277331594558111298078142207516771834712523869680663665843836855524912455526614487685182505003392247540242171618740091688144208511825497257685464150979150034870165413181917266742296385981013975036749824700464473765641943772161925958876786878350911128677755881349480109346651628164137599466649513765899239545738624607509014789289344756783538675477838249549083465226046148105462581195095860563594150135693368575715626581746487013909329643965497370827935196176425193269972492114584889072365170747431082243411822459440277626240836326743855919619719731991614565134323177569711017791515432284748818948642327779951835781043618051557460566793298219513539600631150462945237940376882484801092822204225240479411333783500435994103752373746781169271096659521233598631955515130518713519299884002284267560951442554407716668383685036162742940985731924651 ∧ (natLoop 200 9539079950712948261352073500724812682878887077306153762442822740269449277995985300931697737025276413896038678373836198533423404027081090109 35594965702012687094972663518244639467745944815488673374354153685178380502776267803212329809933972166213265340592480582788671656825668480490344134669722396638811304394997413029866514866172484080673865900823802212880095736772344034377501308680661899730979411727976515678132233333292850332448801257337771903018782749560111638928958274815281351771475543167786464730206455612977443470315530003356875740315930199014417055325593417928671547998179803939889633230654281218952971306294887835857857597966042808162819514101491967074513024846957830460970381702799847660848702738456595678698264807939934917306990366340139593991176701710973484254874208887282207861326484947323619802532394807766861869210013030263735819956302231922425613342373720441124350529936341011221475376534146840664538915543609551234460750009596721281968825964418853566663283932817583133689003741665171293940798276377151234224086021647995468968795568312041016002744731428025125436079021476074447845232870644292632830682166472676013215036905127898051334464747582729119407631240536380694230833341055392828605228196707041002067294233008051937796293391273819602078849031782848373393976168832312724188173338571955742204242017290378086360898998140070570077842702348703445643734203600673902978637230873529730251426016354155032193029672265483679054668878874039305261193110749834274065262556760438130918521392568541987515635040448895078217698680578388586392129846210271531368784355743514521811856487400446824739842226765238597468075294414914690195158373842068734836376389663910634707706193939095610652590310960429445527890595361539176945905531079412588296499923742094313785750013275704115405349886665366721814398425780570673330577348661737790655348382495479950874989880143218347744759641777154498884849707742219755895939297757827837233608088612772882751303339624492072621692711078257218972108631423117482212584607048651544055362251435204733930027541417319700529294519322054264381253303449523831678694159450418524822592659659369173031088149301522338066635069153183520514685062223852953755170423383347663691701825499942264449172500205063156838186068139932168131763127652020436271963311371172741102597992859863997088536274981887735041665515068353081446729844277804193300731058400364220652734415014553838076530695107121444257120866068113518627138293613727594699364502002056246529831650306849975542015435548398512438664115489748883312713858138093174003110758423213609601426559896811382236843146350286050502738279933127807753872341689757802927105161463247275686585162367044896311292590325420111184858861793454839100234818920148868954524256908724802745386929023646041958736746301839984626231089978017412414212773800367550285425651967121355719258626475052313185809797625127077209240014756366733325041971769800081793507742056870005646841934573331319064972448042290511689672169812048581020473002734503816811986637287296571283444175872926012008433469446636436769151013590053700204541257248518707654101100425357315255557828217925268189488150115217470685384579463076205693278124082873151705931150171851586362133060445253534015447134086971284867663956378970536022762209608474988140632384693403299557525636319094075419035651663139374086653057856971418249566166391317958479900292735453267991966975247949054422696645297897176897197265969462353120703698005966940401303984696936332246428522565951247948276116993839751472471952111208801486443677498138426170185155293593236654553312141832632740812938826913817681530928060325934552821929185737095420813160108945857662908014125780545339710379808909525876408923979864066992657868581706655275972801762744387667808102170761446387143386682577905948971069688697955396018145315614256155227514977346988886764427921751690856911325794649539191217831766147992714610813771833127486050278538621915601792713144057291623313717071534695379383957578050611281065815694308786955016451204519979500040056361407442816520720950505180766111101627671623353783927598178433190843624761012126976054201844030880811569644039380252511275379298614859631402818627841191798417924462748572065148645423357660940650568584638667507609067166395519687153080716883709885757302413408249942082286124467780545579418305623158159146503399089764797225992608141535579916415305575823490438276221557428660538988418033273952877724707500202410246308500406814983619990324246943139863713810562082220643616525648275325609650925505200036110062124449604545991304811512367966001815090902291657742801926397364633363944407448260438794201881506578682980294962149037779112849856318853185437283604102688262882054801438629062811983869606188826939021443546582335450425946358072120046798639266410535727842866989578494510085766179033392970547498323049623063998030952072227094788048727377211084968655124684154958496393383118340491625705067051821294523199664171389013095694263061924647154612390375676390593869616383665870289791310986601718858181808338213362384014386017985541937876273080622475630934293062755441443432627427530112981515588164076765614704271365610131304841236850197673494973235522522101499684775297724462461852591761608207020825724867543795731048858324744975160007709437656951446091153258601830526053217854765656814551962892436649311702730243753121709103194375889129690324660494349236706617739657954753340574329100180310828324834580651407638338451552030031357421624272224300268957129315871961471350605596741732826878226854080207487907656395228469837226073338772544221706405508198538975642292273820012910688681705495676526929502453982902376156388455259994480978285124625574305390617557726813972166222745578133411299033544612709022397114910433339202440983098909898954579750872847398443817782013040224927317811569334140189589453168720946629776164777221972605199528184565569474846054670096744958439888127494445980703016661029352310457262791221898434870714649314991519638865572361748754427020130166101072252802288318811583303492318500181434006109615528281845600088572587 2229).2.2 = 2427 :=
  ⟨rfl, rfl, rfl⟩

set_option maxRecDepth 4000000 in
set_option maxHeartbeats 16000000 in
/-- Traversal evaluation: iterations 2401 to 2600 of the refinement loop. -/
theorem natChunk13 : (natLoop 200 2220990124790218719596060342324155541807153978689143844517605085919948592315424537157009128418284967255422738715576138220096915723 35594965702012687094972663518244639467745944815488673374354153685178380502776267803212329809933972166213265340592480582788671656825668480490344134669722396638811304394997413029866514866172484080673865900823802212880095737160171336197592595531787693128124851442017793672437484134362129195338056664993091350590950016325968106316918914593374963991863840263759523766864913459300771195958174357750423894701772398515227431650696116305840910037856580965569943723186784320770213003835008290920729023641057482374266255190836087599308222598616199685007601445672569787983922562883842480005268521396887582462558498245652693848046697800458080402657659713775295503549581481360930401265467230415868010439881002607699824847156286493827343257221911204619500112754389661160780762076931671493085578500759300590710210470689656445426237047460557089097522094296553479405577285974797418442266707913147931951642921160198936355236383871622967498952201680287135444169846969699602725199367647333860699834495274636464892570459887461996846326624008871265585072982800728555902832255756203352531070358817710896200130348886101963044520576884713116855140941440726177057274867239065694165461755023449381985901570461070309629099464623378226714135463772764164388860851941342901988667846996550955520554918918881190903256318566793719451556902341570929042414870140304213549563302838917866795013130183508179413905987654002280610606822490943049852593103119304598525727490900502793508669397650859625813070898995210672831218027168773696958497846434604133996698625745090641905732199938116587624183551367867077096359884135366978675268725461197584861425151525541666187682829730129055214318852705761264553391581488278588227787832480003565153421857834904355388488344574280963845642184454968278208634730858828676801228658081996364205934395381360738028625618060510511906001790164241672381339543352719439348033945825414517024499713675568545128182718542002766740121550968478480667043218166329029214844676932414030944696379891200254631875084139469391558559545664294701741819817635984065870435433239894649046793647459894040182119634344835160363900851229703879133266164088030207385048491770106564389161242401585421695459377548225985235179414351432690181681816106093349012048893312681863691064433101945851687715054662517769164065067352194581400298222216545243797874280518327617593673441181095034205324261213224841294927197202237868703453971794195881955426571317931528620701783106411884100956599451504628156878858709368346535135402616636602535931047853002521014702915800179680790791088413195597780338865965286119359051797137842036660123421921170554546607685159759834614192363848269551085667759625457158786044789625291809307910930016543182093406480239801689475113694000078859582683940763281297600279097604352032994225555867849224788723954112852057074372382679533925265581632081169230131670601070912881024928815618066129722556791819757726155880413449039815733755411781995743554042146667212169724845805029310301250757580250095471962560024712627946169162557523930627060002907805419313928331828458765400988239498262578431399566177512163524126083876749623988284169306319837220001497138326853738841827678322160788763254383747236764710132118004821926347105951913570884394482147595620692831577256429275261320968652841587422451783355053442764864394677542541709000287799447229970378447970877218125766293693516149430177764972288052278652832317827738816754377646619776915117933137686959388568986858212681662710587172129063145529940847390397831502620000411037294335337458818632019989403473384290457158124457721703174155830051203925258360868162255761103007042908209889185494193835748904662358311117566620210843885753494053166103900653557791708700557248206623045412950934229531690125202511132368066848421504899152658307820938934339006991267205763625012545771740193932411387248398874612882452666807787149566573813056898613772177829524468516995599614437565444244788330796268954975936112025022386443714759995603798360813418006087512226079549058397730063693155231428213209501963122123116959657812874679262052108768383949012844370123119521251194615763901204933404589724535560984398460768950103534594467033822317942572618617823419507558480749179349003195439069745451246274557936209633262318475941429422924547816324947237570932663646731780608207332853970624461251685876361844904789506689450993339411114732676412977628265879420834666582518830158766352760843818524827310700539644534564321785761214776842716948151719439130067300865598255471913043412251011475711144113593974867343414403680321826554662633780799607954291105298057474657159733508726786783197372314729927325605344600588972330099943930821738653700627183096710705279949219420397664979663144150760573183980935555597296166694234735280879365255775348523377016735920402388763384094304270173977044258119619258270969981409275662136319200588779741228801755239753858818571941458893314645623910048602548608331821414243730472014595294758047305090561748270935855833870976543505835498565713701354205311920566907345785621970812334157331462970525857461484070011150166359316223941516070246277331594558111298078142207516771834712523869680663665843836855524912455526614487685182505003392247540242171618740091688144208511825497257685464150979150034870165413181917266742296385981013975036749824700464473765641943772161925958876786878350911128677755881349480109346651628164137599466649513765899239545738624607509014789289344756783538675477838249549083465226046148105462581195095860563594150135693368575715626581746487013909329643965497370827935196176425193269972492114584889072365170747431082243411822459440277626240836326743855919619719731991614565134323177569711017791515432284748818948642327779951835781043618051557460566793298219513539600631150462945237940376882484801092822204225240479411333783500435994103752373746781169271096659521233598631955515130518713519299884002284267560951442554407716668383685036162742940985731924651 2427).1 = 517114560303794853295213622582181250165950967625049837985449724671985711262564159464795763426787536725368311100140629651 ∧ (natLoop 200 2220990124790218719596060342324155541807153978689143844517605085919948592315424537157009128418284967255422738715576138220096915723 35594965702012687094972663518244639467745944815488673374354153685178380502776267803212329809933972166213265340592480582788671656825668480490344134669722396638811304394997413029866514866172484080673865900823802212880095737160171336197592595531787693128124851442017793672437484134362129195338056664993091350590950016325968106316918914593374963991863840263759523766864913459300771195958174357750423894701772398515227431650696116305840910037856580965569943723186784320770213003835008290920729023641057482374266255190836087599308222598616199685007601445672569787983922562883842480005268521396887582462558498245652693848046697800458080402657659713775295503549581481360930401265467230415868010439881002607699824847156286493827343257221911204619500112754389661160780762076931671493085578500759300590710210470689656445426237047460557089097522094296553479405577285974797418442266707913147931951642921160198936355236383871622967498952201680287135444169846969699602725199367647333860699834495274636464892570459887461996846326624008871265585072982800728555902832255756203352531070358817710896200130348886101963044520576884713116855140941440726177057274867239065694165461755023449381985901570461070309629099464623378226714135463772764164388860851941342901988667846996550955520554918918881190903256318566793719451556902341570929042414870140304213549563302838917866795013130183508179413905987654002280610606822490943049852593103119304598525727490900502793508669397650859625813070898995210672831218027168773696958497846434604133996698625745090641905732199938116587624183551367867077096359884135366978675268725461197584861425151525541666187682829730129055214318852705761264553391581488278588227787832480003565153421857834904355388488344574280963845642184454968278208634730858828676801228658081996364205934395381360738028625618060510511906001790164241672381339543352719439348033945825414517024499713675568545128182718542002766740121550968478480667043218166329029214844676932414030944696379891200254631875084139469391558559545664294701741819817635984065870435433239894649046793647459894040182119634344835160363900851229703879133266164088030207385048491770106564389161242401585421695459377548225985235179414351432690181681816106093349012048893312681863691064433101945851687715054662517769164065067352194581400298222216545243797874280518327617593673441181095034205324261213224841294927197202237868703453971794195881955426571317931528620701783106411884100956599451504628156878858709368346535135402616636602535931047853002521014702915800179680790791088413195597780338865965286119359051797137842036660123421921170554546607685159759834614192363848269551085667759625457158786044789625291809307910930016543182093406480239801689475113694000078859582683940763281297600279097604352032994225555867849224788723954112852057074372382679533925265581632081169230131670601070912881024928815618066129722556791819757726155880413449039815733755411781995743554042146667212169724845805029310301250757580250095471962560024712627946169162557523930627060002907805419313928331828458765400988239498262578431399566177512163524126083876749623988284169306319837220001497138326853738841827678322160788763254383747236764710132118004821926347105951913570884394482147595620692831577256429275261320968652841587422451783355053442764864394677542541709000287799447229970378447970877218125766293693516149430177764972288052278652832317827738816754377646619776915117933137686959388568986858212681662710587172129063145529940847390397831502620000411037294335337458818632019989403473384290457158124457721703174155830051203925258360868162255761103007042908209889185494193835748904662358311117566620210843885753494053166103900653557791708700557248206623045412950934229531690125202511132368066848421504899152658307820938934339006991267205763625012545771740193932411387248398874612882452666807787149566573813056898613772177829524468516995599614437565444244788330796268954975936112025022386443714759995603798360813418006087512226079549058397730063693155231428213209501963122123116959657812874679262052108768383949012844370123119521251194615763901204933404589724535560984398460768950103534594467033822317942572618617823419507558480749179349003195439069745451246274557936209633262318475941429422924547816324947237570932663646731780608207332853970624461251685876361844904789506689450993339411114732676412977628265879420834666582518830158766352760843818524827310700539644534564321785761214776842716948151719439130067300865598255471913043412251011475711144113593974867343414403680321826554662633780799607954291105298057474657159733508726786783197372314729927325605344600588972330099943930821738653700627183096710705279949219420397664979663144150760573183980935555597296166694234735280879365255775348523377016735920402388763384094304270173977044258119619258270969981409275662136319200588779741228801755239753858818571941458893314645623910048602548608331821414243730472014595294758047305090561748270935855833870976543505835498565713701354205311920566907345785621970812334157331462970525857461484070011150166359316223941516070246277331594558111298078142207516771834712523869680663665843836855524912455526614487685182505003392247540242171618740091688144208511825497257685464150979150034870165413181917266742296385981013975036749824700464473765641943772161925958876786878350911128677755881349480109346651628164137599466649513765899239545738624607509014789289344756783538675477838249549083465226046148105462581195095860563594150135693368575715626581746487013909329643965497370827935196176425193269972492114584889072365170747431082243411822459440277626240836326743855919619719731991614565134323177569711017791515432284748818948642327779951835781043618051557460566793298219513539600631150462945237940376882484801092822204225240479411333783500435994103752373746781169271096659521233598631955515130518713519299884002284267560951442554407716668383685036162742940985731924651 2427).2.1 = 35594965702012687094972663518244639467745944815488673374354153685178380502776267803212329809933972166213265340592480582788671656825668480490344134669722396638811304394997413029866514866172484080673865900823802212880121153810223417700167670911783768451661950851212428461353983010621446160058009442730589224873400263479348476919537928427294857717451164390298269956159367906399010631063124581436662751674551386522573450892215582436060167708323330536168843933305996858307482999001525924782373096616534762504000952277468908051442357064442474774942587571009175029111780567686471616824876798432439010325132361203204633180435762513984674954930323822177567908073942579534603697665539926733252204329875153593011004479067215370786206264049531064378343276599577758009440670825987073135772907503448877712872565655323427109809935044646837257138006856563222718785813655334877435482544841399852605265036620658582328602980776879159029771603725281275853889174389736033544805745116362319382702945310653388888521535121989230094000388749065281655660378488306017633974680039611064363546701352070470873550841297926484333793971310950103433960793219597617987697752638884170766990872447545713758545567697845315231033808711908909713100025695729348248897054083740160926197866323165663526477665915032930385656181854879662221264230453961289291214404498903701716665360546944497803284748252853485112393049911995852543769982166355837725689966375961327153550054623570718141175748439975459384101536568473483545259196761819513611890539972152396851046028288793440047347182987253013893224077969184067507756511553472538668657477114557324162692386804366542847397366692383703529603173048328166246336342338634998660967629178610114481594930739570457323003521642867169147328308548752446728192928320395363400480941225039579224505936120447205967788768324375794505356052353945559719830324154965564247638522853182084072369074970250951270660046105995558255146269242966309750633124436147535118495179712302390050817296230006496652248866245516384442036341846070998119238762203648947018364286519087695059876633953105702806853598446276041408751124087672602937467429136834403598185951538096918426572037777989428013759779757575310030859232805870097703327809110216732856018018964220029712543897197033037673634821117902094535888662715990000709226926676506424736162734810177475061629002901093172127791518210260856281933276478494771375722525944221734246002465491665259208066360540257235116047139622093913354638167421895589829844435551252512017511008386612170115952474798195956185585118475144410648067242668889752916100790530974417203258270926154069704953491236320387473462663647174609361373679849904718204932153768532607999212585720876801709752107195733202639934556824338105772868280771417507921744557220411447162881798710016217048993062071979213612352193278218463027627845505582312220110177497188958843372945166693830859176580223636074944907033060639059143971924442505776504565202997451388826654481472285979658918092054171056645603645819700153418031026194308948809265534785015711167933541360692239752521812158256363816725575679999995879479801583585064808882116400056813457246146630285387576194311337316686814474412512637369974278484087582917916566091671336143953209763353560910509508256707535574689173250772799389859646351932804139027101113626325971174212039740234381270251802278565737887584725916869630861352969677353414013299248493509191297071143880590558526487478582364259985428945279041883836022158769144137809702455768888865145879887985318588365730043542907059459535275038833040743955247118824907458569944900498424166610769395279353867932501494427046020319945955193018673670953462159574170772515554690406197652905877099451537505485208394712958842794428799669341476270026690465620927904600911670612677270394471695794956399998138215465004531260870864134592961673719263131560865094565405935082042378701265887487805821101509426754906534216543069646845545784047582528085738762143466324412018957214441064574775077547417336551784037421702591454229081731632454489491954799817725208007657860881850608177393371400343708246033388944206795645860299201470779043737690630548618146484569651616496608461637494689213643271556261664235460776170535657606430338838661639612326138082255651714260562871871310836820988036293358132368492665200483519473906005603928682901381350145856237954104204194963889827116105194889792083675734845199925661749882864083538705658178049443726104269035706631329331669484902293768999257981416340073066918372130181158855356519869186742202700403253369975444190392372792378700947175695842114454129438589649044057593796237377433463709863471965667696065725914917152935511144860278984359360648689772942528269811357355130274559802519312291021029679434739613641445132405316200779586581702963433580334879348429549191820909868275105056239870934486022095309546397558766988653987431253672172644871524754851701196814194763044360796422406269038436467795349730991726800094492105579167650009302795697787323829156739957528777709296988855847875511477467583625617482565267865864972230271664125718579581163239022837905724021664310121326107921519934964259945538022590026718222448785282456299774496704805439700480724496069464474214528843227873492942356293184210997072273601194088133064862973567504748744570636389279900206516604754370604482908301160756942664881693394566162929319808693740390473203977103909677736317141676592397788156995948304453617877809431307153916163250705224056276086839139261844091614244520317335490833820730403595811456691699310328786766164894752965388113028294057538127233719303877187491520810127492713766816488556676047111340632689181213170372624332128741069314783378692743331688032615286292488889770637888246446243690916673106581072229047541446691036571428934338790154317578490255290360906652010237215353857132894028913677862235030553796375362565664279005376012624964484741441763718575242546950299309414129189803045070705267866944171 ∧ (natLoop 200 2220990124790218719596060342324155541807153978689143844517605085919948592315424537157009128418284967255422738715576138220096915723 35594965702012687094972663518244639467745944815488673374354153685178380502776267803212329809933972166213265340592480582788671656825668480490344134669722396638811304394997413029866514866172484080673865900823802212880095737160171336197592595531787693128124851442017793672437484134362129195338056664993091350590950016325968106316918914593374963991863840263759523766864913459300771195958174357750423894701772398515227431650696116305840910037856580965569943723186784320770213003835008290920729023641057482374266255190836087599308222598616199685007601445672569787983922562883842480005268521396887582462558498245652693848046697800458080402657659713775295503549581481360930401265467230415868010439881002607699824847156286493827343257221911204619500112754389661160780762076931671493085578500759300590710210470689656445426237047460557089097522094296553479405577285974797418442266707913147931951642921160198936355236383871622967498952201680287135444169846969699602725199367647333860699834495274636464892570459887461996846326624008871265585072982800728555902832255756203352531070358817710896200130348886101963044520576884713116855140941440726177057274867239065694165461755023449381985901570461070309629099464623378226714135463772764164388860851941342901988667846996550955520554918918881190903256318566793719451556902341570929042414870140304213549563302838917866795013130183508179413905987654002280610606822490943049852593103119304598525727490900502793508669397650859625813070898995210672831218027168773696958497846434604133996698625745090641905732199938116587624183551367867077096359884135366978675268725461197584861425151525541666187682829730129055214318852705761264553391581488278588227787832480003565153421857834904355388488344574280963845642184454968278208634730858828676801228658081996364205934395381360738028625618060510511906001790164241672381339543352719439348033945825414517024499713675568545128182718542002766740121550968478480667043218166329029214844676932414030944696379891200254631875084139469391558559545664294701741819817635984065870435433239894649046793647459894040182119634344835160363900851229703879133266164088030207385048491770106564389161242401585421695459377548225985235179414351432690181681816106093349012048893312681863691064433101945851687715054662517769164065067352194581400298222216545243797874280518327617593673441181095034205324261213224841294927197202237868703453971794195881955426571317931528620701783106411884100956599451504628156878858709368346535135402616636602535931047853002521014702915800179680790791088413195597780338865965286119359051797137842036660123421921170554546607685159759834614192363848269551085667759625457158786044789625291809307910930016543182093406480239801689475113694000078859582683940763281297600279097604352032994225555867849224788723954112852057074372382679533925265581632081169230131670601070912881024928815618066129722556791819757726155880413449039815733755411781995743554042146667212169724845805029310301250757580250095471962560024712627946169162557523930627060002907805419313928331828458765400988239498262578431399566177512163524126083876749623988284169306319837220001497138326853738841827678322160788763254383747236764710132118004821926347105951913570884394482147595620692831577256429275261320968652841587422451783355053442764864394677542541709000287799447229970378447970877218125766293693516149430177764972288052278652832317827738816754377646619776915117933137686959388568986858212681662710587172129063145529940847390397831502620000411037294335337458818632019989403473384290457158124457721703174155830051203925258360868162255761103007042908209889185494193835748904662358311117566620210843885753494053166103900653557791708700557248206623045412950934229531690125202511132368066848421504899152658307820938934339006991267205763625012545771740193932411387248398874612882452666807787149566573813056898613772177829524468516995599614437565444244788330796268954975936112025022386443714759995603798360813418006087512226079549058397730063693155231428213209501963122123116959657812874679262052108768383949012844370123119521251194615763901204933404589724535560984398460768950103534594467033822317942572618617823419507558480749179349003195439069745451246274557936209633262318475941429422924547816324947237570932663646731780608207332853970624461251685876361844904789506689450993339411114732676412977628265879420834666582518830158766352760843818524827310700539644534564321785761214776842716948151719439130067300865598255471913043412251011475711144113593974867343414403680321826554662633780799607954291105298057474657159733508726786783197372314729927325605344600588972330099943930821738653700627183096710705279949219420397664979663144150760573183980935555597296166694234735280879365255775348523377016735920402388763384094304270173977044258119619258270969981409275662136319200588779741228801755239753858818571941458893314645623910048602548608331821414243730472014595294758047305090561748270935855833870976543505835498565713701354205311920566907345785621970812334157331462970525857461484070011150166359316223941516070246277331594558111298078142207516771834712523869680663665843836855524912455526614487685182505003392247540242171618740091688144208511825497257685464150979150034870165413181917266742296385981013975036749824700464473765641943772161925958876786878350911128677755881349480109346651628164137599466649513765899239545738624607509014789289344756783538675477838249549083465226046148105462581195095860563594150135693368575715626581746487013909329643965497370827935196176425193269972492114584889072365170747431082243411822459440277626240836326743855919619719731991614565134323177569711017791515432284748818948642327779951835781043618051557460566793298219513539600631150462945237940376882484801092822204225240479411333783500435994103752373746781169271096659521233598631955515130518713519299884002284267560951442554407716668383685036162742940985731924651 2427).2.2 = 2625 :=
  ⟨rfl, rfl, rfl⟩

set_option maxRecDepth 4000000 in
set_option maxHeartbeats 16000000 in
/-- Traversal evaluation: iterations 2601 to 2800 of the refinement loop. -/
theorem natChunk14 : (natLoop 200 517114560303794853295213622582181250165950967625049837985449724671985711262564159464795763426787536725368311100140629651 35594965702012687094972663518244639467745944815488673374354153685178380502776267803212329809933972166213265340592480582788671656825668480490344134669722396638811304394997413029866514866172484080673865900823802212880121153810223417700167670911783768451661950851212428461353983010621446160058009442730589224873400263479348476919537928427294857717451164390298269956159367906399010631063124581436662751674551386522573450892215582436060167708323330536168843933305996858307482999001525924782373096616534762504000952277468908051442357064442474774942587571009175029111780567686471616824876798432439010325132361203204633180435762513984674954930323822177567908073942579534603697665539926733252204329875153593011004479067215370786206264049531064378343276599577758009440670825987073135772907503448877712872565655323427109809935044646837257138006856563222718785813655334877435482544841399852605265036620658582328602980776879159029771603725281275853889174389736033544805745116362319382702945310653388888521535121989230094000388749065281655660378488306017633974680039611064363546701352070470873550841297926484333793971310950103433960793219597617987697752638884170766990872447545713758545567697845315231033808711908909713100025695729348248897054083740160926197866323165663526477665915032930385656181854879662221264230453961289291214404498903701716665360546944497803284748252853485112393049911995852543769982166355837725689966375961327153550054623570718141175748439975459384101536568473483545259196761819513611890539972152396851046028288793440047347182987253013893224077969184067507756511553472538668657477114557324162692386804366542847397366692383703529603173048328166246336342338634998660967629178610114481594930739570457323003521642867169147328308548752446728192928320395363400480941225039579224505936120447205967788768324375794505356052353945559719830324154965564247638522853182084072369074970250951270660046105995558255146269242966309750633124436147535118495179712302390050817296230006496652248866245516384442036341846070998119238762203648947018364286519087695059876633953105702806853598446276041408751124087672602937467429136834403598185951538096918426572037777989428013759779757575310030859232805870097703327809110216732856018018964220029712543897197033037673634821117902094535888662715990000709226926676506424736162734810177475061629002901093172127791518210260856281933276478494771375722525944221734246002465491665259208066360540257235116047139622093913354638167421895589829844435551252512017511008386612170115952474798195956185585118475144410648067242668889752916100790530974417203258270926154069704953491236320387473462663647174609361373679849904718204932153768532607999212585720876801709752107195733202639934556824338105772868280771417507921744557220411447162881798710016217048993062071979213612352193278218463027627845505582312220110177497188958843372945166693830859176580223636074944907033060639059143971924442505776504565202997451388826654481472285979658918092054171056645603645819700153418031026194308948809265534785015711167933541360692239752521812158256363816725575679999995879479801583585064808882116400056813457246146630285387576194311337316686814474412512637369974278484087582917916566091671336143953209763353560910509508256707535574689173250772799389859646351932804139027101113626325971174212039740234381270251802278565737887584725916869630861352969677353414013299248493509191297071143880590558526487478582364259985428945279041883836022158769144137809702455768888865145879887985318588365730043542907059459535275038833040743955247118824907458569944900498424166610769395279353867932501494427046020319945955193018673670953462159574170772515554690406197652905877099451537505485208394712958842794428799669341476270026690465620927904600911670612677270394471695794956399998138215465004531260870864134592961673719263131560865094565405935082042378701265887487805821101509426754906534216543069646845545784047582528085738762143466324412018957214441064574775077547417336551784037421702591454229081731632454489491954799817725208007657860881850608177393371400343708246033388944206795645860299201470779043737690630548618146484569651616496608461637494689213643271556261664235460776170535657606430338838661639612326138082255651714260562871871310836820988036293358132368492665200483519473906005603928682901381350145856237954104204194963889827116105194889792083675734845199925661749882864083538705658178049443726104269035706631329331669484902293768999257981416340073066918372130181158855356519869186742202700403253369975444190392372792378700947175695842114454129438589649044057593796237377433463709863471965667696065725914917152935511144860278984359360648689772942528269811357355130274559802519312291021029679434739613641445132405316200779586581702963433580334879348429549191820909868275105056239870934486022095309546397558766988653987431253672172644871524754851701196814194763044360796422406269038436467795349730991726800094492105579167650009302795697787323829156739957528777709296988855847875511477467583625617482565267865864972230271664125718579581163239022837905724021664310121326107921519934964259945538022590026718222448785282456299774496704805439700480724496069464474214528843227873492942356293184210997072273601194088133064862973567504748744570636389279900206516604754370604482908301160756942664881693394566162929319808693740390473203977103909677736317141676592397788156995948304453617877809431307153916163250705224056276086839139261844091614244520317335490833820730403595811456691699310328786766164894752965388113028294057538127233719303877187491520810127492713766816488556676047111340632689181213170372624332128741069314783378692743331688032615286292488889770637888246446243690916673106581072229047541446691036571428934338790154317578490255290360906652010237215353857132894028913677862235030553796375362565664279005376012624964484741441763718575242546950299309414129189803045070705267866944171 2625).1 = 33889619824069499505555119969545830410875762614275266182219831590719280061413616366566484458298538215544966105827673860430110 ∧ (natLoop 200 517114560303794853295213622582181250165950967625049837985449724671985711262564159464795763426787536725368311100140629651 35594965702012687094972663518244639467745944815488673374354153685178380502776267803212329809933972166213265340592480582788671656825668480490344134669722396638811304394997413029866514866172484080673865900823802212880121153810223417700167670911783768451661950851212428461353983010621446160058009442730589224873400263479348476919537928427294857717451164390298269956159367906399010631063124581436662751674551386522573450892215582436060167708323330536168843933305996858307482999001525924782373096616534762504000952277468908051442357064442474774942587571009175029111780567686471616824876798432439010325132361203204633180435762513984674954930323822177567908073942579534603697665539926733252204329875153593011004479067215370786206264049531064378343276599577758009440670825987073135772907503448877712872565655323427109809935044646837257138006856563222718785813655334877435482544841399852605265036620658582328602980776879159029771603725281275853889174389736033544805745116362319382702945310653388888521535121989230094000388749065281655660378488306017633974680039611064363546701352070470873550841297926484333793971310950103433960793219597617987697752638884170766990872447545713758545567697845315231033808711908909713100025695729348248897054083740160926197866323165663526477665915032930385656181854879662221264230453961289291214404498903701716665360546944497803284748252853485112393049911995852543769982166355837725689966375961327153550054623570718141175748439975459384101536568473483545259196761819513611890539972152396851046028288793440047347182987253013893224077969184067507756511553472538668657477114557324162692386804366542847397366692383703529603173048328166246336342338634998660967629178610114481594930739570457323003521642867169147328308548752446728192928320395363400480941225039579224505936120447205967788768324375794505356052353945559719830324154965564247638522853182084072369074970250951270660046105995558255146269242966309750633124436147535118495179712302390050817296230006496652248866245516384442036341846070998119238762203648947018364286519087695059876633953105702806853598446276041408751124087672602937467429136834403598185951538096918426572037777989428013759779757575310030859232805870097703327809110216732856018018964220029712543897197033037673634821117902094535888662715990000709226926676506424736162734810177475061629002901093172127791518210260856281933276478494771375722525944221734246002465491665259208066360540257235116047139622093913354638167421895589829844435551252512017511008386612170115952474798195956185585118475144410648067242668889752916100790530974417203258270926154069704953491236320387473462663647174609361373679849904718204932153768532607999212585720876801709752107195733202639934556824338105772868280771417507921744557220411447162881798710016217048993062071979213612352193278218463027627845505582312220110177497188958843372945166693830859176580223636074944907033060639059143971924442505776504565202997451388826654481472285979658918092054171056645603645819700153418031026194308948809265534785015711167933541360692239752521812158256363816725575679999995879479801583585064808882116400056813457246146630285387576194311337316686814474412512637369974278484087582917916566091671336143953209763353560910509508256707535574689173250772799389859646351932804139027101113626325971174212039740234381270251802278565737887584725916869630861352969677353414013299248493509191297071143880590558526487478582364259985428945279041883836022158769144137809702455768888865145879887985318588365730043542907059459535275038833040743955247118824907458569944900498424166610769395279353867932501494427046020319945955193018673670953462159574170772515554690406197652905877099451537505485208394712958842794428799669341476270026690465620927904600911670612677270394471695794956399998138215465004531260870864134592961673719263131560865094565405935082042378701265887487805821101509426754906534216543069646845545784047582528085738762143466324412018957214441064574775077547417336551784037421702591454229081731632454489491954799817725208007657860881850608177393371400343708246033388944206795645860299201470779043737690630548618146484569651616496608461637494689213643271556261664235460776170535657606430338838661639612326138082255651714260562871871310836820988036293358132368492665200483519473906005603928682901381350145856237954104204194963889827116105194889792083675734845199925661749882864083538705658178049443726104269035706631329331669484902293768999257981416340073066918372130181158855356519869186742202700403253369975444190392372792378700947175695842114454129438589649044057593796237377433463709863471965667696065725914917152935511144860278984359360648689772942528269811357355130274559802519312291021029679434739613641445132405316200779586581702963433580334879348429549191820909868275105056239870934486022095309546397558766988653987431253672172644871524754851701196814194763044360796422406269038436467795349730991726800094492105579167650009302795697787323829156739957528777709296988855847875511477467583625617482565267865864972230271664125718579581163239022837905724021664310121326107921519934964259945538022590026718222448785282456299774496704805439700480724496069464474214528843227873492942356293184210997072273601194088133064862973567504748744570636389279900206516604754370604482908301160756942664881693394566162929319808693740390473203977103909677736317141676592397788156995948304453617877809431307153916163250705224056276086839139261844091614244520317335490833820730403595811456691699310328786766164894752965388113028294057538127233719303877187491520810127492713766816488556676047111340632689181213170372624332128741069314783378692743331688032615286292488889770637888246446243690916673106581072229047541446691036571428934338790154317578490255290360906652010237215353857132894028913677862235030553796375362565664279005376012624964484741441763718575242546950299309414129189803045070705267866944171 2625).2.1 = 35594965702012687094972663518244639467745944815488673374354153685178380502776267803212329809933972166213265340592480582788671656825668480490344134669722396638811304394997413029866514866172484080673865900823802212880121153810223417700167670911783768451661950852352150467314401934905711419231168879783025481028342077299911188185650371346517512677500824669834513837956553236366666284357883132797571876455336892233710751144785412645122606022947510611757043875639520988004051506705831472896921935196668156299587275513466535618087713906269898266139806608179574927567088000840279907985189009434059046082801529529267387878727042495872781163868331630647255935359062625134533022408169695798563298606141359448258057550008586007512745436036095143912646592596778385328045240983317413670958101924592237099429125658613323369264430494562343870735640219772669057045063855797386645832125872723060702187737323983666425470822961977504970464889780457781798815531244590962065998946601959489896811896134053173403026771250094824226723602007044793678544545625565264763440322926717422406563003447607190323162243555037282340578596055986729120398734969113515581627579347967961591980214007319006027564715222965237338434072940086954645202501418672448101377365125137227226091710993138541881603240657632374449938603657774571733023019726902283691590031734641974621894419021207028057280231484468036314975538620544321631115993805527188073507081990896784615554021974128472813845256279881976615897124138247685686160852454340561814651105812883023015388388464670349859206361134806445635836281681018424445505573782221258318258616730803338306705534703706446060564643746286616066601466925988116374460466281419783008201753819182366793804985466366148191962195140481302522632165555652988094764361836332137270596373593537869836463696018099576621718127569425406423365924479905000695819646881638661667350136115200321085237539008677647754035374444190506880436074646445785352504070470206386253806196340354474040331172729774453689068032254848468092913880495027371822104853700008304874090001462110700099394555832428594077518615271691283761751808257848551202160986845020192240477467616426801151704578348596757365618155301883529781016023658527143145382659599301299998508549289815699581381000204271165284401197041982966710980510766531895720086745285162815680845317230017048772533186348521917361835331942324906291220206024583318607641232935972795483548862406031079684973153019104797629270605682742779894730348975391930697211680433079956567018500105415707831236679946314903276363893768834806925095782427691911397447683447237335148074149169972356779123125433504738406979092294114206247121166217995036411360514833815477364930986397284446820494090615810989506191407498347011259486288352360085872414349018982387190254204345723688171578805968296114502789535256741236004913714552622719612750498769114177027463731423658516165388971962459276271857326931498561118223573190114755612714112289445574669590554732611867884943729318883945417535823645969154475330520956288058099578536347643851117609441738492820731784366148226172856966370502344809489469965979538531108140684123087625605889177581356289945501362321188694657653907147476119936289130183838153335850576393116352964683308799373084785507386408347228986537304622382521310588631587184485529229186349161504456849994529805074094592432290081831345557621801050866738092146297687272695083881416894215986039352290249520821867289516935210060988481812477393034599282102812563020117906460506544205259313286423740961791491644553766058859247906002360520449673221483490130872224960204482121882251258884025629834176776010808329085549457812078412207404577200648596688539318970036112628651594856638353553977868491021990114221179316693447511200953436907066211597556438036050789827606282230917599608337010859506172672199399271239033880685447203186815248290656939684631635698578319123789583334173380968727533358844790966867881564210103661672260790108704091435400156142158834855119427712664308646318767827585517614337081280195337118859330271686156914755697838061846593470362569683864598471932902818065977417645065679750505072546158663311770583201000471768927282116788782056860454732540573451110523024003671884118282292214594143373375769648296880794025737245549062579611209570982796349345931452297887673191546743402053321419916480930866241425166173151090444340552763063191398136884240182362553280594793914931284970248382712917664786492158093692327186368857454378851680761908304146843447116597009306514955672316154447025290251560493773164877326364979218369911662635146250912922230443819136314958032721560129385336019591969770320732009331258337600069633749250542094423277397161507982955350511084262454204372752913204611641261975536679387251848457662533630553334948082669391779514728647657999578237596189344541946008073177476696517219999926490748125037592217291316523909248638957685098934638038013129745897359594052713285120114848060707917591164321249287987870759434416693389304386556996991168398636503267854910106145047253153369775335536869117402130633385196424235260508949294939286748027995821724090965401755597118823910983728872871172600294798872658564378205602310765176375600914143243742796427909876609222991578515979254106218487884467823154617778503561400435424378835366624722007779538544551870515827416936616576131114382946830349238825642073211036743377745455455579701719741617654687461112726932663356702150065303967437347764169576057785833372866356431074169123669584005853697641197188188781532032744959037414427701989572305321956151907556794017844985562631432477260080870418410016918431945723197330744074878835201623319669695472726911697481625695446626182383988784429951216241113949991598631548566786981004279396107911070882419971692181479944107932254121924336386958519899320447620369450083318532249533469415927600504304865709349421875017383419596458603508990749172587404879057001103860301641806109128820095291138589355 ∧ (natLoop 200 517114560303794853295213622582181250165950967625049837985449724671985711262564159464795763426787536725368311100140629651 35594965702012687094972663518244639467745944815488673374354153685178380502776267803212329809933972166213265340592480582788671656825668480490344134669722396638811304394997413029866514866172484080673865900823802212880121153810223417700167670911783768451661950851212428461353983010621446160058009442730589224873400263479348476919537928427294857717451164390298269956159367906399010631063124581436662751674551386522573450892215582436060167708323330536168843933305996858307482999001525924782373096616534762504000952277468908051442357064442474774942587571009175029111780567686471616824876798432439010325132361203204633180435762513984674954930323822177567908073942579534603697665539926733252204329875153593011004479067215370786206264049531064378343276599577758009440670825987073135772907503448877712872565655323427109809935044646837257138006856563222718785813655334877435482544841399852605265036620658582328602980776879159029771603725281275853889174389736033544805745116362319382702945310653388888521535121989230094000388749065281655660378488306017633974680039611064363546701352070470873550841297926484333793971310950103433960793219597617987697752638884170766990872447545713758545567697845315231033808711908909713100025695729348248897054083740160926197866323165663526477665915032930385656181854879662221264230453961289291214404498903701716665360546944497803284748252853485112393049911995852543769982166355837725689966375961327153550054623570718141175748439975459384101536568473483545259196761819513611890539972152396851046028288793440047347182987253013893224077969184067507756511553472538668657477114557324162692386804366542847397366692383703529603173048328166246336342338634998660967629178610114481594930739570457323003521642867169147328308548752446728192928320395363400480941225039579224505936120447205967788768324375794505356052353945559719830324154965564247638522853182084072369074970250951270660046105995558255146269242966309750633124436147535118495179712302390050817296230006496652248866245516384442036341846070998119238762203648947018364286519087695059876633953105702806853598446276041408751124087672602937467429136834403598185951538096918426572037777989428013759779757575310030859232805870097703327809110216732856018018964220029712543897197033037673634821117902094535888662715990000709226926676506424736162734810177475061629002901093172127791518210260856281933276478494771375722525944221734246002465491665259208066360540257235116047139622093913354638167421895589829844435551252512017511008386612170115952474798195956185585118475144410648067242668889752916100790530974417203258270926154069704953491236320387473462663647174609361373679849904718204932153768532607999212585720876801709752107195733202639934556824338105772868280771417507921744557220411447162881798710016217048993062071979213612352193278218463027627845505582312220110177497188958843372945166693830859176580223636074944907033060639059143971924442505776504565202997451388826654481472285979658918092054171056645603645819700153418031026194308948809265534785015711167933541360692239752521812158256363816725575679999995879479801583585064808882116400056813457246146630285387576194311337316686814474412512637369974278484087582917916566091671336143953209763353560910509508256707535574689173250772799389859646351932804139027101113626325971174212039740234381270251802278565737887584725916869630861352969677353414013299248493509191297071143880590558526487478582364259985428945279041883836022158769144137809702455768888865145879887985318588365730043542907059459535275038833040743955247118824907458569944900498424166610769395279353867932501494427046020319945955193018673670953462159574170772515554690406197652905877099451537505485208394712958842794428799669341476270026690465620927904600911670612677270394471695794956399998138215465004531260870864134592961673719263131560865094565405935082042378701265887487805821101509426754906534216543069646845545784047582528085738762143466324412018957214441064574775077547417336551784037421702591454229081731632454489491954799817725208007657860881850608177393371400343708246033388944206795645860299201470779043737690630548618146484569651616496608461637494689213643271556261664235460776170535657606430338838661639612326138082255651714260562871871310836820988036293358132368492665200483519473906005603928682901381350145856237954104204194963889827116105194889792083675734845199925661749882864083538705658178049443726104269035706631329331669484902293768999257981416340073066918372130181158855356519869186742202700403253369975444190392372792378700947175695842114454129438589649044057593796237377433463709863471965667696065725914917152935511144860278984359360648689772942528269811357355130274559802519312291021029679434739613641445132405316200779586581702963433580334879348429549191820909868275105056239870934486022095309546397558766988653987431253672172644871524754851701196814194763044360796422406269038436467795349730991726800094492105579167650009302795697787323829156739957528777709296988855847875511477467583625617482565267865864972230271664125718579581163239022837905724021664310121326107921519934964259945538022590026718222448785282456299774496704805439700480724496069464474214528843227873492942356293184210997072273601194088133064862973567504748744570636389279900206516604754370604482908301160756942664881693394566162929319808693740390473203977103909677736317141676592397788156995948304453617877809431307153916163250705224056276086839139261844091614244520317335490833820730403595811456691699310328786766164894752965388113028294057538127233719303877187491520810127492713766816488556676047111340632689181213170372624332128741069314783378692743331688032615286292488889770637888246446243690916673106581072229047541446691036571428934338790154317578490255290360906652010237215353857132894028913677862235030553796375362565664279005376012624964484741441763718575242546950299309414129189803045070705267866944171 2625).2.2 = 2826 :=
  ⟨rfl, rfl, rfl⟩

set_option maxRecDepth 4000000 in
set_option maxHeartbeats 16000000 in
/-- Traversal evaluation: iterations 2801 to 3000 of the refinement loop. -/
theorem natChunk15 : (natLoop 200 33889619824069499505555119969545830410875762614275266182219831590719280061413616366566484458298538215544966105827673860430110 35594965702012687094972663518244639467745944815488673374354153685178380502776267803212329809933972166213265340592480582788671656825668480490344134669722396638811304394997413029866514866172484080673865900823802212880121153810223417700167670911783768451661950852352150467314401934905711419231168879783025481028342077299911188185650371346517512677500824669834513837956553236366666284357883132797571876455336892233710751144785412645122606022947510611757043875639520988004051506705831472896921935196668156299587275513466535618087713906269898266139806608179574927567088000840279907985189009434059046082801529529267387878727042495872781163868331630647255935359062625134533022408169695798563298606141359448258057550008586007512745436036095143912646592596778385328045240983317413670958101924592237099429125658613323369264430494562343870735640219772669057045063855797386645832125872723060702187737323983666425470822961977504970464889780457781798815531244590962065998946601959489896811896134053173403026771250094824226723602007044793678544545625565264763440322926717422406563003447607190323162243555037282340578596055986729120398734969113515581627579347967961591980214007319006027564715222965237338434072940086954645202501418672448101377365125137227226091710993138541881603240657632374449938603657774571733023019726902283691590031734641974621894419021207028057280231484468036314975538620544321631115993805527188073507081990896784615554021974128472813845256279881976615897124138247685686160852454340561814651105812883023015388388464670349859206361134806445635836281681018424445505573782221258318258616730803338306705534703706446060564643746286616066601466925988116374460466281419783008201753819182366793804985466366148191962195140481302522632165555652988094764361836332137270596373593537869836463696018099576621718127569425406423365924479905000695819646881638661667350136115200321085237539008677647754035374444190506880436074646445785352504070470206386253806196340354474040331172729774453689068032254848468092913880495027371822104853700008304874090001462110700099394555832428594077518615271691283761751808257848551202160986845020192240477467616426801151704578348596757365618155301883529781016023658527143145382659599301299998508549289815699581381000204271165284401197041982966710980510766531895720086745285162815680845317230017048772533186348521917361835331942324906291220206024583318607641232935972795483548862406031079684973153019104797629270605682742779894730348975391930697211680433079956567018500105415707831236679946314903276363893768834806925095782427691911397447683447237335148074149169972356779123125433504738406979092294114206247121166217995036411360514833815477364930986397284446820494090615810989506191407498347011259486288352360085872414349018982387190254204345723688171578805968296114502789535256741236004913714552622719612750498769114177027463731423658516165388971962459276271857326931498561118223573190114755612714112289445574669590554732611867884943729318883945417535823645969154475330520956288058099578536347643851117609441738492820731784366148226172856966370502344809489469965979538531108140684123087625605889177581356289945501362321188694657653907147476119936289130183838153335850576393116352964683308799373084785507386408347228986537304622382521310588631587184485529229186349161504456849994529805074094592432290081831345557621801050866738092146297687272695083881416894215986039352290249520821867289516935210060988481812477393034599282102812563020117906460506544205259313286423740961791491644553766058859247906002360520449673221483490130872224960204482121882251258884025629834176776010808329085549457812078412207404577200648596688539318970036112628651594856638353553977868491021990114221179316693447511200953436907066211597556438036050789827606282230917599608337010859506172672199399271239033880685447203186815248290656939684631635698578319123789583334173380968727533358844790966867881564210103661672260790108704091435400156142158834855119427712664308646318767827585517614337081280195337118859330271686156914755697838061846593470362569683864598471932902818065977417645065679750505072546158663311770583201000471768927282116788782056860454732540573451110523024003671884118282292214594143373375769648296880794025737245549062579611209570982796349345931452297887673191546743402053321419916480930866241425166173151090444340552763063191398136884240182362553280594793914931284970248382712917664786492158093692327186368857454378851680761908304146843447116597009306514955672316154447025290251560493773164877326364979218369911662635146250912922230443819136314958032721560129385336019591969770320732009331258337600069633749250542094423277397161507982955350511084262454204372752913204611641261975536679387251848457662533630553334948082669391779514728647657999578237596189344541946008073177476696517219999926490748125037592217291316523909248638957685098934638038013129745897359594052713285120114848060707917591164321249287987870759434416693389304386556996991168398636503267854910106145047253153369775335536869117402130633385196424235260508949294939286748027995821724090965401755597118823910983728872871172600294798872658564378205602310765176375600914143243742796427909876609222991578515979254106218487884467823154617778503561400435424378835366624722007779538544551870515827416936616576131114382946830349238825642073211036743377745455455579701719741617654687461112726932663356702150065303967437347764169576057785833372866356431074169123669584005853697641197188188781532032744959037414427701989572305321956151907556794017844985562631432477260080870418410016918431945723197330744074878835201623319669695472726911697481625695446626182383988784429951216241113949991598631548566786981004279396107911070882419971692181479944107932254121924336386958519899320447620369450083318532249533469415927600504304865709349421875017383419596458603508990749172587404879057001103860301641806109128820095291138589355 2826).1 = 427747138752182595598143544733952737842531701909008722041473495135558364622060487494982481042071 ∧ (natLoop 200 33889619824069499505555119969545830410875762614275266182219831590719280061413616366566484458298538215544966105827673860430110 35594965702012687094972663518244639467745944815488673374354153685178380502776267803212329809933972166213265340592480582788671656825668480490344134669722396638811304394997413029866514866172484080673865900823802212880121153810223417700167670911783768451661950852352150467314401934905711419231168879783025481028342077299911188185650371346517512677500824669834513837956553236366666284357883132797571876455336892233710751144785412645122606022947510611757043875639520988004051506705831472896921935196668156299587275513466535618087713906269898266139806608179574927567088000840279907985189009434059046082801529529267387878727042495872781163868331630647255935359062625134533022408169695798563298606141359448258057550008586007512745436036095143912646592596778385328045240983317413670958101924592237099429125658613323369264430494562343870735640219772669057045063855797386645832125872723060702187737323983666425470822961977504970464889780457781798815531244590962065998946601959489896811896134053173403026771250094824226723602007044793678544545625565264763440322926717422406563003447607190323162243555037282340578596055986729120398734969113515581627579347967961591980214007319006027564715222965237338434072940086954645202501418672448101377365125137227226091710993138541881603240657632374449938603657774571733023019726902283691590031734641974621894419021207028057280231484468036314975538620544321631115993805527188073507081990896784615554021974128472813845256279881976615897124138247685686160852454340561814651105812883023015388388464670349859206361134806445635836281681018424445505573782221258318258616730803338306705534703706446060564643746286616066601466925988116374460466281419783008201753819182366793804985466366148191962195140481302522632165555652988094764361836332137270596373593537869836463696018099576621718127569425406423365924479905000695819646881638661667350136115200321085237539008677647754035374444190506880436074646445785352504070470206386253806196340354474040331172729774453689068032254848468092913880495027371822104853700008304874090001462110700099394555832428594077518615271691283761751808257848551202160986845020192240477467616426801151704578348596757365618155301883529781016023658527143145382659599301299998508549289815699581381000204271165284401197041982966710980510766531895720086745285162815680845317230017048772533186348521917361835331942324906291220206024583318607641232935972795483548862406031079684973153019104797629270605682742779894730348975391930697211680433079956567018500105415707831236679946314903276363893768834806925095782427691911397447683447237335148074149169972356779123125433504738406979092294114206247121166217995036411360514833815477364930986397284446820494090615810989506191407498347011259486288352360085872414349018982387190254204345723688171578805968296114502789535256741236004913714552622719612750498769114177027463731423658516165388971962459276271857326931498561118223573190114755612714112289445574669590554732611867884943729318883945417535823645969154475330520956288058099578536347643851117609441738492820731784366148226172856966370502344809489469965979538531108140684123087625605889177581356289945501362321188694657653907147476119936289130183838153335850576393116352964683308799373084785507386408347228986537304622382521310588631587184485529229186349161504456849994529805074094592432290081831345557621801050866738092146297687272695083881416894215986039352290249520821867289516935210060988481812477393034599282102812563020117906460506544205259313286423740961791491644553766058859247906002360520449673221483490130872224960204482121882251258884025629834176776010808329085549457812078412207404577200648596688539318970036112628651594856638353553977868491021990114221179316693447511200953436907066211597556438036050789827606282230917599608337010859506172672199399271239033880685447203186815248290656939684631635698578319123789583334173380968727533358844790966867881564210103661672260790108704091435400156142158834855119427712664308646318767827585517614337081280195337118859330271686156914755697838061846593470362569683864598471932902818065977417645065679750505072546158663311770583201000471768927282116788782056860454732540573451110523024003671884118282292214594143373375769648296880794025737245549062579611209570982796349345931452297887673191546743402053321419916480930866241425166173151090444340552763063191398136884240182362553280594793914931284970248382712917664786492158093692327186368857454378851680761908304146843447116597009306514955672316154447025290251560493773164877326364979218369911662635146250912922230443819136314958032721560129385336019591969770320732009331258337600069633749250542094423277397161507982955350511084262454204372752913204611641261975536679387251848457662533630553334948082669391779514728647657999578237596189344541946008073177476696517219999926490748125037592217291316523909248638957685098934638038013129745897359594052713285120114848060707917591164321249287987870759434416693389304386556996991168398636503267854910106145047253153369775335536869117402130633385196424235260508949294939286748027995821724090965401755597118823910983728872871172600294798872658564378205602310765176375600914143243742796427909876609222991578515979254106218487884467823154617778503561400435424378835366624722007779538544551870515827416936616576131114382946830349238825642073211036743377745455455579701719741617654687461112726932663356702150065303967437347764169576057785833372866356431074169123669584005853697641197188188781532032744959037414427701989572305321956151907556794017844985562631432477260080870418410016918431945723197330744074878835201623319669695472726911697481625695446626182383988784429951216241113949991598631548566786981004279396107911070882419971692181479944107932254121924336386958519899320447620369450083318532249533469415927600504304865709349421875017383419596458603508990749172587404879057001103860301641806109128820095291138589355 2826).2.1 = 35594965702012687094972663518244639467745944815488673374354153686509558479810933013369789237369278799380448365463495327685608046083373198747896723455994727437964905836307095053203504160746952208760468310526324936528137591409120226266352595490742730091173821604038767899376286033405270551475674651184182256815092638603332748831134317265132759125247910498616633375528997506335547230604942273756125384578984088435651445727212976487878492634418337347583700191680942827474960841775995148670442863034947320709327202434254082905188549664130142422240919812610847893429042619456877130240739882506714815269970754678714528078894954420974374644135319644345346486127792070826273649180957566103506475973196383165067137805397649438680442340192389681832711224375896484978089297518666379271762268306993441312725441606374518199000281160294140453418318103218636196632688359490270807767883483345253615039371737968774232401948176197285863165816135462189295129737116310170877581038131257444851593061947423471490965404750054787063801210439610157986855873869554229401825333976115765815958003790938147908167195378312409363950931877639616287362978394855291696171774278096464140844909245736174629790190828417368657822109930144850736992212550757105620547948811978734716661807724461262943513775073313252377310903563068149465380989901948147035434752810711607411589016372151037995845917667733362653068447930784294404365492414915429954027964471466457825719474651451060332132738561086937867183413389968114622037515112765535506779787079325309729921226976829108088741942717314630206802030408539503685111274250366781355914156059700197773895468686440930182157591401653906952628712756173816424550836857328566186594295934344371505223707647716310296746367141253062671999993121271399213546720386311587271071383019225645750216323610693635826047214397183485429975582849629701660597525851299431631977152672858489228170918085323715050851452863364519283906310457954780531373643123729652194674285755523110703756926404834868168019755751116047447452018012415646837157067681699785104713931935890536063294043517039141017334579610132154609918553290333423616879008223549128449196812335743800949134602099685979814987578030107132572902767780328987331928659468996923119122622869490275486727975654539954041168423050584911616771003004134365294771301064671866335120625819405132100443084405716188293775504196786174939869019712006244662766079661927274745859546099163658736979929714975682960361720802218220509543694223806513550796532505387117332454781532955893685286157919673212812772713999225740728618514508315595316023312875229996014694232465665503013462370455513553149663051445511338962955046558458521316909576498087486647322272606396858658784323118685247234999825030584917163733952196447346758890387252307112769288533995302885448919086244912833967930103494841569039252077273218487478713051785313188360207451523246098560229880371804872123965809938579799662887555011796752687787407866268223499253930894765250490077635230637667785846021919109629786532384117689103520040198107472702619953849925807815578781242726186974675896963526705741749084340280198913921890053102505858207019237853788400434911090593437698696324810474043065978139284806850489128658620413439733943200386908393014905943025154055270996148641366254687282076803590400982475234648679763522693927532526567621231607147671099167877208620854249836921842206614245638703647883535215716295755393812403013653179895523302668472693307793291919977664834341030132489861684206914185486494283766227303731081497188251600773635415849790245956745713961942726672761079956524707237075555512213137619305154961482319221472086923342331814040365514956510039496940195721743184621888292532332555982799890053000229939653543209572491484773422760791076753700997324766512504527663135891484323116188817261538459179377774981559636299637151683755003809914806892906642239329498347706527311838018173372227770070376351283359493088365645247439735085953197813304763350925881789949537061416477650765966064168108375873588190178596846266136236972280356307256795070036713617256001520014387274749825676515390902868064067808708202649662091291191362679767725490545224590000361115407177241162086232621156380103446770033714175468340579040965466508025652117268478290602071401080486669389396659323749217780226613018436120782948764664703795126286470801341273086193855930537828182763936480765637985366149327583395127908881202977275150813400507700086798950598545770014330971447231171884512824486592529426732031975187928921824252686298575560292339074809946515698472965424438080038907068969993476111555332268979161923344191325250183533057219341343322410143019053843841807900996589012295041129229910813207190549992920884762699957136446255029039799472863384446795658166636043168572561562879126583857995753699271282572013411884563748885884878771007465302693123017992486004705109732006979049282917026005186056987498517480902735606246429214144559218547716195278483278099815106704088208177009912024556948133696090154881889979235223097117732157576090621984888563521661849243148851582316898189444427155872876831547659931520316154126277003302190900338038628788387294492883479413138527824245646010860356714638099777861078934130929257964590389581764312505381190253597988359944868364056516895304792059653388177217301826299469064143889567082674445197101022757126164491303400065765805049541478130439725509240172728077988892706903445305059579684723049035968593257792229212617500274419911527612783084301544853741254157079904968733419089924918531752240238962781574191669750224337283628233903385711209434271315537093865794797256637563091017838845048376710949108906208922924782668435323587391797703423768063802483074655128632508409772623395881461926897956941620062557888989117679312939301906800522688119282976270885406254354380439049530531047279174981561396076080260729333199346095576185982227964955348959168656992529300840658633082038600278533777672339276459 ∧ (natLoop 200 33889619824069499505555119969545830410875762614275266182219831590719280061413616366566484458298538215544966105827673860430110 35594965702012687094972663518244639467745944815488673374354153685178380502776267803212329809933972166213265340592480582788671656825668480490344134669722396638811304394997413029866514866172484080673865900823802212880121153810223417700167670911783768451661950852352150467314401934905711419231168879783025481028342077299911188185650371346517512677500824669834513837956553236366666284357883132797571876455336892233710751144785412645122606022947510611757043875639520988004051506705831472896921935196668156299587275513466535618087713906269898266139806608179574927567088000840279907985189009434059046082801529529267387878727042495872781163868331630647255935359062625134533022408169695798563298606141359448258057550008586007512745436036095143912646592596778385328045240983317413670958101924592237099429125658613323369264430494562343870735640219772669057045063855797386645832125872723060702187737323983666425470822961977504970464889780457781798815531244590962065998946601959489896811896134053173403026771250094824226723602007044793678544545625565264763440322926717422406563003447607190323162243555037282340578596055986729120398734969113515581627579347967961591980214007319006027564715222965237338434072940086954645202501418672448101377365125137227226091710993138541881603240657632374449938603657774571733023019726902283691590031734641974621894419021207028057280231484468036314975538620544321631115993805527188073507081990896784615554021974128472813845256279881976615897124138247685686160852454340561814651105812883023015388388464670349859206361134806445635836281681018424445505573782221258318258616730803338306705534703706446060564643746286616066601466925988116374460466281419783008201753819182366793804985466366148191962195140481302522632165555652988094764361836332137270596373593537869836463696018099576621718127569425406423365924479905000695819646881638661667350136115200321085237539008677647754035374444190506880436074646445785352504070470206386253806196340354474040331172729774453689068032254848468092913880495027371822104853700008304874090001462110700099394555832428594077518615271691283761751808257848551202160986845020192240477467616426801151704578348596757365618155301883529781016023658527143145382659599301299998508549289815699581381000204271165284401197041982966710980510766531895720086745285162815680845317230017048772533186348521917361835331942324906291220206024583318607641232935972795483548862406031079684973153019104797629270605682742779894730348975391930697211680433079956567018500105415707831236679946314903276363893768834806925095782427691911397447683447237335148074149169972356779123125433504738406979092294114206247121166217995036411360514833815477364930986397284446820494090615810989506191407498347011259486288352360085872414349018982387190254204345723688171578805968296114502789535256741236004913714552622719612750498769114177027463731423658516165388971962459276271857326931498561118223573190114755612714112289445574669590554732611867884943729318883945417535823645969154475330520956288058099578536347643851117609441738492820731784366148226172856966370502344809489469965979538531108140684123087625605889177581356289945501362321188694657653907147476119936289130183838153335850576393116352964683308799373084785507386408347228986537304622382521310588631587184485529229186349161504456849994529805074094592432290081831345557621801050866738092146297687272695083881416894215986039352290249520821867289516935210060988481812477393034599282102812563020117906460506544205259313286423740961791491644553766058859247906002360520449673221483490130872224960204482121882251258884025629834176776010808329085549457812078412207404577200648596688539318970036112628651594856638353553977868491021990114221179316693447511200953436907066211597556438036050789827606282230917599608337010859506172672199399271239033880685447203186815248290656939684631635698578319123789583334173380968727533358844790966867881564210103661672260790108704091435400156142158834855119427712664308646318767827585517614337081280195337118859330271686156914755697838061846593470362569683864598471932902818065977417645065679750505072546158663311770583201000471768927282116788782056860454732540573451110523024003671884118282292214594143373375769648296880794025737245549062579611209570982796349345931452297887673191546743402053321419916480930866241425166173151090444340552763063191398136884240182362553280594793914931284970248382712917664786492158093692327186368857454378851680761908304146843447116597009306514955672316154447025290251560493773164877326364979218369911662635146250912922230443819136314958032721560129385336019591969770320732009331258337600069633749250542094423277397161507982955350511084262454204372752913204611641261975536679387251848457662533630553334948082669391779514728647657999578237596189344541946008073177476696517219999926490748125037592217291316523909248638957685098934638038013129745897359594052713285120114848060707917591164321249287987870759434416693389304386556996991168398636503267854910106145047253153369775335536869117402130633385196424235260508949294939286748027995821724090965401755597118823910983728872871172600294798872658564378205602310765176375600914143243742796427909876609222991578515979254106218487884467823154617778503561400435424378835366624722007779538544551870515827416936616576131114382946830349238825642073211036743377745455455579701719741617654687461112726932663356702150065303967437347764169576057785833372866356431074169123669584005853697641197188188781532032744959037414427701989572305321956151907556794017844985562631432477260080870418410016918431945723197330744074878835201623319669695472726911697481625695446626182383988784429951216241113949991598631548566786981004279396107911070882419971692181479944107932254121924336386958519899320447620369450083318532249533469415927600504304865709349421875017383419596458603508990749172587404879057001103860301641806109128820095291138589355 2826).2.2 = 3020 :=
  ⟨rfl, rfl, rfl⟩

set_option maxRecDepth 4000000 in
set_option maxHeartbeats 16000000 in
/-- Traversal evaluation: iterations 3001 to 3200 of the refinement loop. -/
theorem natChunk16 : (natLoop 200 427747138752182595598143544733952737842531701909008722041473495135558364622060487494982481042071 35594965702012687094972663518244639467745944815488673374354153686509558479810933013369789237369278799380448365463495327685608046083373198747896723455994727437964905836307095053203504160746952208760468310526324936528137591409120226266352595490742730091173821604038767899376286033405270551475674651184182256815092638603332748831134317265132759125247910498616633375528997506335547230604942273756125384578984088435651445727212976487878492634418337347583700191680942827474960841775995148670442863034947320709327202434254082905188549664130142422240919812610847893429042619456877130240739882506714815269970754678714528078894954420974374644135319644345346486127792070826273649180957566103506475973196383165067137805397649438680442340192389681832711224375896484978089297518666379271762268306993441312725441606374518199000281160294140453418318103218636196632688359490270807767883483345253615039371737968774232401948176197285863165816135462189295129737116310170877581038131257444851593061947423471490965404750054787063801210439610157986855873869554229401825333976115765815958003790938147908167195378312409363950931877639616287362978394855291696171774278096464140844909245736174629790190828417368657822109930144850736992212550757105620547948811978734716661807724461262943513775073313252377310903563068149465380989901948147035434752810711607411589016372151037995845917667733362653068447930784294404365492414915429954027964471466457825719474651451060332132738561086937867183413389968114622037515112765535506779787079325309729921226976829108088741942717314630206802030408539503685111274250366781355914156059700197773895468686440930182157591401653906952628712756173816424550836857328566186594295934344371505223707647716310296746367141253062671999993121271399213546720386311587271071383019225645750216323610693635826047214397183485429975582849629701660597525851299431631977152672858489228170918085323715050851452863364519283906310457954780531373643123729652194674285755523110703756926404834868168019755751116047447452018012415646837157067681699785104713931935890536063294043517039141017334579610132154609918553290333423616879008223549128449196812335743800949134602099685979814987578030107132572902767780328987331928659468996923119122622869490275486727975654539954041168423050584911616771003004134365294771301064671866335120625819405132100443084405716188293775504196786174939869019712006244662766079661927274745859546099163658736979929714975682960361720802218220509543694223806513550796532505387117332454781532955893685286157919673212812772713999225740728618514508315595316023312875229996014694232465665503013462370455513553149663051445511338962955046558458521316909576498087486647322272606396858658784323118685247234999825030584917163733952196447346758890387252307112769288533995302885448919086244912833967930103494841569039252077273218487478713051785313188360207451523246098560229880371804872123965809938579799662887555011796752687787407866268223499253930894765250490077635230637667785846021919109629786532384117689103520040198107472702619953849925807815578781242726186974675896963526705741749084340280198913921890053102505858207019237853788400434911090593437698696324810474043065978139284806850489128658620413439733943200386908393014905943025154055270996148641366254687282076803590400982475234648679763522693927532526567621231607147671099167877208620854249836921842206614245638703647883535215716295755393812403013653179895523302668472693307793291919977664834341030132489861684206914185486494283766227303731081497188251600773635415849790245956745713961942726672761079956524707237075555512213137619305154961482319221472086923342331814040365514956510039496940195721743184621888292532332555982799890053000229939653543209572491484773422760791076753700997324766512504527663135891484323116188817261538459179377774981559636299637151683755003809914806892906642239329498347706527311838018173372227770070376351283359493088365645247439735085953197813304763350925881789949537061416477650765966064168108375873588190178596846266136236972280356307256795070036713617256001520014387274749825676515390902868064067808708202649662091291191362679767725490545224590000361115407177241162086232621156380103446770033714175468340579040965466508025652117268478290602071401080486669389396659323749217780226613018436120782948764664703795126286470801341273086193855930537828182763936480765637985366149327583395127908881202977275150813400507700086798950598545770014330971447231171884512824486592529426732031975187928921824252686298575560292339074809946515698472965424438080038907068969993476111555332268979161923344191325250183533057219341343322410143019053843841807900996589012295041129229910813207190549992920884762699957136446255029039799472863384446795658166636043168572561562879126583857995753699271282572013411884563748885884878771007465302693123017992486004705109732006979049282917026005186056987498517480902735606246429214144559218547716195278483278099815106704088208177009912024556948133696090154881889979235223097117732157576090621984888563521661849243148851582316898189444427155872876831547659931520316154126277003302190900338038628788387294492883479413138527824245646010860356714638099777861078934130929257964590389581764312505381190253597988359944868364056516895304792059653388177217301826299469064143889567082674445197101022757126164491303400065765805049541478130439725509240172728077988892706903445305059579684723049035968593257792229212617500274419911527612783084301544853741254157079904968733419089924918531752240238962781574191669750224337283628233903385711209434271315537093865794797256637563091017838845048376710949108906208922924782668435323587391797703423768063802483074655128632508409772623395881461926897956941620062557888989117679312939301906800522688119282976270885406254354380439049530531047279174981561396076080260729333199346095576185982227964955348959168656992529300840658633082038600278533777672339276459 3020).1 = 353824140250835321339638261380512724337051069933364764538638664246395672 ∧ (natLoop 200 427747138752182595598143544733952737842531701909008722041473495135558364622060487494982481042071 35594965702012687094972663518244639467745944815488673374354153686509558479810933013369789237369278799380448365463495327685608046083373198747896723455994727437964905836307095053203504160746952208760468310526324936528137591409120226266352595490742730091173821604038767899376286033405270551475674651184182256815092638603332748831134317265132759125247910498616633375528997506335547230604942273756125384578984088435651445727212976487878492634418337347583700191680942827474960841775995148670442863034947320709327202434254082905188549664130142422240919812610847893429042619456877130240739882506714815269970754678714528078894954420974374644135319644345346486127792070826273649180957566103506475973196383165067137805397649438680442340192389681832711224375896484978089297518666379271762268306993441312725441606374518199000281160294140453418318103218636196632688359490270807767883483345253615039371737968774232401948176197285863165816135462189295129737116310170877581038131257444851593061947423471490965404750054787063801210439610157986855873869554229401825333976115765815958003790938147908167195378312409363950931877639616287362978394855291696171774278096464140844909245736174629790190828417368657822109930144850736992212550757105620547948811978734716661807724461262943513775073313252377310903563068149465380989901948147035434752810711607411589016372151037995845917667733362653068447930784294404365492414915429954027964471466457825719474651451060332132738561086937867183413389968114622037515112765535506779787079325309729921226976829108088741942717314630206802030408539503685111274250366781355914156059700197773895468686440930182157591401653906952628712756173816424550836857328566186594295934344371505223707647716310296746367141253062671999993121271399213546720386311587271071383019225645750216323610693635826047214397183485429975582849629701660597525851299431631977152672858489228170918085323715050851452863364519283906310457954780531373643123729652194674285755523110703756926404834868168019755751116047447452018012415646837157067681699785104713931935890536063294043517039141017334579610132154609918553290333423616879008223549128449196812335743800949134602099685979814987578030107132572902767780328987331928659468996923119122622869490275486727975654539954041168423050584911616771003004134365294771301064671866335120625819405132100443084405716188293775504196786174939869019712006244662766079661927274745859546099163658736979929714975682960361720802218220509543694223806513550796532505387117332454781532955893685286157919673212812772713999225740728618514508315595316023312875229996014694232465665503013462370455513553149663051445511338962955046558458521316909576498087486647322272606396858658784323118685247234999825030584917163733952196447346758890387252307112769288533995302885448919086244912833967930103494841569039252077273218487478713051785313188360207451523246098560229880371804872123965809938579799662887555011796752687787407866268223499253930894765250490077635230637667785846021919109629786532384117689103520040198107472702619953849925807815578781242726186974675896963526705741749084340280198913921890053102505858207019237853788400434911090593437698696324810474043065978139284806850489128658620413439733943200386908393014905943025154055270996148641366254687282076803590400982475234648679763522693927532526567621231607147671099167877208620854249836921842206614245638703647883535215716295755393812403013653179895523302668472693307793291919977664834341030132489861684206914185486494283766227303731081497188251600773635415849790245956745713961942726672761079956524707237075555512213137619305154961482319221472086923342331814040365514956510039496940195721743184621888292532332555982799890053000229939653543209572491484773422760791076753700997324766512504527663135891484323116188817261538459179377774981559636299637151683755003809914806892906642239329498347706527311838018173372227770070376351283359493088365645247439735085953197813304763350925881789949537061416477650765966064168108375873588190178596846266136236972280356307256795070036713617256001520014387274749825676515390902868064067808708202649662091291191362679767725490545224590000361115407177241162086232621156380103446770033714175468340579040965466508025652117268478290602071401080486669389396659323749217780226613018436120782948764664703795126286470801341273086193855930537828182763936480765637985366149327583395127908881202977275150813400507700086798950598545770014330971447231171884512824486592529426732031975187928921824252686298575560292339074809946515698472965424438080038907068969993476111555332268979161923344191325250183533057219341343322410143019053843841807900996589012295041129229910813207190549992920884762699957136446255029039799472863384446795658166636043168572561562879126583857995753699271282572013411884563748885884878771007465302693123017992486004705109732006979049282917026005186056987498517480902735606246429214144559218547716195278483278099815106704088208177009912024556948133696090154881889979235223097117732157576090621984888563521661849243148851582316898189444427155872876831547659931520316154126277003302190900338038628788387294492883479413138527824245646010860356714638099777861078934130929257964590389581764312505381190253597988359944868364056516895304792059653388177217301826299469064143889567082674445197101022757126164491303400065765805049541478130439725509240172728077988892706903445305059579684723049035968593257792229212617500274419911527612783084301544853741254157079904968733419089924918531752240238962781574191669750224337283628233903385711209434271315537093865794797256637563091017838845048376710949108906208922924782668435323587391797703423768063802483074655128632508409772623395881461926897956941620062557888989117679312939301906800522688119282976270885406254354380439049530531047279174981561396076080260729333199346095576185982227964955348959168656992529300840658633082038600278533777672339276459 3020).2.1 = 175784369082247270115172692143946604140714589011874833125656666660650156021402495619835517762940177548352132833647167086043166710467746726152392481830527576831270845159195735062958437019571336284281829767552639459623588555109599040900897281341992628096012515081992520868719998726475081830619235723106475756805387986105963595175671463650477467347811788061333322545157082104482416212262224595419050644027070491333438693964080822845159970477393987841338728543475744731496453176121365763019813249260839889893309346747317158203962184267711759848099145117485766407854107375738259157139085698536352876330643193650868707661197571417422922026956155534687965175029119644113347073993172086932395335493875930212931749907217941141256580953806275626649268389007760993113931990393232882935615976163550469247861390237987735798236676883638803125673170526422915663481554586710868461038014170401920092212188724057411711720985900893441117199795673757092982340029755258913955000021962537172675605285260959589539970059851607568766200626688781388261648558038809621376434016768747833453926274563873979413659902033003803862972966218560466091225582796206810537939037371632632193886475779670922125666482357555540042956514400114062414881253229357157080449564920134815696311293608438214761676362083337764759445036933900355518017281605562417459975979367293941561797691685814645658211110325906550549447581415452682463856365846913460633421945636042363633064711984764082097420079842329999673760649982933244942540752493354828642106410837453275443795148071692236038742788470781257951715951047138369352824443705948006774827163832536176101174961814921780647294708014492248144754875401637551436978961891895022311418661232084680136029238276238189948227487328573696392137094045393409086561595601046764532973190250695672882302402920713042483099710471387323787178541567774071399431571667546150249735078869960868863678554954147363252302928558109786733056742333348290074349845238886566416840418601518126001762481270691699646358303627193659994665675052816645619904403072556866557561813475635970459083669195227624461669987916159240494536070167237745014324668126891644065175538219784126669337572161345161388621581127412526358654283625421857983115836797293085709826154753892111742297345223110320758177374767041967978014211115359650034692751183711184582558833209837580220578721964732435762598275769783812477886524285097040041435407129832113733739431581302935852147729017325657680089802022511180096250747071945341202782822205984033022348856839831329433203020190981006130112288945768240430885994137216504593292116612966828467700379973233516226951135529700469721119345389606455332499300248798522302698132397605501981833471943264472447145362333694849658088931837586502434982542619570229521087621273073853150326202828260706900187372178404203685318493068498262491272785602098217602633934979830220485104149179546633448278443218429889893242517825539997556230402099227018465159462909529409706795410394332992970943840129263058329957189201238255689362281891653410687796438193706430077954960566649033139322331812502070933510922822419660318032691520178714017428071740488423040402938697897836092199243772421933440791560759012498949155914535956513655455598390295706974718390439861384522846437948483500680385403838353915258562035335934368553347290546506780847828458764506470608274966582075400569804318327076071595738689654915341646377949142221997112477544017036929107443184185397444567097633507409356453151532756473269422631836685702278336634793120482519808938164608399831770942916643622806097147233496946191439377925951576246476655029189138090334558835199106448091265453996940659623366934739405735101921418338129578937673931989755633257573443123756073568026324915210151641838031475841416312605012765316073758499171060147325525183564580098106662037228762570995895358546911041672683692219510519112795817322941776033988018631879186496802293271142850560480566336104339906735119586387183083373078385018844776328597699148565644352171694356620522406965000311560889163267239031022333969660023174294354179923029140949418727185219955592005653340896197315327740076443291112344691678619994940542611026837926358749894074907708616087130441848540382262609892545939678484159187574968813007943332865665606152902076085800139080945651258957339989792628916034030771846576671167239855130535109741399408970903073770830869486046722123838476238356733153375687325016119440770838633747950303779798789525571580105139649481165901475302532822580442696818753922557064057428371295068591851798096386532876825489913171562216811821402399715278975490512940582043715971759975177038817357486474073463651302158254500425222012744397154736463745265853090515871170564308413098689163698666224817586695304249896840063311899505905328547005938331169619787813434724782827749426538788657871568668863084159091275369341749781257346605012954836755860397478043373034888334097823425660148792105475012320327618359054394349282572575762086623448451955820867067274600528290088235696082092355371737623826468984448061115279763867489287535050522279622418272724243123714774093899500994918110760648408819750287484797721790090654681420752808332750394607583315863016117350975485833903636479831705710986573264335882922194249500168039908890825409264396496444586676981150532919429343582124976169147332308096140624415078614891575436313422615412914366845364707218953712581562439467646565174803601278195584310260595202789570531531362164002474545222894814695545915709608040301176959782687069796343713441243056991615386515699817792898082956593578598620225555606703772317063482377781376626828787233226209609459945900695570881856550506586224958782445409208171537052568835086017003437599406809319256121425965866558265346025827327744691614448631719009634609713895314965447240285065930826692958900278740280602556872574281743786514238968976839315599460056216169357607648560971420084134836596559820351613339014320681477273134121643 ∧ (natLoop 200 427747138752182595598143544733952737842531701909008722041473495135558364622060487494982481042071 35594965702012687094972663518244639467745944815488673374354153686509558479810933013369789237369278799380448365463495327685608046083373198747896723455994727437964905836307095053203504160746952208760468310526324936528137591409120226266352595490742730091173821604038767899376286033405270551475674651184182256815092638603332748831134317265132759125247910498616633375528997506335547230604942273756125384578984088435651445727212976487878492634418337347583700191680942827474960841775995148670442863034947320709327202434254082905188549664130142422240919812610847893429042619456877130240739882506714815269970754678714528078894954420974374644135319644345346486127792070826273649180957566103506475973196383165067137805397649438680442340192389681832711224375896484978089297518666379271762268306993441312725441606374518199000281160294140453418318103218636196632688359490270807767883483345253615039371737968774232401948176197285863165816135462189295129737116310170877581038131257444851593061947423471490965404750054787063801210439610157986855873869554229401825333976115765815958003790938147908167195378312409363950931877639616287362978394855291696171774278096464140844909245736174629790190828417368657822109930144850736992212550757105620547948811978734716661807724461262943513775073313252377310903563068149465380989901948147035434752810711607411589016372151037995845917667733362653068447930784294404365492414915429954027964471466457825719474651451060332132738561086937867183413389968114622037515112765535506779787079325309729921226976829108088741942717314630206802030408539503685111274250366781355914156059700197773895468686440930182157591401653906952628712756173816424550836857328566186594295934344371505223707647716310296746367141253062671999993121271399213546720386311587271071383019225645750216323610693635826047214397183485429975582849629701660597525851299431631977152672858489228170918085323715050851452863364519283906310457954780531373643123729652194674285755523110703756926404834868168019755751116047447452018012415646837157067681699785104713931935890536063294043517039141017334579610132154609918553290333423616879008223549128449196812335743800949134602099685979814987578030107132572902767780328987331928659468996923119122622869490275486727975654539954041168423050584911616771003004134365294771301064671866335120625819405132100443084405716188293775504196786174939869019712006244662766079661927274745859546099163658736979929714975682960361720802218220509543694223806513550796532505387117332454781532955893685286157919673212812772713999225740728618514508315595316023312875229996014694232465665503013462370455513553149663051445511338962955046558458521316909576498087486647322272606396858658784323118685247234999825030584917163733952196447346758890387252307112769288533995302885448919086244912833967930103494841569039252077273218487478713051785313188360207451523246098560229880371804872123965809938579799662887555011796752687787407866268223499253930894765250490077635230637667785846021919109629786532384117689103520040198107472702619953849925807815578781242726186974675896963526705741749084340280198913921890053102505858207019237853788400434911090593437698696324810474043065978139284806850489128658620413439733943200386908393014905943025154055270996148641366254687282076803590400982475234648679763522693927532526567621231607147671099167877208620854249836921842206614245638703647883535215716295755393812403013653179895523302668472693307793291919977664834341030132489861684206914185486494283766227303731081497188251600773635415849790245956745713961942726672761079956524707237075555512213137619305154961482319221472086923342331814040365514956510039496940195721743184621888292532332555982799890053000229939653543209572491484773422760791076753700997324766512504527663135891484323116188817261538459179377774981559636299637151683755003809914806892906642239329498347706527311838018173372227770070376351283359493088365645247439735085953197813304763350925881789949537061416477650765966064168108375873588190178596846266136236972280356307256795070036713617256001520014387274749825676515390902868064067808708202649662091291191362679767725490545224590000361115407177241162086232621156380103446770033714175468340579040965466508025652117268478290602071401080486669389396659323749217780226613018436120782948764664703795126286470801341273086193855930537828182763936480765637985366149327583395127908881202977275150813400507700086798950598545770014330971447231171884512824486592529426732031975187928921824252686298575560292339074809946515698472965424438080038907068969993476111555332268979161923344191325250183533057219341343322410143019053843841807900996589012295041129229910813207190549992920884762699957136446255029039799472863384446795658166636043168572561562879126583857995753699271282572013411884563748885884878771007465302693123017992486004705109732006979049282917026005186056987498517480902735606246429214144559218547716195278483278099815106704088208177009912024556948133696090154881889979235223097117732157576090621984888563521661849243148851582316898189444427155872876831547659931520316154126277003302190900338038628788387294492883479413138527824245646010860356714638099777861078934130929257964590389581764312505381190253597988359944868364056516895304792059653388177217301826299469064143889567082674445197101022757126164491303400065765805049541478130439725509240172728077988892706903445305059579684723049035968593257792229212617500274419911527612783084301544853741254157079904968733419089924918531752240238962781574191669750224337283628233903385711209434271315537093865794797256637563091017838845048376710949108906208922924782668435323587391797703423768063802483074655128632508409772623395881461926897956941620062557888989117679312939301906800522688119282976270885406254354380439049530531047279174981561396076080260729333199346095576185982227964955348959168656992529300840658633082038600278533777672339276459 3020).2.2 = 3215 :=
  ⟨rfl, rfl, rfl⟩

set_option maxRecDepth 4000000 in
set_option maxHeartbeats 16000000 in
/-- Traversal evaluation: iterations 3201 to 3400 of the refinement loop. -/
theorem natChunk17 : (natLoop 200 353824140250835321339638261380512724337051069933364764538638664246395672 175784369082247270115172692143946604140714589011874833125656666660650156021402495619835517762940177548352132833647167086043166710467746726152392481830527576831270845159195735062958437019571336284281829767552639459623588555109599040900897281341992628096012515081992520868719998726475081830619235723106475756805387986105963595175671463650477467347811788061333322545157082104482416212262224595419050644027070491333438693964080822845159970477393987841338728543475744731496453176121365763019813249260839889893309346747317158203962184267711759848099145117485766407854107375738259157139085698536352876330643193650868707661197571417422922026956155534687965175029119644113347073993172086932395335493875930212931749907217941141256580953806275626649268389007760993113931990393232882935615976163550469247861390237987735798236676883638803125673170526422915663481554586710868461038014170401920092212188724057411711720985900893441117199795673757092982340029755258913955000021962537172675605285260959589539970059851607568766200626688781388261648558038809621376434016768747833453926274563873979413659902033003803862972966218560466091225582796206810537939037371632632193886475779670922125666482357555540042956514400114062414881253229357157080449564920134815696311293608438214761676362083337764759445036933900355518017281605562417459975979367293941561797691685814645658211110325906550549447581415452682463856365846913460633421945636042363633064711984764082097420079842329999673760649982933244942540752493354828642106410837453275443795148071692236038742788470781257951715951047138369352824443705948006774827163832536176101174961814921780647294708014492248144754875401637551436978961891895022311418661232084680136029238276238189948227487328573696392137094045393409086561595601046764532973190250695672882302402920713042483099710471387323787178541567774071399431571667546150249735078869960868863678554954147363252302928558109786733056742333348290074349845238886566416840418601518126001762481270691699646358303627193659994665675052816645619904403072556866557561813475635970459083669195227624461669987916159240494536070167237745014324668126891644065175538219784126669337572161345161388621581127412526358654283625421857983115836797293085709826154753892111742297345223110320758177374767041967978014211115359650034692751183711184582558833209837580220578721964732435762598275769783812477886524285097040041435407129832113733739431581302935852147729017325657680089802022511180096250747071945341202782822205984033022348856839831329433203020190981006130112288945768240430885994137216504593292116612966828467700379973233516226951135529700469721119345389606455332499300248798522302698132397605501981833471943264472447145362333694849658088931837586502434982542619570229521087621273073853150326202828260706900187372178404203685318493068498262491272785602098217602633934979830220485104149179546633448278443218429889893242517825539997556230402099227018465159462909529409706795410394332992970943840129263058329957189201238255689362281891653410687796438193706430077954960566649033139322331812502070933510922822419660318032691520178714017428071740488423040402938697897836092199243772421933440791560759012498949155914535956513655455598390295706974718390439861384522846437948483500680385403838353915258562035335934368553347290546506780847828458764506470608274966582075400569804318327076071595738689654915341646377949142221997112477544017036929107443184185397444567097633507409356453151532756473269422631836685702278336634793120482519808938164608399831770942916643622806097147233496946191439377925951576246476655029189138090334558835199106448091265453996940659623366934739405735101921418338129578937673931989755633257573443123756073568026324915210151641838031475841416312605012765316073758499171060147325525183564580098106662037228762570995895358546911041672683692219510519112795817322941776033988018631879186496802293271142850560480566336104339906735119586387183083373078385018844776328597699148565644352171694356620522406965000311560889163267239031022333969660023174294354179923029140949418727185219955592005653340896197315327740076443291112344691678619994940542611026837926358749894074907708616087130441848540382262609892545939678484159187574968813007943332865665606152902076085800139080945651258957339989792628916034030771846576671167239855130535109741399408970903073770830869486046722123838476238356733153375687325016119440770838633747950303779798789525571580105139649481165901475302532822580442696818753922557064057428371295068591851798096386532876825489913171562216811821402399715278975490512940582043715971759975177038817357486474073463651302158254500425222012744397154736463745265853090515871170564308413098689163698666224817586695304249896840063311899505905328547005938331169619787813434724782827749426538788657871568668863084159091275369341749781257346605012954836755860397478043373034888334097823425660148792105475012320327618359054394349282572575762086623448451955820867067274600528290088235696082092355371737623826468984448061115279763867489287535050522279622418272724243123714774093899500994918110760648408819750287484797721790090654681420752808332750394607583315863016117350975485833903636479831705710986573264335882922194249500168039908890825409264396496444586676981150532919429343582124976169147332308096140624415078614891575436313422615412914366845364707218953712581562439467646565174803601278195584310260595202789570531531362164002474545222894814695545915709608040301176959782687069796343713441243056991615386515699817792898082956593578598620225555606703772317063482377781376626828787233226209609459945900695570881856550506586224958782445409208171537052568835086017003437599406809319256121425965866558265346025827327744691614448631719009634609713895314965447240285065930826692958900278740280602556872574281743786514238968976839315599460056216169357607648560971420084134836596559820351613339014320681477273134121643 3215).1 = 120400115918320336680676234558977273101956720085143236874541396041119117840784765182172093202399432194893759167 ∧ (natLoop 200 353824140250835321339638261380512724337051069933364764538638664246395672 175784369082247270115172692143946604140714589011874833125656666660650156021402495619835517762940177548352132833647167086043166710467746726152392481830527576831270845159195735062958437019571336284281829767552639459623588555109599040900897281341992628096012515081992520868719998726475081830619235723106475756805387986105963595175671463650477467347811788061333322545157082104482416212262224595419050644027070491333438693964080822845159970477393987841338728543475744731496453176121365763019813249260839889893309346747317158203962184267711759848099145117485766407854107375738259157139085698536352876330643193650868707661197571417422922026956155534687965175029119644113347073993172086932395335493875930212931749907217941141256580953806275626649268389007760993113931990393232882935615976163550469247861390237987735798236676883638803125673170526422915663481554586710868461038014170401920092212188724057411711720985900893441117199795673757092982340029755258913955000021962537172675605285260959589539970059851607568766200626688781388261648558038809621376434016768747833453926274563873979413659902033003803862972966218560466091225582796206810537939037371632632193886475779670922125666482357555540042956514400114062414881253229357157080449564920134815696311293608438214761676362083337764759445036933900355518017281605562417459975979367293941561797691685814645658211110325906550549447581415452682463856365846913460633421945636042363633064711984764082097420079842329999673760649982933244942540752493354828642106410837453275443795148071692236038742788470781257951715951047138369352824443705948006774827163832536176101174961814921780647294708014492248144754875401637551436978961891895022311418661232084680136029238276238189948227487328573696392137094045393409086561595601046764532973190250695672882302402920713042483099710471387323787178541567774071399431571667546150249735078869960868863678554954147363252302928558109786733056742333348290074349845238886566416840418601518126001762481270691699646358303627193659994665675052816645619904403072556866557561813475635970459083669195227624461669987916159240494536070167237745014324668126891644065175538219784126669337572161345161388621581127412526358654283625421857983115836797293085709826154753892111742297345223110320758177374767041967978014211115359650034692751183711184582558833209837580220578721964732435762598275769783812477886524285097040041435407129832113733739431581302935852147729017325657680089802022511180096250747071945341202782822205984033022348856839831329433203020190981006130112288945768240430885994137216504593292116612966828467700379973233516226951135529700469721119345389606455332499300248798522302698132397605501981833471943264472447145362333694849658088931837586502434982542619570229521087621273073853150326202828260706900187372178404203685318493068498262491272785602098217602633934979830220485104149179546633448278443218429889893242517825539997556230402099227018465159462909529409706795410394332992970943840129263058329957189201238255689362281891653410687796438193706430077954960566649033139322331812502070933510922822419660318032691520178714017428071740488423040402938697897836092199243772421933440791560759012498949155914535956513655455598390295706974718390439861384522846437948483500680385403838353915258562035335934368553347290546506780847828458764506470608274966582075400569804318327076071595738689654915341646377949142221997112477544017036929107443184185397444567097633507409356453151532756473269422631836685702278336634793120482519808938164608399831770942916643622806097147233496946191439377925951576246476655029189138090334558835199106448091265453996940659623366934739405735101921418338129578937673931989755633257573443123756073568026324915210151641838031475841416312605012765316073758499171060147325525183564580098106662037228762570995895358546911041672683692219510519112795817322941776033988018631879186496802293271142850560480566336104339906735119586387183083373078385018844776328597699148565644352171694356620522406965000311560889163267239031022333969660023174294354179923029140949418727185219955592005653340896197315327740076443291112344691678619994940542611026837926358749894074907708616087130441848540382262609892545939678484159187574968813007943332865665606152902076085800139080945651258957339989792628916034030771846576671167239855130535109741399408970903073770830869486046722123838476238356733153375687325016119440770838633747950303779798789525571580105139649481165901475302532822580442696818753922557064057428371295068591851798096386532876825489913171562216811821402399715278975490512940582043715971759975177038817357486474073463651302158254500425222012744397154736463745265853090515871170564308413098689163698666224817586695304249896840063311899505905328547005938331169619787813434724782827749426538788657871568668863084159091275369341749781257346605012954836755860397478043373034888334097823425660148792105475012320327618359054394349282572575762086623448451955820867067274600528290088235696082092355371737623826468984448061115279763867489287535050522279622418272724243123714774093899500994918110760648408819750287484797721790090654681420752808332750394607583315863016117350975485833903636479831705710986573264335882922194249500168039908890825409264396496444586676981150532919429343582124976169147332308096140624415078614891575436313422615412914366845364707218953712581562439467646565174803601278195584310260595202789570531531362164002474545222894814695545915709608040301176959782687069796343713441243056991615386515699817792898082956593578598620225555606703772317063482377781376626828787233226209609459945900695570881856550506586224958782445409208171537052568835086017003437599406809319256121425965866558265346025827327744691614448631719009634609713895314965447240285065930826692958900278740280602556872574281743786514238968976839315599460056216169357607648560971420084134836596559820351613339014320681477273134121643 3215).2.1 = 175784369082247270115172692143946604140714589011874833125656666660650156021402495619979844368406761851408764367281762047233876128931639161883433690063528402183731366318973768941771813397281975359123549438978688200604541458292921685954247986842941890613211573697913210497071317364103565888092338575101339727767615648065981393159236886284551538133238935224715969319893389392003388415534849794770207958314664291221304125641527131858613154868096095875490161460229066298929983543486961498987074901824871725384913205266032480715304928759043731769668426775691048651083386138923638686701964925366748360289160039586801941941066394440244578387968091802841922358590832002530774109352123272328511623044271524250776101688908833470467964714240432567760574488414104359226114198324640954881142400227765333936391640353434748041091382871212420018153261349774173296563106982611489198543792797815400720654872097963463782197424782383319713374364266096596194450836299475205790902449622181128794762806070486950409901577951670925711260207801739138962290839886594362897961637558494033655154377933326636859188320564017109723156761750411031091573117721423514998642972626764157663101073971048841574780366652246790801037425016710704110388009153880544961464334716003408056602306333543632470511874026318300821402807991603337668007556372009866358948363012528557398573666280267138635022446450240360185728952416543912749491670652577162363477767476861871337333369360092961426412284949020400620668416656974234628120725955153344113407044451925622761976550253872845675592207860920272910502092686214157785640298096174407392970097928747189762842340475220020937534874733517334714009622417531768050388617869538394510081828465611938816789954578083296385469756195902652225607099772691539850203070163597735138225467845159702532853657056753379799035707867333713659707501482264758341386377169600641108474918194110578796796575971970183822599677049876239386767291316056313991778061473191268146883285438566080288380155783179663237725982489330980163005880358329384080158558690915667931893572090997470805917236037982754120260607938787361803296222083658770907708836491761478195744125470135697398800509742483163974661699254739095104951161314742668282817797098775817648803433989563997674000261516032302316342022961742048396137217491209143851413814292339853724574366013226291816062701632351682426015335152099858127117199690339572118294730045470178386193427053903417245819337955400880156261685675316669188874672077930405717847056327999659448572772095335249371970364295000043126004931528352293184141534684080226639377284683114831187132926619689426067638199647837722346336877072960985967888857616904825638888084691302156300654644413381131329653024886531784263731406165431194734933948571866903187827608994818403382811901632817205133148879582106848484018615642684682176354464797337247835197219803516588938989589361132470651076585416498931336489557316374170927800293381118002855625018530070744771518248654174907997164115933364455812446452814567925270764016191412952257194418266680929349078356756711497288974160797363485850084479195614358381781556971533310464384531944977091591592004741950606443192577304928814476036777784055334192014481680343130567105353231163168275421957859163390347354609662025637110082345254202309780727612865053453086149158897112648182750858015765076675177431814197687940740188434722796567947026533874151692734851087491515067687129272883583261548753518593221080629576424868436538509559480311343025637726010300255407952793179726965592873708311604807676163812127870293363855145207514688755610917474827101156409847469904774911677085215113048511587063813248651955331640483004111168141334576482149884947666555169921808642081223617321561824934141069259239090940944155199921121726657366220768573613731330989794507507030732890485282504664169881243753661533987947783532928438359063598620885922492800736851469202643556566452133866703547010930205654646696423495496797091402305748302392139393555622017510873112958478594427803320220805468760039735987385464935245034662290681493479405876788797964505133169414066330839139680755344053448921632852969808484398634104935378681388024591598779317226756306070262439933072263675018226798113027170680658162233016783122095924651925018832788560072906371285940385711937424512473515576469913363873396859001955452915805139011553239946528874117826940228983885360920450767563326167646352749170620966194187498465325507567712784496758460022804930273169624804558940598751422434093488332226235541165369809772670718487124377333272181326089513091722174589951333145173709086251209238696174980963301403767088341222464340406309010994960777594190904804792653035851047030983164756427801979414431913302690140963607163041622967723237749282476413373565598268460593511240164858075409691737375805035948036084441105276648048333479493037563184602005860845905536640724607656470998771352974037997458928576207646376733419521239422600541505204334526786366770233584180846573763252408822527757265845640720459382582788397851158385593559480204155109018502328885886590014427402850133897466104106091836970498997152190332156672129589628258085495494565760996361370573739450447662132566983123781329169327117769603119647762638481461410185021204452417567266140406527115390407929442187031822562202108159448839865109921400363975408667577021602735181399752785098740372174064237678233008362003062399520338747497979674667152064716465742125841727034512233428978187775060741347743331637186317129569560752156835904925690303938063305271063261889480328905610318393888721502085081081817555760089435431030283512795561072509330739310107664289798928054327927554457652130073559523515932391492577576806861205558735851353797553336283771942916533446771289981162710591715343000398791069194782817214443596791305375216461438689325844365144068655904327272161490407832888540265210708685723641935241144128176335411997933646416346857707776531256174998217517703606422187 ∧ (natLoop 200 353824140250835321339638261380512724337051069933364764538638664246395672 175784369082247270115172692143946604140714589011874833125656666660650156021402495619835517762940177548352132833647167086043166710467746726152392481830527576831270845159195735062958437019571336284281829767552639459623588555109599040900897281341992628096012515081992520868719998726475081830619235723106475756805387986105963595175671463650477467347811788061333322545157082104482416212262224595419050644027070491333438693964080822845159970477393987841338728543475744731496453176121365763019813249260839889893309346747317158203962184267711759848099145117485766407854107375738259157139085698536352876330643193650868707661197571417422922026956155534687965175029119644113347073993172086932395335493875930212931749907217941141256580953806275626649268389007760993113931990393232882935615976163550469247861390237987735798236676883638803125673170526422915663481554586710868461038014170401920092212188724057411711720985900893441117199795673757092982340029755258913955000021962537172675605285260959589539970059851607568766200626688781388261648558038809621376434016768747833453926274563873979413659902033003803862972966218560466091225582796206810537939037371632632193886475779670922125666482357555540042956514400114062414881253229357157080449564920134815696311293608438214761676362083337764759445036933900355518017281605562417459975979367293941561797691685814645658211110325906550549447581415452682463856365846913460633421945636042363633064711984764082097420079842329999673760649982933244942540752493354828642106410837453275443795148071692236038742788470781257951715951047138369352824443705948006774827163832536176101174961814921780647294708014492248144754875401637551436978961891895022311418661232084680136029238276238189948227487328573696392137094045393409086561595601046764532973190250695672882302402920713042483099710471387323787178541567774071399431571667546150249735078869960868863678554954147363252302928558109786733056742333348290074349845238886566416840418601518126001762481270691699646358303627193659994665675052816645619904403072556866557561813475635970459083669195227624461669987916159240494536070167237745014324668126891644065175538219784126669337572161345161388621581127412526358654283625421857983115836797293085709826154753892111742297345223110320758177374767041967978014211115359650034692751183711184582558833209837580220578721964732435762598275769783812477886524285097040041435407129832113733739431581302935852147729017325657680089802022511180096250747071945341202782822205984033022348856839831329433203020190981006130112288945768240430885994137216504593292116612966828467700379973233516226951135529700469721119345389606455332499300248798522302698132397605501981833471943264472447145362333694849658088931837586502434982542619570229521087621273073853150326202828260706900187372178404203685318493068498262491272785602098217602633934979830220485104149179546633448278443218429889893242517825539997556230402099227018465159462909529409706795410394332992970943840129263058329957189201238255689362281891653410687796438193706430077954960566649033139322331812502070933510922822419660318032691520178714017428071740488423040402938697897836092199243772421933440791560759012498949155914535956513655455598390295706974718390439861384522846437948483500680385403838353915258562035335934368553347290546506780847828458764506470608274966582075400569804318327076071595738689654915341646377949142221997112477544017036929107443184185397444567097633507409356453151532756473269422631836685702278336634793120482519808938164608399831770942916643622806097147233496946191439377925951576246476655029189138090334558835199106448091265453996940659623366934739405735101921418338129578937673931989755633257573443123756073568026324915210151641838031475841416312605012765316073758499171060147325525183564580098106662037228762570995895358546911041672683692219510519112795817322941776033988018631879186496802293271142850560480566336104339906735119586387183083373078385018844776328597699148565644352171694356620522406965000311560889163267239031022333969660023174294354179923029140949418727185219955592005653340896197315327740076443291112344691678619994940542611026837926358749894074907708616087130441848540382262609892545939678484159187574968813007943332865665606152902076085800139080945651258957339989792628916034030771846576671167239855130535109741399408970903073770830869486046722123838476238356733153375687325016119440770838633747950303779798789525571580105139649481165901475302532822580442696818753922557064057428371295068591851798096386532876825489913171562216811821402399715278975490512940582043715971759975177038817357486474073463651302158254500425222012744397154736463745265853090515871170564308413098689163698666224817586695304249896840063311899505905328547005938331169619787813434724782827749426538788657871568668863084159091275369341749781257346605012954836755860397478043373034888334097823425660148792105475012320327618359054394349282572575762086623448451955820867067274600528290088235696082092355371737623826468984448061115279763867489287535050522279622418272724243123714774093899500994918110760648408819750287484797721790090654681420752808332750394607583315863016117350975485833903636479831705710986573264335882922194249500168039908890825409264396496444586676981150532919429343582124976169147332308096140624415078614891575436313422615412914366845364707218953712581562439467646565174803601278195584310260595202789570531531362164002474545222894814695545915709608040301176959782687069796343713441243056991615386515699817792898082956593578598620225555606703772317063482377781376626828787233226209609459945900695570881856550506586224958782445409208171537052568835086017003437599406809319256121425965866558265346025827327744691614448631719009634609713895314965447240285065930826692958900278740280602556872574281743786514238968976839315599460056216169357607648560971420084134836596559820351613339014320681477273134121643 3215).2.2 = 3423 :=
  ⟨rfl, rfl, rfl⟩

set_option maxRecDepth 4000000 in
set_option maxHeartbeats 16000000 in
/-- Traversal evaluation: iterations 3401 to 3600 of the refinement loop. -/
theorem natChunk18 : (natLoop 200 120400115918320336680676234558977273101956720085143236874541396041119117840784765182172093202399432194893759167 175784369082247270115172692143946604140714589011874833125656666660650156021402495619979844368406761851408764367281762047233876128931639161883433690063528402183731366318973768941771813397281975359123549438978688200604541458292921685954247986842941890613211573697913210497071317364103565888092338575101339727767615648065981393159236886284551538133238935224715969319893389392003388415534849794770207958314664291221304125641527131858613154868096095875490161460229066298929983543486961498987074901824871725384913205266032480715304928759043731769668426775691048651083386138923638686701964925366748360289160039586801941941066394440244578387968091802841922358590832002530774109352123272328511623044271524250776101688908833470467964714240432567760574488414104359226114198324640954881142400227765333936391640353434748041091382871212420018153261349774173296563106982611489198543792797815400720654872097963463782197424782383319713374364266096596194450836299475205790902449622181128794762806070486950409901577951670925711260207801739138962290839886594362897961637558494033655154377933326636859188320564017109723156761750411031091573117721423514998642972626764157663101073971048841574780366652246790801037425016710704110388009153880544961464334716003408056602306333543632470511874026318300821402807991603337668007556372009866358948363012528557398573666280267138635022446450240360185728952416543912749491670652577162363477767476861871337333369360092961426412284949020400620668416656974234628120725955153344113407044451925622761976550253872845675592207860920272910502092686214157785640298096174407392970097928747189762842340475220020937534874733517334714009622417531768050388617869538394510081828465611938816789954578083296385469756195902652225607099772691539850203070163597735138225467845159702532853657056753379799035707867333713659707501482264758341386377169600641108474918194110578796796575971970183822599677049876239386767291316056313991778061473191268146883285438566080288380155783179663237725982489330980163005880358329384080158558690915667931893572090997470805917236037982754120260607938787361803296222083658770907708836491761478195744125470135697398800509742483163974661699254739095104951161314742668282817797098775817648803433989563997674000261516032302316342022961742048396137217491209143851413814292339853724574366013226291816062701632351682426015335152099858127117199690339572118294730045470178386193427053903417245819337955400880156261685675316669188874672077930405717847056327999659448572772095335249371970364295000043126004931528352293184141534684080226639377284683114831187132926619689426067638199647837722346336877072960985967888857616904825638888084691302156300654644413381131329653024886531784263731406165431194734933948571866903187827608994818403382811901632817205133148879582106848484018615642684682176354464797337247835197219803516588938989589361132470651076585416498931336489557316374170927800293381118002855625018530070744771518248654174907997164115933364455812446452814567925270764016191412952257194418266680929349078356756711497288974160797363485850084479195614358381781556971533310464384531944977091591592004741950606443192577304928814476036777784055334192014481680343130567105353231163168275421957859163390347354609662025637110082345254202309780727612865053453086149158897112648182750858015765076675177431814197687940740188434722796567947026533874151692734851087491515067687129272883583261548753518593221080629576424868436538509559480311343025637726010300255407952793179726965592873708311604807676163812127870293363855145207514688755610917474827101156409847469904774911677085215113048511587063813248651955331640483004111168141334576482149884947666555169921808642081223617321561824934141069259239090940944155199921121726657366220768573613731330989794507507030732890485282504664169881243753661533987947783532928438359063598620885922492800736851469202643556566452133866703547010930205654646696423495496797091402305748302392139393555622017510873112958478594427803320220805468760039735987385464935245034662290681493479405876788797964505133169414066330839139680755344053448921632852969808484398634104935378681388024591598779317226756306070262439933072263675018226798113027170680658162233016783122095924651925018832788560072906371285940385711937424512473515576469913363873396859001955452915805139011553239946528874117826940228983885360920450767563326167646352749170620966194187498465325507567712784496758460022804930273169624804558940598751422434093488332226235541165369809772670718487124377333272181326089513091722174589951333145173709086251209238696174980963301403767088341222464340406309010994960777594190904804792653035851047030983164756427801979414431913302690140963607163041622967723237749282476413373565598268460593511240164858075409691737375805035948036084441105276648048333479493037563184602005860845905536640724607656470998771352974037997458928576207646376733419521239422600541505204334526786366770233584180846573763252408822527757265845640720459382582788397851158385593559480204155109018502328885886590014427402850133897466104106091836970498997152190332156672129589628258085495494565760996361370573739450447662132566983123781329169327117769603119647762638481461410185021204452417567266140406527115390407929442187031822562202108159448839865109921400363975408667577021602735181399752785098740372174064237678233008362003062399520338747497979674667152064716465742125841727034512233428978187775060741347743331637186317129569560752156835904925690303938063305271063261889480328905610318393888721502085081081817555760089435431030283512795561072509330739310107664289798928054327927554457652130073559523515932391492577576806861205558735851353797553336283771942916533446771289981162710591715343000398791069194782817214443596791305375216461438689325844365144068655904327272161490407832888540265210708685723641935241144128176335411997933646416346857707776531256174998217517703606422187 3423).1 = 1837159971898198496714420082992206925994212647783557691567098938615709197647811609832050069941318806148844 ∧ (natLoop 200 120400115918320336680676234558977273101956720085143236874541396041119117840784765182172093202399432194893759167 175784369082247270115172692143946604140714589011874833125656666660650156021402495619979844368406761851408764367281762047233876128931639161883433690063528402183731366318973768941771813397281975359123549438978688200604541458292921685954247986842941890613211573697913210497071317364103565888092338575101339727767615648065981393159236886284551538133238935224715969319893389392003388415534849794770207958314664291221304125641527131858613154868096095875490161460229066298929983543486961498987074901824871725384913205266032480715304928759043731769668426775691048651083386138923638686701964925366748360289160039586801941941066394440244578387968091802841922358590832002530774109352123272328511623044271524250776101688908833470467964714240432567760574488414104359226114198324640954881142400227765333936391640353434748041091382871212420018153261349774173296563106982611489198543792797815400720654872097963463782197424782383319713374364266096596194450836299475205790902449622181128794762806070486950409901577951670925711260207801739138962290839886594362897961637558494033655154377933326636859188320564017109723156761750411031091573117721423514998642972626764157663101073971048841574780366652246790801037425016710704110388009153880544961464334716003408056602306333543632470511874026318300821402807991603337668007556372009866358948363012528557398573666280267138635022446450240360185728952416543912749491670652577162363477767476861871337333369360092961426412284949020400620668416656974234628120725955153344113407044451925622761976550253872845675592207860920272910502092686214157785640298096174407392970097928747189762842340475220020937534874733517334714009622417531768050388617869538394510081828465611938816789954578083296385469756195902652225607099772691539850203070163597735138225467845159702532853657056753379799035707867333713659707501482264758341386377169600641108474918194110578796796575971970183822599677049876239386767291316056313991778061473191268146883285438566080288380155783179663237725982489330980163005880358329384080158558690915667931893572090997470805917236037982754120260607938787361803296222083658770907708836491761478195744125470135697398800509742483163974661699254739095104951161314742668282817797098775817648803433989563997674000261516032302316342022961742048396137217491209143851413814292339853724574366013226291816062701632351682426015335152099858127117199690339572118294730045470178386193427053903417245819337955400880156261685675316669188874672077930405717847056327999659448572772095335249371970364295000043126004931528352293184141534684080226639377284683114831187132926619689426067638199647837722346336877072960985967888857616904825638888084691302156300654644413381131329653024886531784263731406165431194734933948571866903187827608994818403382811901632817205133148879582106848484018615642684682176354464797337247835197219803516588938989589361132470651076585416498931336489557316374170927800293381118002855625018530070744771518248654174907997164115933364455812446452814567925270764016191412952257194418266680929349078356756711497288974160797363485850084479195614358381781556971533310464384531944977091591592004741950606443192577304928814476036777784055334192014481680343130567105353231163168275421957859163390347354609662025637110082345254202309780727612865053453086149158897112648182750858015765076675177431814197687940740188434722796567947026533874151692734851087491515067687129272883583261548753518593221080629576424868436538509559480311343025637726010300255407952793179726965592873708311604807676163812127870293363855145207514688755610917474827101156409847469904774911677085215113048511587063813248651955331640483004111168141334576482149884947666555169921808642081223617321561824934141069259239090940944155199921121726657366220768573613731330989794507507030732890485282504664169881243753661533987947783532928438359063598620885922492800736851469202643556566452133866703547010930205654646696423495496797091402305748302392139393555622017510873112958478594427803320220805468760039735987385464935245034662290681493479405876788797964505133169414066330839139680755344053448921632852969808484398634104935378681388024591598779317226756306070262439933072263675018226798113027170680658162233016783122095924651925018832788560072906371285940385711937424512473515576469913363873396859001955452915805139011553239946528874117826940228983885360920450767563326167646352749170620966194187498465325507567712784496758460022804930273169624804558940598751422434093488332226235541165369809772670718487124377333272181326089513091722174589951333145173709086251209238696174980963301403767088341222464340406309010994960777594190904804792653035851047030983164756427801979414431913302690140963607163041622967723237749282476413373565598268460593511240164858075409691737375805035948036084441105276648048333479493037563184602005860845905536640724607656470998771352974037997458928576207646376733419521239422600541505204334526786366770233584180846573763252408822527757265845640720459382582788397851158385593559480204155109018502328885886590014427402850133897466104106091836970498997152190332156672129589628258085495494565760996361370573739450447662132566983123781329169327117769603119647762638481461410185021204452417567266140406527115390407929442187031822562202108159448839865109921400363975408667577021602735181399752785098740372174064237678233008362003062399520338747497979674667152064716465742125841727034512233428978187775060741347743331637186317129569560752156835904925690303938063305271063261889480328905610318393888721502085081081817555760089435431030283512795561072509330739310107664289798928054327927554457652130073559523515932391492577576806861205558735851353797553336283771942916533446771289981162710591715343000398791069194782817214443596791305375216461438689325844365144068655904327272161490407832888540265210708685723641935241144128176335411997933646416346857707776531256174998217517703606422187 3423).2.1 = 175784369082247270115172692143946604140714589011874833125656666660650156021402495619979844368406761851408764367281762047233876128931639161883433690063528402183731366318973768941771813397281975359123549438978688200604541458292921685954247986842941890613211573697913210497071317364103565888092338575101352811134603092577813010364363217334459924572809931136648895129970810800768776384566721533563738072291596287751042641870658439002944228343214760922331178126992261888009322998401592948345212312086220781238781258221157918608886641806323066378139486761581684774751033219977414509396315273721100061686248663224258906721924972585072505973963730484121511496981751145469474217992859987751214551754545730116753680962764503364737907097129601837021828373728882871284053047583777527188203396788094539684052976518353630577542178723941928689822628095861213629547618597196724345541653435062715207823835370374799789780478558159382542459570171759686815025306203936382833874636036674233200593880672481595954253544619521257768141090884662500697691862835545299581509940625422338193775607066901847602261781824187155972122703606408799278953313707495559764681015561891319802705982319167564879285510695841184997608064096734086507512586258834448393585871930803559155697944693909492534535761791499334078921337235848465510490814267600113739081317654779196548657000436625628067882520976443433289404485941505365355103500814175496235566839831243316830974168185218402014166381805027726092170236769983219362376770056308433082573214790326077334965197645864356624554121728524867479693756479523966736069242501837240963551610657679924382512274012781131684678357475611911124336589484097257655640533584482505756149195026238217046193221450118317153979032714627326241358321023508565046843977985087897459933488525806918576912356451635471706578008453668141088192007045594301708030035856993888298592952968086541599206024665176294333035826482506703748807077644519777491339958016304340365535451297115639882795338314005484743793193338914092580023197629103619924971358209261261392181856806033707280614916664174670248073849700604868714021770726671192710049582876351100265047575494343207106906995758774698176639755132532591972810506141077485664924729097852587536986991360598490587714813666003887240101920064752414291278363460887956871042760762547275519205543143619780043520387011358992419508009826773407865728864800720219137938871321488121917282849126381779288158847413210764876285650971882513490459071183424823602348410294590729628621616937721989832744384644379966813426438334185618058833636171848327052039644950996046108215599371161526052302345561185768060492923521843717934627325746590014829737087717374150561570716194354966193788826562548378696248835530523504740880213869430634806859102782079625768328521399479891838331211516646566554125796072547158569305673390891188565767891303121010383590235535211494722135206705197321237651889256819342961576111079475092981273724872444352471023531512785741690063249674897526120578196105469970851545499943266555199671170451086129465624889268987315851504285731057286057054138059448182799216223293678780155786145636674408523632971826402245224799956775241471634977718860207220627367978659434975695625336647147970592855071211134183234904511589502196487516732929638258673699725731378244016336957184620117274577000391987711855550931760619680150150660705414166229069948195943763354949848937420266354896271888773918591520340759959752410343583865497474131131780144937379365290644303084424618844206024812489461048356538704018303323291842628466106536753024398465341230805263384212460482302353200703795105327514526951246509860790361900419310182062517481216350387893538745137342054045591921820679326201622658001988646908852825552897129081947460195611514903495619238175917049112747939088327880186514919923478571677428474421713784518779290594861249772663651950427496904322087874055701278381790742853020105993720808854858082963368720486271961872413234180410078603962194443218697224680831495896918051891582018814177951346912214804168378744846474209513131271897715838108625234663198671764229374495938628738418498084642799108397390729710132593055773952553322752774888033285646461530021321442666078073146918198808034516876723880239052071819971026829540052688493747140345903736150961816530130014110249212387467514761741281720772647553207415475726727722996748379517326337462410491509890412107181410378242809876030837009490456684949430720541413556194495278913010762776449482859309359369227481866838955341996321936143490649634713713837051688104606863958198228783165132943311343002726217621501597377166829526283770899955333470988734290349440417209789669819593858509015735713521855694400612550002213877893960311485962791099304864360018415092256835138313248742894815457668106850005014216281627141963587465707656157397249055272760536489016782199539658602599194772469629939041849678066131481002592967771271933334137384583884947272692928727667072521616229086900178913592528020964718043310844720985853224571029368681174446918946261740964784317015486493601249272255790669806570699185490429994366340784750497004552691739416449086554189926815574569639066204967189189747960353832212693583807557733763717263136978320200238909878394382291529302119448358561791956985382105209486236916034835190982089441479276503663965832729405741341186630690344126328034525579153621270254964830556697748596747016407345116951640518781073448807400542983430441235859949059079450087561975928375948123211232659869134811164876216308453895140677977605861710741803516583045621438989426822951696150365310233582184544017366842141307970977286073389607030351751018750683610266145931311480348231384712194092214316809389211158504508348602639558064128172231554311892755619430746939791500790318566580987517837833656893458396969379021551910664266317414618920580559373442084856170970366185585979411373135150235743964887474822851382497005724724726574353230453223411272363 ∧ (natLoop 200 120400115918320336680676234558977273101956720085143236874541396041119117840784765182172093202399432194893759167 175784369082247270115172692143946604140714589011874833125656666660650156021402495619979844368406761851408764367281762047233876128931639161883433690063528402183731366318973768941771813397281975359123549438978688200604541458292921685954247986842941890613211573697913210497071317364103565888092338575101339727767615648065981393159236886284551538133238935224715969319893389392003388415534849794770207958314664291221304125641527131858613154868096095875490161460229066298929983543486961498987074901824871725384913205266032480715304928759043731769668426775691048651083386138923638686701964925366748360289160039586801941941066394440244578387968091802841922358590832002530774109352123272328511623044271524250776101688908833470467964714240432567760574488414104359226114198324640954881142400227765333936391640353434748041091382871212420018153261349774173296563106982611489198543792797815400720654872097963463782197424782383319713374364266096596194450836299475205790902449622181128794762806070486950409901577951670925711260207801739138962290839886594362897961637558494033655154377933326636859188320564017109723156761750411031091573117721423514998642972626764157663101073971048841574780366652246790801037425016710704110388009153880544961464334716003408056602306333543632470511874026318300821402807991603337668007556372009866358948363012528557398573666280267138635022446450240360185728952416543912749491670652577162363477767476861871337333369360092961426412284949020400620668416656974234628120725955153344113407044451925622761976550253872845675592207860920272910502092686214157785640298096174407392970097928747189762842340475220020937534874733517334714009622417531768050388617869538394510081828465611938816789954578083296385469756195902652225607099772691539850203070163597735138225467845159702532853657056753379799035707867333713659707501482264758341386377169600641108474918194110578796796575971970183822599677049876239386767291316056313991778061473191268146883285438566080288380155783179663237725982489330980163005880358329384080158558690915667931893572090997470805917236037982754120260607938787361803296222083658770907708836491761478195744125470135697398800509742483163974661699254739095104951161314742668282817797098775817648803433989563997674000261516032302316342022961742048396137217491209143851413814292339853724574366013226291816062701632351682426015335152099858127117199690339572118294730045470178386193427053903417245819337955400880156261685675316669188874672077930405717847056327999659448572772095335249371970364295000043126004931528352293184141534684080226639377284683114831187132926619689426067638199647837722346336877072960985967888857616904825638888084691302156300654644413381131329653024886531784263731406165431194734933948571866903187827608994818403382811901632817205133148879582106848484018615642684682176354464797337247835197219803516588938989589361132470651076585416498931336489557316374170927800293381118002855625018530070744771518248654174907997164115933364455812446452814567925270764016191412952257194418266680929349078356756711497288974160797363485850084479195614358381781556971533310464384531944977091591592004741950606443192577304928814476036777784055334192014481680343130567105353231163168275421957859163390347354609662025637110082345254202309780727612865053453086149158897112648182750858015765076675177431814197687940740188434722796567947026533874151692734851087491515067687129272883583261548753518593221080629576424868436538509559480311343025637726010300255407952793179726965592873708311604807676163812127870293363855145207514688755610917474827101156409847469904774911677085215113048511587063813248651955331640483004111168141334576482149884947666555169921808642081223617321561824934141069259239090940944155199921121726657366220768573613731330989794507507030732890485282504664169881243753661533987947783532928438359063598620885922492800736851469202643556566452133866703547010930205654646696423495496797091402305748302392139393555622017510873112958478594427803320220805468760039735987385464935245034662290681493479405876788797964505133169414066330839139680755344053448921632852969808484398634104935378681388024591598779317226756306070262439933072263675018226798113027170680658162233016783122095924651925018832788560072906371285940385711937424512473515576469913363873396859001955452915805139011553239946528874117826940228983885360920450767563326167646352749170620966194187498465325507567712784496758460022804930273169624804558940598751422434093488332226235541165369809772670718487124377333272181326089513091722174589951333145173709086251209238696174980963301403767088341222464340406309010994960777594190904804792653035851047030983164756427801979414431913302690140963607163041622967723237749282476413373565598268460593511240164858075409691737375805035948036084441105276648048333479493037563184602005860845905536640724607656470998771352974037997458928576207646376733419521239422600541505204334526786366770233584180846573763252408822527757265845640720459382582788397851158385593559480204155109018502328885886590014427402850133897466104106091836970498997152190332156672129589628258085495494565760996361370573739450447662132566983123781329169327117769603119647762638481461410185021204452417567266140406527115390407929442187031822562202108159448839865109921400363975408667577021602735181399752785098740372174064237678233008362003062399520338747497979674667152064716465742125841727034512233428978187775060741347743331637186317129569560752156835904925690303938063305271063261889480328905610318393888721502085081081817555760089435431030283512795561072509330739310107664289798928054327927554457652130073559523515932391492577576806861205558735851353797553336283771942916533446771289981162710591715343000398791069194782817214443596791305375216461438689325844365144068655904327272161490407832888540265210708685723641935241144128176335411997933646416346857707776531256174998217517703606422187 3423).2.2 = 3622 :=
  ⟨rfl, rfl, rfl⟩

set_option maxRecDepth 4000000 in
set_option maxHeartbeats 16000000 in
/-- Traversal evaluation: iterations 3601 to 3800 of the refinement loop. -/
theorem natChunk19 : (natLoop 200 1837159971898198496714420082992206925994212647783557691567098938615709197647811609832050069941318806148844 175784369082247270115172692143946604140714589011874833125656666660650156021402495619979844368406761851408764367281762047233876128931639161883433690063528402183731366318973768941771813397281975359123549438978688200604541458292921685954247986842941890613211573697913210497071317364103565888092338575101352811134603092577813010364363217334459924572809931136648895129970810800768776384566721533563738072291596287751042641870658439002944228343214760922331178126992261888009322998401592948345212312086220781238781258221157918608886641806323066378139486761581684774751033219977414509396315273721100061686248663224258906721924972585072505973963730484121511496981751145469474217992859987751214551754545730116753680962764503364737907097129601837021828373728882871284053047583777527188203396788094539684052976518353630577542178723941928689822628095861213629547618597196724345541653435062715207823835370374799789780478558159382542459570171759686815025306203936382833874636036674233200593880672481595954253544619521257768141090884662500697691862835545299581509940625422338193775607066901847602261781824187155972122703606408799278953313707495559764681015561891319802705982319167564879285510695841184997608064096734086507512586258834448393585871930803559155697944693909492534535761791499334078921337235848465510490814267600113739081317654779196548657000436625628067882520976443433289404485941505365355103500814175496235566839831243316830974168185218402014166381805027726092170236769983219362376770056308433082573214790326077334965197645864356624554121728524867479693756479523966736069242501837240963551610657679924382512274012781131684678357475611911124336589484097257655640533584482505756149195026238217046193221450118317153979032714627326241358321023508565046843977985087897459933488525806918576912356451635471706578008453668141088192007045594301708030035856993888298592952968086541599206024665176294333035826482506703748807077644519777491339958016304340365535451297115639882795338314005484743793193338914092580023197629103619924971358209261261392181856806033707280614916664174670248073849700604868714021770726671192710049582876351100265047575494343207106906995758774698176639755132532591972810506141077485664924729097852587536986991360598490587714813666003887240101920064752414291278363460887956871042760762547275519205543143619780043520387011358992419508009826773407865728864800720219137938871321488121917282849126381779288158847413210764876285650971882513490459071183424823602348410294590729628621616937721989832744384644379966813426438334185618058833636171848327052039644950996046108215599371161526052302345561185768060492923521843717934627325746590014829737087717374150561570716194354966193788826562548378696248835530523504740880213869430634806859102782079625768328521399479891838331211516646566554125796072547158569305673390891188565767891303121010383590235535211494722135206705197321237651889256819342961576111079475092981273724872444352471023531512785741690063249674897526120578196105469970851545499943266555199671170451086129465624889268987315851504285731057286057054138059448182799216223293678780155786145636674408523632971826402245224799956775241471634977718860207220627367978659434975695625336647147970592855071211134183234904511589502196487516732929638258673699725731378244016336957184620117274577000391987711855550931760619680150150660705414166229069948195943763354949848937420266354896271888773918591520340759959752410343583865497474131131780144937379365290644303084424618844206024812489461048356538704018303323291842628466106536753024398465341230805263384212460482302353200703795105327514526951246509860790361900419310182062517481216350387893538745137342054045591921820679326201622658001988646908852825552897129081947460195611514903495619238175917049112747939088327880186514919923478571677428474421713784518779290594861249772663651950427496904322087874055701278381790742853020105993720808854858082963368720486271961872413234180410078603962194443218697224680831495896918051891582018814177951346912214804168378744846474209513131271897715838108625234663198671764229374495938628738418498084642799108397390729710132593055773952553322752774888033285646461530021321442666078073146918198808034516876723880239052071819971026829540052688493747140345903736150961816530130014110249212387467514761741281720772647553207415475726727722996748379517326337462410491509890412107181410378242809876030837009490456684949430720541413556194495278913010762776449482859309359369227481866838955341996321936143490649634713713837051688104606863958198228783165132943311343002726217621501597377166829526283770899955333470988734290349440417209789669819593858509015735713521855694400612550002213877893960311485962791099304864360018415092256835138313248742894815457668106850005014216281627141963587465707656157397249055272760536489016782199539658602599194772469629939041849678066131481002592967771271933334137384583884947272692928727667072521616229086900178913592528020964718043310844720985853224571029368681174446918946261740964784317015486493601249272255790669806570699185490429994366340784750497004552691739416449086554189926815574569639066204967189189747960353832212693583807557733763717263136978320200238909878394382291529302119448358561791956985382105209486236916034835190982089441479276503663965832729405741341186630690344126328034525579153621270254964830556697748596747016407345116951640518781073448807400542983430441235859949059079450087561975928375948123211232659869134811164876216308453895140677977605861710741803516583045621438989426822951696150365310233582184544017366842141307970977286073389607030351751018750683610266145931311480348231384712194092214316809389211158504508348602639558064128172231554311892755619430746939791500790318566580987517837833656893458396969379021551910664266317414618920580559373442084856170970366185585979411373135150235743964887474822851382497005724724726574353230453223411272363 3622).1 = 427747138752182595598143544744748372117572614872725142996616565697096876514025537757687625113518 ∧ (natLoop 200 1837159971898198496714420082992206925994212647783557691567098938615709197647811609832050069941318806148844 175784369082247270115172692143946604140714589011874833125656666660650156021402495619979844368406761851408764367281762047233876128931639161883433690063528402183731366318973768941771813397281975359123549438978688200604541458292921685954247986842941890613211573697913210497071317364103565888092338575101352811134603092577813010364363217334459924572809931136648895129970810800768776384566721533563738072291596287751042641870658439002944228343214760922331178126992261888009322998401592948345212312086220781238781258221157918608886641806323066378139486761581684774751033219977414509396315273721100061686248663224258906721924972585072505973963730484121511496981751145469474217992859987751214551754545730116753680962764503364737907097129601837021828373728882871284053047583777527188203396788094539684052976518353630577542178723941928689822628095861213629547618597196724345541653435062715207823835370374799789780478558159382542459570171759686815025306203936382833874636036674233200593880672481595954253544619521257768141090884662500697691862835545299581509940625422338193775607066901847602261781824187155972122703606408799278953313707495559764681015561891319802705982319167564879285510695841184997608064096734086507512586258834448393585871930803559155697944693909492534535761791499334078921337235848465510490814267600113739081317654779196548657000436625628067882520976443433289404485941505365355103500814175496235566839831243316830974168185218402014166381805027726092170236769983219362376770056308433082573214790326077334965197645864356624554121728524867479693756479523966736069242501837240963551610657679924382512274012781131684678357475611911124336589484097257655640533584482505756149195026238217046193221450118317153979032714627326241358321023508565046843977985087897459933488525806918576912356451635471706578008453668141088192007045594301708030035856993888298592952968086541599206024665176294333035826482506703748807077644519777491339958016304340365535451297115639882795338314005484743793193338914092580023197629103619924971358209261261392181856806033707280614916664174670248073849700604868714021770726671192710049582876351100265047575494343207106906995758774698176639755132532591972810506141077485664924729097852587536986991360598490587714813666003887240101920064752414291278363460887956871042760762547275519205543143619780043520387011358992419508009826773407865728864800720219137938871321488121917282849126381779288158847413210764876285650971882513490459071183424823602348410294590729628621616937721989832744384644379966813426438334185618058833636171848327052039644950996046108215599371161526052302345561185768060492923521843717934627325746590014829737087717374150561570716194354966193788826562548378696248835530523504740880213869430634806859102782079625768328521399479891838331211516646566554125796072547158569305673390891188565767891303121010383590235535211494722135206705197321237651889256819342961576111079475092981273724872444352471023531512785741690063249674897526120578196105469970851545499943266555199671170451086129465624889268987315851504285731057286057054138059448182799216223293678780155786145636674408523632971826402245224799956775241471634977718860207220627367978659434975695625336647147970592855071211134183234904511589502196487516732929638258673699725731378244016336957184620117274577000391987711855550931760619680150150660705414166229069948195943763354949848937420266354896271888773918591520340759959752410343583865497474131131780144937379365290644303084424618844206024812489461048356538704018303323291842628466106536753024398465341230805263384212460482302353200703795105327514526951246509860790361900419310182062517481216350387893538745137342054045591921820679326201622658001988646908852825552897129081947460195611514903495619238175917049112747939088327880186514919923478571677428474421713784518779290594861249772663651950427496904322087874055701278381790742853020105993720808854858082963368720486271961872413234180410078603962194443218697224680831495896918051891582018814177951346912214804168378744846474209513131271897715838108625234663198671764229374495938628738418498084642799108397390729710132593055773952553322752774888033285646461530021321442666078073146918198808034516876723880239052071819971026829540052688493747140345903736150961816530130014110249212387467514761741281720772647553207415475726727722996748379517326337462410491509890412107181410378242809876030837009490456684949430720541413556194495278913010762776449482859309359369227481866838955341996321936143490649634713713837051688104606863958198228783165132943311343002726217621501597377166829526283770899955333470988734290349440417209789669819593858509015735713521855694400612550002213877893960311485962791099304864360018415092256835138313248742894815457668106850005014216281627141963587465707656157397249055272760536489016782199539658602599194772469629939041849678066131481002592967771271933334137384583884947272692928727667072521616229086900178913592528020964718043310844720985853224571029368681174446918946261740964784317015486493601249272255790669806570699185490429994366340784750497004552691739416449086554189926815574569639066204967189189747960353832212693583807557733763717263136978320200238909878394382291529302119448358561791956985382105209486236916034835190982089441479276503663965832729405741341186630690344126328034525579153621270254964830556697748596747016407345116951640518781073448807400542983430441235859949059079450087561975928375948123211232659869134811164876216308453895140677977605861710741803516583045621438989426822951696150365310233582184544017366842141307970977286073389607030351751018750683610266145931311480348231384712194092214316809389211158504508348602639558064128172231554311892755619430746939791500790318566580987517837833656893458396969379021551910664266317414618920580559373442084856170970366185585979411373135150235743964887474822851382497005724724726574353230453223411272363 3622).2.1 = 175784369082247270115172692143946604140714589011874833125656666660650156021402495619979844368406761851408764367281762047233876128931639161883433690063528402183731366318973768941771813397281975359123549438978688200604541458292921685954247986842941890613211573697913210565004042672069972488807493798156216491390095475652901950193195702129191085749155929088607353975437871904284975451642294821773920099184623635748078881523608776080801389856231766947408260491913139249442975437337879953976046005590549933539563527803349420777098103367577078331111919187425302237658920540536768331707361641642170230772204512477855543667205088688239338603155577891656743326304351926041381543993623097491117455912407470326764370907823223338717152677561412600751579935258206315486948544970165466523438893050375593435001720343739726467708870282794225483939191869653677698578668659696121309187197839329657083728477366522688135766673510184742747328969995701785716892658180962931045757260145604369956185855789742127722612977805057212972683057209235792578185459987368625804194719320920934138517626518502983802944218143408069837092362305759081135277047198711842788375213034296651578345549640427447918021689269730883368715204388439030191372998543464241463780375965540782091883544171766243572175908428718782733438851774094910485379592821275491445289615923797908367723265652961191646481092205558254029829485513050889747741133221239417180691862949092141040475928422115751850139525754334435439461589856188172219177310263550589192804620788565803871957576354861159843342073487485920783642574967019755409109129423847729883585893524632218831769220157055983208508794019383951809738361778850924293400303822939006136459240249358796643954423303889166004188712024084513068963846541419856573812964537488619466198884216850138064708941205464141671407516597218615638450648385600055940563235853003556731711864858740940602474125639631911184825711779737859571640874540764280060259436795917141063611417578272932569930870306058346703832475584391448449942172821326085869146599757766548450749989731091081572226446101781677160061132961661792234551776295327401421397764431046031221936237549683008669065874619127188103925024773225188430057459321398062165318626465228959927041124311510552375679282617130761885571659954659134496098152142776522464525235398009816505847406208860296804278164864011960654377277466995194027027322868889157127529855968150675609702236095739655800989354929518885842203810987266565240099455172855719703971403490268118701355091595325200820671830986301608748280401950268436782208775327089675129686545846572900281004594095756900315273731167592339327361884860639108622738199447271347238876103873527010361250626934083986471885648957506737452691141290116206829583290742570492885862035896064009657775127045042113207477860784145350037292401238887584239253012313282590909430052882220951424600454875679529082463812431342041715466535561489761992640175982728672527556272342288627876219518673753288833720523857542571744684446900345668038444062465253797742579023046834809345881547447849757592591992027545949802471981234192841815877682814485262725215589032914111578701109036993270809218506717381973503349391338121806103535189018761594389957885747724897889100851783752614824435089868296291309410114140204588410083590952049916635609047915569531456051668972476807008580189825499463131773509272433553901072584899615371635976968317082389988295745517538063174081250778606861068527259346708746375822515738406958652404513316914106736045643806095558978123708723167195395647565356932610787316399742177477770369078075868865864374248050905606702421373645129817870871427136341406560475491414233871182426001442306235035155896973614612706694235628867692818548635688332472117390291472848523007873547852942142741579807828660463949479370462601351537571317283585251008317723573233014542369497983529368395791893999987312234985422848569223509339936609238645709052059515672370043020402170798538171532766625776676142565559011606878692221242062517970791030489983137741815380635457132966554291761526767975355204928947622523658758401493951739002920102332763635490099267984577577616652972777861722825904304417521114424498665768480074494110998625653388344029405008419375526780725896837395160421494826960210367506801950225464987834937956631243619596650488844940540749079220087537374418392683601345810945333587010022104445996165913287053506429017515649125333474935160662517104609936700503108480926629984744245957292138889323120262490104676675504076590949116126744945697020754935300185739393423444243425685935532516949769832993060375281097649125525522985334111532546178600483856685379756275287110301329596428728613675824739142741802353863496666412433680374561103875180311562956601311297913990399090683022720596923517314073576348337233734125719268909591506468583163452192656248834010595915630943650004651776117052743176044803790222929321564241702231122302184350753141926584538454214459501598849856834092821009497086623191317169044501831366453476069639625302677798883945348195210531340556476488918198659903531436066011899625280887051581192840553963067460561571845369597027606331873533306063839189794999039991269497603397742047282341863543829325156695486189222292438908555893846973963976008410349572467045883198486988906465943818299708904087493676168996512478433969504420233339857513256174614147665470061427683829099418010641254673284041972635494901532815231738477422338719637652331044064123091369616789422123651195248911373721247768768864957095027049302234939531255096893259758119417166692481202913744644430383480734478511664925777226849656872736227697110692742539001263786799934607710775394429151441370496845400032364105981486320337557966912089939720160285416478810317623104982672987733885768557365214851202760314337129971095030961233911630177048823018428491301761664264141503358907115442156809487462438490371192646596142988761602470422123081687606161135267581362193418923 ∧ (natLoop 200 1837159971898198496714420082992206925994212647783557691567098938615709197647811609832050069941318806148844 175784369082247270115172692143946604140714589011874833125656666660650156021402495619979844368406761851408764367281762047233876128931639161883433690063528402183731366318973768941771813397281975359123549438978688200604541458292921685954247986842941890613211573697913210497071317364103565888092338575101352811134603092577813010364363217334459924572809931136648895129970810800768776384566721533563738072291596287751042641870658439002944228343214760922331178126992261888009322998401592948345212312086220781238781258221157918608886641806323066378139486761581684774751033219977414509396315273721100061686248663224258906721924972585072505973963730484121511496981751145469474217992859987751214551754545730116753680962764503364737907097129601837021828373728882871284053047583777527188203396788094539684052976518353630577542178723941928689822628095861213629547618597196724345541653435062715207823835370374799789780478558159382542459570171759686815025306203936382833874636036674233200593880672481595954253544619521257768141090884662500697691862835545299581509940625422338193775607066901847602261781824187155972122703606408799278953313707495559764681015561891319802705982319167564879285510695841184997608064096734086507512586258834448393585871930803559155697944693909492534535761791499334078921337235848465510490814267600113739081317654779196548657000436625628067882520976443433289404485941505365355103500814175496235566839831243316830974168185218402014166381805027726092170236769983219362376770056308433082573214790326077334965197645864356624554121728524867479693756479523966736069242501837240963551610657679924382512274012781131684678357475611911124336589484097257655640533584482505756149195026238217046193221450118317153979032714627326241358321023508565046843977985087897459933488525806918576912356451635471706578008453668141088192007045594301708030035856993888298592952968086541599206024665176294333035826482506703748807077644519777491339958016304340365535451297115639882795338314005484743793193338914092580023197629103619924971358209261261392181856806033707280614916664174670248073849700604868714021770726671192710049582876351100265047575494343207106906995758774698176639755132532591972810506141077485664924729097852587536986991360598490587714813666003887240101920064752414291278363460887956871042760762547275519205543143619780043520387011358992419508009826773407865728864800720219137938871321488121917282849126381779288158847413210764876285650971882513490459071183424823602348410294590729628621616937721989832744384644379966813426438334185618058833636171848327052039644950996046108215599371161526052302345561185768060492923521843717934627325746590014829737087717374150561570716194354966193788826562548378696248835530523504740880213869430634806859102782079625768328521399479891838331211516646566554125796072547158569305673390891188565767891303121010383590235535211494722135206705197321237651889256819342961576111079475092981273724872444352471023531512785741690063249674897526120578196105469970851545499943266555199671170451086129465624889268987315851504285731057286057054138059448182799216223293678780155786145636674408523632971826402245224799956775241471634977718860207220627367978659434975695625336647147970592855071211134183234904511589502196487516732929638258673699725731378244016336957184620117274577000391987711855550931760619680150150660705414166229069948195943763354949848937420266354896271888773918591520340759959752410343583865497474131131780144937379365290644303084424618844206024812489461048356538704018303323291842628466106536753024398465341230805263384212460482302353200703795105327514526951246509860790361900419310182062517481216350387893538745137342054045591921820679326201622658001988646908852825552897129081947460195611514903495619238175917049112747939088327880186514919923478571677428474421713784518779290594861249772663651950427496904322087874055701278381790742853020105993720808854858082963368720486271961872413234180410078603962194443218697224680831495896918051891582018814177951346912214804168378744846474209513131271897715838108625234663198671764229374495938628738418498084642799108397390729710132593055773952553322752774888033285646461530021321442666078073146918198808034516876723880239052071819971026829540052688493747140345903736150961816530130014110249212387467514761741281720772647553207415475726727722996748379517326337462410491509890412107181410378242809876030837009490456684949430720541413556194495278913010762776449482859309359369227481866838955341996321936143490649634713713837051688104606863958198228783165132943311343002726217621501597377166829526283770899955333470988734290349440417209789669819593858509015735713521855694400612550002213877893960311485962791099304864360018415092256835138313248742894815457668106850005014216281627141963587465707656157397249055272760536489016782199539658602599194772469629939041849678066131481002592967771271933334137384583884947272692928727667072521616229086900178913592528020964718043310844720985853224571029368681174446918946261740964784317015486493601249272255790669806570699185490429994366340784750497004552691739416449086554189926815574569639066204967189189747960353832212693583807557733763717263136978320200238909878394382291529302119448358561791956985382105209486236916034835190982089441479276503663965832729405741341186630690344126328034525579153621270254964830556697748596747016407345116951640518781073448807400542983430441235859949059079450087561975928375948123211232659869134811164876216308453895140677977605861710741803516583045621438989426822951696150365310233582184544017366842141307970977286073389607030351751018750683610266145931311480348231384712194092214316809389211158504508348602639558064128172231554311892755619430746939791500790318566580987517837833656893458396969379021551910664266317414618920580559373442084856170970366185585979411373135150235743964887474822851382497005724724726574353230453223411272363 3622).2.2 = 3820 :=
  ⟨rfl, rfl, rfl⟩

set_option maxRecDepth 4000000 in
set_option maxHeartbeats 16000000 in
/-- Traversal evaluation: iterations 3801 to 4000 of the refinement loop. -/
theorem natChunk20 : (natLoop 200 427747138752182595598143544744748372117572614872725142996616565697096876514025537757687625113518 175784369082247270115172692143946604140714589011874833125656666660650156021402495619979844368406761851408764367281762047233876128931639161883433690063528402183731366318973768941771813397281975359123549438978688200604541458292921685954247986842941890613211573697913210565004042672069972488807493798156216491390095475652901950193195702129191085749155929088607353975437871904284975451642294821773920099184623635748078881523608776080801389856231766947408260491913139249442975437337879953976046005590549933539563527803349420777098103367577078331111919187425302237658920540536768331707361641642170230772204512477855543667205088688239338603155577891656743326304351926041381543993623097491117455912407470326764370907823223338717152677561412600751579935258206315486948544970165466523438893050375593435001720343739726467708870282794225483939191869653677698578668659696121309187197839329657083728477366522688135766673510184742747328969995701785716892658180962931045757260145604369956185855789742127722612977805057212972683057209235792578185459987368625804194719320920934138517626518502983802944218143408069837092362305759081135277047198711842788375213034296651578345549640427447918021689269730883368715204388439030191372998543464241463780375965540782091883544171766243572175908428718782733438851774094910485379592821275491445289615923797908367723265652961191646481092205558254029829485513050889747741133221239417180691862949092141040475928422115751850139525754334435439461589856188172219177310263550589192804620788565803871957576354861159843342073487485920783642574967019755409109129423847729883585893524632218831769220157055983208508794019383951809738361778850924293400303822939006136459240249358796643954423303889166004188712024084513068963846541419856573812964537488619466198884216850138064708941205464141671407516597218615638450648385600055940563235853003556731711864858740940602474125639631911184825711779737859571640874540764280060259436795917141063611417578272932569930870306058346703832475584391448449942172821326085869146599757766548450749989731091081572226446101781677160061132961661792234551776295327401421397764431046031221936237549683008669065874619127188103925024773225188430057459321398062165318626465228959927041124311510552375679282617130761885571659954659134496098152142776522464525235398009816505847406208860296804278164864011960654377277466995194027027322868889157127529855968150675609702236095739655800989354929518885842203810987266565240099455172855719703971403490268118701355091595325200820671830986301608748280401950268436782208775327089675129686545846572900281004594095756900315273731167592339327361884860639108622738199447271347238876103873527010361250626934083986471885648957506737452691141290116206829583290742570492885862035896064009657775127045042113207477860784145350037292401238887584239253012313282590909430052882220951424600454875679529082463812431342041715466535561489761992640175982728672527556272342288627876219518673753288833720523857542571744684446900345668038444062465253797742579023046834809345881547447849757592591992027545949802471981234192841815877682814485262725215589032914111578701109036993270809218506717381973503349391338121806103535189018761594389957885747724897889100851783752614824435089868296291309410114140204588410083590952049916635609047915569531456051668972476807008580189825499463131773509272433553901072584899615371635976968317082389988295745517538063174081250778606861068527259346708746375822515738406958652404513316914106736045643806095558978123708723167195395647565356932610787316399742177477770369078075868865864374248050905606702421373645129817870871427136341406560475491414233871182426001442306235035155896973614612706694235628867692818548635688332472117390291472848523007873547852942142741579807828660463949479370462601351537571317283585251008317723573233014542369497983529368395791893999987312234985422848569223509339936609238645709052059515672370043020402170798538171532766625776676142565559011606878692221242062517970791030489983137741815380635457132966554291761526767975355204928947622523658758401493951739002920102332763635490099267984577577616652972777861722825904304417521114424498665768480074494110998625653388344029405008419375526780725896837395160421494826960210367506801950225464987834937956631243619596650488844940540749079220087537374418392683601345810945333587010022104445996165913287053506429017515649125333474935160662517104609936700503108480926629984744245957292138889323120262490104676675504076590949116126744945697020754935300185739393423444243425685935532516949769832993060375281097649125525522985334111532546178600483856685379756275287110301329596428728613675824739142741802353863496666412433680374561103875180311562956601311297913990399090683022720596923517314073576348337233734125719268909591506468583163452192656248834010595915630943650004651776117052743176044803790222929321564241702231122302184350753141926584538454214459501598849856834092821009497086623191317169044501831366453476069639625302677798883945348195210531340556476488918198659903531436066011899625280887051581192840553963067460561571845369597027606331873533306063839189794999039991269497603397742047282341863543829325156695486189222292438908555893846973963976008410349572467045883198486988906465943818299708904087493676168996512478433969504420233339857513256174614147665470061427683829099418010641254673284041972635494901532815231738477422338719637652331044064123091369616789422123651195248911373721247768768864957095027049302234939531255096893259758119417166692481202913744644430383480734478511664925777226849656872736227697110692742539001263786799934607710775394429151441370496845400032364105981486320337557966912089939720160285416478810317623104982672987733885768557365214851202760314337129971095030961233911630177048823018428491301761664264141503358907115442156809487462438490371192646596142988761602470422123081687606161135267581362193418923 3820).1 = 19180845076888573458070457713360723666023134674223447 ∧ (natLoop 200 427747138752182595598143544744748372117572614872725142996616565697096876514025537757687625113518 175784369082247270115172692143946604140714589011874833125656666660650156021402495619979844368406761851408764367281762047233876128931639161883433690063528402183731366318973768941771813397281975359123549438978688200604541458292921685954247986842941890613211573697913210565004042672069972488807493798156216491390095475652901950193195702129191085749155929088607353975437871904284975451642294821773920099184623635748078881523608776080801389856231766947408260491913139249442975437337879953976046005590549933539563527803349420777098103367577078331111919187425302237658920540536768331707361641642170230772204512477855543667205088688239338603155577891656743326304351926041381543993623097491117455912407470326764370907823223338717152677561412600751579935258206315486948544970165466523438893050375593435001720343739726467708870282794225483939191869653677698578668659696121309187197839329657083728477366522688135766673510184742747328969995701785716892658180962931045757260145604369956185855789742127722612977805057212972683057209235792578185459987368625804194719320920934138517626518502983802944218143408069837092362305759081135277047198711842788375213034296651578345549640427447918021689269730883368715204388439030191372998543464241463780375965540782091883544171766243572175908428718782733438851774094910485379592821275491445289615923797908367723265652961191646481092205558254029829485513050889747741133221239417180691862949092141040475928422115751850139525754334435439461589856188172219177310263550589192804620788565803871957576354861159843342073487485920783642574967019755409109129423847729883585893524632218831769220157055983208508794019383951809738361778850924293400303822939006136459240249358796643954423303889166004188712024084513068963846541419856573812964537488619466198884216850138064708941205464141671407516597218615638450648385600055940563235853003556731711864858740940602474125639631911184825711779737859571640874540764280060259436795917141063611417578272932569930870306058346703832475584391448449942172821326085869146599757766548450749989731091081572226446101781677160061132961661792234551776295327401421397764431046031221936237549683008669065874619127188103925024773225188430057459321398062165318626465228959927041124311510552375679282617130761885571659954659134496098152142776522464525235398009816505847406208860296804278164864011960654377277466995194027027322868889157127529855968150675609702236095739655800989354929518885842203810987266565240099455172855719703971403490268118701355091595325200820671830986301608748280401950268436782208775327089675129686545846572900281004594095756900315273731167592339327361884860639108622738199447271347238876103873527010361250626934083986471885648957506737452691141290116206829583290742570492885862035896064009657775127045042113207477860784145350037292401238887584239253012313282590909430052882220951424600454875679529082463812431342041715466535561489761992640175982728672527556272342288627876219518673753288833720523857542571744684446900345668038444062465253797742579023046834809345881547447849757592591992027545949802471981234192841815877682814485262725215589032914111578701109036993270809218506717381973503349391338121806103535189018761594389957885747724897889100851783752614824435089868296291309410114140204588410083590952049916635609047915569531456051668972476807008580189825499463131773509272433553901072584899615371635976968317082389988295745517538063174081250778606861068527259346708746375822515738406958652404513316914106736045643806095558978123708723167195395647565356932610787316399742177477770369078075868865864374248050905606702421373645129817870871427136341406560475491414233871182426001442306235035155896973614612706694235628867692818548635688332472117390291472848523007873547852942142741579807828660463949479370462601351537571317283585251008317723573233014542369497983529368395791893999987312234985422848569223509339936609238645709052059515672370043020402170798538171532766625776676142565559011606878692221242062517970791030489983137741815380635457132966554291761526767975355204928947622523658758401493951739002920102332763635490099267984577577616652972777861722825904304417521114424498665768480074494110998625653388344029405008419375526780725896837395160421494826960210367506801950225464987834937956631243619596650488844940540749079220087537374418392683601345810945333587010022104445996165913287053506429017515649125333474935160662517104609936700503108480926629984744245957292138889323120262490104676675504076590949116126744945697020754935300185739393423444243425685935532516949769832993060375281097649125525522985334111532546178600483856685379756275287110301329596428728613675824739142741802353863496666412433680374561103875180311562956601311297913990399090683022720596923517314073576348337233734125719268909591506468583163452192656248834010595915630943650004651776117052743176044803790222929321564241702231122302184350753141926584538454214459501598849856834092821009497086623191317169044501831366453476069639625302677798883945348195210531340556476488918198659903531436066011899625280887051581192840553963067460561571845369597027606331873533306063839189794999039991269497603397742047282341863543829325156695486189222292438908555893846973963976008410349572467045883198486988906465943818299708904087493676168996512478433969504420233339857513256174614147665470061427683829099418010641254673284041972635494901532815231738477422338719637652331044064123091369616789422123651195248911373721247768768864957095027049302234939531255096893259758119417166692481202913744644430383480734478511664925777226849656872736227697110692742539001263786799934607710775394429151441370496845400032364105981486320337557966912089939720160285416478810317623104982672987733885768557365214851202760314337129971095030961233911630177048823018428491301761664264141503358907115442156809487462438490371192646596142988761602470422123081687606161135267581362193418923 3820).2.1 = 175784369082247270115172692143946604140714589011874833125656666660650156021402495619979844368406761851408764367281762047233876128931639161883433690063528402183731366318973768941771813397281975359123549438978688200604541458292921685954247986842941890613211573697913210565004042672069972547729740487562974857868721395996663401563588560777185030423387824868720001684895507993242516393656970239154956608330934309535181819438993352104243907162335028234826292525991140907680010409591216294832285583466083703690869830546386856855743194167989888060556715438957282440741879984329860867343995801028318417136259987179370798132755112498063628954930382620972788691021195771643613629533211788883714329342480779894220992853185866936537449130171870924478068414623388913397250341372183441744515503855594746898857936005393324999191761591131581168600133743480283916443562208448347328149638405660436970951382607683540919312949717006807268372906739644725830522798144417808844077755080706061825995984158329491538574351062445459138630184130810746903423946649478019190333222108486698265717012131438675683472405431415304475456117536482794612594146757254318445405901522222748854686420517012145640131474163741346272113092363587959077366152040833877724973485544253289472507619409869727261088425266857887521274416009030983069441982486452336765319406099556842958223181609148659931058600948471630465470349195037514328212905797241162473752952802027033402852816462043895078288321683286524586762448780079450518276701504751660622170240824173328411229798895041285994566491763286309204838571404765609755048845951649273729762016195988450363301231367166279526928440230354061974194708709156301857886174828052366359675662912477533240296904523417888002024638343255185157458303933428926501776429912740112314681248539226574213967505680335297479353363167946912842475513755136494264008469546909563099619069154224364402244672587830474039435092800410520259751361989350781237176189496202675386913173350114361502401530570733382198551052209714023295096804247162502737280828743804351262015098065903040978012835391177618744721688140812220217026538902767520705943458532904431988531518240854381354776823681477351712578410889621918957356439838156992100317203248746695963020578767111733482140882476376245452509825404079785225443393283695558944645101971220376360908820386121855202063436295784806417182285479577590873664500519628797997384613223058398171145712751745954783898822941369302449231331777155066053206421962509734758086024477842933856900221357467615166912735433140167311372966264638336609078262570820156716590874816582939501493440958765129211797963660710271351435950003762528405127011589592793740519725976019116949671706180314012126955202698331828882063328578940564853760005150207391170828191603114940390966469862355882486207122555721592244839565579241498251013455655947933183159937345408218054755876069984300193907523071304997979762154653295900907272712230357753315782475791975150029834967131140311497122315897430869922136342140931892580004695657716567962302742060525571146006453400218042205587350428065850822608986358701790082096035003242644090137472155282992246377659701198845412246476844418364586686112126961213912344881249173756375031161833338342791501575111011210922134520040032815396618094178157577685820523852795318803647011471888409901338193405553340577180679094980740730579169601804021221603042753669970998805921806470235500381257216467401186498807191422724302141443791720804068875353694883818988463287209217123882494932469727895964917035877431474420092941236437940762614162999895902843328632722773354582100076506704456798566120395103209380856464089282473203709392576656850121889683318317177202909436301620449034650223837503984195067496718426205689936944704769612647758482512217115041134276749231324006694475616252967344715354473773343912741489593524225608213571320594246594063734188694232125549813488605009189478579920038649595540392085024863563786666698015499006459325078743723501668612016347959831284993817636158344086304783895557489825825141490237999718607704894394657147428279748107700845463741169159937700351263377161508637204624446015466926357285065058939193221030109985007381532291856223039602861785938994750288748450997818742355949056937282249668929777429479464870798847107147275036626622079278473674580500630167652248772372512524648945676944403845849434627453439310608586217307526658682884092022615633108809760227412906327145304690129029313775007064037806171689874454788916069543237250402359743183583981974449387731603776670511314703774038877855386461457598484629848872344899460932644672991453916002695682708232631938843381175532117144237296878384072991859035424085644918235643636059364114443804074822405152190290181293773380088027092291785702734412199778860420578117436712458649264792436715437462244309179292756256023738612748419430866397273765102655166169409454207915323068034522818830410941904481709266305528742438962411848948963717977575065848940203803907276367821817222912243436593650557094836575374609907820937103172011092612188349597790602120257911175472331244982278677513532728714185360830744416198382885794496109520042625764415291725694566564922350731921486105886178445427001569008182399750733312198694134308781519132184804758612775586638007533718609403515588783347755171924778672081710605986666139103876204388989929752351896394669784064414753269469267670614514323221739539747589897731965750194514767378667945460906885008586531789715730535769887666047877929711923352957670245280284486876498895968926162695310874203126851758552348439657159344010583856595375281495487137623608046994182442369220818246635179668721713823803511319532383713221620330000008489046303648760788536193336595096061270043991708655625435179053389612090014108760945519563352298347969567820451003428005380685883406961593527538194747575725961686170168047951674934479873181984262611991844938274107072586910066328833880464503086061945277425240747 ∧ (natLoop 200 427747138752182595598143544744748372117572614872725142996616565697096876514025537757687625113518 175784369082247270115172692143946604140714589011874833125656666660650156021402495619979844368406761851408764367281762047233876128931639161883433690063528402183731366318973768941771813397281975359123549438978688200604541458292921685954247986842941890613211573697913210565004042672069972488807493798156216491390095475652901950193195702129191085749155929088607353975437871904284975451642294821773920099184623635748078881523608776080801389856231766947408260491913139249442975437337879953976046005590549933539563527803349420777098103367577078331111919187425302237658920540536768331707361641642170230772204512477855543667205088688239338603155577891656743326304351926041381543993623097491117455912407470326764370907823223338717152677561412600751579935258206315486948544970165466523438893050375593435001720343739726467708870282794225483939191869653677698578668659696121309187197839329657083728477366522688135766673510184742747328969995701785716892658180962931045757260145604369956185855789742127722612977805057212972683057209235792578185459987368625804194719320920934138517626518502983802944218143408069837092362305759081135277047198711842788375213034296651578345549640427447918021689269730883368715204388439030191372998543464241463780375965540782091883544171766243572175908428718782733438851774094910485379592821275491445289615923797908367723265652961191646481092205558254029829485513050889747741133221239417180691862949092141040475928422115751850139525754334435439461589856188172219177310263550589192804620788565803871957576354861159843342073487485920783642574967019755409109129423847729883585893524632218831769220157055983208508794019383951809738361778850924293400303822939006136459240249358796643954423303889166004188712024084513068963846541419856573812964537488619466198884216850138064708941205464141671407516597218615638450648385600055940563235853003556731711864858740940602474125639631911184825711779737859571640874540764280060259436795917141063611417578272932569930870306058346703832475584391448449942172821326085869146599757766548450749989731091081572226446101781677160061132961661792234551776295327401421397764431046031221936237549683008669065874619127188103925024773225188430057459321398062165318626465228959927041124311510552375679282617130761885571659954659134496098152142776522464525235398009816505847406208860296804278164864011960654377277466995194027027322868889157127529855968150675609702236095739655800989354929518885842203810987266565240099455172855719703971403490268118701355091595325200820671830986301608748280401950268436782208775327089675129686545846572900281004594095756900315273731167592339327361884860639108622738199447271347238876103873527010361250626934083986471885648957506737452691141290116206829583290742570492885862035896064009657775127045042113207477860784145350037292401238887584239253012313282590909430052882220951424600454875679529082463812431342041715466535561489761992640175982728672527556272342288627876219518673753288833720523857542571744684446900345668038444062465253797742579023046834809345881547447849757592591992027545949802471981234192841815877682814485262725215589032914111578701109036993270809218506717381973503349391338121806103535189018761594389957885747724897889100851783752614824435089868296291309410114140204588410083590952049916635609047915569531456051668972476807008580189825499463131773509272433553901072584899615371635976968317082389988295745517538063174081250778606861068527259346708746375822515738406958652404513316914106736045643806095558978123708723167195395647565356932610787316399742177477770369078075868865864374248050905606702421373645129817870871427136341406560475491414233871182426001442306235035155896973614612706694235628867692818548635688332472117390291472848523007873547852942142741579807828660463949479370462601351537571317283585251008317723573233014542369497983529368395791893999987312234985422848569223509339936609238645709052059515672370043020402170798538171532766625776676142565559011606878692221242062517970791030489983137741815380635457132966554291761526767975355204928947622523658758401493951739002920102332763635490099267984577577616652972777861722825904304417521114424498665768480074494110998625653388344029405008419375526780725896837395160421494826960210367506801950225464987834937956631243619596650488844940540749079220087537374418392683601345810945333587010022104445996165913287053506429017515649125333474935160662517104609936700503108480926629984744245957292138889323120262490104676675504076590949116126744945697020754935300185739393423444243425685935532516949769832993060375281097649125525522985334111532546178600483856685379756275287110301329596428728613675824739142741802353863496666412433680374561103875180311562956601311297913990399090683022720596923517314073576348337233734125719268909591506468583163452192656248834010595915630943650004651776117052743176044803790222929321564241702231122302184350753141926584538454214459501598849856834092821009497086623191317169044501831366453476069639625302677798883945348195210531340556476488918198659903531436066011899625280887051581192840553963067460561571845369597027606331873533306063839189794999039991269497603397742047282341863543829325156695486189222292438908555893846973963976008410349572467045883198486988906465943818299708904087493676168996512478433969504420233339857513256174614147665470061427683829099418010641254673284041972635494901532815231738477422338719637652331044064123091369616789422123651195248911373721247768768864957095027049302234939531255096893259758119417166692481202913744644430383480734478511664925777226849656872736227697110692742539001263786799934607710775394429151441370496845400032364105981486320337557966912089939720160285416478810317623104982672987733885768557365214851202760314337129971095030961233911630177048823018428491301761664264141503358907115442156809487462438490371192646596142988761602470422123081687606161135267581362193418923 3820).2.2 = 4011 :=
  ⟨rfl, rfl, rfl⟩

set_option maxRecDepth 4000000 in
set_option maxHeartbeats 16000000 in
/-- Traversal evaluation: iterations 4001 to 4200 of the refinement loop. -/
theorem natChunk21 : (natLoop 200 19180845076888573458070457713360723666023134674223447 175784369082247270115172692143946604140714589011874833125656666660650156021402495619979844368406761851408764367281762047233876128931639161883433690063528402183731366318973768941771813397281975359123549438978688200604541458292921685954247986842941890613211573697913210565004042672069972547729740487562974857868721395996663401563588560777185030423387824868720001684895507993242516393656970239154956608330934309535181819438993352104243907162335028234826292525991140907680010409591216294832285583466083703690869830546386856855743194167989888060556715438957282440741879984329860867343995801028318417136259987179370798132755112498063628954930382620972788691021195771643613629533211788883714329342480779894220992853185866936537449130171870924478068414623388913397250341372183441744515503855594746898857936005393324999191761591131581168600133743480283916443562208448347328149638405660436970951382607683540919312949717006807268372906739644725830522798144417808844077755080706061825995984158329491538574351062445459138630184130810746903423946649478019190333222108486698265717012131438675683472405431415304475456117536482794612594146757254318445405901522222748854686420517012145640131474163741346272113092363587959077366152040833877724973485544253289472507619409869727261088425266857887521274416009030983069441982486452336765319406099556842958223181609148659931058600948471630465470349195037514328212905797241162473752952802027033402852816462043895078288321683286524586762448780079450518276701504751660622170240824173328411229798895041285994566491763286309204838571404765609755048845951649273729762016195988450363301231367166279526928440230354061974194708709156301857886174828052366359675662912477533240296904523417888002024638343255185157458303933428926501776429912740112314681248539226574213967505680335297479353363167946912842475513755136494264008469546909563099619069154224364402244672587830474039435092800410520259751361989350781237176189496202675386913173350114361502401530570733382198551052209714023295096804247162502737280828743804351262015098065903040978012835391177618744721688140812220217026538902767520705943458532904431988531518240854381354776823681477351712578410889621918957356439838156992100317203248746695963020578767111733482140882476376245452509825404079785225443393283695558944645101971220376360908820386121855202063436295784806417182285479577590873664500519628797997384613223058398171145712751745954783898822941369302449231331777155066053206421962509734758086024477842933856900221357467615166912735433140167311372966264638336609078262570820156716590874816582939501493440958765129211797963660710271351435950003762528405127011589592793740519725976019116949671706180314012126955202698331828882063328578940564853760005150207391170828191603114940390966469862355882486207122555721592244839565579241498251013455655947933183159937345408218054755876069984300193907523071304997979762154653295900907272712230357753315782475791975150029834967131140311497122315897430869922136342140931892580004695657716567962302742060525571146006453400218042205587350428065850822608986358701790082096035003242644090137472155282992246377659701198845412246476844418364586686112126961213912344881249173756375031161833338342791501575111011210922134520040032815396618094178157577685820523852795318803647011471888409901338193405553340577180679094980740730579169601804021221603042753669970998805921806470235500381257216467401186498807191422724302141443791720804068875353694883818988463287209217123882494932469727895964917035877431474420092941236437940762614162999895902843328632722773354582100076506704456798566120395103209380856464089282473203709392576656850121889683318317177202909436301620449034650223837503984195067496718426205689936944704769612647758482512217115041134276749231324006694475616252967344715354473773343912741489593524225608213571320594246594063734188694232125549813488605009189478579920038649595540392085024863563786666698015499006459325078743723501668612016347959831284993817636158344086304783895557489825825141490237999718607704894394657147428279748107700845463741169159937700351263377161508637204624446015466926357285065058939193221030109985007381532291856223039602861785938994750288748450997818742355949056937282249668929777429479464870798847107147275036626622079278473674580500630167652248772372512524648945676944403845849434627453439310608586217307526658682884092022615633108809760227412906327145304690129029313775007064037806171689874454788916069543237250402359743183583981974449387731603776670511314703774038877855386461457598484629848872344899460932644672991453916002695682708232631938843381175532117144237296878384072991859035424085644918235643636059364114443804074822405152190290181293773380088027092291785702734412199778860420578117436712458649264792436715437462244309179292756256023738612748419430866397273765102655166169409454207915323068034522818830410941904481709266305528742438962411848948963717977575065848940203803907276367821817222912243436593650557094836575374609907820937103172011092612188349597790602120257911175472331244982278677513532728714185360830744416198382885794496109520042625764415291725694566564922350731921486105886178445427001569008182399750733312198694134308781519132184804758612775586638007533718609403515588783347755171924778672081710605986666139103876204388989929752351896394669784064414753269469267670614514323221739539747589897731965750194514767378667945460906885008586531789715730535769887666047877929711923352957670245280284486876498895968926162695310874203126851758552348439657159344010583856595375281495487137623608046994182442369220818246635179668721713823803511319532383713221620330000008489046303648760788536193336595096061270043991708655625435179053389612090014108760945519563352298347969567820451003428005380685883406961593527538194747575725961686170168047951674934479873181984262611991844938274107072586910066328833880464503086061945277425240747 4011).1 = 120400115918320336680676433703282637201176183822210304316535729075413592454094668416118171941334519450587396714 ∧ (natLoop 200 19180845076888573458070457713360723666023134674223447 175784369082247270115172692143946604140714589011874833125656666660650156021402495619979844368406761851408764367281762047233876128931639161883433690063528402183731366318973768941771813397281975359123549438978688200604541458292921685954247986842941890613211573697913210565004042672069972547729740487562974857868721395996663401563588560777185030423387824868720001684895507993242516393656970239154956608330934309535181819438993352104243907162335028234826292525991140907680010409591216294832285583466083703690869830546386856855743194167989888060556715438957282440741879984329860867343995801028318417136259987179370798132755112498063628954930382620972788691021195771643613629533211788883714329342480779894220992853185866936537449130171870924478068414623388913397250341372183441744515503855594746898857936005393324999191761591131581168600133743480283916443562208448347328149638405660436970951382607683540919312949717006807268372906739644725830522798144417808844077755080706061825995984158329491538574351062445459138630184130810746903423946649478019190333222108486698265717012131438675683472405431415304475456117536482794612594146757254318445405901522222748854686420517012145640131474163741346272113092363587959077366152040833877724973485544253289472507619409869727261088425266857887521274416009030983069441982486452336765319406099556842958223181609148659931058600948471630465470349195037514328212905797241162473752952802027033402852816462043895078288321683286524586762448780079450518276701504751660622170240824173328411229798895041285994566491763286309204838571404765609755048845951649273729762016195988450363301231367166279526928440230354061974194708709156301857886174828052366359675662912477533240296904523417888002024638343255185157458303933428926501776429912740112314681248539226574213967505680335297479353363167946912842475513755136494264008469546909563099619069154224364402244672587830474039435092800410520259751361989350781237176189496202675386913173350114361502401530570733382198551052209714023295096804247162502737280828743804351262015098065903040978012835391177618744721688140812220217026538902767520705943458532904431988531518240854381354776823681477351712578410889621918957356439838156992100317203248746695963020578767111733482140882476376245452509825404079785225443393283695558944645101971220376360908820386121855202063436295784806417182285479577590873664500519628797997384613223058398171145712751745954783898822941369302449231331777155066053206421962509734758086024477842933856900221357467615166912735433140167311372966264638336609078262570820156716590874816582939501493440958765129211797963660710271351435950003762528405127011589592793740519725976019116949671706180314012126955202698331828882063328578940564853760005150207391170828191603114940390966469862355882486207122555721592244839565579241498251013455655947933183159937345408218054755876069984300193907523071304997979762154653295900907272712230357753315782475791975150029834967131140311497122315897430869922136342140931892580004695657716567962302742060525571146006453400218042205587350428065850822608986358701790082096035003242644090137472155282992246377659701198845412246476844418364586686112126961213912344881249173756375031161833338342791501575111011210922134520040032815396618094178157577685820523852795318803647011471888409901338193405553340577180679094980740730579169601804021221603042753669970998805921806470235500381257216467401186498807191422724302141443791720804068875353694883818988463287209217123882494932469727895964917035877431474420092941236437940762614162999895902843328632722773354582100076506704456798566120395103209380856464089282473203709392576656850121889683318317177202909436301620449034650223837503984195067496718426205689936944704769612647758482512217115041134276749231324006694475616252967344715354473773343912741489593524225608213571320594246594063734188694232125549813488605009189478579920038649595540392085024863563786666698015499006459325078743723501668612016347959831284993817636158344086304783895557489825825141490237999718607704894394657147428279748107700845463741169159937700351263377161508637204624446015466926357285065058939193221030109985007381532291856223039602861785938994750288748450997818742355949056937282249668929777429479464870798847107147275036626622079278473674580500630167652248772372512524648945676944403845849434627453439310608586217307526658682884092022615633108809760227412906327145304690129029313775007064037806171689874454788916069543237250402359743183583981974449387731603776670511314703774038877855386461457598484629848872344899460932644672991453916002695682708232631938843381175532117144237296878384072991859035424085644918235643636059364114443804074822405152190290181293773380088027092291785702734412199778860420578117436712458649264792436715437462244309179292756256023738612748419430866397273765102655166169409454207915323068034522818830410941904481709266305528742438962411848948963717977575065848940203803907276367821817222912243436593650557094836575374609907820937103172011092612188349597790602120257911175472331244982278677513532728714185360830744416198382885794496109520042625764415291725694566564922350731921486105886178445427001569008182399750733312198694134308781519132184804758612775586638007533718609403515588783347755171924778672081710605986666139103876204388989929752351896394669784064414753269469267670614514323221739539747589897731965750194514767378667945460906885008586531789715730535769887666047877929711923352957670245280284486876498895968926162695310874203126851758552348439657159344010583856595375281495487137623608046994182442369220818246635179668721713823803511319532383713221620330000008489046303648760788536193336595096061270043991708655625435179053389612090014108760945519563352298347969567820451003428005380685883406961593527538194747575725961686170168047951674934479873181984262611991844938274107072586910066328833880464503086061945277425240747 4011).2.1 = 175784369082247270115172692143946604140714589011874833125656666660650156021402495629216747118268157247033182519895839563439278910620755048670071016975581224741204720544767937185827901570762876148993608410245807623385527268230807798490153728521709952494079035189942039207996221070868206426233196642967802467789287503219792849387493208429179495420300768895931327713976155441904243397255864995136325374351628616985546271689224903001473517782183024926272502968115158666156294029500927715864444871843405950889304506651593203276761792377680829606024193803546256221149622869157145252742303437502722342624972531247082009308403999877419690026972973777562149321817327992283559912455656680278805076952830486478618970705754005288152595816374806243221501322448946909225487584045396521236233070596105131609273316677817965160744578409877802030259099869712496848937528266402344892409084644529697476521059775327762902500853991807532851589314612003370078062616319075660562737956468419574510796504321210816262022527353562772931829508108535667336950307613291537327495036436140646238064206560669586824999764373026528884836420376035995152183374173997535667579483271332674149808333380320836147986493236075152045101500486675182412128735402671286335874643882425445993801642359758262069034789994086679478023607707736573011516260992215019490957874885037725276045918147116194880667121697582139174533595785471484485800750303916068690267593324258732237490007807548529240900327691869849994061031176989952306424133306736831050847092760197765790274295228271936786880557237358229052733000162480863831155340495167358881900054604450797333241923375871209375925574025859683233113267786899049950418501890979741372492809440307178098012000835979051895666074533196747477058972009439679787459528790611283207804692698803708572281492184174615075603568246731422742515322748240357635187719621277696908760660617711807895407721354622015476829748980183178682628204857759047727209971445410323710172998660103307068884444216504703960403162402369640084739573894096024590906535959905838562517786007612054678823753292512524849820362680198683687661638023503688108564680076609559065342716945460373060774949812123496611766457160078838919448146608414772783022473676196122954453615254651366918409645656741792322203430242517693406610552623371916755855828324534783457297787114006027626329775128908425729787217289007896594678817922581486362873643770883945680488973766234854599097932890607005784100578685879924273935537603530528532310240645099321529997356125257026363961590197983297563197320440335233513664323385040889099261974046425754976109323809096987409453991701622492382546594848121486680056059316010940767923767157178409718332994352551749000025325881693864937103580498384817259856443245936206338735596085834486851911982608080370762193549901917984086412771693896387716756359744099566897111687561535512172477928171595494781764461747588092270619220335944531406350233685766281761009350386587296259074501153466884999668626284687050850620441721276037804378123832046022059510281195188874481466321407203912783948962029710859794028734742903381458260412083242126157404893579010557650780946570627964090193562255119916114655611869177972032853098144034469956589537942261571444045113285730370751268860159568936593595131270775747809179029004039467894608050878206522632018148479498973264798024916359398024174213099772083669283248327327441781326432971786439948668441074356663552840140138073440139298725267830629893772352138375869981035817324680254807443135808143095098475641593727156829316505578372665150720127997354496245163614822015280077793784800021874595572903051229551781350981503143723388749830828141425797575896817296769372370041805789947704104765030587443581844326530062448897539753025290161868806954733079447674083363396614395644826426712030494477489403669394281365623327393307448633809519931735993044596775406613136862102466519418190793781793574658670536390426351232507777415362638568611304713839442141106825663747247302142201036322024430583631807090374775183013731195798804529159560882003347527347201937865677295342670507960233187110739057322927328692210464813868193802826940093454927272141063450620216204431390952712965849200101940690879408879215058654823212935132427592182012468779887938079995958041243095062531324329237417145412756352754508622446999171881838254907490014518373841975989563004973767233257246826120123248695699994138879315925807735387475754733520660413825064859441370798763656443965440355572520700684705616064086191055132702773980173953051592049685945871538118603644750021509509361561700408558843462221178155329834935889920967772936728095579076093363860715484135635619453121446435591638074956089712411630738869066759340331284939146431502236835419519107737314229826707663765600456410071932845645150870772819084428553476287997261401622007891532407535915480012357520795587327530328239167976853343929789244487851028099308380722444029938672523821640917379324647595038090432598028117816109312881826758702881825139363242887881026971877205876868971049664405022394087317359062920414976629090832973145200553494220371440003564562778499296003041052149960448652444434154648261662440926652586903467261251562141769001176190587976700841677298023684391231157265321700810866962605644603790401000669318151578491832777676416972693089220900813763319824311745993902747802349916612193895587842460454514173261986745247099133513943222279676748028597083258835329387699353558897324142929292947727054111298279667788079866245378555607749895044478446569205236302420137817946863200404969006429642352870573776651494227497163729322311450141820818407532414542415927475220291820805809405007994992455955630480594475867783852198041164935126820898477789631829809182197356123668279274569332895400501910845661345829715135527645799389232069146990298894316675649805430032711398045970040666734402320065250739978860246493248975729736632371093473906680846111137791624425071503329963 ∧ (natLoop 200 19180845076888573458070457713360723666023134674223447 175784369082247270115172692143946604140714589011874833125656666660650156021402495619979844368406761851408764367281762047233876128931639161883433690063528402183731366318973768941771813397281975359123549438978688200604541458292921685954247986842941890613211573697913210565004042672069972547729740487562974857868721395996663401563588560777185030423387824868720001684895507993242516393656970239154956608330934309535181819438993352104243907162335028234826292525991140907680010409591216294832285583466083703690869830546386856855743194167989888060556715438957282440741879984329860867343995801028318417136259987179370798132755112498063628954930382620972788691021195771643613629533211788883714329342480779894220992853185866936537449130171870924478068414623388913397250341372183441744515503855594746898857936005393324999191761591131581168600133743480283916443562208448347328149638405660436970951382607683540919312949717006807268372906739644725830522798144417808844077755080706061825995984158329491538574351062445459138630184130810746903423946649478019190333222108486698265717012131438675683472405431415304475456117536482794612594146757254318445405901522222748854686420517012145640131474163741346272113092363587959077366152040833877724973485544253289472507619409869727261088425266857887521274416009030983069441982486452336765319406099556842958223181609148659931058600948471630465470349195037514328212905797241162473752952802027033402852816462043895078288321683286524586762448780079450518276701504751660622170240824173328411229798895041285994566491763286309204838571404765609755048845951649273729762016195988450363301231367166279526928440230354061974194708709156301857886174828052366359675662912477533240296904523417888002024638343255185157458303933428926501776429912740112314681248539226574213967505680335297479353363167946912842475513755136494264008469546909563099619069154224364402244672587830474039435092800410520259751361989350781237176189496202675386913173350114361502401530570733382198551052209714023295096804247162502737280828743804351262015098065903040978012835391177618744721688140812220217026538902767520705943458532904431988531518240854381354776823681477351712578410889621918957356439838156992100317203248746695963020578767111733482140882476376245452509825404079785225443393283695558944645101971220376360908820386121855202063436295784806417182285479577590873664500519628797997384613223058398171145712751745954783898822941369302449231331777155066053206421962509734758086024477842933856900221357467615166912735433140167311372966264638336609078262570820156716590874816582939501493440958765129211797963660710271351435950003762528405127011589592793740519725976019116949671706180314012126955202698331828882063328578940564853760005150207391170828191603114940390966469862355882486207122555721592244839565579241498251013455655947933183159937345408218054755876069984300193907523071304997979762154653295900907272712230357753315782475791975150029834967131140311497122315897430869922136342140931892580004695657716567962302742060525571146006453400218042205587350428065850822608986358701790082096035003242644090137472155282992246377659701198845412246476844418364586686112126961213912344881249173756375031161833338342791501575111011210922134520040032815396618094178157577685820523852795318803647011471888409901338193405553340577180679094980740730579169601804021221603042753669970998805921806470235500381257216467401186498807191422724302141443791720804068875353694883818988463287209217123882494932469727895964917035877431474420092941236437940762614162999895902843328632722773354582100076506704456798566120395103209380856464089282473203709392576656850121889683318317177202909436301620449034650223837503984195067496718426205689936944704769612647758482512217115041134276749231324006694475616252967344715354473773343912741489593524225608213571320594246594063734188694232125549813488605009189478579920038649595540392085024863563786666698015499006459325078743723501668612016347959831284993817636158344086304783895557489825825141490237999718607704894394657147428279748107700845463741169159937700351263377161508637204624446015466926357285065058939193221030109985007381532291856223039602861785938994750288748450997818742355949056937282249668929777429479464870798847107147275036626622079278473674580500630167652248772372512524648945676944403845849434627453439310608586217307526658682884092022615633108809760227412906327145304690129029313775007064037806171689874454788916069543237250402359743183583981974449387731603776670511314703774038877855386461457598484629848872344899460932644672991453916002695682708232631938843381175532117144237296878384072991859035424085644918235643636059364114443804074822405152190290181293773380088027092291785702734412199778860420578117436712458649264792436715437462244309179292756256023738612748419430866397273765102655166169409454207915323068034522818830410941904481709266305528742438962411848948963717977575065848940203803907276367821817222912243436593650557094836575374609907820937103172011092612188349597790602120257911175472331244982278677513532728714185360830744416198382885794496109520042625764415291725694566564922350731921486105886178445427001569008182399750733312198694134308781519132184804758612775586638007533718609403515588783347755171924778672081710605986666139103876204388989929752351896394669784064414753269469267670614514323221739539747589897731965750194514767378667945460906885008586531789715730535769887666047877929711923352957670245280284486876498895968926162695310874203126851758552348439657159344010583856595375281495487137623608046994182442369220818246635179668721713823803511319532383713221620330000008489046303648760788536193336595096061270043991708655625435179053389612090014108760945519563352298347969567820451003428005380685883406961593527538194747575725961686170168047951674934479873181984262611991844938274107072586910066328833880464503086061945277425240747 4011).2.2 = 4223 :=
  ⟨rfl, rfl, rfl⟩

set_option maxRecDepth 4000000 in
set_option maxHeartbeats 16000000 in
/-- Traversal evaluation: iterations 4201 to 4400 of the refinement loop. -/
theorem natChunk22 : (natLoop 200 120400115918320336680676433703282637201176183822210304316535729075413592454094668416118171941334519450587396714 175784369082247270115172692143946604140714589011874833125656666660650156021402495629216747118268157247033182519895839563439278910620755048670071016975581224741204720544767937185827901570762876148993608410245807623385527268230807798490153728521709952494079035189942039207996221070868206426233196642967802467789287503219792849387493208429179495420300768895931327713976155441904243397255864995136325374351628616985546271689224903001473517782183024926272502968115158666156294029500927715864444871843405950889304506651593203276761792377680829606024193803546256221149622869157145252742303437502722342624972531247082009308403999877419690026972973777562149321817327992283559912455656680278805076952830486478618970705754005288152595816374806243221501322448946909225487584045396521236233070596105131609273316677817965160744578409877802030259099869712496848937528266402344892409084644529697476521059775327762902500853991807532851589314612003370078062616319075660562737956468419574510796504321210816262022527353562772931829508108535667336950307613291537327495036436140646238064206560669586824999764373026528884836420376035995152183374173997535667579483271332674149808333380320836147986493236075152045101500486675182412128735402671286335874643882425445993801642359758262069034789994086679478023607707736573011516260992215019490957874885037725276045918147116194880667121697582139174533595785471484485800750303916068690267593324258732237490007807548529240900327691869849994061031176989952306424133306736831050847092760197765790274295228271936786880557237358229052733000162480863831155340495167358881900054604450797333241923375871209375925574025859683233113267786899049950418501890979741372492809440307178098012000835979051895666074533196747477058972009439679787459528790611283207804692698803708572281492184174615075603568246731422742515322748240357635187719621277696908760660617711807895407721354622015476829748980183178682628204857759047727209971445410323710172998660103307068884444216504703960403162402369640084739573894096024590906535959905838562517786007612054678823753292512524849820362680198683687661638023503688108564680076609559065342716945460373060774949812123496611766457160078838919448146608414772783022473676196122954453615254651366918409645656741792322203430242517693406610552623371916755855828324534783457297787114006027626329775128908425729787217289007896594678817922581486362873643770883945680488973766234854599097932890607005784100578685879924273935537603530528532310240645099321529997356125257026363961590197983297563197320440335233513664323385040889099261974046425754976109323809096987409453991701622492382546594848121486680056059316010940767923767157178409718332994352551749000025325881693864937103580498384817259856443245936206338735596085834486851911982608080370762193549901917984086412771693896387716756359744099566897111687561535512172477928171595494781764461747588092270619220335944531406350233685766281761009350386587296259074501153466884999668626284687050850620441721276037804378123832046022059510281195188874481466321407203912783948962029710859794028734742903381458260412083242126157404893579010557650780946570627964090193562255119916114655611869177972032853098144034469956589537942261571444045113285730370751268860159568936593595131270775747809179029004039467894608050878206522632018148479498973264798024916359398024174213099772083669283248327327441781326432971786439948668441074356663552840140138073440139298725267830629893772352138375869981035817324680254807443135808143095098475641593727156829316505578372665150720127997354496245163614822015280077793784800021874595572903051229551781350981503143723388749830828141425797575896817296769372370041805789947704104765030587443581844326530062448897539753025290161868806954733079447674083363396614395644826426712030494477489403669394281365623327393307448633809519931735993044596775406613136862102466519418190793781793574658670536390426351232507777415362638568611304713839442141106825663747247302142201036322024430583631807090374775183013731195798804529159560882003347527347201937865677295342670507960233187110739057322927328692210464813868193802826940093454927272141063450620216204431390952712965849200101940690879408879215058654823212935132427592182012468779887938079995958041243095062531324329237417145412756352754508622446999171881838254907490014518373841975989563004973767233257246826120123248695699994138879315925807735387475754733520660413825064859441370798763656443965440355572520700684705616064086191055132702773980173953051592049685945871538118603644750021509509361561700408558843462221178155329834935889920967772936728095579076093363860715484135635619453121446435591638074956089712411630738869066759340331284939146431502236835419519107737314229826707663765600456410071932845645150870772819084428553476287997261401622007891532407535915480012357520795587327530328239167976853343929789244487851028099308380722444029938672523821640917379324647595038090432598028117816109312881826758702881825139363242887881026971877205876868971049664405022394087317359062920414976629090832973145200553494220371440003564562778499296003041052149960448652444434154648261662440926652586903467261251562141769001176190587976700841677298023684391231157265321700810866962605644603790401000669318151578491832777676416972693089220900813763319824311745993902747802349916612193895587842460454514173261986745247099133513943222279676748028597083258835329387699353558897324142929292947727054111298279667788079866245378555607749895044478446569205236302420137817946863200404969006429642352870573776651494227497163729322311450141820818407532414542415927475220291820805809405007994992455955630480594475867783852198041164935126820898477789631829809182197356123668279274569332895400501910845661345829715135527645799389232069146990298894316675649805430032711398045970040666734402320065250739978860246493248975729736632371093473906680846111137791624425071503329963 4223).1 = 1519663110912654941835399754692467746426278810134750489444880937386220339519623829 ∧ (natLoop 200 120400115918320336680676433703282637201176183822210304316535729075413592454094668416118171941334519450587396714 175784369082247270115172692143946604140714589011874833125656666660650156021402495629216747118268157247033182519895839563439278910620755048670071016975581224741204720544767937185827901570762876148993608410245807623385527268230807798490153728521709952494079035189942039207996221070868206426233196642967802467789287503219792849387493208429179495420300768895931327713976155441904243397255864995136325374351628616985546271689224903001473517782183024926272502968115158666156294029500927715864444871843405950889304506651593203276761792377680829606024193803546256221149622869157145252742303437502722342624972531247082009308403999877419690026972973777562149321817327992283559912455656680278805076952830486478618970705754005288152595816374806243221501322448946909225487584045396521236233070596105131609273316677817965160744578409877802030259099869712496848937528266402344892409084644529697476521059775327762902500853991807532851589314612003370078062616319075660562737956468419574510796504321210816262022527353562772931829508108535667336950307613291537327495036436140646238064206560669586824999764373026528884836420376035995152183374173997535667579483271332674149808333380320836147986493236075152045101500486675182412128735402671286335874643882425445993801642359758262069034789994086679478023607707736573011516260992215019490957874885037725276045918147116194880667121697582139174533595785471484485800750303916068690267593324258732237490007807548529240900327691869849994061031176989952306424133306736831050847092760197765790274295228271936786880557237358229052733000162480863831155340495167358881900054604450797333241923375871209375925574025859683233113267786899049950418501890979741372492809440307178098012000835979051895666074533196747477058972009439679787459528790611283207804692698803708572281492184174615075603568246731422742515322748240357635187719621277696908760660617711807895407721354622015476829748980183178682628204857759047727209971445410323710172998660103307068884444216504703960403162402369640084739573894096024590906535959905838562517786007612054678823753292512524849820362680198683687661638023503688108564680076609559065342716945460373060774949812123496611766457160078838919448146608414772783022473676196122954453615254651366918409645656741792322203430242517693406610552623371916755855828324534783457297787114006027626329775128908425729787217289007896594678817922581486362873643770883945680488973766234854599097932890607005784100578685879924273935537603530528532310240645099321529997356125257026363961590197983297563197320440335233513664323385040889099261974046425754976109323809096987409453991701622492382546594848121486680056059316010940767923767157178409718332994352551749000025325881693864937103580498384817259856443245936206338735596085834486851911982608080370762193549901917984086412771693896387716756359744099566897111687561535512172477928171595494781764461747588092270619220335944531406350233685766281761009350386587296259074501153466884999668626284687050850620441721276037804378123832046022059510281195188874481466321407203912783948962029710859794028734742903381458260412083242126157404893579010557650780946570627964090193562255119916114655611869177972032853098144034469956589537942261571444045113285730370751268860159568936593595131270775747809179029004039467894608050878206522632018148479498973264798024916359398024174213099772083669283248327327441781326432971786439948668441074356663552840140138073440139298725267830629893772352138375869981035817324680254807443135808143095098475641593727156829316505578372665150720127997354496245163614822015280077793784800021874595572903051229551781350981503143723388749830828141425797575896817296769372370041805789947704104765030587443581844326530062448897539753025290161868806954733079447674083363396614395644826426712030494477489403669394281365623327393307448633809519931735993044596775406613136862102466519418190793781793574658670536390426351232507777415362638568611304713839442141106825663747247302142201036322024430583631807090374775183013731195798804529159560882003347527347201937865677295342670507960233187110739057322927328692210464813868193802826940093454927272141063450620216204431390952712965849200101940690879408879215058654823212935132427592182012468779887938079995958041243095062531324329237417145412756352754508622446999171881838254907490014518373841975989563004973767233257246826120123248695699994138879315925807735387475754733520660413825064859441370798763656443965440355572520700684705616064086191055132702773980173953051592049685945871538118603644750021509509361561700408558843462221178155329834935889920967772936728095579076093363860715484135635619453121446435591638074956089712411630738869066759340331284939146431502236835419519107737314229826707663765600456410071932845645150870772819084428553476287997261401622007891532407535915480012357520795587327530328239167976853343929789244487851028099308380722444029938672523821640917379324647595038090432598028117816109312881826758702881825139363242887881026971877205876868971049664405022394087317359062920414976629090832973145200553494220371440003564562778499296003041052149960448652444434154648261662440926652586903467261251562141769001176190587976700841677298023684391231157265321700810866962605644603790401000669318151578491832777676416972693089220900813763319824311745993902747802349916612193895587842460454514173261986745247099133513943222279676748028597083258835329387699353558897324142929292947727054111298279667788079866245378555607749895044478446569205236302420137817946863200404969006429642352870573776651494227497163729322311450141820818407532414542415927475220291820805809405007994992455955630480594475867783852198041164935126820898477789631829809182197356123668279274569332895400501910845661345829715135527645799389232069146990298894316675649805430032711398045970040666734402320065250739978860246493248975729736632371093473906680846111137791624425071503329963 4223).2.1 = 175784369082247270115172692143946604140714589011874833125656666660650156021402495629216747118268157247033182519895839563439278910620755048670071016975581224741204720544767937185827901570762876148993608410245807623385527268230807798490153728521709952494079035189942039207996221070868206426233196646397528623345941422419206167118497180450089897244527620807424282176810951628814047427543138702795625608345799829220287767157232803592348092803083686044218166507163351617914071220738900949939641543676557715357980282124770649074048362098823601124413921996968794486619781149470090663306905725488625403629758650736216681240593549753160408885488816585134030961428628128798765574495163720392303683917864204312201452480737041294624992765756132379341458810216237811559859868278446634778662042054754318403896159669281787687464244940786165382807542046601275906642025630474017657625556340506553019825001538320402919845289939972206888185160073861468924696588921758771397397573605558191236457081259123663584413208692289731070754315872593577261753102044932937073554445401514645591688436202517577915071026777727480894952184951502849445131512586106913745712534365927900503353831265143054033436881832242155568611812229031320731870083887008682726137360428537960482983570592915260904124201447939221266394801697185324169199895260385036674003763973535853964398812257928684490425800937705446150641737788007874225045479760893678411643366613845845838912437430602995122479082883502828220833502070437430838739694219261460483612725759172604488104635303574887829894786351668790932789827719080096231768385854028871501740200647651294325174337134457893730409295350220328315313490186601085729541737671989943189613344582374455300974181752304731922124214502734297206678616208844025033196389324869972728512601943123745189120698783339994058497640843572177301638806954810795714790542476339283620989067502823890859801391608401938935891993060082997593326553781098845362316111491344947358875691568965427941983711593997778119268126751892976114287577804114085683852183241666596131761185990784206270980618216859734842711354262824554182247124247317035277209699044088024675718396243285668587382219468867920789132311998564313437194286446143896106667289222154062140015880475762007676724824491786173370368646069922070819691741535587736168351112214370484704376184916800150629020346756353762290264778307335664627951619494353813986506464618080002269570916379920292900308254583992240255774457210369369055565168794979438094806173279788348461928668711808425162853447585292291041691658257775872833389589396578561208681884178708089925113749729488327448879370628027301639550648567875764656054303924394422799754874128412607827869265814937878009442015669515762782089966096452331839239312859252607321713894026314227528700455665219537201102228209436552931786906558574798837124220540637331213111091297402793693216717526083101918320480420324346609613857712656157511078921898753810969004934115761274767037045415504417946899367782511554584125066324882953806052362929439077353455120642752664173018657882756703621751980407020950909523005773526446590551317352303004184613782077395661983753643200594663757695017848412355780291970044513667928451320203751928871830993777784887140615155445466464866220393049218544564976877773528961260373744581589591336126228078280244690404529744832762396170488869522303829548486190510713463553032049135891469657138399381239787740797164794433717901746684917400714272739442398406742788211734003216454610928543647975805609994855633161759928579875948638670260646726516422599282370097276690951468571298102702320971839900899112131726197331056028440408721484498706866249640333996773070049674751746887078079536178020118277147808618133469362256733253358452659079280126729441175152278672548588885456137303710681352685130149284228244600879091266629742968855856748237013085375758535985077900115646243594060974738847401074580493660757002456313427288656886189813442587539199376626850510410029049086793126038908272883052406830124554914404019742937054622582625881465836747165620185873170802545073905767730972760800747428940396769829089689360878240308986851649425843534930705108936378269729420005285198544283689166816264212905731160310676745656048814028310088786603492803108339638818300368990861390757184849650222899990230237181599251099306111826551635733562812993044818828370346171688828055190515165840361862540912162920806155443333612887476100277826954221313603695643467952373256359674974287276983333559067514057029642685739120928868855673852258753722698778350905616572769963214544151162709825883591534778142514797785566569645858064638940930671299077983687647136279990322077661171142709838403855306331683968942721044586319232835070222712170826909226988610010546950455852295637509630470720491510404450018362977534890674336358887404150183684545925521437219832275812214625452552654313965884864414536518858176597402746655102954588240334647066221387117341864163065530262240770015755880974499359707415062976476355310891291972944361888495536657735611859570701353148097294758274652031265508423899303917228021260674790253139033466963467671763731754331740369015635579227930662664215778047663409983535215380215283137165800784291867336613388880197903103099244355824411281424239744914454412703012263184299018649304393273207005350762310765227030960975216993010668099120866628919134865917267866959164934611120594553263715949076586325543046680806813953795135066587785819251160211585960198535172163255727463017134262109494370554249329935542997780314334593825034531498107044655097605175139101104047519435608389352054485875393772873358142596465356909991953737854354724376682327758534204047650429933547020759007983338889896604643674842389329398483963286318584927624260070368843853471717234572541071711084114368429467207199045430660384893026211722303876444973499305519905697593647683439052409665776635418286171108191496986730602081455498895254634147279716691653282475 ∧ (natLoop 200 120400115918320336680676433703282637201176183822210304316535729075413592454094668416118171941334519450587396714 175784369082247270115172692143946604140714589011874833125656666660650156021402495629216747118268157247033182519895839563439278910620755048670071016975581224741204720544767937185827901570762876148993608410245807623385527268230807798490153728521709952494079035189942039207996221070868206426233196642967802467789287503219792849387493208429179495420300768895931327713976155441904243397255864995136325374351628616985546271689224903001473517782183024926272502968115158666156294029500927715864444871843405950889304506651593203276761792377680829606024193803546256221149622869157145252742303437502722342624972531247082009308403999877419690026972973777562149321817327992283559912455656680278805076952830486478618970705754005288152595816374806243221501322448946909225487584045396521236233070596105131609273316677817965160744578409877802030259099869712496848937528266402344892409084644529697476521059775327762902500853991807532851589314612003370078062616319075660562737956468419574510796504321210816262022527353562772931829508108535667336950307613291537327495036436140646238064206560669586824999764373026528884836420376035995152183374173997535667579483271332674149808333380320836147986493236075152045101500486675182412128735402671286335874643882425445993801642359758262069034789994086679478023607707736573011516260992215019490957874885037725276045918147116194880667121697582139174533595785471484485800750303916068690267593324258732237490007807548529240900327691869849994061031176989952306424133306736831050847092760197765790274295228271936786880557237358229052733000162480863831155340495167358881900054604450797333241923375871209375925574025859683233113267786899049950418501890979741372492809440307178098012000835979051895666074533196747477058972009439679787459528790611283207804692698803708572281492184174615075603568246731422742515322748240357635187719621277696908760660617711807895407721354622015476829748980183178682628204857759047727209971445410323710172998660103307068884444216504703960403162402369640084739573894096024590906535959905838562517786007612054678823753292512524849820362680198683687661638023503688108564680076609559065342716945460373060774949812123496611766457160078838919448146608414772783022473676196122954453615254651366918409645656741792322203430242517693406610552623371916755855828324534783457297787114006027626329775128908425729787217289007896594678817922581486362873643770883945680488973766234854599097932890607005784100578685879924273935537603530528532310240645099321529997356125257026363961590197983297563197320440335233513664323385040889099261974046425754976109323809096987409453991701622492382546594848121486680056059316010940767923767157178409718332994352551749000025325881693864937103580498384817259856443245936206338735596085834486851911982608080370762193549901917984086412771693896387716756359744099566897111687561535512172477928171595494781764461747588092270619220335944531406350233685766281761009350386587296259074501153466884999668626284687050850620441721276037804378123832046022059510281195188874481466321407203912783948962029710859794028734742903381458260412083242126157404893579010557650780946570627964090193562255119916114655611869177972032853098144034469956589537942261571444045113285730370751268860159568936593595131270775747809179029004039467894608050878206522632018148479498973264798024916359398024174213099772083669283248327327441781326432971786439948668441074356663552840140138073440139298725267830629893772352138375869981035817324680254807443135808143095098475641593727156829316505578372665150720127997354496245163614822015280077793784800021874595572903051229551781350981503143723388749830828141425797575896817296769372370041805789947704104765030587443581844326530062448897539753025290161868806954733079447674083363396614395644826426712030494477489403669394281365623327393307448633809519931735993044596775406613136862102466519418190793781793574658670536390426351232507777415362638568611304713839442141106825663747247302142201036322024430583631807090374775183013731195798804529159560882003347527347201937865677295342670507960233187110739057322927328692210464813868193802826940093454927272141063450620216204431390952712965849200101940690879408879215058654823212935132427592182012468779887938079995958041243095062531324329237417145412756352754508622446999171881838254907490014518373841975989563004973767233257246826120123248695699994138879315925807735387475754733520660413825064859441370798763656443965440355572520700684705616064086191055132702773980173953051592049685945871538118603644750021509509361561700408558843462221178155329834935889920967772936728095579076093363860715484135635619453121446435591638074956089712411630738869066759340331284939146431502236835419519107737314229826707663765600456410071932845645150870772819084428553476287997261401622007891532407535915480012357520795587327530328239167976853343929789244487851028099308380722444029938672523821640917379324647595038090432598028117816109312881826758702881825139363242887881026971877205876868971049664405022394087317359062920414976629090832973145200553494220371440003564562778499296003041052149960448652444434154648261662440926652586903467261251562141769001176190587976700841677298023684391231157265321700810866962605644603790401000669318151578491832777676416972693089220900813763319824311745993902747802349916612193895587842460454514173261986745247099133513943222279676748028597083258835329387699353558897324142929292947727054111298279667788079866245378555607749895044478446569205236302420137817946863200404969006429642352870573776651494227497163729322311450141820818407532414542415927475220291820805809405007994992455955630480594475867783852198041164935126820898477789631829809182197356123668279274569332895400501910845661345829715135527645799389232069146990298894316675649805430032711398045970040666734402320065250739978860246493248975729736632371093473906680846111137791624425071503329963 4223).2.2 = 4417 :=
  ⟨rfl, rfl, rfl⟩

set_option maxRecDepth 4000000 in
set_option maxHeartbeats 16000000 in
/-- Traversal evaluation: iterations 4401 to 4600 of the refinement loop. -/
theorem natChunk23 : (natLoop 200 1519663110912654941835399754692467746426278810134750489444880937386220339519623829 175784369082247270115172692143946604140714589011874833125656666660650156021402495629216747118268157247033182519895839563439278910620755048670071016975581224741204720544767937185827901570762876148993608410245807623385527268230807798490153728521709952494079035189942039207996221070868206426233196646397528623345941422419206167118497180450089897244527620807424282176810951628814047427543138702795625608345799829220287767157232803592348092803083686044218166507163351617914071220738900949939641543676557715357980282124770649074048362098823601124413921996968794486619781149470090663306905725488625403629758650736216681240593549753160408885488816585134030961428628128798765574495163720392303683917864204312201452480737041294624992765756132379341458810216237811559859868278446634778662042054754318403896159669281787687464244940786165382807542046601275906642025630474017657625556340506553019825001538320402919845289939972206888185160073861468924696588921758771397397573605558191236457081259123663584413208692289731070754315872593577261753102044932937073554445401514645591688436202517577915071026777727480894952184951502849445131512586106913745712534365927900503353831265143054033436881832242155568611812229031320731870083887008682726137360428537960482983570592915260904124201447939221266394801697185324169199895260385036674003763973535853964398812257928684490425800937705446150641737788007874225045479760893678411643366613845845838912437430602995122479082883502828220833502070437430838739694219261460483612725759172604488104635303574887829894786351668790932789827719080096231768385854028871501740200647651294325174337134457893730409295350220328315313490186601085729541737671989943189613344582374455300974181752304731922124214502734297206678616208844025033196389324869972728512601943123745189120698783339994058497640843572177301638806954810795714790542476339283620989067502823890859801391608401938935891993060082997593326553781098845362316111491344947358875691568965427941983711593997778119268126751892976114287577804114085683852183241666596131761185990784206270980618216859734842711354262824554182247124247317035277209699044088024675718396243285668587382219468867920789132311998564313437194286446143896106667289222154062140015880475762007676724824491786173370368646069922070819691741535587736168351112214370484704376184916800150629020346756353762290264778307335664627951619494353813986506464618080002269570916379920292900308254583992240255774457210369369055565168794979438094806173279788348461928668711808425162853447585292291041691658257775872833389589396578561208681884178708089925113749729488327448879370628027301639550648567875764656054303924394422799754874128412607827869265814937878009442015669515762782089966096452331839239312859252607321713894026314227528700455665219537201102228209436552931786906558574798837124220540637331213111091297402793693216717526083101918320480420324346609613857712656157511078921898753810969004934115761274767037045415504417946899367782511554584125066324882953806052362929439077353455120642752664173018657882756703621751980407020950909523005773526446590551317352303004184613782077395661983753643200594663757695017848412355780291970044513667928451320203751928871830993777784887140615155445466464866220393049218544564976877773528961260373744581589591336126228078280244690404529744832762396170488869522303829548486190510713463553032049135891469657138399381239787740797164794433717901746684917400714272739442398406742788211734003216454610928543647975805609994855633161759928579875948638670260646726516422599282370097276690951468571298102702320971839900899112131726197331056028440408721484498706866249640333996773070049674751746887078079536178020118277147808618133469362256733253358452659079280126729441175152278672548588885456137303710681352685130149284228244600879091266629742968855856748237013085375758535985077900115646243594060974738847401074580493660757002456313427288656886189813442587539199376626850510410029049086793126038908272883052406830124554914404019742937054622582625881465836747165620185873170802545073905767730972760800747428940396769829089689360878240308986851649425843534930705108936378269729420005285198544283689166816264212905731160310676745656048814028310088786603492803108339638818300368990861390757184849650222899990230237181599251099306111826551635733562812993044818828370346171688828055190515165840361862540912162920806155443333612887476100277826954221313603695643467952373256359674974287276983333559067514057029642685739120928868855673852258753722698778350905616572769963214544151162709825883591534778142514797785566569645858064638940930671299077983687647136279990322077661171142709838403855306331683968942721044586319232835070222712170826909226988610010546950455852295637509630470720491510404450018362977534890674336358887404150183684545925521437219832275812214625452552654313965884864414536518858176597402746655102954588240334647066221387117341864163065530262240770015755880974499359707415062976476355310891291972944361888495536657735611859570701353148097294758274652031265508423899303917228021260674790253139033466963467671763731754331740369015635579227930662664215778047663409983535215380215283137165800784291867336613388880197903103099244355824411281424239744914454412703012263184299018649304393273207005350762310765227030960975216993010668099120866628919134865917267866959164934611120594553263715949076586325543046680806813953795135066587785819251160211585960198535172163255727463017134262109494370554249329935542997780314334593825034531498107044655097605175139101104047519435608389352054485875393772873358142596465356909991953737854354724376682327758534204047650429933547020759007983338889896604643674842389329398483963286318584927624260070368843853471717234572541071711084114368429467207199045430660384893026211722303876444973499305519905697593647683439052409665776635418286171108191496986730602081455498895254634147279716691653282475 4417).1 = 23188218855478743619314571452216609900303326570675509734182826656709528855337 ∧ (natLoop 200 1519663110912654941835399754692467746426278810134750489444880937386220339519623829 175784369082247270115172692143946604140714589011874833125656666660650156021402495629216747118268157247033182519895839563439278910620755048670071016975581224741204720544767937185827901570762876148993608410245807623385527268230807798490153728521709952494079035189942039207996221070868206426233196646397528623345941422419206167118497180450089897244527620807424282176810951628814047427543138702795625608345799829220287767157232803592348092803083686044218166507163351617914071220738900949939641543676557715357980282124770649074048362098823601124413921996968794486619781149470090663306905725488625403629758650736216681240593549753160408885488816585134030961428628128798765574495163720392303683917864204312201452480737041294624992765756132379341458810216237811559859868278446634778662042054754318403896159669281787687464244940786165382807542046601275906642025630474017657625556340506553019825001538320402919845289939972206888185160073861468924696588921758771397397573605558191236457081259123663584413208692289731070754315872593577261753102044932937073554445401514645591688436202517577915071026777727480894952184951502849445131512586106913745712534365927900503353831265143054033436881832242155568611812229031320731870083887008682726137360428537960482983570592915260904124201447939221266394801697185324169199895260385036674003763973535853964398812257928684490425800937705446150641737788007874225045479760893678411643366613845845838912437430602995122479082883502828220833502070437430838739694219261460483612725759172604488104635303574887829894786351668790932789827719080096231768385854028871501740200647651294325174337134457893730409295350220328315313490186601085729541737671989943189613344582374455300974181752304731922124214502734297206678616208844025033196389324869972728512601943123745189120698783339994058497640843572177301638806954810795714790542476339283620989067502823890859801391608401938935891993060082997593326553781098845362316111491344947358875691568965427941983711593997778119268126751892976114287577804114085683852183241666596131761185990784206270980618216859734842711354262824554182247124247317035277209699044088024675718396243285668587382219468867920789132311998564313437194286446143896106667289222154062140015880475762007676724824491786173370368646069922070819691741535587736168351112214370484704376184916800150629020346756353762290264778307335664627951619494353813986506464618080002269570916379920292900308254583992240255774457210369369055565168794979438094806173279788348461928668711808425162853447585292291041691658257775872833389589396578561208681884178708089925113749729488327448879370628027301639550648567875764656054303924394422799754874128412607827869265814937878009442015669515762782089966096452331839239312859252607321713894026314227528700455665219537201102228209436552931786906558574798837124220540637331213111091297402793693216717526083101918320480420324346609613857712656157511078921898753810969004934115761274767037045415504417946899367782511554584125066324882953806052362929439077353455120642752664173018657882756703621751980407020950909523005773526446590551317352303004184613782077395661983753643200594663757695017848412355780291970044513667928451320203751928871830993777784887140615155445466464866220393049218544564976877773528961260373744581589591336126228078280244690404529744832762396170488869522303829548486190510713463553032049135891469657138399381239787740797164794433717901746684917400714272739442398406742788211734003216454610928543647975805609994855633161759928579875948638670260646726516422599282370097276690951468571298102702320971839900899112131726197331056028440408721484498706866249640333996773070049674751746887078079536178020118277147808618133469362256733253358452659079280126729441175152278672548588885456137303710681352685130149284228244600879091266629742968855856748237013085375758535985077900115646243594060974738847401074580493660757002456313427288656886189813442587539199376626850510410029049086793126038908272883052406830124554914404019742937054622582625881465836747165620185873170802545073905767730972760800747428940396769829089689360878240308986851649425843534930705108936378269729420005285198544283689166816264212905731160310676745656048814028310088786603492803108339638818300368990861390757184849650222899990230237181599251099306111826551635733562812993044818828370346171688828055190515165840361862540912162920806155443333612887476100277826954221313603695643467952373256359674974287276983333559067514057029642685739120928868855673852258753722698778350905616572769963214544151162709825883591534778142514797785566569645858064638940930671299077983687647136279990322077661171142709838403855306331683968942721044586319232835070222712170826909226988610010546950455852295637509630470720491510404450018362977534890674336358887404150183684545925521437219832275812214625452552654313965884864414536518858176597402746655102954588240334647066221387117341864163065530262240770015755880974499359707415062976476355310891291972944361888495536657735611859570701353148097294758274652031265508423899303917228021260674790253139033466963467671763731754331740369015635579227930662664215778047663409983535215380215283137165800784291867336613388880197903103099244355824411281424239744914454412703012263184299018649304393273207005350762310765227030960975216993010668099120866628919134865917267866959164934611120594553263715949076586325543046680806813953795135066587785819251160211585960198535172163255727463017134262109494370554249329935542997780314334593825034531498107044655097605175139101104047519435608389352054485875393772873358142596465356909991953737854354724376682327758534204047650429933547020759007983338889896604643674842389329398483963286318584927624260070368843853471717234572541071711084114368429467207199045430660384893026211722303876444973499305519905697593647683439052409665776635418286171108191496986730602081455498895254634147279716691653282475 4417).2.1 = 175784369082247270115172692143946604140714589011874833125656666660650156021402495629216747118268157247033182519895839563439278910620755048670071016975581224741204720544767937185827901570762876148993608410245807623385527268230807798490153728521709952494079035189942039207996221070868206426233196701273147112252404129609819250814560732784656326432157251391311553582167690619370911912139518025344429352252539224976151694645359213046341293137494263931348783131934438846038506280546472695142788293006985946856792689695609781830633477637107945418649573091729406734142313634477217232340542333263074379706336562562371432155626347765011910621742301506284137195209430313042056167127276362208281395358403689649521160880465617398183343955857378741459868001687860126282319481130498634734340696048780377397856751155173507708586106509842348683781608217645850870713903707480629758532667382580263202707506619347910328808937793976291356110744234581466557473487188564354371093107460601072374247642620749059402672096005306882676366783118632200065788466517115949279321606540007432796655599426780506150694298624841666198974497100116105536580905600800701449623201460828888638543933411647459393056049219226414344700303034002307688062597030680376406985710367836168883933750658046892405278974048768988939158456696280785223880697799804337942462326243605854965086353955540216447935905279864651618698585355804394875813941292401147071031331635289272334149479137759639052708573226633271228908245546248263255614401025160024600221793627164679836451165176843248410987635016033205481096159910395858296230525694115974388882575320705730629227578014166946376572351558793072284442011005946882946628983590814168797679610643920881443668721033419202108066334370398820599226179058745187337847606815904516088963123214320431945832355595444529922900949820821090188188229907363943271303211283612325399930868667743249497036555243174827467157573601400120666076740273286152204968677299651804298171295333803147456289503146157005799896954135097460648774607207067599621108403882433857935206054479457504444814255513387128388506537954747201719618817385410372596124643022464059704849294204268068825778453772071488240702608640164091165829939886975460616907509610439742761025509984937523494882458104936183846719627103997677781779166779083646942019287663159345924155288088387966184827904120474041722428078647087248047177816601745395041419577725775944816403826303896580397039490446717759070509803781938476799060313869141847378261721107331163934945159518889674146955608839805568608732448145657544432127968685136829701259639712843094778393439761867737186682418306010774117479805791123573953288065342903991332106048753104786689567541984981848852412494382095364274771412932427737540029402863767525153442696052180030257133759536543021224952478785160358231799191035044846706972676123251498743866496905221587321419716450123573392954119719360012340593580773348300386183101243511424740443591073281725873937433335814867406161273310011976989123810598813964811279593246229500415681050711444553894938064887646303156956091187269666127857564778041982243128520602588735202563242557524500975565390118402708558594959059010855817291771977978206974266604683058071425727971959501872741928599251761935460199936480405909514188137752963728681738041178118425602233383506362718775538331439555546172138026290613948119662976997916906948607609464651935403727474473898830200840303669362243235960249232032321131843884532802313659513436272170293883104732650696927407808808077922003546826909036254632474168246965009260543709989166955160293475165989034667492898225857054224787255939068252234524534215376409067353305939099909899265831402440904226095199675262144965290613455037680823160174772356474777544755845016798341429327173827481548049216578045437972611472840214458890316627111220793287614140423132610376465494411360302585489037494455596854324177700997356893082995010610282382785992724587364228842538625561623602503500935141618055072630423881207165798240097809259889873273316529097164875847821100608036145746221995688042453573772368507106806563979014325118549337175467786254707115801956101179075227767993155825351592358266845261572562999644174936913367815299145984727895961134627786335287394587865259645910129346934234914654479943898057578828230305717306107796190333854574616952388197133722640858980678142994026897390845735785821418365925898629868769144923614093165830863129807893098202517893810377493992258126774718418229998720475538964617784920972875094653572715643172007841371992558474193922524919733337617787278344992101334320787818910848281211408795263843809772809147466595573859614084800517713515921965046573145742285659732846482489464942101716879542812366755968073168432722661070210505645882453189821144398278324874108446471295126165175355212847350118622125419836885736120843934672685456983341631516630473780074006840780471468295607835306540629962672747654735954842350673494960157528330864953850511654154323198643336870024265374738750197494003776520931105285987597439963944316597008160724161163980508605064573020977553020286081398831668698172113164055826503452362112218788789674684638590109964163293148739505900945209953547442173724105392272281195726130920830177442110783490053736425831551084974432262836286938185357535697673276965558175966377337152067126715991465962487536721842244972866953921998829986856142709292612285913981846172302467841939009673376026037359256324562387484840176130310000588042745775581009439305627777974731290351118494391105871886181751826035189673479063606149413446505059823596886283486759302955803151119695637528931928268867107712379270563233954399296843702043791410579210515275661295614510260678937469142616052524029372592453367551339814809553446231184019399439617766681215082799853068744825769357157744277400024216572445780344104998124653459857423023151311567920685358117532376588982170461725051407896410711743876362767701106977478189854833101483 ∧ (natLoop 200 1519663110912654941835399754692467746426278810134750489444880937386220339519623829 175784369082247270115172692143946604140714589011874833125656666660650156021402495629216747118268157247033182519895839563439278910620755048670071016975581224741204720544767937185827901570762876148993608410245807623385527268230807798490153728521709952494079035189942039207996221070868206426233196646397528623345941422419206167118497180450089897244527620807424282176810951628814047427543138702795625608345799829220287767157232803592348092803083686044218166507163351617914071220738900949939641543676557715357980282124770649074048362098823601124413921996968794486619781149470090663306905725488625403629758650736216681240593549753160408885488816585134030961428628128798765574495163720392303683917864204312201452480737041294624992765756132379341458810216237811559859868278446634778662042054754318403896159669281787687464244940786165382807542046601275906642025630474017657625556340506553019825001538320402919845289939972206888185160073861468924696588921758771397397573605558191236457081259123663584413208692289731070754315872593577261753102044932937073554445401514645591688436202517577915071026777727480894952184951502849445131512586106913745712534365927900503353831265143054033436881832242155568611812229031320731870083887008682726137360428537960482983570592915260904124201447939221266394801697185324169199895260385036674003763973535853964398812257928684490425800937705446150641737788007874225045479760893678411643366613845845838912437430602995122479082883502828220833502070437430838739694219261460483612725759172604488104635303574887829894786351668790932789827719080096231768385854028871501740200647651294325174337134457893730409295350220328315313490186601085729541737671989943189613344582374455300974181752304731922124214502734297206678616208844025033196389324869972728512601943123745189120698783339994058497640843572177301638806954810795714790542476339283620989067502823890859801391608401938935891993060082997593326553781098845362316111491344947358875691568965427941983711593997778119268126751892976114287577804114085683852183241666596131761185990784206270980618216859734842711354262824554182247124247317035277209699044088024675718396243285668587382219468867920789132311998564313437194286446143896106667289222154062140015880475762007676724824491786173370368646069922070819691741535587736168351112214370484704376184916800150629020346756353762290264778307335664627951619494353813986506464618080002269570916379920292900308254583992240255774457210369369055565168794979438094806173279788348461928668711808425162853447585292291041691658257775872833389589396578561208681884178708089925113749729488327448879370628027301639550648567875764656054303924394422799754874128412607827869265814937878009442015669515762782089966096452331839239312859252607321713894026314227528700455665219537201102228209436552931786906558574798837124220540637331213111091297402793693216717526083101918320480420324346609613857712656157511078921898753810969004934115761274767037045415504417946899367782511554584125066324882953806052362929439077353455120642752664173018657882756703621751980407020950909523005773526446590551317352303004184613782077395661983753643200594663757695017848412355780291970044513667928451320203751928871830993777784887140615155445466464866220393049218544564976877773528961260373744581589591336126228078280244690404529744832762396170488869522303829548486190510713463553032049135891469657138399381239787740797164794433717901746684917400714272739442398406742788211734003216454610928543647975805609994855633161759928579875948638670260646726516422599282370097276690951468571298102702320971839900899112131726197331056028440408721484498706866249640333996773070049674751746887078079536178020118277147808618133469362256733253358452659079280126729441175152278672548588885456137303710681352685130149284228244600879091266629742968855856748237013085375758535985077900115646243594060974738847401074580493660757002456313427288656886189813442587539199376626850510410029049086793126038908272883052406830124554914404019742937054622582625881465836747165620185873170802545073905767730972760800747428940396769829089689360878240308986851649425843534930705108936378269729420005285198544283689166816264212905731160310676745656048814028310088786603492803108339638818300368990861390757184849650222899990230237181599251099306111826551635733562812993044818828370346171688828055190515165840361862540912162920806155443333612887476100277826954221313603695643467952373256359674974287276983333559067514057029642685739120928868855673852258753722698778350905616572769963214544151162709825883591534778142514797785566569645858064638940930671299077983687647136279990322077661171142709838403855306331683968942721044586319232835070222712170826909226988610010546950455852295637509630470720491510404450018362977534890674336358887404150183684545925521437219832275812214625452552654313965884864414536518858176597402746655102954588240334647066221387117341864163065530262240770015755880974499359707415062976476355310891291972944361888495536657735611859570701353148097294758274652031265508423899303917228021260674790253139033466963467671763731754331740369015635579227930662664215778047663409983535215380215283137165800784291867336613388880197903103099244355824411281424239744914454412703012263184299018649304393273207005350762310765227030960975216993010668099120866628919134865917267866959164934611120594553263715949076586325543046680806813953795135066587785819251160211585960198535172163255727463017134262109494370554249329935542997780314334593825034531498107044655097605175139101104047519435608389352054485875393772873358142596465356909991953737854354724376682327758534204047650429933547020759007983338889896604643674842389329398483963286318584927624260070368843853471717234572541071711084114368429467207199045430660384893026211722303876444973499305519905697593647683439052409665776635418286171108191496986730602081455498895254634147279716691653282475 4417).2.2 = 4616 :=
  ⟨rfl, rfl, rfl⟩

set_option maxRecDepth 4000000 in
set_option maxHeartbeats 16000000 in
/-- Traversal evaluation: iterations 4601 to 4800 of the refinement loop. -/
theorem natChunk24 : (natLoop 200 23188218855478743619314571452216609900303326570675509734182826656709528855337 175784369082247270115172692143946604140714589011874833125656666660650156021402495629216747118268157247033182519895839563439278910620755048670071016975581224741204720544767937185827901570762876148993608410245807623385527268230807798490153728521709952494079035189942039207996221070868206426233196701273147112252404129609819250814560732784656326432157251391311553582167690619370911912139518025344429352252539224976151694645359213046341293137494263931348783131934438846038506280546472695142788293006985946856792689695609781830633477637107945418649573091729406734142313634477217232340542333263074379706336562562371432155626347765011910621742301506284137195209430313042056167127276362208281395358403689649521160880465617398183343955857378741459868001687860126282319481130498634734340696048780377397856751155173507708586106509842348683781608217645850870713903707480629758532667382580263202707506619347910328808937793976291356110744234581466557473487188564354371093107460601072374247642620749059402672096005306882676366783118632200065788466517115949279321606540007432796655599426780506150694298624841666198974497100116105536580905600800701449623201460828888638543933411647459393056049219226414344700303034002307688062597030680376406985710367836168883933750658046892405278974048768988939158456696280785223880697799804337942462326243605854965086353955540216447935905279864651618698585355804394875813941292401147071031331635289272334149479137759639052708573226633271228908245546248263255614401025160024600221793627164679836451165176843248410987635016033205481096159910395858296230525694115974388882575320705730629227578014166946376572351558793072284442011005946882946628983590814168797679610643920881443668721033419202108066334370398820599226179058745187337847606815904516088963123214320431945832355595444529922900949820821090188188229907363943271303211283612325399930868667743249497036555243174827467157573601400120666076740273286152204968677299651804298171295333803147456289503146157005799896954135097460648774607207067599621108403882433857935206054479457504444814255513387128388506537954747201719618817385410372596124643022464059704849294204268068825778453772071488240702608640164091165829939886975460616907509610439742761025509984937523494882458104936183846719627103997677781779166779083646942019287663159345924155288088387966184827904120474041722428078647087248047177816601745395041419577725775944816403826303896580397039490446717759070509803781938476799060313869141847378261721107331163934945159518889674146955608839805568608732448145657544432127968685136829701259639712843094778393439761867737186682418306010774117479805791123573953288065342903991332106048753104786689567541984981848852412494382095364274771412932427737540029402863767525153442696052180030257133759536543021224952478785160358231799191035044846706972676123251498743866496905221587321419716450123573392954119719360012340593580773348300386183101243511424740443591073281725873937433335814867406161273310011976989123810598813964811279593246229500415681050711444553894938064887646303156956091187269666127857564778041982243128520602588735202563242557524500975565390118402708558594959059010855817291771977978206974266604683058071425727971959501872741928599251761935460199936480405909514188137752963728681738041178118425602233383506362718775538331439555546172138026290613948119662976997916906948607609464651935403727474473898830200840303669362243235960249232032321131843884532802313659513436272170293883104732650696927407808808077922003546826909036254632474168246965009260543709989166955160293475165989034667492898225857054224787255939068252234524534215376409067353305939099909899265831402440904226095199675262144965290613455037680823160174772356474777544755845016798341429327173827481548049216578045437972611472840214458890316627111220793287614140423132610376465494411360302585489037494455596854324177700997356893082995010610282382785992724587364228842538625561623602503500935141618055072630423881207165798240097809259889873273316529097164875847821100608036145746221995688042453573772368507106806563979014325118549337175467786254707115801956101179075227767993155825351592358266845261572562999644174936913367815299145984727895961134627786335287394587865259645910129346934234914654479943898057578828230305717306107796190333854574616952388197133722640858980678142994026897390845735785821418365925898629868769144923614093165830863129807893098202517893810377493992258126774718418229998720475538964617784920972875094653572715643172007841371992558474193922524919733337617787278344992101334320787818910848281211408795263843809772809147466595573859614084800517713515921965046573145742285659732846482489464942101716879542812366755968073168432722661070210505645882453189821144398278324874108446471295126165175355212847350118622125419836885736120843934672685456983341631516630473780074006840780471468295607835306540629962672747654735954842350673494960157528330864953850511654154323198643336870024265374738750197494003776520931105285987597439963944316597008160724161163980508605064573020977553020286081398831668698172113164055826503452362112218788789674684638590109964163293148739505900945209953547442173724105392272281195726130920830177442110783490053736425831551084974432262836286938185357535697673276965558175966377337152067126715991465962487536721842244972866953921998829986856142709292612285913981846172302467841939009673376026037359256324562387484840176130310000588042745775581009439305627777974731290351118494391105871886181751826035189673479063606149413446505059823596886283486759302955803151119695637528931928268867107712379270563233954399296843702043791410579210515275661295614510260678937469142616052524029372592453367551339814809553446231184019399439617766681215082799853068744825769357157744277400024216572445780344104998124653459857423023151311567920685358117532376588982170461725051407896410711743876362767701106977478189854833101483 4616).1 = 120400115918320336693727555446008206744072150673054929241375710228410244990305878116458697709452304658547542223 ∧ (natLoop 200 23188218855478743619314571452216609900303326570675509734182826656709528855337 175784369082247270115172692143946604140714589011874833125656666660650156021402495629216747118268157247033182519895839563439278910620755048670071016975581224741204720544767937185827901570762876148993608410245807623385527268230807798490153728521709952494079035189942039207996221070868206426233196701273147112252404129609819250814560732784656326432157251391311553582167690619370911912139518025344429352252539224976151694645359213046341293137494263931348783131934438846038506280546472695142788293006985946856792689695609781830633477637107945418649573091729406734142313634477217232340542333263074379706336562562371432155626347765011910621742301506284137195209430313042056167127276362208281395358403689649521160880465617398183343955857378741459868001687860126282319481130498634734340696048780377397856751155173507708586106509842348683781608217645850870713903707480629758532667382580263202707506619347910328808937793976291356110744234581466557473487188564354371093107460601072374247642620749059402672096005306882676366783118632200065788466517115949279321606540007432796655599426780506150694298624841666198974497100116105536580905600800701449623201460828888638543933411647459393056049219226414344700303034002307688062597030680376406985710367836168883933750658046892405278974048768988939158456696280785223880697799804337942462326243605854965086353955540216447935905279864651618698585355804394875813941292401147071031331635289272334149479137759639052708573226633271228908245546248263255614401025160024600221793627164679836451165176843248410987635016033205481096159910395858296230525694115974388882575320705730629227578014166946376572351558793072284442011005946882946628983590814168797679610643920881443668721033419202108066334370398820599226179058745187337847606815904516088963123214320431945832355595444529922900949820821090188188229907363943271303211283612325399930868667743249497036555243174827467157573601400120666076740273286152204968677299651804298171295333803147456289503146157005799896954135097460648774607207067599621108403882433857935206054479457504444814255513387128388506537954747201719618817385410372596124643022464059704849294204268068825778453772071488240702608640164091165829939886975460616907509610439742761025509984937523494882458104936183846719627103997677781779166779083646942019287663159345924155288088387966184827904120474041722428078647087248047177816601745395041419577725775944816403826303896580397039490446717759070509803781938476799060313869141847378261721107331163934945159518889674146955608839805568608732448145657544432127968685136829701259639712843094778393439761867737186682418306010774117479805791123573953288065342903991332106048753104786689567541984981848852412494382095364274771412932427737540029402863767525153442696052180030257133759536543021224952478785160358231799191035044846706972676123251498743866496905221587321419716450123573392954119719360012340593580773348300386183101243511424740443591073281725873937433335814867406161273310011976989123810598813964811279593246229500415681050711444553894938064887646303156956091187269666127857564778041982243128520602588735202563242557524500975565390118402708558594959059010855817291771977978206974266604683058071425727971959501872741928599251761935460199936480405909514188137752963728681738041178118425602233383506362718775538331439555546172138026290613948119662976997916906948607609464651935403727474473898830200840303669362243235960249232032321131843884532802313659513436272170293883104732650696927407808808077922003546826909036254632474168246965009260543709989166955160293475165989034667492898225857054224787255939068252234524534215376409067353305939099909899265831402440904226095199675262144965290613455037680823160174772356474777544755845016798341429327173827481548049216578045437972611472840214458890316627111220793287614140423132610376465494411360302585489037494455596854324177700997356893082995010610282382785992724587364228842538625561623602503500935141618055072630423881207165798240097809259889873273316529097164875847821100608036145746221995688042453573772368507106806563979014325118549337175467786254707115801956101179075227767993155825351592358266845261572562999644174936913367815299145984727895961134627786335287394587865259645910129346934234914654479943898057578828230305717306107796190333854574616952388197133722640858980678142994026897390845735785821418365925898629868769144923614093165830863129807893098202517893810377493992258126774718418229998720475538964617784920972875094653572715643172007841371992558474193922524919733337617787278344992101334320787818910848281211408795263843809772809147466595573859614084800517713515921965046573145742285659732846482489464942101716879542812366755968073168432722661070210505645882453189821144398278324874108446471295126165175355212847350118622125419836885736120843934672685456983341631516630473780074006840780471468295607835306540629962672747654735954842350673494960157528330864953850511654154323198643336870024265374738750197494003776520931105285987597439963944316597008160724161163980508605064573020977553020286081398831668698172113164055826503452362112218788789674684638590109964163293148739505900945209953547442173724105392272281195726130920830177442110783490053736425831551084974432262836286938185357535697673276965558175966377337152067126715991465962487536721842244972866953921998829986856142709292612285913981846172302467841939009673376026037359256324562387484840176130310000588042745775581009439305627777974731290351118494391105871886181751826035189673479063606149413446505059823596886283486759302955803151119695637528931928268867107712379270563233954399296843702043791410579210515275661295614510260678937469142616052524029372592453367551339814809553446231184019399439617766681215082799853068744825769357157744277400024216572445780344104998124653459857423023151311567920685358117532376588982170461725051407896410711743876362767701106977478189854833101483 4616).2.1 = 175784369082247270115172692143946604140714589011874833125656666660650156021402495629216747118268157247033182519895839563439278910620755048670071016975581224741204720544767937185827901570762876148993608410245807623385527268242927401672031581235807633537739830181005829145318260158401621390583628190228784562418217164175131267154436339610128584831884590969626944050724437824124656392496737550552174065782611499965052167916442045307893869590666081605470839591851579150190765123301050291487520462027754725020939794687161564471152789334460127731720235489356375131878459232132476024399600264326783947647393623193964075723985815905481653546696544185440217914677462307922487770281060083964327375236588064631095919576951167992182199805306597716027786821014527913477657468504890599637387872815884656846448445186884482655535218607649270124230971434279516627619813961742085288575204002432293491880452276648698695133554073002719331934060391315274951450449622596600965997020134816052299623628168043272133856656433190466946539579597047343633872630817299992887665730908983637622350237453864151316710467230215388507998731158376611443913882535768319420127957504644413431871798150704124422531660687452272123815565806324219950727959978827870496495488048162837531685317143508612314138589880673622032424353617900958551533909705861008406973335760988700404706492244207857336267217293323317995757705238373255467008252091013182340891823763883456498765975355993620863367601594107554434381867842984856952870039054112976257766040714245773216439827179530140136800491323061317207007656076212029001341404888645410336917423924054493212098485808981988929938764807087579510291259162787325541171899200602402403968973210008530088536457581337404363994900422249083738089122557467758946113296919454046024065311633723338381490349718899627786007476646356986389221928286928331065739948472207014162197507415527346531971827534565832112276401498855957128094048325956633489866755991062228116575149166177411296054023775085212925537212934670945586778532571083643298609128441635851797480966711574123623631346772014845545053758758786455221644005294378647529857948071494760004512314179617396169219304333571125993938875271397569569030578548653076857091432233385554438297057139193632970806328246902036164510066328544463344254777720967891332258315946474730612733002996828351354816172840850222990787414775704985480561858902861003469634757401714545499161891496012119764760906766819480011418909416138781184765698652022285402279938927790264495669006157742730395679572672941995299435146937471975124480342940593914055765941081338435985881751590334870620722969551061823051953594294624121114079583392255508103999543094704207135762801946147929792827645083707940987464357644216337845433384337433230638523643986174062913736279048713394166465698151963617089361189581996393670931258604085614602953185868401439899591511312062485653214968818582735701729637800607184816987309482988417669727245158731324444089958226307845807954545424710403634873248334851082533115836417197267080374487702361989045079925974577952667035433999049768701829724744928034640021091648820700529830100470870256351760338308204263803747188210073067912564208730519777464327400414025326909526283944931992559044988475225515993613509683169315041463890606957100450626762069300979928757131446889369461558420898519823803994737217432092543768033385399971073900969651086684620746794223887399495532905173658668942097826499170322762854327990703611672160191816246792385986566839992356564545583057033616833043945514966536654129169296532323110944691552038192546455922899474379379499252972920537981688785814069473716235880747722928793916032116970796294319550079849439958073761008734783069224003060822499422311730523498877950937533794172214182874123889989775620516441185290774012737053750952119672591708269031564090937727279588556094178313214939856314693309007647652574550876082080722424217448566565515292114131759953216124831317383646389753889861666465654969640386758296058587521184229841989729813147766579507976725185800453240808654853224668330347102952115348230087468433904924106964593625243597901517138285888389781263266055658384849996666596748711019681933442916895819668942452091694646485527396408117300857012614529976716978663324114906369492632533134447089980948975300283893987098019995089366149986029301690084063766801272905153133647470093328324710595381589908411081711299890166362783058692649418692181375774775318991367516324729335929816045526041269234827978804621170008604319703075326780241434844594590538040561311233672933205717831605795805225923568982512937823867540192693492209918782477361942474358773081732940320415886566113506670654220292715618488715267720146753335834233453677597347242691510806363133172680518424250713221883055644572560054551852141387989789878141962907786105756046091011007451142104036513652359045401680799582744483377455625578513023104318664475410880751361428925545371884772211167193095903201359743479185950282225746632833534061678898304477193184547788607672408807916400463588593584310543144547402034086783801801474411454995372650519837469852006029277977104107384071412052402832768074933055269082495844667947810342216299339087080809834802081227347581855376404843693324475189075653350333781933074475427208746205708112543417653193927606837697807038735185643462547781280014085603034971615633486635625962048444152086190976779017919802269875035685975862957486141319142378790097416034357463148356242886698105454321753929485200397231989938466234754774802705166163773647091557242206165638863149086211264284041319792191755623539217611938941093322604046638645814128624512945064084028010164202644778950635566439097210197094576913984929171139568694928303768883157394840381162870482313257511982663262629371074370244869388016923540647037459000330290663844993061666570199459461393286338466968905091474035804364581707265096087740179792362986229562647512554133949981592503722246636284005035 ∧ (natLoop 200 23188218855478743619314571452216609900303326570675509734182826656709528855337 175784369082247270115172692143946604140714589011874833125656666660650156021402495629216747118268157247033182519895839563439278910620755048670071016975581224741204720544767937185827901570762876148993608410245807623385527268230807798490153728521709952494079035189942039207996221070868206426233196701273147112252404129609819250814560732784656326432157251391311553582167690619370911912139518025344429352252539224976151694645359213046341293137494263931348783131934438846038506280546472695142788293006985946856792689695609781830633477637107945418649573091729406734142313634477217232340542333263074379706336562562371432155626347765011910621742301506284137195209430313042056167127276362208281395358403689649521160880465617398183343955857378741459868001687860126282319481130498634734340696048780377397856751155173507708586106509842348683781608217645850870713903707480629758532667382580263202707506619347910328808937793976291356110744234581466557473487188564354371093107460601072374247642620749059402672096005306882676366783118632200065788466517115949279321606540007432796655599426780506150694298624841666198974497100116105536580905600800701449623201460828888638543933411647459393056049219226414344700303034002307688062597030680376406985710367836168883933750658046892405278974048768988939158456696280785223880697799804337942462326243605854965086353955540216447935905279864651618698585355804394875813941292401147071031331635289272334149479137759639052708573226633271228908245546248263255614401025160024600221793627164679836451165176843248410987635016033205481096159910395858296230525694115974388882575320705730629227578014166946376572351558793072284442011005946882946628983590814168797679610643920881443668721033419202108066334370398820599226179058745187337847606815904516088963123214320431945832355595444529922900949820821090188188229907363943271303211283612325399930868667743249497036555243174827467157573601400120666076740273286152204968677299651804298171295333803147456289503146157005799896954135097460648774607207067599621108403882433857935206054479457504444814255513387128388506537954747201719618817385410372596124643022464059704849294204268068825778453772071488240702608640164091165829939886975460616907509610439742761025509984937523494882458104936183846719627103997677781779166779083646942019287663159345924155288088387966184827904120474041722428078647087248047177816601745395041419577725775944816403826303896580397039490446717759070509803781938476799060313869141847378261721107331163934945159518889674146955608839805568608732448145657544432127968685136829701259639712843094778393439761867737186682418306010774117479805791123573953288065342903991332106048753104786689567541984981848852412494382095364274771412932427737540029402863767525153442696052180030257133759536543021224952478785160358231799191035044846706972676123251498743866496905221587321419716450123573392954119719360012340593580773348300386183101243511424740443591073281725873937433335814867406161273310011976989123810598813964811279593246229500415681050711444553894938064887646303156956091187269666127857564778041982243128520602588735202563242557524500975565390118402708558594959059010855817291771977978206974266604683058071425727971959501872741928599251761935460199936480405909514188137752963728681738041178118425602233383506362718775538331439555546172138026290613948119662976997916906948607609464651935403727474473898830200840303669362243235960249232032321131843884532802313659513436272170293883104732650696927407808808077922003546826909036254632474168246965009260543709989166955160293475165989034667492898225857054224787255939068252234524534215376409067353305939099909899265831402440904226095199675262144965290613455037680823160174772356474777544755845016798341429327173827481548049216578045437972611472840214458890316627111220793287614140423132610376465494411360302585489037494455596854324177700997356893082995010610282382785992724587364228842538625561623602503500935141618055072630423881207165798240097809259889873273316529097164875847821100608036145746221995688042453573772368507106806563979014325118549337175467786254707115801956101179075227767993155825351592358266845261572562999644174936913367815299145984727895961134627786335287394587865259645910129346934234914654479943898057578828230305717306107796190333854574616952388197133722640858980678142994026897390845735785821418365925898629868769144923614093165830863129807893098202517893810377493992258126774718418229998720475538964617784920972875094653572715643172007841371992558474193922524919733337617787278344992101334320787818910848281211408795263843809772809147466595573859614084800517713515921965046573145742285659732846482489464942101716879542812366755968073168432722661070210505645882453189821144398278324874108446471295126165175355212847350118622125419836885736120843934672685456983341631516630473780074006840780471468295607835306540629962672747654735954842350673494960157528330864953850511654154323198643336870024265374738750197494003776520931105285987597439963944316597008160724161163980508605064573020977553020286081398831668698172113164055826503452362112218788789674684638590109964163293148739505900945209953547442173724105392272281195726130920830177442110783490053736425831551084974432262836286938185357535697673276965558175966377337152067126715991465962487536721842244972866953921998829986856142709292612285913981846172302467841939009673376026037359256324562387484840176130310000588042745775581009439305627777974731290351118494391105871886181751826035189673479063606149413446505059823596886283486759302955803151119695637528931928268867107712379270563233954399296843702043791410579210515275661295614510260678937469142616052524029372592453367551339814809553446231184019399439617766681215082799853068744825769357157744277400024216572445780344104998124653459857423023151311567920685358117532376588982170461725051407896410711743876362767701106977478189854833101483 4616).2.2 = 4823 :=
  ⟨rfl, rfl, rfl⟩

set_option maxRecDepth 4000000 in
set_option maxHeartbeats 16000000 in
/-- Traversal evaluation: iterations 4801 to 5000 of the refinement loop. -/
theorem natChunk25 : (natLoop 200 120400115918320336693727555446008206744072150673054929241375710228410244990305878116458697709452304658547542223 175784369082247270115172692143946604140714589011874833125656666660650156021402495629216747118268157247033182519895839563439278910620755048670071016975581224741204720544767937185827901570762876148993608410245807623385527268242927401672031581235807633537739830181005829145318260158401621390583628190228784562418217164175131267154436339610128584831884590969626944050724437824124656392496737550552174065782611499965052167916442045307893869590666081605470839591851579150190765123301050291487520462027754725020939794687161564471152789334460127731720235489356375131878459232132476024399600264326783947647393623193964075723985815905481653546696544185440217914677462307922487770281060083964327375236588064631095919576951167992182199805306597716027786821014527913477657468504890599637387872815884656846448445186884482655535218607649270124230971434279516627619813961742085288575204002432293491880452276648698695133554073002719331934060391315274951450449622596600965997020134816052299623628168043272133856656433190466946539579597047343633872630817299992887665730908983637622350237453864151316710467230215388507998731158376611443913882535768319420127957504644413431871798150704124422531660687452272123815565806324219950727959978827870496495488048162837531685317143508612314138589880673622032424353617900958551533909705861008406973335760988700404706492244207857336267217293323317995757705238373255467008252091013182340891823763883456498765975355993620863367601594107554434381867842984856952870039054112976257766040714245773216439827179530140136800491323061317207007656076212029001341404888645410336917423924054493212098485808981988929938764807087579510291259162787325541171899200602402403968973210008530088536457581337404363994900422249083738089122557467758946113296919454046024065311633723338381490349718899627786007476646356986389221928286928331065739948472207014162197507415527346531971827534565832112276401498855957128094048325956633489866755991062228116575149166177411296054023775085212925537212934670945586778532571083643298609128441635851797480966711574123623631346772014845545053758758786455221644005294378647529857948071494760004512314179617396169219304333571125993938875271397569569030578548653076857091432233385554438297057139193632970806328246902036164510066328544463344254777720967891332258315946474730612733002996828351354816172840850222990787414775704985480561858902861003469634757401714545499161891496012119764760906766819480011418909416138781184765698652022285402279938927790264495669006157742730395679572672941995299435146937471975124480342940593914055765941081338435985881751590334870620722969551061823051953594294624121114079583392255508103999543094704207135762801946147929792827645083707940987464357644216337845433384337433230638523643986174062913736279048713394166465698151963617089361189581996393670931258604085614602953185868401439899591511312062485653214968818582735701729637800607184816987309482988417669727245158731324444089958226307845807954545424710403634873248334851082533115836417197267080374487702361989045079925974577952667035433999049768701829724744928034640021091648820700529830100470870256351760338308204263803747188210073067912564208730519777464327400414025326909526283944931992559044988475225515993613509683169315041463890606957100450626762069300979928757131446889369461558420898519823803994737217432092543768033385399971073900969651086684620746794223887399495532905173658668942097826499170322762854327990703611672160191816246792385986566839992356564545583057033616833043945514966536654129169296532323110944691552038192546455922899474379379499252972920537981688785814069473716235880747722928793916032116970796294319550079849439958073761008734783069224003060822499422311730523498877950937533794172214182874123889989775620516441185290774012737053750952119672591708269031564090937727279588556094178313214939856314693309007647652574550876082080722424217448566565515292114131759953216124831317383646389753889861666465654969640386758296058587521184229841989729813147766579507976725185800453240808654853224668330347102952115348230087468433904924106964593625243597901517138285888389781263266055658384849996666596748711019681933442916895819668942452091694646485527396408117300857012614529976716978663324114906369492632533134447089980948975300283893987098019995089366149986029301690084063766801272905153133647470093328324710595381589908411081711299890166362783058692649418692181375774775318991367516324729335929816045526041269234827978804621170008604319703075326780241434844594590538040561311233672933205717831605795805225923568982512937823867540192693492209918782477361942474358773081732940320415886566113506670654220292715618488715267720146753335834233453677597347242691510806363133172680518424250713221883055644572560054551852141387989789878141962907786105756046091011007451142104036513652359045401680799582744483377455625578513023104318664475410880751361428925545371884772211167193095903201359743479185950282225746632833534061678898304477193184547788607672408807916400463588593584310543144547402034086783801801474411454995372650519837469852006029277977104107384071412052402832768074933055269082495844667947810342216299339087080809834802081227347581855376404843693324475189075653350333781933074475427208746205708112543417653193927606837697807038735185643462547781280014085603034971615633486635625962048444152086190976779017919802269875035685975862957486141319142378790097416034357463148356242886698105454321753929485200397231989938466234754774802705166163773647091557242206165638863149086211264284041319792191755623539217611938941093322604046638645814128624512945064084028010164202644778950635566439097210197094576913984929171139568694928303768883157394840381162870482313257511982663262629371074370244869388016923540647037459000330290663844993061666570199459461393286338466968905091474035804364581707265096087740179792362986229562647512554133949981592503722246636284005035 4823).1 = 353824140250835321377992646323127135958149350207619434975816605657810292 ∧ (natLoop 200 120400115918320336693727555446008206744072150673054929241375710228410244990305878116458697709452304658547542223 175784369082247270115172692143946604140714589011874833125656666660650156021402495629216747118268157247033182519895839563439278910620755048670071016975581224741204720544767937185827901570762876148993608410245807623385527268242927401672031581235807633537739830181005829145318260158401621390583628190228784562418217164175131267154436339610128584831884590969626944050724437824124656392496737550552174065782611499965052167916442045307893869590666081605470839591851579150190765123301050291487520462027754725020939794687161564471152789334460127731720235489356375131878459232132476024399600264326783947647393623193964075723985815905481653546696544185440217914677462307922487770281060083964327375236588064631095919576951167992182199805306597716027786821014527913477657468504890599637387872815884656846448445186884482655535218607649270124230971434279516627619813961742085288575204002432293491880452276648698695133554073002719331934060391315274951450449622596600965997020134816052299623628168043272133856656433190466946539579597047343633872630817299992887665730908983637622350237453864151316710467230215388507998731158376611443913882535768319420127957504644413431871798150704124422531660687452272123815565806324219950727959978827870496495488048162837531685317143508612314138589880673622032424353617900958551533909705861008406973335760988700404706492244207857336267217293323317995757705238373255467008252091013182340891823763883456498765975355993620863367601594107554434381867842984856952870039054112976257766040714245773216439827179530140136800491323061317207007656076212029001341404888645410336917423924054493212098485808981988929938764807087579510291259162787325541171899200602402403968973210008530088536457581337404363994900422249083738089122557467758946113296919454046024065311633723338381490349718899627786007476646356986389221928286928331065739948472207014162197507415527346531971827534565832112276401498855957128094048325956633489866755991062228116575149166177411296054023775085212925537212934670945586778532571083643298609128441635851797480966711574123623631346772014845545053758758786455221644005294378647529857948071494760004512314179617396169219304333571125993938875271397569569030578548653076857091432233385554438297057139193632970806328246902036164510066328544463344254777720967891332258315946474730612733002996828351354816172840850222990787414775704985480561858902861003469634757401714545499161891496012119764760906766819480011418909416138781184765698652022285402279938927790264495669006157742730395679572672941995299435146937471975124480342940593914055765941081338435985881751590334870620722969551061823051953594294624121114079583392255508103999543094704207135762801946147929792827645083707940987464357644216337845433384337433230638523643986174062913736279048713394166465698151963617089361189581996393670931258604085614602953185868401439899591511312062485653214968818582735701729637800607184816987309482988417669727245158731324444089958226307845807954545424710403634873248334851082533115836417197267080374487702361989045079925974577952667035433999049768701829724744928034640021091648820700529830100470870256351760338308204263803747188210073067912564208730519777464327400414025326909526283944931992559044988475225515993613509683169315041463890606957100450626762069300979928757131446889369461558420898519823803994737217432092543768033385399971073900969651086684620746794223887399495532905173658668942097826499170322762854327990703611672160191816246792385986566839992356564545583057033616833043945514966536654129169296532323110944691552038192546455922899474379379499252972920537981688785814069473716235880747722928793916032116970796294319550079849439958073761008734783069224003060822499422311730523498877950937533794172214182874123889989775620516441185290774012737053750952119672591708269031564090937727279588556094178313214939856314693309007647652574550876082080722424217448566565515292114131759953216124831317383646389753889861666465654969640386758296058587521184229841989729813147766579507976725185800453240808654853224668330347102952115348230087468433904924106964593625243597901517138285888389781263266055658384849996666596748711019681933442916895819668942452091694646485527396408117300857012614529976716978663324114906369492632533134447089980948975300283893987098019995089366149986029301690084063766801272905153133647470093328324710595381589908411081711299890166362783058692649418692181375774775318991367516324729335929816045526041269234827978804621170008604319703075326780241434844594590538040561311233672933205717831605795805225923568982512937823867540192693492209918782477361942474358773081732940320415886566113506670654220292715618488715267720146753335834233453677597347242691510806363133172680518424250713221883055644572560054551852141387989789878141962907786105756046091011007451142104036513652359045401680799582744483377455625578513023104318664475410880751361428925545371884772211167193095903201359743479185950282225746632833534061678898304477193184547788607672408807916400463588593584310543144547402034086783801801474411454995372650519837469852006029277977104107384071412052402832768074933055269082495844667947810342216299339087080809834802081227347581855376404843693324475189075653350333781933074475427208746205708112543417653193927606837697807038735185643462547781280014085603034971615633486635625962048444152086190976779017919802269875035685975862957486141319142378790097416034357463148356242886698105454321753929485200397231989938466234754774802705166163773647091557242206165638863149086211264284041319792191755623539217611938941093322604046638645814128624512945064084028010164202644778950635566439097210197094576913984929171139568694928303768883157394840381162870482313257511982663262629371074370244869388016923540647037459000330290663844993061666570199459461393286338466968905091474035804364581707265096087740179792362986229562647512554133949981592503722246636284005035 4823).2.1 = 175784369082247270115172692143946604140714589011874833125656666660650156021402495629216747118268157247033182519895839563439278910620755048670071016975581224741204720544767937185827901570762876148993608410245807623385527268242927401672031581235807633537739830181005829145318260158401621390583628190228784996826886669168664061793921571409898456955446069330319359511391277844115203268698257961645946352078607095988696052011389370006078060278609107734166499019310386026559012081147135744437312797448763220893660614824855328452688333294942680027512886550254621852467053509687301761340252370644252409528454080425611214000436126411282062475520630851358602834810558285846774134429175820675469123832375196500150881931103253609457770557639664195919630090339533659128297983283921457868778262516450248623200675979376149536693977842805346700059898395913772327730915092774275469437598195432373073555083682126129490049010368305424146144385766314619535121719120630099827944432446298160579066632901273892767136767953212626259022035089209979158076714220689877503541594866666985668849039046526523534442854608335380777689018974067389704161882172163763595294730060847398897687443210371109632783431231989484629006189911628619260239002490798315627271943873143924701728252227936181866395485123524946534398473750263098480522745460780195851205391786009118563994355971284664315502392141116771917311177322918922553585793380551240683589231164102848451410433690413859824142166720535495538425362219550093576184124440938337194626371575982337916019525222229029248374312393548076178316780377568691286332496636867404645128491870920521298348279443188881718426810241959297542183125862067595193889757187585057078920961615431800114925897880562994112188005480328855572100678923849743679957905496587583139539178086774350061866495702418325099764138761447339285070633283779073944932522298771924367984397120005654109184456754484510273650667092267391453044259290290701044900905544342690507040885397616007951690871484638023209868618167601184676160707329852221981571446983474164801169446338694862776649139263337879517712998530869300417884808426338894517976758281041890772658800372611755732684449740624267430433587038930461625333978277043093319460683627658569247183637224902458618949894798058060595491903991902499832795705389933554631756843641304047051759682696545274959652885897856099982295983775838798140212176318053065661837715707261654940370501846958151444105805201828672624821942743497022761869926485635774373325201846579428753778949378739907857921242396477655536935998159432627542719915671169014197192725469266319836838828408327931999184930929802507234697932575846890017288788461735196695832080787811437927296275188331191414299971626462371380062612482815201868222637341971894395581539376272825614078897878018163661601362769347515667838752321683601928097772107491690067426513107834851748135681053670874647137856772879347921397433945486088896825345429603276648697362389984428929687637294376354813816323475689605036359571580413606770456924478140756219430232874203490351975668262453956708504001252224190112035459978809438464065422762395545186506251101279976691281641017759433328253203518009918660895381463344922564606095788605650514511915079335477583475178580355896075456318518385992157962053537136090775694172615748726076638319238272723033646416212534926253307411480350102308286366063688415219359792617732297359864825825424212410655764869030228286490379692654717186137468558848842651791718942466401426363587176198798407025086417984224422004141646352536739407286521369845007274372702498320244467854424913802105233356987932354149681336273616346500676321050956155039639394764376668669604463243804843260506862603612913115107254236628888571252416188133401947470824949528346209797396799556597718472877343987934534324310995795369889148179954190698857343083651186156812188736555499333623579321347095497663320013085230372394421901209028427241835851748062062428569076552551007069180344722633031088311121463589340093889425122148633218579949356906616432505408377520098167337366665469929122305153003666126063125811719623242117426688497976243288184003162191747473449510777455689879972547682401667538557606608889440322980448557462304415522337645585885556166487585077762547588574223980633800296275440509807679691808912169776792415564257048931461944082864145138438691271769520521044325961578229081882227685928063968826826843606584508007820300608884798629457385735488086847255472974491060778899174818151174627168794721927866734474966833942461613396546029911313598299387103202339077602621668561554780694918631139266368279348775016080104627533658353365465269180127086222063187578401445790429099863815843225880029779384755781058499387718808627720472546997082297306866316077193350087381738222172495690221333371778157327558248947451202762885458180604830657107212475903652739256050320551631423934895252331257663388702551088793974739792752208322168290347791020811849748405931926955127033884699934584343725287043678204870377771694937642000706304045787845792736715525395771034925669766958569156177391202732732071368906876080055945039555548636462426785885278272893808101751833556388426548115361873185216351447295907472090400783798653831364283459514689002626647782815825680858547901960483484568060877032081553061819159908049918890001139401918028360612620216852836277775510305716902148734455294573338490054291711456237322928544052658694572011768634184955570977953187507915473069693661017146804580298343123576471513519449454201104546080282063231030222623529616725016761510343034203440831368592444282491194216609310146747924680878659400638788664629162256576790209576670668743792539732376587066908629962704637210418713897937245092287961484060619741857172219684242995679957417268875712817981478528886629212661562885022551737861703184617346955887503645996370189849971301956573173496949273983165656577700790135481755504143850640038939333739436471214582544836158267443883 ∧ (natLoop 200 120400115918320336693727555446008206744072150673054929241375710228410244990305878116458697709452304658547542223 175784369082247270115172692143946604140714589011874833125656666660650156021402495629216747118268157247033182519895839563439278910620755048670071016975581224741204720544767937185827901570762876148993608410245807623385527268242927401672031581235807633537739830181005829145318260158401621390583628190228784562418217164175131267154436339610128584831884590969626944050724437824124656392496737550552174065782611499965052167916442045307893869590666081605470839591851579150190765123301050291487520462027754725020939794687161564471152789334460127731720235489356375131878459232132476024399600264326783947647393623193964075723985815905481653546696544185440217914677462307922487770281060083964327375236588064631095919576951167992182199805306597716027786821014527913477657468504890599637387872815884656846448445186884482655535218607649270124230971434279516627619813961742085288575204002432293491880452276648698695133554073002719331934060391315274951450449622596600965997020134816052299623628168043272133856656433190466946539579597047343633872630817299992887665730908983637622350237453864151316710467230215388507998731158376611443913882535768319420127957504644413431871798150704124422531660687452272123815565806324219950727959978827870496495488048162837531685317143508612314138589880673622032424353617900958551533909705861008406973335760988700404706492244207857336267217293323317995757705238373255467008252091013182340891823763883456498765975355993620863367601594107554434381867842984856952870039054112976257766040714245773216439827179530140136800491323061317207007656076212029001341404888645410336917423924054493212098485808981988929938764807087579510291259162787325541171899200602402403968973210008530088536457581337404363994900422249083738089122557467758946113296919454046024065311633723338381490349718899627786007476646356986389221928286928331065739948472207014162197507415527346531971827534565832112276401498855957128094048325956633489866755991062228116575149166177411296054023775085212925537212934670945586778532571083643298609128441635851797480966711574123623631346772014845545053758758786455221644005294378647529857948071494760004512314179617396169219304333571125993938875271397569569030578548653076857091432233385554438297057139193632970806328246902036164510066328544463344254777720967891332258315946474730612733002996828351354816172840850222990787414775704985480561858902861003469634757401714545499161891496012119764760906766819480011418909416138781184765698652022285402279938927790264495669006157742730395679572672941995299435146937471975124480342940593914055765941081338435985881751590334870620722969551061823051953594294624121114079583392255508103999543094704207135762801946147929792827645083707940987464357644216337845433384337433230638523643986174062913736279048713394166465698151963617089361189581996393670931258604085614602953185868401439899591511312062485653214968818582735701729637800607184816987309482988417669727245158731324444089958226307845807954545424710403634873248334851082533115836417197267080374487702361989045079925974577952667035433999049768701829724744928034640021091648820700529830100470870256351760338308204263803747188210073067912564208730519777464327400414025326909526283944931992559044988475225515993613509683169315041463890606957100450626762069300979928757131446889369461558420898519823803994737217432092543768033385399971073900969651086684620746794223887399495532905173658668942097826499170322762854327990703611672160191816246792385986566839992356564545583057033616833043945514966536654129169296532323110944691552038192546455922899474379379499252972920537981688785814069473716235880747722928793916032116970796294319550079849439958073761008734783069224003060822499422311730523498877950937533794172214182874123889989775620516441185290774012737053750952119672591708269031564090937727279588556094178313214939856314693309007647652574550876082080722424217448566565515292114131759953216124831317383646389753889861666465654969640386758296058587521184229841989729813147766579507976725185800453240808654853224668330347102952115348230087468433904924106964593625243597901517138285888389781263266055658384849996666596748711019681933442916895819668942452091694646485527396408117300857012614529976716978663324114906369492632533134447089980948975300283893987098019995089366149986029301690084063766801272905153133647470093328324710595381589908411081711299890166362783058692649418692181375774775318991367516324729335929816045526041269234827978804621170008604319703075326780241434844594590538040561311233672933205717831605795805225923568982512937823867540192693492209918782477361942474358773081732940320415886566113506670654220292715618488715267720146753335834233453677597347242691510806363133172680518424250713221883055644572560054551852141387989789878141962907786105756046091011007451142104036513652359045401680799582744483377455625578513023104318664475410880751361428925545371884772211167193095903201359743479185950282225746632833534061678898304477193184547788607672408807916400463588593584310543144547402034086783801801474411454995372650519837469852006029277977104107384071412052402832768074933055269082495844667947810342216299339087080809834802081227347581855376404843693324475189075653350333781933074475427208746205708112543417653193927606837697807038735185643462547781280014085603034971615633486635625962048444152086190976779017919802269875035685975862957486141319142378790097416034357463148356242886698105454321753929485200397231989938466234754774802705166163773647091557242206165638863149086211264284041319792191755623539217611938941093322604046638645814128624512945064084028010164202644778950635566439097210197094576913984929171139568694928303768883157394840381162870482313257511982663262629371074370244869388016923540647037459000330290663844993061666570199459461393286338466968905091474035804364581707265096087740179792362986229562647512554133949981592503722246636284005035 4823).2.2 = 5015 :=
  ⟨rfl, rfl, rfl⟩

set_option maxRecDepth 4000000 in
set_option maxHeartbeats 16000000 in
/-- Traversal evaluation: iterations 5001 to 5200 of the refinement loop. -/
theorem natChunk26 : (natLoop 200 353824140250835321377992646323127135958149350207619434975816605657810292 175784369082247270115172692143946604140714589011874833125656666660650156021402495629216747118268157247033182519895839563439278910620755048670071016975581224741204720544767937185827901570762876148993608410245807623385527268242927401672031581235807633537739830181005829145318260158401621390583628190228784996826886669168664061793921571409898456955446069330319359511391277844115203268698257961645946352078607095988696052011389370006078060278609107734166499019310386026559012081147135744437312797448763220893660614824855328452688333294942680027512886550254621852467053509687301761340252370644252409528454080425611214000436126411282062475520630851358602834810558285846774134429175820675469123832375196500150881931103253609457770557639664195919630090339533659128297983283921457868778262516450248623200675979376149536693977842805346700059898395913772327730915092774275469437598195432373073555083682126129490049010368305424146144385766314619535121719120630099827944432446298160579066632901273892767136767953212626259022035089209979158076714220689877503541594866666985668849039046526523534442854608335380777689018974067389704161882172163763595294730060847398897687443210371109632783431231989484629006189911628619260239002490798315627271943873143924701728252227936181866395485123524946534398473750263098480522745460780195851205391786009118563994355971284664315502392141116771917311177322918922553585793380551240683589231164102848451410433690413859824142166720535495538425362219550093576184124440938337194626371575982337916019525222229029248374312393548076178316780377568691286332496636867404645128491870920521298348279443188881718426810241959297542183125862067595193889757187585057078920961615431800114925897880562994112188005480328855572100678923849743679957905496587583139539178086774350061866495702418325099764138761447339285070633283779073944932522298771924367984397120005654109184456754484510273650667092267391453044259290290701044900905544342690507040885397616007951690871484638023209868618167601184676160707329852221981571446983474164801169446338694862776649139263337879517712998530869300417884808426338894517976758281041890772658800372611755732684449740624267430433587038930461625333978277043093319460683627658569247183637224902458618949894798058060595491903991902499832795705389933554631756843641304047051759682696545274959652885897856099982295983775838798140212176318053065661837715707261654940370501846958151444105805201828672624821942743497022761869926485635774373325201846579428753778949378739907857921242396477655536935998159432627542719915671169014197192725469266319836838828408327931999184930929802507234697932575846890017288788461735196695832080787811437927296275188331191414299971626462371380062612482815201868222637341971894395581539376272825614078897878018163661601362769347515667838752321683601928097772107491690067426513107834851748135681053670874647137856772879347921397433945486088896825345429603276648697362389984428929687637294376354813816323475689605036359571580413606770456924478140756219430232874203490351975668262453956708504001252224190112035459978809438464065422762395545186506251101279976691281641017759433328253203518009918660895381463344922564606095788605650514511915079335477583475178580355896075456318518385992157962053537136090775694172615748726076638319238272723033646416212534926253307411480350102308286366063688415219359792617732297359864825825424212410655764869030228286490379692654717186137468558848842651791718942466401426363587176198798407025086417984224422004141646352536739407286521369845007274372702498320244467854424913802105233356987932354149681336273616346500676321050956155039639394764376668669604463243804843260506862603612913115107254236628888571252416188133401947470824949528346209797396799556597718472877343987934534324310995795369889148179954190698857343083651186156812188736555499333623579321347095497663320013085230372394421901209028427241835851748062062428569076552551007069180344722633031088311121463589340093889425122148633218579949356906616432505408377520098167337366665469929122305153003666126063125811719623242117426688497976243288184003162191747473449510777455689879972547682401667538557606608889440322980448557462304415522337645585885556166487585077762547588574223980633800296275440509807679691808912169776792415564257048931461944082864145138438691271769520521044325961578229081882227685928063968826826843606584508007820300608884798629457385735488086847255472974491060778899174818151174627168794721927866734474966833942461613396546029911313598299387103202339077602621668561554780694918631139266368279348775016080104627533658353365465269180127086222063187578401445790429099863815843225880029779384755781058499387718808627720472546997082297306866316077193350087381738222172495690221333371778157327558248947451202762885458180604830657107212475903652739256050320551631423934895252331257663388702551088793974739792752208322168290347791020811849748405931926955127033884699934584343725287043678204870377771694937642000706304045787845792736715525395771034925669766958569156177391202732732071368906876080055945039555548636462426785885278272893808101751833556388426548115361873185216351447295907472090400783798653831364283459514689002626647782815825680858547901960483484568060877032081553061819159908049918890001139401918028360612620216852836277775510305716902148734455294573338490054291711456237322928544052658694572011768634184955570977953187507915473069693661017146804580298343123576471513519449454201104546080282063231030222623529616725016761510343034203440831368592444282491194216609310146747924680878659400638788664629162256576790209576670668743792539732376587066908629962704637210418713897937245092287961484060619741857172219684242995679957417268875712817981478528886629212661562885022551737861703184617346955887503645996370189849971301956573173496949273983165656577700790135481755504143850640038939333739436471214582544836158267443883 5015).1 = 23188218855478908350164208932859833415067302533196585410048656871153027862987 ∧ (natLoop 200 353824140250835321377992646323127135958149350207619434975816605657810292 175784369082247270115172692143946604140714589011874833125656666660650156021402495629216747118268157247033182519895839563439278910620755048670071016975581224741204720544767937185827901570762876148993608410245807623385527268242927401672031581235807633537739830181005829145318260158401621390583628190228784996826886669168664061793921571409898456955446069330319359511391277844115203268698257961645946352078607095988696052011389370006078060278609107734166499019310386026559012081147135744437312797448763220893660614824855328452688333294942680027512886550254621852467053509687301761340252370644252409528454080425611214000436126411282062475520630851358602834810558285846774134429175820675469123832375196500150881931103253609457770557639664195919630090339533659128297983283921457868778262516450248623200675979376149536693977842805346700059898395913772327730915092774275469437598195432373073555083682126129490049010368305424146144385766314619535121719120630099827944432446298160579066632901273892767136767953212626259022035089209979158076714220689877503541594866666985668849039046526523534442854608335380777689018974067389704161882172163763595294730060847398897687443210371109632783431231989484629006189911628619260239002490798315627271943873143924701728252227936181866395485123524946534398473750263098480522745460780195851205391786009118563994355971284664315502392141116771917311177322918922553585793380551240683589231164102848451410433690413859824142166720535495538425362219550093576184124440938337194626371575982337916019525222229029248374312393548076178316780377568691286332496636867404645128491870920521298348279443188881718426810241959297542183125862067595193889757187585057078920961615431800114925897880562994112188005480328855572100678923849743679957905496587583139539178086774350061866495702418325099764138761447339285070633283779073944932522298771924367984397120005654109184456754484510273650667092267391453044259290290701044900905544342690507040885397616007951690871484638023209868618167601184676160707329852221981571446983474164801169446338694862776649139263337879517712998530869300417884808426338894517976758281041890772658800372611755732684449740624267430433587038930461625333978277043093319460683627658569247183637224902458618949894798058060595491903991902499832795705389933554631756843641304047051759682696545274959652885897856099982295983775838798140212176318053065661837715707261654940370501846958151444105805201828672624821942743497022761869926485635774373325201846579428753778949378739907857921242396477655536935998159432627542719915671169014197192725469266319836838828408327931999184930929802507234697932575846890017288788461735196695832080787811437927296275188331191414299971626462371380062612482815201868222637341971894395581539376272825614078897878018163661601362769347515667838752321683601928097772107491690067426513107834851748135681053670874647137856772879347921397433945486088896825345429603276648697362389984428929687637294376354813816323475689605036359571580413606770456924478140756219430232874203490351975668262453956708504001252224190112035459978809438464065422762395545186506251101279976691281641017759433328253203518009918660895381463344922564606095788605650514511915079335477583475178580355896075456318518385992157962053537136090775694172615748726076638319238272723033646416212534926253307411480350102308286366063688415219359792617732297359864825825424212410655764869030228286490379692654717186137468558848842651791718942466401426363587176198798407025086417984224422004141646352536739407286521369845007274372702498320244467854424913802105233356987932354149681336273616346500676321050956155039639394764376668669604463243804843260506862603612913115107254236628888571252416188133401947470824949528346209797396799556597718472877343987934534324310995795369889148179954190698857343083651186156812188736555499333623579321347095497663320013085230372394421901209028427241835851748062062428569076552551007069180344722633031088311121463589340093889425122148633218579949356906616432505408377520098167337366665469929122305153003666126063125811719623242117426688497976243288184003162191747473449510777455689879972547682401667538557606608889440322980448557462304415522337645585885556166487585077762547588574223980633800296275440509807679691808912169776792415564257048931461944082864145138438691271769520521044325961578229081882227685928063968826826843606584508007820300608884798629457385735488086847255472974491060778899174818151174627168794721927866734474966833942461613396546029911313598299387103202339077602621668561554780694918631139266368279348775016080104627533658353365465269180127086222063187578401445790429099863815843225880029779384755781058499387718808627720472546997082297306866316077193350087381738222172495690221333371778157327558248947451202762885458180604830657107212475903652739256050320551631423934895252331257663388702551088793974739792752208322168290347791020811849748405931926955127033884699934584343725287043678204870377771694937642000706304045787845792736715525395771034925669766958569156177391202732732071368906876080055945039555548636462426785885278272893808101751833556388426548115361873185216351447295907472090400783798653831364283459514689002626647782815825680858547901960483484568060877032081553061819159908049918890001139401918028360612620216852836277775510305716902148734455294573338490054291711456237322928544052658694572011768634184955570977953187507915473069693661017146804580298343123576471513519449454201104546080282063231030222623529616725016761510343034203440831368592444282491194216609310146747924680878659400638788664629162256576790209576670668743792539732376587066908629962704637210418713897937245092287961484060619741857172219684242995679957417268875712817981478528886629212661562885022551737861703184617346955887503645996370189849971301956573173496949273983165656577700790135481755504143850640038939333739436471214582544836158267443883 5015).2.1 = 175784369082247270115172692143946604140714589011874833125656666660650156021402495629216747118268157247033182519895839563439278910620755048670071016975581224741204720544767937185827901570762876148993608410245807623385527268242927401672031581235807633537739830181005829145318260158401621390698710703295706840268952514440975879136230096961585576468572735638516803478933012767975991686537076232413135060377657405752842894366239120624960596134904215029102647324658172842024547013254555264402380617914374870434242630649433320551202116340004050941920271409060191873496942120735821193597583749769078622036635363845925602776944502192359824874458858041365564670327744718174795597627793959179931414920402363508462760848343900919717819754691093540808655935630013996381850675860318396885175302689539370734503567935742726384103581743737873500433058478958462938282962825867254238948112795697886282064538117647102893995960692626046720357455520577246590645708383429919967905888062494154723277401798076787089098311350041758505605031684962072378455194046074670722737686387988835873288115063078692497698254373893433921563255986358206067195285159865184294226915950249702108730937873133881185377995032347401967180652537320872971342236072096604502352370664461762902844067395726295995508317299859526432093586277125093847964052322264748511252172206447874494352939241238399806087123044976553240506915083630779112978158175346291912917479325743221092497340262033105738001314233256942801030325050856381091104519466000050816673105298339280178898915663763900212336710706085336548382014722916591461547219603237221303528040645179087982942727947566698380053742405223620146624210649497082820776833365589246681363361876861233061907057393654738653303673349390382226170812700482733286854035638679913853274242822620280763218039259111498205013332711955169684100715806578516286123035022758937653598568231375586636379582640429914106683670869234814755371981835641003345243695796499371856370479784888290049695975610895062452768360519373600138981124449806741858351136850321676619311875306639321110580390795369499632298526974594251293076329465477778594251750900264973672223910386451491310892921220859667291958048712011537061614719799773011152782296818764233724134643289743748498178585285476481421483718135750943873929331962006990001125471362561765149760118268832078727732170625327840282321588260852081541051290401969948649265381063085179832020935545734603119345278942012391581828519544593720565221652634098447638936451055250913151622545640460720717263831633958874866892224167146806992982149420480250726004125498850137859760976631658094346548696522234635565936126335581964173287454407623146613070110216067346416441014517635001415707125709319066520895103769292660693798325215646704996945544546125344761182209384628993122264734304460428184916105863362923617917904897762940427980564763866718709545307439393302146524232915340684433839351257439456197945888249503976370888945611011105144584866590156595490700256307164728130389181177426592405895696164402947904195251788050655802681712008670590076569160740255403026942622437262524993662737723965957184668246993346578033734122600293617800038899759655267448536862031023980116515295162968219814179275747188116454914480539656293232675433332615649028368252306073921352391768951419873793428317520308028114189479756628217908504208225336887929337166518261089681367537252203156033266274163803587101324621160382050465536171155723828014247487725920101084466409699760022852738535926991018518958932874926915682818667636141595627362052439367300922676375360539220355395788021215643086147569125451487562302434412420030772737443334569802687739267702907331467712214155358574475564318384161174294835956417104525975960253873304186089298672720719580941329401799161437571278730038564326025703488427503564643737460868932778818713839047209032655895886046571449034406528338954979916375546462014444020941757974330697321147210456618021545961970061216990148814425864431898556893709684376915764942231725296336728662974474519593898043781165902942595284291774806641019010467705508744938998991029851353579934176844167510777507328716635885003336125116563804613914899908998672308056841512023761342744321496039386559200201539241113740801731036905372874092959008262456128843889585394269985724945798613522604831505767922118034325200999945176877062783215678741175659842064162372259806795241450380554683217462601983947198368530850282128141450866635928175934653478531174926032725566419719699263014687743370938066987523285903949798407820831160323493489760113997071907841799280330139409936067514815227789198541200332717165949696928439341726433520311330520057605784638959826009786818487080359938667890908368792797917312056861145683615414050188287146298268899035352374430721028013646045803273767673255435677596354830649949528290061039185877089383847938632399463763162080429319783327364680299109160783127869197313989286200859096658856590690573961726032278335491967111223785182522479729292290003923206167912625693243389397651647048080616519837837244153340004083250229856641797600734126527560794287463758428411528397367084894080426142666520982064411440965269288379853428521891635386205799753770470167859768673020263525516375947306079176284977726813531506413191880995591063781898219401735301612841587537182668857079438539023937998015500365445175351524956003602143017385836751237263545300275866805172448373352285037564955464906129827263198204399151689790546145120375701212594865225394503079871861667977246802696953697970638558061128603117485926421561450699168467858966929550476435185743797763398764203320815151271627408798933335082969978595784209391689332906154772508968073077239660030129027329954799488721748516702999637122981010254893401394804902664549324977787926796838783897857026509688776347724961745121005933291941498996923636678710626139794564397997683656905318553227711303751797611214398560254637300160200320731452432108434459000949419 ∧ (natLoop 200 353824140250835321377992646323127135958149350207619434975816605657810292 175784369082247270115172692143946604140714589011874833125656666660650156021402495629216747118268157247033182519895839563439278910620755048670071016975581224741204720544767937185827901570762876148993608410245807623385527268242927401672031581235807633537739830181005829145318260158401621390583628190228784996826886669168664061793921571409898456955446069330319359511391277844115203268698257961645946352078607095988696052011389370006078060278609107734166499019310386026559012081147135744437312797448763220893660614824855328452688333294942680027512886550254621852467053509687301761340252370644252409528454080425611214000436126411282062475520630851358602834810558285846774134429175820675469123832375196500150881931103253609457770557639664195919630090339533659128297983283921457868778262516450248623200675979376149536693977842805346700059898395913772327730915092774275469437598195432373073555083682126129490049010368305424146144385766314619535121719120630099827944432446298160579066632901273892767136767953212626259022035089209979158076714220689877503541594866666985668849039046526523534442854608335380777689018974067389704161882172163763595294730060847398897687443210371109632783431231989484629006189911628619260239002490798315627271943873143924701728252227936181866395485123524946534398473750263098480522745460780195851205391786009118563994355971284664315502392141116771917311177322918922553585793380551240683589231164102848451410433690413859824142166720535495538425362219550093576184124440938337194626371575982337916019525222229029248374312393548076178316780377568691286332496636867404645128491870920521298348279443188881718426810241959297542183125862067595193889757187585057078920961615431800114925897880562994112188005480328855572100678923849743679957905496587583139539178086774350061866495702418325099764138761447339285070633283779073944932522298771924367984397120005654109184456754484510273650667092267391453044259290290701044900905544342690507040885397616007951690871484638023209868618167601184676160707329852221981571446983474164801169446338694862776649139263337879517712998530869300417884808426338894517976758281041890772658800372611755732684449740624267430433587038930461625333978277043093319460683627658569247183637224902458618949894798058060595491903991902499832795705389933554631756843641304047051759682696545274959652885897856099982295983775838798140212176318053065661837715707261654940370501846958151444105805201828672624821942743497022761869926485635774373325201846579428753778949378739907857921242396477655536935998159432627542719915671169014197192725469266319836838828408327931999184930929802507234697932575846890017288788461735196695832080787811437927296275188331191414299971626462371380062612482815201868222637341971894395581539376272825614078897878018163661601362769347515667838752321683601928097772107491690067426513107834851748135681053670874647137856772879347921397433945486088896825345429603276648697362389984428929687637294376354813816323475689605036359571580413606770456924478140756219430232874203490351975668262453956708504001252224190112035459978809438464065422762395545186506251101279976691281641017759433328253203518009918660895381463344922564606095788605650514511915079335477583475178580355896075456318518385992157962053537136090775694172615748726076638319238272723033646416212534926253307411480350102308286366063688415219359792617732297359864825825424212410655764869030228286490379692654717186137468558848842651791718942466401426363587176198798407025086417984224422004141646352536739407286521369845007274372702498320244467854424913802105233356987932354149681336273616346500676321050956155039639394764376668669604463243804843260506862603612913115107254236628888571252416188133401947470824949528346209797396799556597718472877343987934534324310995795369889148179954190698857343083651186156812188736555499333623579321347095497663320013085230372394421901209028427241835851748062062428569076552551007069180344722633031088311121463589340093889425122148633218579949356906616432505408377520098167337366665469929122305153003666126063125811719623242117426688497976243288184003162191747473449510777455689879972547682401667538557606608889440322980448557462304415522337645585885556166487585077762547588574223980633800296275440509807679691808912169776792415564257048931461944082864145138438691271769520521044325961578229081882227685928063968826826843606584508007820300608884798629457385735488086847255472974491060778899174818151174627168794721927866734474966833942461613396546029911313598299387103202339077602621668561554780694918631139266368279348775016080104627533658353365465269180127086222063187578401445790429099863815843225880029779384755781058499387718808627720472546997082297306866316077193350087381738222172495690221333371778157327558248947451202762885458180604830657107212475903652739256050320551631423934895252331257663388702551088793974739792752208322168290347791020811849748405931926955127033884699934584343725287043678204870377771694937642000706304045787845792736715525395771034925669766958569156177391202732732071368906876080055945039555548636462426785885278272893808101751833556388426548115361873185216351447295907472090400783798653831364283459514689002626647782815825680858547901960483484568060877032081553061819159908049918890001139401918028360612620216852836277775510305716902148734455294573338490054291711456237322928544052658694572011768634184955570977953187507915473069693661017146804580298343123576471513519449454201104546080282063231030222623529616725016761510343034203440831368592444282491194216609310146747924680878659400638788664629162256576790209576670668743792539732376587066908629962704637210418713897937245092287961484060619741857172219684242995679957417268875712817981478528886629212661562885022551737861703184617346955887503645996370189849971301956573173496949273983165656577700790135481755504143850640038939333739436471214582544836158267443883 5015).2.2 = 5216 :=
  ⟨rfl, rfl, rfl⟩

set_option maxRecDepth 4000000 in
set_option maxHeartbeats 16000000 in
/-- Traversal evaluation: iterations 5201 to 5400 of the refinement loop. -/
theorem natChunk27 : (natLoop 200 23188218855478908350164208932859833415067302533196585410048656871153027862987 175784369082247270115172692143946604140714589011874833125656666660650156021402495629216747118268157247033182519895839563439278910620755048670071016975581224741204720544767937185827901570762876148993608410245807623385527268242927401672031581235807633537739830181005829145318260158401621390698710703295706840268952514440975879136230096961585576468572735638516803478933012767975991686537076232413135060377657405752842894366239120624960596134904215029102647324658172842024547013254555264402380617914374870434242630649433320551202116340004050941920271409060191873496942120735821193597583749769078622036635363845925602776944502192359824874458858041365564670327744718174795597627793959179931414920402363508462760848343900919717819754691093540808655935630013996381850675860318396885175302689539370734503567935742726384103581743737873500433058478958462938282962825867254238948112795697886282064538117647102893995960692626046720357455520577246590645708383429919967905888062494154723277401798076787089098311350041758505605031684962072378455194046074670722737686387988835873288115063078692497698254373893433921563255986358206067195285159865184294226915950249702108730937873133881185377995032347401967180652537320872971342236072096604502352370664461762902844067395726295995508317299859526432093586277125093847964052322264748511252172206447874494352939241238399806087123044976553240506915083630779112978158175346291912917479325743221092497340262033105738001314233256942801030325050856381091104519466000050816673105298339280178898915663763900212336710706085336548382014722916591461547219603237221303528040645179087982942727947566698380053742405223620146624210649497082820776833365589246681363361876861233061907057393654738653303673349390382226170812700482733286854035638679913853274242822620280763218039259111498205013332711955169684100715806578516286123035022758937653598568231375586636379582640429914106683670869234814755371981835641003345243695796499371856370479784888290049695975610895062452768360519373600138981124449806741858351136850321676619311875306639321110580390795369499632298526974594251293076329465477778594251750900264973672223910386451491310892921220859667291958048712011537061614719799773011152782296818764233724134643289743748498178585285476481421483718135750943873929331962006990001125471362561765149760118268832078727732170625327840282321588260852081541051290401969948649265381063085179832020935545734603119345278942012391581828519544593720565221652634098447638936451055250913151622545640460720717263831633958874866892224167146806992982149420480250726004125498850137859760976631658094346548696522234635565936126335581964173287454407623146613070110216067346416441014517635001415707125709319066520895103769292660693798325215646704996945544546125344761182209384628993122264734304460428184916105863362923617917904897762940427980564763866718709545307439393302146524232915340684433839351257439456197945888249503976370888945611011105144584866590156595490700256307164728130389181177426592405895696164402947904195251788050655802681712008670590076569160740255403026942622437262524993662737723965957184668246993346578033734122600293617800038899759655267448536862031023980116515295162968219814179275747188116454914480539656293232675433332615649028368252306073921352391768951419873793428317520308028114189479756628217908504208225336887929337166518261089681367537252203156033266274163803587101324621160382050465536171155723828014247487725920101084466409699760022852738535926991018518958932874926915682818667636141595627362052439367300922676375360539220355395788021215643086147569125451487562302434412420030772737443334569802687739267702907331467712214155358574475564318384161174294835956417104525975960253873304186089298672720719580941329401799161437571278730038564326025703488427503564643737460868932778818713839047209032655895886046571449034406528338954979916375546462014444020941757974330697321147210456618021545961970061216990148814425864431898556893709684376915764942231725296336728662974474519593898043781165902942595284291774806641019010467705508744938998991029851353579934176844167510777507328716635885003336125116563804613914899908998672308056841512023761342744321496039386559200201539241113740801731036905372874092959008262456128843889585394269985724945798613522604831505767922118034325200999945176877062783215678741175659842064162372259806795241450380554683217462601983947198368530850282128141450866635928175934653478531174926032725566419719699263014687743370938066987523285903949798407820831160323493489760113997071907841799280330139409936067514815227789198541200332717165949696928439341726433520311330520057605784638959826009786818487080359938667890908368792797917312056861145683615414050188287146298268899035352374430721028013646045803273767673255435677596354830649949528290061039185877089383847938632399463763162080429319783327364680299109160783127869197313989286200859096658856590690573961726032278335491967111223785182522479729292290003923206167912625693243389397651647048080616519837837244153340004083250229856641797600734126527560794287463758428411528397367084894080426142666520982064411440965269288379853428521891635386205799753770470167859768673020263525516375947306079176284977726813531506413191880995591063781898219401735301612841587537182668857079438539023937998015500365445175351524956003602143017385836751237263545300275866805172448373352285037564955464906129827263198204399151689790546145120375701212594865225394503079871861667977246802696953697970638558061128603117485926421561450699168467858966929550476435185743797763398764203320815151271627408798933335082969978595784209391689332906154772508968073077239660030129027329954799488721748516702999637122981010254893401394804902664549324977787926796838783897857026509688776347724961745121005933291941498996923636678710626139794564397997683656905318553227711303751797611214398560254637300160200320731452432108434459000949419 5216).1 = 19180845085818654077289426241798956221919728756406661 ∧ (natLoop 200 23188218855478908350164208932859833415067302533196585410048656871153027862987 175784369082247270115172692143946604140714589011874833125656666660650156021402495629216747118268157247033182519895839563439278910620755048670071016975581224741204720544767937185827901570762876148993608410245807623385527268242927401672031581235807633537739830181005829145318260158401621390698710703295706840268952514440975879136230096961585576468572735638516803478933012767975991686537076232413135060377657405752842894366239120624960596134904215029102647324658172842024547013254555264402380617914374870434242630649433320551202116340004050941920271409060191873496942120735821193597583749769078622036635363845925602776944502192359824874458858041365564670327744718174795597627793959179931414920402363508462760848343900919717819754691093540808655935630013996381850675860318396885175302689539370734503567935742726384103581743737873500433058478958462938282962825867254238948112795697886282064538117647102893995960692626046720357455520577246590645708383429919967905888062494154723277401798076787089098311350041758505605031684962072378455194046074670722737686387988835873288115063078692497698254373893433921563255986358206067195285159865184294226915950249702108730937873133881185377995032347401967180652537320872971342236072096604502352370664461762902844067395726295995508317299859526432093586277125093847964052322264748511252172206447874494352939241238399806087123044976553240506915083630779112978158175346291912917479325743221092497340262033105738001314233256942801030325050856381091104519466000050816673105298339280178898915663763900212336710706085336548382014722916591461547219603237221303528040645179087982942727947566698380053742405223620146624210649497082820776833365589246681363361876861233061907057393654738653303673349390382226170812700482733286854035638679913853274242822620280763218039259111498205013332711955169684100715806578516286123035022758937653598568231375586636379582640429914106683670869234814755371981835641003345243695796499371856370479784888290049695975610895062452768360519373600138981124449806741858351136850321676619311875306639321110580390795369499632298526974594251293076329465477778594251750900264973672223910386451491310892921220859667291958048712011537061614719799773011152782296818764233724134643289743748498178585285476481421483718135750943873929331962006990001125471362561765149760118268832078727732170625327840282321588260852081541051290401969948649265381063085179832020935545734603119345278942012391581828519544593720565221652634098447638936451055250913151622545640460720717263831633958874866892224167146806992982149420480250726004125498850137859760976631658094346548696522234635565936126335581964173287454407623146613070110216067346416441014517635001415707125709319066520895103769292660693798325215646704996945544546125344761182209384628993122264734304460428184916105863362923617917904897762940427980564763866718709545307439393302146524232915340684433839351257439456197945888249503976370888945611011105144584866590156595490700256307164728130389181177426592405895696164402947904195251788050655802681712008670590076569160740255403026942622437262524993662737723965957184668246993346578033734122600293617800038899759655267448536862031023980116515295162968219814179275747188116454914480539656293232675433332615649028368252306073921352391768951419873793428317520308028114189479756628217908504208225336887929337166518261089681367537252203156033266274163803587101324621160382050465536171155723828014247487725920101084466409699760022852738535926991018518958932874926915682818667636141595627362052439367300922676375360539220355395788021215643086147569125451487562302434412420030772737443334569802687739267702907331467712214155358574475564318384161174294835956417104525975960253873304186089298672720719580941329401799161437571278730038564326025703488427503564643737460868932778818713839047209032655895886046571449034406528338954979916375546462014444020941757974330697321147210456618021545961970061216990148814425864431898556893709684376915764942231725296336728662974474519593898043781165902942595284291774806641019010467705508744938998991029851353579934176844167510777507328716635885003336125116563804613914899908998672308056841512023761342744321496039386559200201539241113740801731036905372874092959008262456128843889585394269985724945798613522604831505767922118034325200999945176877062783215678741175659842064162372259806795241450380554683217462601983947198368530850282128141450866635928175934653478531174926032725566419719699263014687743370938066987523285903949798407820831160323493489760113997071907841799280330139409936067514815227789198541200332717165949696928439341726433520311330520057605784638959826009786818487080359938667890908368792797917312056861145683615414050188287146298268899035352374430721028013646045803273767673255435677596354830649949528290061039185877089383847938632399463763162080429319783327364680299109160783127869197313989286200859096658856590690573961726032278335491967111223785182522479729292290003923206167912625693243389397651647048080616519837837244153340004083250229856641797600734126527560794287463758428411528397367084894080426142666520982064411440965269288379853428521891635386205799753770470167859768673020263525516375947306079176284977726813531506413191880995591063781898219401735301612841587537182668857079438539023937998015500365445175351524956003602143017385836751237263545300275866805172448373352285037564955464906129827263198204399151689790546145120375701212594865225394503079871861667977246802696953697970638558061128603117485926421561450699168467858966929550476435185743797763398764203320815151271627408798933335082969978595784209391689332906154772508968073077239660030129027329954799488721748516702999637122981010254893401394804902664549324977787926796838783897857026509688776347724961745121005933291941498996923636678710626139794564397997683656905318553227711303751797611214398560254637300160200320731452432108434459000949419 5216).2.1 = 175784369082247270115172692143946604140714589011874833125656666660650156021402495629216747118268157247033182519895839563439278910620755048670071016975581224741204720544767937185827901570762876148993608410245807623385527268242927401672031581235807633537739830181005829145318260158401621390698710703295706840268952514440975879136232739126507190338454746232303987791151423907218005851552469174122540364606428654543450739621053726774924181394667771456413540031277058580506151330635498377923047548013439120721168198785452643192917836198914926654860156791207786738798479926378606066867202465426178550180897692545842869351138064168472866311103247530401641121122281512644213412729065741527015013707033389547310907027594487926909485976110305341942470646973390870943259522539856103585784801080340801643052456186109667103634348796120256048965488720451282930653549201120828271576510924745167363026186623804405913517753345647671917625524181638802503164375545540003904185819935009869543772045808903873543414501080515449177348902005515019959268821081367246688023560916670313478911251849540802443989058851337620725986223755942899961009006646710300159957175353681171358500044522186222594071461124199042725876946307015708028884365517841915710353691873438401774379556649408510401590471863470285267790902731561091352609220609553079789225866869142118963389453380547227726671531723070793108130145251211919803326597645411915319851144894835743995324685430816202145929159759872511333552301933084848465768021350936613715159514975965010916957781239174973532737876888620589123057986625147039881877537819251246423087703806587580927642464043966496352498761277451745737761295096576195574766241653316578634213466530992478464650618630296500372765410317926525545279650320233655775575535021599777026790953864158921652119722680302245056627993661961579107234849030893111038669287950925293154757091930011511012868304861130771498529849282617898485508209237736386270069035106183786104141893546033126700373938947467651374194354463933738943898940658573247740766936088080542550130051712052277549197654610475861059362587854066843704856374684684871033995280708511435481040493984016011218929086645303507426043254827154824320734840657384133391885452073647064955117932208812822294448479059337975205667660790897363289507922192199583087602643250800672661988980291724443154634495966859381382222740648239484474863063371170048319529064076587665375651291510307924393783542928420105821476021557005114455833686500987832823723871699634259008180729816405934471832251582190495439785648133883799011506289110322548495085256530688333588374469963484793631778154526817575374097217102432737670597478836792636600328348461064101693252807722687238569152337218989309927801512220418092470161703564372973858230704814634243762186101380385950663823148500721463984475569584076050496014821970405702682707131853585335601866266618793901738550900757254457343011581277593483039989683387589804967851664478227011342441006663973843082627646157361199020960652197619916728103387538928615404624149881558758458750944858079034072129020951122187493687390282806663801316412850253476384476603032300958407331129070362725764309845415639759380345168656340157967045989606192739543735609628140948550097917141407244657368887994371332096610062486921572963497860191000913885684468534224075442600992071830384962670668138848669787314435910626161817027036144980678040394497023827046760751427807528757042725705585867422686020189484329410015859171737666509901817839461389359678146675946164520619136304708386202720891719618128799725085822825395401625161719051705110832571415786582452161295951384649924369370631313670311218924060043024190534078544605609876608575145145989956550837605798436609454329356751007859799671454848579398513009366810360535558298011291287364884810009557221067474684767013236522430891149874042304435949802329961235642990794217541280238150968050153362640879701653914909712598397676840380934746959470378412542848289940917876630882465460355472663268142898175781401967830935629483431472120761710219583280376516047249472963208927728990305464620035755472118919430527559082694695390297630024896301466284853253379845853550884583702698697335533828215870681026279994340427611063699424794816250571623795154537625383107071325211906813373655576410420950168933778771412053904268920608952447790578002316713488974528633381095268205872008014411824077083526572762084556186202173099768475389384977412651879282574080807517822802815497256120073077120966795258853856111691039007266492007988626548283852374166710888352947807912301389320390299909962818010529128317748812091493013542793690720662909830687723514863344093923337148069952366069730737588533305768265160323503179770872354497566026081872267939711216161425804333966180193098425504724932821902375972481738715288271567020245896757160174348465888200883375841035465197847597057895367503252817826427379743843707678829449819032397086643989600580667072529226074466929644251544619490650731096165843568648453023360924839989719367565987298441408478236485395387327895522846064063483525445325196882348894323130931638385799655809749181486967684028509953847304004564107405362586884847650418702200944390861616549907132711598125804987681737961154366763777752930775935600603792573755880235397732159248414183148875236695902021006626996696139881341717163342827046216988044205122480583620807839608794286033401232204302286778645658983803449639108901427834928179086949780572092552391508717861683122986742850455222569852953138656669902942696889194846440565932491518910791515183773289327865168538540752965503571226000772214357538940623251830479336863373810051633564550528243114591453429710972242287988257692666374540952640575685995256958470869294988932566177006240696304919955981019944469089912507381400636321465314434118330208106637724163461357754554787342376564911843931876865446391441083446994440665992722955470307728412803414965150952390678704864240364800683 ∧ (natLoop 200 23188218855478908350164208932859833415067302533196585410048656871153027862987 175784369082247270115172692143946604140714589011874833125656666660650156021402495629216747118268157247033182519895839563439278910620755048670071016975581224741204720544767937185827901570762876148993608410245807623385527268242927401672031581235807633537739830181005829145318260158401621390698710703295706840268952514440975879136230096961585576468572735638516803478933012767975991686537076232413135060377657405752842894366239120624960596134904215029102647324658172842024547013254555264402380617914374870434242630649433320551202116340004050941920271409060191873496942120735821193597583749769078622036635363845925602776944502192359824874458858041365564670327744718174795597627793959179931414920402363508462760848343900919717819754691093540808655935630013996381850675860318396885175302689539370734503567935742726384103581743737873500433058478958462938282962825867254238948112795697886282064538117647102893995960692626046720357455520577246590645708383429919967905888062494154723277401798076787089098311350041758505605031684962072378455194046074670722737686387988835873288115063078692497698254373893433921563255986358206067195285159865184294226915950249702108730937873133881185377995032347401967180652537320872971342236072096604502352370664461762902844067395726295995508317299859526432093586277125093847964052322264748511252172206447874494352939241238399806087123044976553240506915083630779112978158175346291912917479325743221092497340262033105738001314233256942801030325050856381091104519466000050816673105298339280178898915663763900212336710706085336548382014722916591461547219603237221303528040645179087982942727947566698380053742405223620146624210649497082820776833365589246681363361876861233061907057393654738653303673349390382226170812700482733286854035638679913853274242822620280763218039259111498205013332711955169684100715806578516286123035022758937653598568231375586636379582640429914106683670869234814755371981835641003345243695796499371856370479784888290049695975610895062452768360519373600138981124449806741858351136850321676619311875306639321110580390795369499632298526974594251293076329465477778594251750900264973672223910386451491310892921220859667291958048712011537061614719799773011152782296818764233724134643289743748498178585285476481421483718135750943873929331962006990001125471362561765149760118268832078727732170625327840282321588260852081541051290401969948649265381063085179832020935545734603119345278942012391581828519544593720565221652634098447638936451055250913151622545640460720717263831633958874866892224167146806992982149420480250726004125498850137859760976631658094346548696522234635565936126335581964173287454407623146613070110216067346416441014517635001415707125709319066520895103769292660693798325215646704996945544546125344761182209384628993122264734304460428184916105863362923617917904897762940427980564763866718709545307439393302146524232915340684433839351257439456197945888249503976370888945611011105144584866590156595490700256307164728130389181177426592405895696164402947904195251788050655802681712008670590076569160740255403026942622437262524993662737723965957184668246993346578033734122600293617800038899759655267448536862031023980116515295162968219814179275747188116454914480539656293232675433332615649028368252306073921352391768951419873793428317520308028114189479756628217908504208225336887929337166518261089681367537252203156033266274163803587101324621160382050465536171155723828014247487725920101084466409699760022852738535926991018518958932874926915682818667636141595627362052439367300922676375360539220355395788021215643086147569125451487562302434412420030772737443334569802687739267702907331467712214155358574475564318384161174294835956417104525975960253873304186089298672720719580941329401799161437571278730038564326025703488427503564643737460868932778818713839047209032655895886046571449034406528338954979916375546462014444020941757974330697321147210456618021545961970061216990148814425864431898556893709684376915764942231725296336728662974474519593898043781165902942595284291774806641019010467705508744938998991029851353579934176844167510777507328716635885003336125116563804613914899908998672308056841512023761342744321496039386559200201539241113740801731036905372874092959008262456128843889585394269985724945798613522604831505767922118034325200999945176877062783215678741175659842064162372259806795241450380554683217462601983947198368530850282128141450866635928175934653478531174926032725566419719699263014687743370938066987523285903949798407820831160323493489760113997071907841799280330139409936067514815227789198541200332717165949696928439341726433520311330520057605784638959826009786818487080359938667890908368792797917312056861145683615414050188287146298268899035352374430721028013646045803273767673255435677596354830649949528290061039185877089383847938632399463763162080429319783327364680299109160783127869197313989286200859096658856590690573961726032278335491967111223785182522479729292290003923206167912625693243389397651647048080616519837837244153340004083250229856641797600734126527560794287463758428411528397367084894080426142666520982064411440965269288379853428521891635386205799753770470167859768673020263525516375947306079176284977726813531506413191880995591063781898219401735301612841587537182668857079438539023937998015500365445175351524956003602143017385836751237263545300275866805172448373352285037564955464906129827263198204399151689790546145120375701212594865225394503079871861667977246802696953697970638558061128603117485926421561450699168467858966929550476435185743797763398764203320815151271627408798933335082969978595784209391689332906154772508968073077239660030129027329954799488721748516702999637122981010254893401394804902664549324977787926796838783897857026509688776347724961745121005933291941498996923636678710626139794564397997683656905318553227711303751797611214398560254637300160200320731452432108434459000949419 5216).2.2 = 5411 :=
  ⟨rfl, rfl, rfl⟩

set_option maxRecDepth 4000000 in
set_option maxHeartbeats 16000000 in
/-- Traversal evaluation: iterations 5401 to 5478 of the refinement loop. -/
theorem natChunk28 : (natLoop 200 19180845085818654077289426241798956221919728756406661 175784369082247270115172692143946604140714589011874833125656666660650156021402495629216747118268157247033182519895839563439278910620755048670071016975581224741204720544767937185827901570762876148993608410245807623385527268242927401672031581235807633537739830181005829145318260158401621390698710703295706840268952514440975879136232739126507190338454746232303987791151423907218005851552469174122540364606428654543450739621053726774924181394667771456413540031277058580506151330635498377923047548013439120721168198785452643192917836198914926654860156791207786738798479926378606066867202465426178550180897692545842869351138064168472866311103247530401641121122281512644213412729065741527015013707033389547310907027594487926909485976110305341942470646973390870943259522539856103585784801080340801643052456186109667103634348796120256048965488720451282930653549201120828271576510924745167363026186623804405913517753345647671917625524181638802503164375545540003904185819935009869543772045808903873543414501080515449177348902005515019959268821081367246688023560916670313478911251849540802443989058851337620725986223755942899961009006646710300159957175353681171358500044522186222594071461124199042725876946307015708028884365517841915710353691873438401774379556649408510401590471863470285267790902731561091352609220609553079789225866869142118963389453380547227726671531723070793108130145251211919803326597645411915319851144894835743995324685430816202145929159759872511333552301933084848465768021350936613715159514975965010916957781239174973532737876888620589123057986625147039881877537819251246423087703806587580927642464043966496352498761277451745737761295096576195574766241653316578634213466530992478464650618630296500372765410317926525545279650320233655775575535021599777026790953864158921652119722680302245056627993661961579107234849030893111038669287950925293154757091930011511012868304861130771498529849282617898485508209237736386270069035106183786104141893546033126700373938947467651374194354463933738943898940658573247740766936088080542550130051712052277549197654610475861059362587854066843704856374684684871033995280708511435481040493984016011218929086645303507426043254827154824320734840657384133391885452073647064955117932208812822294448479059337975205667660790897363289507922192199583087602643250800672661988980291724443154634495966859381382222740648239484474863063371170048319529064076587665375651291510307924393783542928420105821476021557005114455833686500987832823723871699634259008180729816405934471832251582190495439785648133883799011506289110322548495085256530688333588374469963484793631778154526817575374097217102432737670597478836792636600328348461064101693252807722687238569152337218989309927801512220418092470161703564372973858230704814634243762186101380385950663823148500721463984475569584076050496014821970405702682707131853585335601866266618793901738550900757254457343011581277593483039989683387589804967851664478227011342441006663973843082627646157361199020960652197619916728103387538928615404624149881558758458750944858079034072129020951122187493687390282806663801316412850253476384476603032300958407331129070362725764309845415639759380345168656340157967045989606192739543735609628140948550097917141407244657368887994371332096610062486921572963497860191000913885684468534224075442600992071830384962670668138848669787314435910626161817027036144980678040394497023827046760751427807528757042725705585867422686020189484329410015859171737666509901817839461389359678146675946164520619136304708386202720891719618128799725085822825395401625161719051705110832571415786582452161295951384649924369370631313670311218924060043024190534078544605609876608575145145989956550837605798436609454329356751007859799671454848579398513009366810360535558298011291287364884810009557221067474684767013236522430891149874042304435949802329961235642990794217541280238150968050153362640879701653914909712598397676840380934746959470378412542848289940917876630882465460355472663268142898175781401967830935629483431472120761710219583280376516047249472963208927728990305464620035755472118919430527559082694695390297630024896301466284853253379845853550884583702698697335533828215870681026279994340427611063699424794816250571623795154537625383107071325211906813373655576410420950168933778771412053904268920608952447790578002316713488974528633381095268205872008014411824077083526572762084556186202173099768475389384977412651879282574080807517822802815497256120073077120966795258853856111691039007266492007988626548283852374166710888352947807912301389320390299909962818010529128317748812091493013542793690720662909830687723514863344093923337148069952366069730737588533305768265160323503179770872354497566026081872267939711216161425804333966180193098425504724932821902375972481738715288271567020245896757160174348465888200883375841035465197847597057895367503252817826427379743843707678829449819032397086643989600580667072529226074466929644251544619490650731096165843568648453023360924839989719367565987298441408478236485395387327895522846064063483525445325196882348894323130931638385799655809749181486967684028509953847304004564107405362586884847650418702200944390861616549907132711598125804987681737961154366763777752930775935600603792573755880235397732159248414183148875236695902021006626996696139881341717163342827046216988044205122480583620807839608794286033401232204302286778645658983803449639108901427834928179086949780572092552391508717861683122986742850455222569852953138656669902942696889194846440565932491518910791515183773289327865168538540752965503571226000772214357538940623251830479336863373810051633564550528243114591453429710972242287988257692666374540952640575685995256958470869294988932566177006240696304919955981019944469089912507381400636321465314434118330208106637724163461357754554787342376564911843931876865446391441083446994440665992722955470307728412803414965150952390678704864240364800683 5411).1 = 0 ∧ (natLoop 200 19180845085818654077289426241798956221919728756406661 175784369082247270115172692143946604140714589011874833125656666660650156021402495629216747118268157247033182519895839563439278910620755048670071016975581224741204720544767937185827901570762876148993608410245807623385527268242927401672031581235807633537739830181005829145318260158401621390698710703295706840268952514440975879136232739126507190338454746232303987791151423907218005851552469174122540364606428654543450739621053726774924181394667771456413540031277058580506151330635498377923047548013439120721168198785452643192917836198914926654860156791207786738798479926378606066867202465426178550180897692545842869351138064168472866311103247530401641121122281512644213412729065741527015013707033389547310907027594487926909485976110305341942470646973390870943259522539856103585784801080340801643052456186109667103634348796120256048965488720451282930653549201120828271576510924745167363026186623804405913517753345647671917625524181638802503164375545540003904185819935009869543772045808903873543414501080515449177348902005515019959268821081367246688023560916670313478911251849540802443989058851337620725986223755942899961009006646710300159957175353681171358500044522186222594071461124199042725876946307015708028884365517841915710353691873438401774379556649408510401590471863470285267790902731561091352609220609553079789225866869142118963389453380547227726671531723070793108130145251211919803326597645411915319851144894835743995324685430816202145929159759872511333552301933084848465768021350936613715159514975965010916957781239174973532737876888620589123057986625147039881877537819251246423087703806587580927642464043966496352498761277451745737761295096576195574766241653316578634213466530992478464650618630296500372765410317926525545279650320233655775575535021599777026790953864158921652119722680302245056627993661961579107234849030893111038669287950925293154757091930011511012868304861130771498529849282617898485508209237736386270069035106183786104141893546033126700373938947467651374194354463933738943898940658573247740766936088080542550130051712052277549197654610475861059362587854066843704856374684684871033995280708511435481040493984016011218929086645303507426043254827154824320734840657384133391885452073647064955117932208812822294448479059337975205667660790897363289507922192199583087602643250800672661988980291724443154634495966859381382222740648239484474863063371170048319529064076587665375651291510307924393783542928420105821476021557005114455833686500987832823723871699634259008180729816405934471832251582190495439785648133883799011506289110322548495085256530688333588374469963484793631778154526817575374097217102432737670597478836792636600328348461064101693252807722687238569152337218989309927801512220418092470161703564372973858230704814634243762186101380385950663823148500721463984475569584076050496014821970405702682707131853585335601866266618793901738550900757254457343011581277593483039989683387589804967851664478227011342441006663973843082627646157361199020960652197619916728103387538928615404624149881558758458750944858079034072129020951122187493687390282806663801316412850253476384476603032300958407331129070362725764309845415639759380345168656340157967045989606192739543735609628140948550097917141407244657368887994371332096610062486921572963497860191000913885684468534224075442600992071830384962670668138848669787314435910626161817027036144980678040394497023827046760751427807528757042725705585867422686020189484329410015859171737666509901817839461389359678146675946164520619136304708386202720891719618128799725085822825395401625161719051705110832571415786582452161295951384649924369370631313670311218924060043024190534078544605609876608575145145989956550837605798436609454329356751007859799671454848579398513009366810360535558298011291287364884810009557221067474684767013236522430891149874042304435949802329961235642990794217541280238150968050153362640879701653914909712598397676840380934746959470378412542848289940917876630882465460355472663268142898175781401967830935629483431472120761710219583280376516047249472963208927728990305464620035755472118919430527559082694695390297630024896301466284853253379845853550884583702698697335533828215870681026279994340427611063699424794816250571623795154537625383107071325211906813373655576410420950168933778771412053904268920608952447790578002316713488974528633381095268205872008014411824077083526572762084556186202173099768475389384977412651879282574080807517822802815497256120073077120966795258853856111691039007266492007988626548283852374166710888352947807912301389320390299909962818010529128317748812091493013542793690720662909830687723514863344093923337148069952366069730737588533305768265160323503179770872354497566026081872267939711216161425804333966180193098425504724932821902375972481738715288271567020245896757160174348465888200883375841035465197847597057895367503252817826427379743843707678829449819032397086643989600580667072529226074466929644251544619490650731096165843568648453023360924839989719367565987298441408478236485395387327895522846064063483525445325196882348894323130931638385799655809749181486967684028509953847304004564107405362586884847650418702200944390861616549907132711598125804987681737961154366763777752930775935600603792573755880235397732159248414183148875236695902021006626996696139881341717163342827046216988044205122480583620807839608794286033401232204302286778645658983803449639108901427834928179086949780572092552391508717861683122986742850455222569852953138656669902942696889194846440565932491518910791515183773289327865168538540752965503571226000772214357538940623251830479336863373810051633564550528243114591453429710972242287988257692666374540952640575685995256958470869294988932566177006240696304919955981019944469089912507381400636321465314434118330208106637724163461357754554787342376564911843931876865446391441083446994440665992722955470307728412803414965150952390678704864240364800683 5411).2.1 = 175784369082247270115172692143946604140714589011874833125656666660650156021402495629216747118268157247033182519895839563439278910620755048670071016975581224741204720544767937185827901570762876148993608410245807623385527268242927401672031581235807633537739830181005829145318260158401621390698710703295706840268952514440975879136232739126507190338454746232303987791151423907218005851552469174122540364606428654543450739621053726774924181394667771456413540031277058580506151330635498377923047548013439120721168198785452643192917836198914926654860156791207786738798479926378606066867202465426178550180897692545842869351138064168472866311103247530401641121122281512644213412729065741527015013707033389547310907027594487926909485976110305341942470646973390870943259522539856103585784801080340801643052456186109667103634348796120256048965488720451282930653549201120828271576510924745167363026186623804405913517753345647673575869207470916592719398969254674480772026149551773286099923097755549778775331881093850357749684752266359284305044932678220605160857726156938985331059381328515235844358672268551173980549498722745291658128323516851298438707559318954602570279198779838941825619562825554268558473233575768926313132607955034886346984363509564828000774219852283152696288213938228332525985973335854608464039662076475169729874149458746253593713847835411243643316895568602748896952431821073278269053568071207879842456981491498890159132706645299206973114594032182690563253262823167811862931052803602649130675399441340268468960956114200178414002067478867366586486738879229928645940237904454316354459232824807560074814872217643490434739867434946647966936673361518895499280317244942243912525270590151079413992806321216285092270806397826420330952118443193753576959901427641084410310706412345538647750919138470649149526243156725612526159351267989310501985299461565434904432800706216893607477789968670015870686025348833220978740919468987713382242776111636799049291536762903245185811552019917534762045826602336059095276011715797054075819191596961464185820462799420054112185772804113921235657966246962421662921929664642647705758798158967345878836806278706030163717025966603390375416286492748509702622598133303317274944445722208182157208777416396834208015145638209283243230388872132663674135340317555703735974712834029717477303001642905773502877015726953370971406276123523821030746194257313817043976238715320733038239472521630415262788326931015551548728321814077888362618839589264301941784193840588700671812187964636417215771737098460585655972701546460649040737500055096964585852772618321094585191268158635415181046838663443774363261269475329688946843859898972873290967003464453094945030438770207469217758457772052413315089625952705271164925462736785380408771170148800660410680218184093944510278867506993277965654314161437897245897245910816353767123619095577870271579834168642860690395448349529484484234122252281558887852082447016371220919118676964997562817476295036455734647407715406928311223351842494649706487107190789294585052111795509157740693197071693550255283266494655766779324430102477215126987233902606751499654932055251139083093430372337040030802584540403216535025318241664577621698483634564432216283277219786228461085471103895119734209476451948692117063809192334746860265396140634114440258183060134042902278077590220248800230461895848623311162254289126106368943261708626965144880891818871984470109802588067937616405108098969149342450844705213683676654956440194007734174167707163704996201478758422578977711586393852349548783493353857312435378380850839734433479935436477293149334503258772514493831174303520485236365034941867306665679640076724589172773314450230518117067092205699862339322724710349998282662911048104525572386711367619635888763391734671035966398553741464392666948625149734801624483522991778688700760148284180848912026975318539458149217735590708204808083353794251426994511591816273402744742257720473175175666732274795401528967800552027471984218082105989372251603279895457037863890047391243880490505805984926530750276674536092010359091945666888396949578786219651891140727552209498689769425107389575738212824466551746425934745903629559267515576752404779365967873514489063345221207535045050855196763858370260479815332214393535289325193705192464018491521822329515320401767092241778047932086557542645007848384773400229364758661975260636783890918374071272567352548969298905867535884365013114071893733972520427900762384387355888081137912389261873287419643257965045304497907067773255725405139275206172464110514460849691651050457792371023691165490229119810122573780422259703458714448254838721057252134940990778833910956455566307738471072745209612442445589293753985927953526682925450472097732859002534904895974964161112154539433090593155924668234456934236895624979022919133320581038575685945975951031501731266528613078360159619690145615354474622358897328893204566484992089510684745348457261194755600081378790364133603800504310055345928522198466553072443607391754852358992803843594838091194339457384528135388866842069870116747825709022127253586327780060482877465466680066334507857310981494446242493547436747980230717502901762607802792016960719565294108207958764777252360370115226428663045891322180516321667417359101481065291229223743940460996729821483357972634369102393189634715545028202099457719410859011327308805452325212058394739430260662300477036557511047015578030494403941107615406163332624362887065762657370592982545710741290025036325560228889256160992044079366337152039860755625913886820081415614826781965848540386491532817739112002028760915148967760390476091654780359924590912931754410429319450671455063612875258725234026219633896807459632401041437040082352147598961630070478579526262956555953951857520966841616050452225782875425794578074315170970485887832902429445021504249630086262179331125701737825632738962119912356148442256936483175043915703809988903937016864114811399367113043876629163 ∧ (natLoop 200 19180845085818654077289426241798956221919728756406661 175784369082247270115172692143946604140714589011874833125656666660650156021402495629216747118268157247033182519895839563439278910620755048670071016975581224741204720544767937185827901570762876148993608410245807623385527268242927401672031581235807633537739830181005829145318260158401621390698710703295706840268952514440975879136232739126507190338454746232303987791151423907218005851552469174122540364606428654543450739621053726774924181394667771456413540031277058580506151330635498377923047548013439120721168198785452643192917836198914926654860156791207786738798479926378606066867202465426178550180897692545842869351138064168472866311103247530401641121122281512644213412729065741527015013707033389547310907027594487926909485976110305341942470646973390870943259522539856103585784801080340801643052456186109667103634348796120256048965488720451282930653549201120828271576510924745167363026186623804405913517753345647671917625524181638802503164375545540003904185819935009869543772045808903873543414501080515449177348902005515019959268821081367246688023560916670313478911251849540802443989058851337620725986223755942899961009006646710300159957175353681171358500044522186222594071461124199042725876946307015708028884365517841915710353691873438401774379556649408510401590471863470285267790902731561091352609220609553079789225866869142118963389453380547227726671531723070793108130145251211919803326597645411915319851144894835743995324685430816202145929159759872511333552301933084848465768021350936613715159514975965010916957781239174973532737876888620589123057986625147039881877537819251246423087703806587580927642464043966496352498761277451745737761295096576195574766241653316578634213466530992478464650618630296500372765410317926525545279650320233655775575535021599777026790953864158921652119722680302245056627993661961579107234849030893111038669287950925293154757091930011511012868304861130771498529849282617898485508209237736386270069035106183786104141893546033126700373938947467651374194354463933738943898940658573247740766936088080542550130051712052277549197654610475861059362587854066843704856374684684871033995280708511435481040493984016011218929086645303507426043254827154824320734840657384133391885452073647064955117932208812822294448479059337975205667660790897363289507922192199583087602643250800672661988980291724443154634495966859381382222740648239484474863063371170048319529064076587665375651291510307924393783542928420105821476021557005114455833686500987832823723871699634259008180729816405934471832251582190495439785648133883799011506289110322548495085256530688333588374469963484793631778154526817575374097217102432737670597478836792636600328348461064101693252807722687238569152337218989309927801512220418092470161703564372973858230704814634243762186101380385950663823148500721463984475569584076050496014821970405702682707131853585335601866266618793901738550900757254457343011581277593483039989683387589804967851664478227011342441006663973843082627646157361199020960652197619916728103387538928615404624149881558758458750944858079034072129020951122187493687390282806663801316412850253476384476603032300958407331129070362725764309845415639759380345168656340157967045989606192739543735609628140948550097917141407244657368887994371332096610062486921572963497860191000913885684468534224075442600992071830384962670668138848669787314435910626161817027036144980678040394497023827046760751427807528757042725705585867422686020189484329410015859171737666509901817839461389359678146675946164520619136304708386202720891719618128799725085822825395401625161719051705110832571415786582452161295951384649924369370631313670311218924060043024190534078544605609876608575145145989956550837605798436609454329356751007859799671454848579398513009366810360535558298011291287364884810009557221067474684767013236522430891149874042304435949802329961235642990794217541280238150968050153362640879701653914909712598397676840380934746959470378412542848289940917876630882465460355472663268142898175781401967830935629483431472120761710219583280376516047249472963208927728990305464620035755472118919430527559082694695390297630024896301466284853253379845853550884583702698697335533828215870681026279994340427611063699424794816250571623795154537625383107071325211906813373655576410420950168933778771412053904268920608952447790578002316713488974528633381095268205872008014411824077083526572762084556186202173099768475389384977412651879282574080807517822802815497256120073077120966795258853856111691039007266492007988626548283852374166710888352947807912301389320390299909962818010529128317748812091493013542793690720662909830687723514863344093923337148069952366069730737588533305768265160323503179770872354497566026081872267939711216161425804333966180193098425504724932821902375972481738715288271567020245896757160174348465888200883375841035465197847597057895367503252817826427379743843707678829449819032397086643989600580667072529226074466929644251544619490650731096165843568648453023360924839989719367565987298441408478236485395387327895522846064063483525445325196882348894323130931638385799655809749181486967684028509953847304004564107405362586884847650418702200944390861616549907132711598125804987681737961154366763777752930775935600603792573755880235397732159248414183148875236695902021006626996696139881341717163342827046216988044205122480583620807839608794286033401232204302286778645658983803449639108901427834928179086949780572092552391508717861683122986742850455222569852953138656669902942696889194846440565932491518910791515183773289327865168538540752965503571226000772214357538940623251830479336863373810051633564550528243114591453429710972242287988257692666374540952640575685995256958470869294988932566177006240696304919955981019944469089912507381400636321465314434118330208106637724163461357754554787342376564911843931876865446391441083446994440665992722955470307728412803414965150952390678704864240364800683 5411).2.2 = 5478 :=
  ⟨rfl, rfl, rfl⟩

/-- The visited bit mask after the full traversal. -/
def finalMask : Nat := 175784369082247270115172692143946604140714589011874833125656666660650156021402495629216747118268157247033182519895839563439278910620755048670071016975581224741204720544767937185827901570762876148993608410245807623385527268242927401672031581235807633537739830181005829145318260158401621390698710703295706840268952514440975879136232739126507190338454746232303987791151423907218005851552469174122540364606428654543450739621053726774924181394667771456413540031277058580506151330635498377923047548013439120721168198785452643192917836198914926654860156791207786738798479926378606066867202465426178550180897692545842869351138064168472866311103247530401641121122281512644213412729065741527015013707033389547310907027594487926909485976110305341942470646973390870943259522539856103585784801080340801643052456186109667103634348796120256048965488720451282930653549201120828271576510924745167363026186623804405913517753345647673575869207470916592719398969254674480772026149551773286099923097755549778775331881093850357749684752266359284305044932678220605160857726156938985331059381328515235844358672268551173980549498722745291658128323516851298438707559318954602570279198779838941825619562825554268558473233575768926313132607955034886346984363509564828000774219852283152696288213938228332525985973335854608464039662076475169729874149458746253593713847835411243643316895568602748896952431821073278269053568071207879842456981491498890159132706645299206973114594032182690563253262823167811862931052803602649130675399441340268468960956114200178414002067478867366586486738879229928645940237904454316354459232824807560074814872217643490434739867434946647966936673361518895499280317244942243912525270590151079413992806321216285092270806397826420330952118443193753576959901427641084410310706412345538647750919138470649149526243156725612526159351267989310501985299461565434904432800706216893607477789968670015870686025348833220978740919468987713382242776111636799049291536762903245185811552019917534762045826602336059095276011715797054075819191596961464185820462799420054112185772804113921235657966246962421662921929664642647705758798158967345878836806278706030163717025966603390375416286492748509702622598133303317274944445722208182157208777416396834208015145638209283243230388872132663674135340317555703735974712834029717477303001642905773502877015726953370971406276123523821030746194257313817043976238715320733038239472521630415262788326931015551548728321814077888362618839589264301941784193840588700671812187964636417215771737098460585655972701546460649040737500055096964585852772618321094585191268158635415181046838663443774363261269475329688946843859898972873290967003464453094945030438770207469217758457772052413315089625952705271164925462736785380408771170148800660410680218184093944510278867506993277965654314161437897245897245910816353767123619095577870271579834168642860690395448349529484484234122252281558887852082447016371220919118676964997562817476295036455734647407715406928311223351842494649706487107190789294585052111795509157740693197071693550255283266494655766779324430102477215126987233902606751499654932055251139083093430372337040030802584540403216535025318241664577621698483634564432216283277219786228461085471103895119734209476451948692117063809192334746860265396140634114440258183060134042902278077590220248800230461895848623311162254289126106368943261708626965144880891818871984470109802588067937616405108098969149342450844705213683676654956440194007734174167707163704996201478758422578977711586393852349548783493353857312435378380850839734433479935436477293149334503258772514493831174303520485236365034941867306665679640076724589172773314450230518117067092205699862339322724710349998282662911048104525572386711367619635888763391734671035966398553741464392666948625149734801624483522991778688700760148284180848912026975318539458149217735590708204808083353794251426994511591816273402744742257720473175175666732274795401528967800552027471984218082105989372251603279895457037863890047391243880490505805984926530750276674536092010359091945666888396949578786219651891140727552209498689769425107389575738212824466551746425934745903629559267515576752404779365967873514489063345221207535045050855196763858370260479815332214393535289325193705192464018491521822329515320401767092241778047932086557542645007848384773400229364758661975260636783890918374071272567352548969298905867535884365013114071893733972520427900762384387355888081137912389261873287419643257965045304497907067773255725405139275206172464110514460849691651050457792371023691165490229119810122573780422259703458714448254838721057252134940990778833910956455566307738471072745209612442445589293753985927953526682925450472097732859002534904895974964161112154539433090593155924668234456934236895624979022919133320581038575685945975951031501731266528613078360159619690145615354474622358897328893204566484992089510684745348457261194755600081378790364133603800504310055345928522198466553072443607391754852358992803843594838091194339457384528135388866842069870116747825709022127253586327780060482877465466680066334507857310981494446242493547436747980230717502901762607802792016960719565294108207958764777252360370115226428663045891322180516321667417359101481065291229223743940460996729821483357972634369102393189634715545028202099457719410859011327308805452325212058394739430260662300477036557511047015578030494403941107615406163332624362887065762657370592982545710741290025036325560228889256160992044079366337152039860755625913886820081415614826781965848540386491532817739112002028760915148967760390476091654780359924590912931754410429319450671455063612875258725234026219633896807459632401041437040082352147598961630070478579526262956555953951857520966841616050452225782875425794578074315170970485887832902429445021504249630086262179331125701737825632738962119912356148442256936483175043915703809988903937016864114811399367113043876629163

/-- The full traversal run of the refinement loop: it halts (packed
stack 0) having visited 5478 boards, with visited mask finalMask. -/
theorem natRun : natLoop FUEL 1 1 1 = (0, finalMask, 5478) := by
  show natLoop (200 + (200 + (200 + (200 + (200 + (200 + (200 + (200 + (200 + (200 + (200 + (200 + (200 + (200 + (200 + (200 + (200 + (200 + (200 + (200 + (200 + (200 + (200 + (200 + (200 + (200 + (200 + (200 + 14400)))))))))))))))))))))))))))) 1 1 1 = (0, finalMask, 5478)
  refine (natLoop_add2 _ _ _ _ _ _ _ _ natChunk1.1 natChunk1.2.1 natChunk1.2.2).trans ?_
  refine (natLoop_add2 _ _ _ _ _ _ _ _ natChunk2.1 natChunk2.2.1 natChunk2.2.2).trans ?_
  refine (natLoop_add2 _ _ _ _ _ _ _ _ natChunk3.1 natChunk3.2.1 natChunk3.2.2).trans ?_
  refine (natLoop_add2 _ _ _ _ _ _ _ _ natChunk4.1 natChunk4.2.1 natChunk4.2.2).trans ?_
  refine (natLoop_add2 _ _ _ _ _ _ _ _ natChunk5.1 natChunk5.2.1 natChunk5.2.2).trans ?_
  refine (natLoop_add2 _ _ _ _ _ _ _ _ natChunk6.1 natChunk6.2.1 natChunk6.2.2).trans ?_
  refine (natLoop_add2 _ _ _ _ _ _ _ _ natChunk7.1 natChunk7.2.1 natChunk7.2.2).trans ?_
  refine (natLoop_add2 _ _ _ _ _ _ _ _ natChunk8.1 natChunk8.2.1 natChunk8.2.2).trans ?_
  refine (natLoop_add2 _ _ _ _ _ _ _ _ natChunk9.1 natChunk9.2.1 natChunk9.2.2).trans ?_
  refine (natLoop_add2 _ _ _ _ _ _ _ _ natChunk10.1 natChunk10.2.1 natChunk10.2.2).trans ?_
  refine (natLoop_add2 _ _ _ _ _ _ _ _ natChunk11.1 natChunk11.2.1 natChunk11.2.2).trans ?_
  refine (natLoop_add2 _ _ _ _ _ _ _ _ natChunk12.1 natChunk12.2.1 natChunk12.2.2).trans ?_
  refine (natLoop_add2 _ _ _ _ _ _ _ _ natChunk13.1 natChunk13.2.1 natChunk13.2.2).trans ?_
  refine (natLoop_add2 _ _ _ _ _ _ _ _ natChunk14.1 natChunk14.2.1 natChunk14.2.2).trans ?_
  refine (natLoop_add2 _ _ _ _ _ _ _ _ natChunk15.1 natChunk15.2.1 natChunk15.2.2).trans ?_
  refine (natLoop_add2 _ _ _ _ _ _ _ _ natChunk16.1 natChunk16.2.1 natChunk16.2.2).trans ?_
  refine (natLoop_add2 _ _ _ _ _ _ _ _ natChunk17.1 natChunk17.2.1 natChunk17.2.2).trans ?_
  refine (natLoop_add2 _ _ _ _ _ _ _ _ natChunk18.1 natChunk18.2.1 natChunk18.2.2).trans ?_
  refine (natLoop_add2 _ _ _ _ _ _ _ _ natChunk19.1 natChunk19.2.1 natChunk19.2.2).trans ?_
  refine (natLoop_add2 _ _ _ _ _ _ _ _ natChunk20.1 natChunk20.2.1 natChunk20.2.2).trans ?_
  refine (natLoop_add2 _ _ _ _ _ _ _ _ natChunk21.1 natChunk21.2.1 natChunk21.2.2).trans ?_
  refine (natLoop_add2 _ _ _ _ _ _ _ _ natChunk22.1 natChunk22.2.1 natChunk22.2.2).trans ?_
  refine (natLoop_add2 _ _ _ _ _ _ _ _ natChunk23.1 natChunk23.2.1 natChunk23.2.2).trans ?_
  refine (natLoop_add2 _ _ _ _ _ _ _ _ natChunk24.1 natChunk24.2.1 natChunk24.2.2).trans ?_
  refine (natLoop_add2 _ _ _ _ _ _ _ _ natChunk25.1 natChunk25.2.1 natChunk25.2.2).trans ?_
  refine (natLoop_add2 _ _ _ _ _ _ _ _ natChunk26.1 natChunk26.2.1 natChunk26.2.2).trans ?_
  refine (natLoop_add2 _ _ _ _ _ _ _ _ natChunk27.1 natChunk27.2.1 natChunk27.2.2).trans ?_
  refine (natLoop_add2 _ _ _ _ _ _ _ _ natChunk28.1 natChunk28.2.1 natChunk28.2.2).trans ?_
  exact natLoop_zero_stack 14400 _ _

/-- The decision-position filter of build_menace_boxes:
count(X) == count(O), no winner, and more than one empty cell. -/
def decisionPred (b : Board) : Bool :=
  b.count 'X' == b.count 'O' && (winner b).isNone && decide (1 < b.count ' ')

/-- The positions set built by build_menace_boxes from the visited set. -/
def positionsOf (visited : List Board) : List Board := visited.filter decisionPred

/-- positions as returned by build_menace_boxes. -/
def positions : List Board := positionsOf reachable_positions

/-- The canonical-to-members dictionary of build_menace_boxes,
modelled extensionally: the member set stored under key k is the set
of decision positions whose orbit minimum is k. -/
def members (k : Board) : List Board :=
  positions.filter (fun p => canonical p == k)

/-- The key set of the canonical-to-members dictionary: the canonical
forms of the decision positions, first occurrence kept. -/
def classKeys : List Board := uniq (positions.map canonical)

/-- build_menace_boxes: the canonical-to-members mapping (as lookup
function on keys) and the decision-position set. -/
def build_menace_boxes : (Board → List Board) × List Board := (members, positions)

/-! ### Board validity and digit lemmas -/

/-- The boards the program manipulates: 9 cells over the alphabet
space, X, O. -/
def ValidB (b : Board) : Prop :=
  b.length = 9 ∧ ∀ c ∈ b, c = ' ' ∨ c = 'X' ∨ c = 'O'

theorem destruct9 (b : Board) (hb : b.length = 9) :
    ∃ x0 x1 x2 x3 x4 x5 x6 x7 x8, b = [x0, x1, x2, x3, x4, x5, x6, x7, x8] := by
  obtain ⟨x0, b, rfl⟩ := List.exists_of_length_succ b (show b.length = 8 + 1 by omega)
  simp only [List.length_cons] at hb
  obtain ⟨x1, b, rfl⟩ := List.exists_of_length_succ b (show b.length = 7 + 1 by omega)
  simp only [List.length_cons] at hb
  obtain ⟨x2, b, rfl⟩ := List.exists_of_length_succ b (show b.length = 6 + 1 by omega)
  simp only [List.length_cons] at hb
  obtain ⟨x3, b, rfl⟩ := List.exists_of_length_succ b (show b.length = 5 + 1 by omega)
  simp only [List.length_cons] at hb
  obtain ⟨x4, b, rfl⟩ := List.exists_of_length_succ b (show b.length = 4 + 1 by omega)
  simp only [List.length_cons] at hb
  obtain ⟨x5, b, rfl⟩ := List.exists_of_length_succ b (show b.length = 3 + 1 by omega)
  simp only [List.length_cons] at hb
  obtain ⟨x6, b, rfl⟩ := List.exists_of_length_succ b (show b.length = 2 + 1 by omega)
  simp only [List.length_cons] at hb
  obtain ⟨x7, b, rfl⟩ := List.exists_of_length_succ b (show b.length = 1 + 1 by omega)
  simp only [List.length_cons] at hb
  obtain ⟨x8, b, rfl⟩ := List.exists_of_length_succ b (show b.length = 0 + 1 by omega)
  simp only [List.length_cons] at hb
  have hnil : b = [] := by
    rw [← List.length_eq_zero]
    omega
  subst hnil
  exact ⟨x0, x1, x2, x3, x4, x5, x6, x7, x8, rfl⟩

theorem encodeCell_lt (c : Char) : encodeCell c < 3 := by
  simp only [encodeCell]
  split
  · omega
  · split <;> omega

theorem encodeCell_space : encodeCell ' ' = 0 := rfl

theorem beq_encodeCell_zero (c : Char) (h : c = ' ' ∨ c = 'X' ∨ c = 'O') :
    (encodeCell c == 0) = (c == ' ') := by
  rcases h with h | h | h <;> subst h <;> rfl

theorem beq_encodeCell (c d : Char) (hc : c = ' ' ∨ c = 'X' ∨ c = 'O')
    (hd : d = ' ' ∨ d = 'X' ∨ d = 'O') :
    (encodeCell c == encodeCell d) = (c == d) := by
  rcases hc with h | h | h <;> rcases hd with h2 | h2 | h2 <;> subst h <;> subst h2 <;> rfl

theorem cell_mem (b : Board) (i : Nat) (hi : i < b.length) : cell b i ∈ b := by
  simp only [cell, List.getD_eq_getElem?_getD, List.getElem?_eq_getElem hi, Option.getD_some]
  exact List.getElem_mem hi

theorem cell_alpha (b : Board) (hv : ValidB b) (i : Nat) (hi : i < 9) :
    cell b i = ' ' ∨ cell b i = 'X' ∨ cell b i = 'O' :=
  hv.2 _ (cell_mem b i (by rw [hv.1]; exact hi))

theorem dig_encode (b : Board) (hb : b.length = 9) (i : Nat) (hi : i < 9) :
    dig (encode b) i = encodeCell (cell b i) := by
  obtain ⟨x0, x1, x2, x3, x4, x5, x6, x7, x8, rfl⟩ := destruct9 b hb
  have h0 := encodeCell_lt x0
  have h1 := encodeCell_lt x1
  have h2 := encodeCell_lt x2
  have h3 := encodeCell_lt x3
  have h4 := encodeCell_lt x4
  have h5 := encodeCell_lt x5
  have h6 := encodeCell_lt x6
  have h7 := encodeCell_lt x7
  have h8 := encodeCell_lt x8
  interval_cases i <;>
    simp only [dig, encode, cell, List.foldl, List.getD_eq_getElem?_getD, List.getElem?_cons_zero,
      List.getElem?_cons_succ, Option.getD_some] <;>
    norm_num <;> omega

theorem encode_lt (b : Board) (hb : b.length = 9) : encode b < 19683 := by
  obtain ⟨x0, x1, x2, x3, x4, x5, x6, x7, x8, rfl⟩ := destruct9 b hb
  have h0 := encodeCell_lt x0
  have h1 := encodeCell_lt x1
  have h2 := encodeCell_lt x2
  have h3 := encodeCell_lt x3
  have h4 := encodeCell_lt x4
  have h5 := encodeCell_lt x5
  have h6 := encodeCell_lt x6
  have h7 := encodeCell_lt x7
  have h8 := encodeCell_lt x8
  simp only [encode, List.foldl]
  omega

theorem encode_set (b : Board) (hb : b.length = 9) (i : Nat) (hi : i < 9) (p : Char)
    (hcell : cell b i = ' ') :
    encode (b.set i p) = encode b + encodeCell p * 3 ^ (8 - i) := by
  obtain ⟨x0, x1, x2, x3, x4, x5, x6, x7, x8, rfl⟩ := destruct9 b hb
  interval_cases i <;>
    simp only [cell, List.getD_eq_getElem?_getD, List.getElem?_cons_zero,
      List.getElem?_cons_succ, Option.getD_some] at hcell <;>
    subst hcell <;>
    simp only [List.set, encode, List.foldl, encodeCell_space] <;>
    norm_num <;> ring

theorem count_set_self (b : Board) (hb : b.length = 9) (i : Nat) (hi : i < 9) (p : Char)
    (hc : cell b i = ' ') (hp : p ≠ ' ') :
    (b.set i p).count p = b.count p + 1 := by
  have hsp : (' ' == p) = false := beq_eq_false_iff_ne.mpr (Ne.symm hp)
  obtain ⟨x0, x1, x2, x3, x4, x5, x6, x7, x8, rfl⟩ := destruct9 b hb
  interval_cases i <;>
    simp only [cell, List.getD_eq_getElem?_getD, List.getElem?_cons_zero,
      List.getElem?_cons_succ, Option.getD_some] at hc <;>
    subst hc <;>
    simp [List.set, List.count_cons, hsp] <;> omega

theorem count_set_other (b : Board) (hb : b.length = 9) (i : Nat) (hi : i < 9) (p q : Char)
    (hc : cell b i = ' ') (hq : q ≠ p) (hq2 : q ≠ ' ') :
    (b.set i p).count q = b.count q := by
  have h1 : (p == q) = false := beq_eq_false_iff_ne.mpr (Ne.symm hq)
  have h2 : (' ' == q) = false := beq_eq_false_iff_ne.mpr (Ne.symm hq2)
  obtain ⟨x0, x1, x2, x3, x4, x5, x6, x7, x8, rfl⟩ := destruct9 b hb
  interval_cases i <;>
    simp only [cell, List.getD_eq_getElem?_getD, List.getElem?_cons_zero,
      List.getElem?_cons_succ, Option.getD_some] at hc <;>
    subst hc <;>
    simp [List.set, List.count_cons, h1, h2]

theorem count_set_space (b : Board) (hb : b.length = 9) (i : Nat) (hi : i < 9) (p : Char)
    (hc : cell b i = ' ') (hp : p ≠ ' ') :
    (b.set i p).count ' ' + 1 = b.count ' ' := by
  have hps : (p == ' ') = false := beq_eq_false_iff_ne.mpr hp
  obtain ⟨x0, x1, x2, x3, x4, x5, x6, x7, x8, rfl⟩ := destruct9 b hb
  interval_cases i <;>
    simp only [cell, List.getD_eq_getElem?_getD, List.getElem?_cons_zero,
      List.getElem?_cons_succ, Option.getD_some] at hc <;>
    subst hc <;>
    simp [List.set, List.count_cons, hps] <;> omega

theorem any_congr {α : Type} {l : List α} {p q : α → Bool} (h : ∀ x ∈ l, p x = q x) :
    l.any p = l.any q := by
  induction l with
  | nil => rfl
  | cons a l ih =>
      simp only [List.any_cons]
      rw [h a (by simp), ih (fun x hx => h x (by simp [hx]))]

theorem find?_isSome_eq_any {α : Type} (l : List α) (p : α → Bool) :
    (l.find? p).isSome = l.any p := by
  induction l with
  | nil => rfl
  | cons a l ih =>
      by_cases h : p a
      · simp [List.find?_cons_of_pos _ h, h]
      · simp only [List.find?_cons_of_neg _ h, List.any_cons]
        rw [ih]
        simp [h]

theorem bne_encodeCell_zero (c : Char) (h : c = ' ' ∨ c = 'X' ∨ c = 'O') :
    (encodeCell c != 0) = (c != ' ') := by
  rw [bne, bne, beq_encodeCell_zero c h]

theorem natWinner_eq (b : Board) (hv : ValidB b) :
    natWinner (encode b) = (winner b).isSome := by
  have key : ∀ t ∈ lines,
      (dig (encode b) t.1 != 0 && dig (encode b) t.1 == dig (encode b) t.2.1 &&
        dig (encode b) t.2.1 == dig (encode b) t.2.2) = lineWin b t := by
    intro t ht
    fin_cases ht <;>
      · simp only [lineWin]
        rw [dig_encode b hv.1 _ (by norm_num), dig_encode b hv.1 _ (by norm_num),
          dig_encode b hv.1 _ (by norm_num)]
        rw [bne_encodeCell_zero _ (cell_alpha b hv _ (by norm_num)),
          beq_encodeCell _ _ (cell_alpha b hv _ (by norm_num)) (cell_alpha b hv _ (by norm_num)),
          beq_encodeCell _ _ (cell_alpha b hv _ (by norm_num)) (cell_alpha b hv _ (by norm_num))]
  rw [natWinner, any_congr key, winner, Option.isSome_map', find?_isSome_eq_any]

theorem natHasSpace_eq (b : Board) (hv : ValidB b) :
    natHasSpace (encode b) = b.contains ' ' := by
  rw [Bool.eq_iff_iff]
  simp only [natHasSpace, List.any_eq_true, List.mem_range]
  constructor
  · rintro ⟨i, hi, hdig⟩
    rw [dig_encode b hv.1 i hi] at hdig
    rw [show (0 : Nat) = encodeCell ' ' from rfl,
      beq_encodeCell _ _ (cell_alpha b hv i hi) (Or.inl rfl)] at hdig
    have : cell b i = ' ' := by simpa using hdig
    have hmem : cell b i ∈ b := cell_mem b i (by rw [hv.1]; exact hi)
    rw [this] at hmem
    simpa [List.contains] using List.elem_eq_true_of_mem hmem
  · intro hcon
    have hmem : ' ' ∈ b := by simpa [List.contains] using hcon
    rw [List.mem_iff_getElem] at hmem
    obtain ⟨i, hilt, hget⟩ := hmem
    have hi9 : i < 9 := by rw [hv.1] at hilt; exact hilt
    refine ⟨i, hi9, ?_⟩
    rw [dig_encode b hv.1 i hi9]
    have hcell : cell b i = ' ' := by
      simp [cell, List.getD_eq_getElem?_getD, List.getElem?_eq_getElem hilt, hget]
    rw [hcell, encodeCell_space]
    rfl

/-! ### Simulation of the traversal by its number refinement -/

/-- The mover bit of a player character: 0 for X, 1 for O. -/
def pbit (p : Char) : Nat := if p == 'X' then 0 else 1

/-- What is true of every entry on the traversal stack: the board is
valid and the stored mover is the player whose turn it is on that
board, X when the mark counts are equal and O when X is one ahead. -/
def EntryOK (ent : Board × Char) : Prop :=
  ValidB ent.1 ∧
    ((ent.2 = 'X' ∧ ent.1.count 'X' = ent.1.count 'O') ∨
      (ent.2 = 'O' ∧ ent.1.count 'X' = ent.1.count 'O' + 1))

/-- Every entry of the stack is well formed. -/
def StackOK (stack : List (Board × Char)) : Prop := ∀ ent ∈ stack, EntryOK ent

/-- The correspondence between a faithful accumulator (state, stack)
and a refinement accumulator (packed stack, mask, count). -/
def SimR (fa : SearchState × List (Board × Char)) (na : Nat × Nat × Nat) : Prop :=
  na.1 = natOfStack fa.2 ∧ na.2.1 = fa.1.mask ∧ na.2.2 = fa.1.boards.length ∧ StackOK fa.2

/-- Invariant of the visited state of the traversal: the board list
has no duplicates, holds only valid boards satisfying the alternation
property, and carries exactly the boards marked in the bit mask. -/
def StInv (st : SearchState) : Prop :=
  st.boards.Nodup ∧
    (∀ b ∈ st.boards, ValidB b) ∧
    (∀ b ∈ st.boards, st.mask.testBit (encode b) = true) ∧
    (∀ e, st.mask.testBit e = true → ∃ b ∈ st.boards, encode b = e) ∧
    (∀ b ∈ st.boards, b.count 'X' = b.count 'O' ∨ b.count 'X' = b.count 'O' + 1)

theorem entryOK_player (ent : Board × Char) (h : EntryOK ent) :
    ent.2 = 'X' ∨ ent.2 = 'O' := by
  rcases h.2 with ⟨h, _⟩ | ⟨h, _⟩
  · exact Or.inl h
  · exact Or.inr h

theorem encodeEntry_pos (ent : Board × Char) : 1 ≤ encodeEntry ent := by
  unfold encodeEntry
  split <;> omega

theorem encodeEntry_lt (ent : Board × Char) (hv : ValidB ent.1) :
    encodeEntry ent < 65536 := by
  have h := encode_lt ent.1 hv.1
  unfold encodeEntry
  split <;> omega

theorem natOfStack_pos (ent : Board × Char) (rest : List (Board × Char)) :
    1 ≤ natOfStack (ent :: rest) := by
  have h := encodeEntry_pos ent
  simp only [natOfStack]
  omega

theorem stack_mod (ent : Board × Char) (rest : List (Board × Char)) (hv : ValidB ent.1) :
    natOfStack (ent :: rest) % 65536 = encodeEntry ent := by
  simp only [natOfStack]
  rw [Nat.add_mul_mod_self_left, Nat.mod_eq_of_lt (encodeEntry_lt ent hv)]

theorem stack_div (ent : Board × Char) (rest : List (Board × Char)) (hv : ValidB ent.1) :
    natOfStack (ent :: rest) / 65536 = natOfStack rest := by
  simp only [natOfStack]
  rw [Nat.add_mul_div_left _ _ (by norm_num), Nat.div_eq_of_lt (encodeEntry_lt ent hv)]
  omega

theorem entry_eb (b : Board) (p : Char) (hp : p = 'X' ∨ p = 'O') :
    (encodeEntry (b, p) - 1) / 2 = encode b := by
  rcases hp with h | h <;> subst h <;> simp [encodeEntry] <;> omega

theorem entry_pb (b : Board) (p : Char) (hp : p = 'X' ∨ p = 'O') :
    (encodeEntry (b, p) - 1) % 2 = pbit p := by
  rcases hp with h | h <;> subst h <;> simp [encodeEntry, pbit] <;> omega

theorem foldl_sim {A B C D : Type} (R : A → B → Prop) (S : C → D → Prop)
    (f : A → C → A) (g : B → D → B)
    (step : ∀ a b c d, R a b → S c d → R (f a c) (g b d)) :
    ∀ {lc : List C} {ld : List D}, List.Forall₂ S lc ld → ∀ {a b}, R a b →
      R (lc.foldl f a) (ld.foldl g b) := by
  intro lc ld h
  induction h with
  | nil => intro a b hab; exact hab
  | cons hcd _ ih =>
      intro a b hab
      exact ih (step _ _ _ _ hab hcd)

theorem foldl_inv {A C : Type} (P : A → Prop) (f : A → C → A) :
    ∀ (l : List C), (∀ a c, c ∈ l → P a → P (f a c)) → ∀ a, P a → P (l.foldl f a) := by
  intro l
  induction l with
  | nil => intro _ a h; exact h
  | cons c l ih =>
      intro hstep a h
      exact ih (fun a2 c2 hc2 h2 => hstep a2 c2 (by simp [hc2]) h2) _
        (hstep a c (by simp) h)

theorem valid_set (b : Board) (hv : ValidB b) (i : Nat) (p : Char)
    (hp : p = 'X' ∨ p = 'O') : ValidB (b.set i p) := by
  constructor
  · simp [List.length_set, hv.1]
  · intro c hc
    rcases List.mem_or_eq_of_mem_set hc with h | h
    · exact hv.2 c h
    · subst h
      rcases hp with h | h <;> subst h <;> simp

theorem push_sim (b : Board) (p np : Char) (hbe : EntryOK (b, p))
    (hnp : np = if p == 'X' then 'O' else 'X') :
    ∀ (fa : SearchState × List (Board × Char)) (na : Nat × Nat × Nat) (ic : Nat × Char)
      (i : Nat), SimR fa na → (ic.1 = i ∧ i < 9 ∧ ic.2 = cell b i) →
      SimR (pushStep b p np fa ic) (natPush (encode b) (pbit p) na i) := by
  intro fa na ic i hR hS
  obtain ⟨hic1, hi, hic2⟩ := hS
  obtain ⟨hna1, hna2, hna3, hsOK⟩ := hR
  have hvb : ValidB b := hbe.1
  have hp : p = 'X' ∨ p = 'O' := entryOK_player _ hbe
  have hcond : (dig (encode b) i == 0) = (ic.2 == ' ') := by
    rw [hic2, dig_encode b hvb.1 i hi]
    exact beq_encodeCell_zero _ (cell_alpha b hvb i hi)
  unfold pushStep natPush
  rw [hcond, hic1]
  by_cases hc : (ic.2 == ' ') = true
  · have hcell : cell b i = ' ' := by rw [← hic2]; exact eq_of_beq hc
    have hpe : encodeCell p = pbit p + 1 := by
      rcases hp with h | h <;> subst h <;> rfl
    have hens : encode (b.set i p) = encode b + (pbit p + 1) * 3 ^ (8 - i) := by
      rw [encode_set b hvb.1 i hi p hcell, hpe]
    simp only [hc, if_true]
    have hseen : fa.1.seen (b.set i p)
        = na.2.1.testBit (encode b + (pbit p + 1) * 3 ^ (8 - i)) := by
      rw [SearchState.seen, hens, hna2]
    by_cases hs2 : fa.1.seen (b.set i p) = true
    · rw [← hseen, hs2]
      simp only [if_true]
      exact ⟨hna1, hna2, hna3, hsOK⟩
    · rw [← hseen, Bool.of_not_eq_true hs2]
      simp only [Bool.false_eq_true, if_false]
      have hnpbit : (if np == 'X' then 0 else 1) = 1 - pbit p := by
        rcases hp with h | h <;> subst h <;> subst hnp <;> rfl
      refine ⟨?_, ?_, ?_, ?_⟩
      · simp only [natOfStack, encodeEntry, hens, hna1, hnpbit]
      · simp only [SearchState.insert, hens, hna2]
      · simp only [SearchState.insert, List.length_cons, hna3]
      · intro ent hent
        rcases List.mem_cons.mp hent with h | h
        · subst h
          refine ⟨valid_set b hvb i p hp, ?_⟩
          rcases hp with h | h
          · subst h
            have hpar : b.count 'X' = b.count 'O' := by
              rcases hbe.2 with ⟨_, h2⟩ | ⟨h1, _⟩
              · exact h2
              · simp at h1
            refine Or.inr ⟨by rw [hnp]; rfl, ?_⟩
            rw [count_set_self b hvb.1 i hi 'X' hcell (by decide),
              count_set_other b hvb.1 i hi 'X' 'O' hcell (by decide) (by decide), hpar]
          · subst h
            have hpar : b.count 'X' = b.count 'O' + 1 := by
              rcases hbe.2 with ⟨h1, _⟩ | ⟨_, h2⟩
              · simp at h1
              · exact h2
            refine Or.inl ⟨by rw [hnp]; rfl, ?_⟩
            rw [count_set_self b hvb.1 i hi 'O' hcell (by decide),
              count_set_other b hvb.1 i hi 'O' 'X' hcell (by decide) (by decide), hpar]
        · exact hsOK ent h
  · simp only [Bool.of_not_eq_true hc, if_false]
    exact ⟨hna1, hna2, hna3, hsOK⟩

theorem expand_sim (b : Board) (p np : Char) (st : SearchState) (rest : List (Board × Char))
    (hbe : EntryOK (b, p)) (hrest : StackOK rest)
    (hnp : np = if p == 'X' then 'O' else 'X') :
    SimR (expand b p np st rest)
      ((List.range 9).foldl (natPush (encode b) (pbit p))
        (natOfStack rest, st.mask, st.boards.length)) := by
  unfold expand
  have hvb : ValidB b := hbe.1
  have hf : List.Forall₂ (fun (ic : Nat × Char) (i : Nat) => ic.1 = i ∧ i < 9 ∧ ic.2 = cell b i)
      b.enum (List.range 9) := by
    obtain ⟨x0, x1, x2, x3, x4, x5, x6, x7, x8, hbeq⟩ := destruct9 b hvb.1
    rw [show List.range 9 = [0, 1, 2, 3, 4, 5, 6, 7, 8] from rfl]
    rw [hbeq]
    rw [show List.enum [x0, x1, x2, x3, x4, x5, x6, x7, x8]
        = [(0, x0), (1, x1), (2, x2), (3, x3), (4, x4), (5, x5), (6, x6), (7, x7), (8, x8)]
        from rfl]
    refine .cons ⟨rfl, by norm_num, rfl⟩ ?_
    refine .cons ⟨rfl, by norm_num, rfl⟩ ?_
    refine .cons ⟨rfl, by norm_num, rfl⟩ ?_
    refine .cons ⟨rfl, by norm_num, rfl⟩ ?_
    refine .cons ⟨rfl, by norm_num, rfl⟩ ?_
    refine .cons ⟨rfl, by norm_num, rfl⟩ ?_
    refine .cons ⟨rfl, by norm_num, rfl⟩ ?_
    refine .cons ⟨rfl, by norm_num, rfl⟩ ?_
    refine .cons ⟨rfl, by norm_num, rfl⟩ ?_
    exact .nil
  exact foldl_sim SimR _ _ _ (push_sim b p np hbe hnp) hf ⟨rfl, rfl, rfl, hrest⟩

/-- Unfolding of one refinement-loop step on a well formed packed
stack: the head entry is recovered by the mod, div and bit
arithmetic. -/
theorem natLoop_cons (fuel : Nat) (ent : Board × Char) (rest : List (Board × Char)) (m c : Nat)
    (hv : ValidB ent.1) (hp : ent.2 = 'X' ∨ ent.2 = 'O') :
    natLoop (fuel + 1) (natOfStack (ent :: rest)) m c =
      (if natWinner (encode ent.1) then natLoop fuel (natOfStack rest) m c
       else if !natHasSpace (encode ent.1) then natLoop fuel (natOfStack rest) m c
       else
         let acc := (List.range 9).foldl (natPush (encode ent.1) (pbit ent.2))
           (natOfStack rest, m, c)
         natLoop fuel acc.1 acc.2.1 acc.2.2) := by
  obtain ⟨b, p⟩ := ent
  obtain ⟨t, ht⟩ : ∃ t, natOfStack ((b, p) :: rest) = t + 1 :=
    ⟨natOfStack ((b, p) :: rest) - 1, by have := natOfStack_pos (b, p) rest; omega⟩
  rw [ht]
  simp only [natLoop]
  rw [← ht, stack_mod (b, p) rest hv, stack_div (b, p) rest hv,
    entry_eb b p hp, entry_pb b p hp]

theorem natLoop_sim : ∀ (fuel : Nat) (stack : List (Board × Char)) (st : SearchState),
    StackOK stack →
    (∀ st2, reachLoop fuel stack st = some st2 →
      natLoop fuel (natOfStack stack) st.mask st.boards.length = (0, st2.mask, st2.boards.length))
    ∧ (reachLoop fuel stack st = none →
      (natLoop fuel (natOfStack stack) st.mask st.boards.length).1 ≠ 0) := by
  intro fuel
  induction fuel with
  | zero =>
      intro stack st hs
      cases stack with
      | nil =>
          constructor
          · intro st2 h
            have h2 : st = st2 := by simpa [reachLoop] using h
            subst h2
            rfl
          · intro h
            simp [reachLoop] at h
      | cons ent rest =>
          constructor
          · intro st2 h
            simp [reachLoop] at h
          · intro _
            have h := natOfStack_pos ent rest
            simp only [natLoop]
            omega
  | succ fuel ih =>
      intro stack st hs
      cases stack with
      | nil =>
          constructor
          · intro st2 h
            have h2 : st = st2 := by simpa [reachLoop] using h
            subst h2
            rfl
          · intro h
            simp [reachLoop] at h
      | cons ent rest =>
          obtain ⟨b, p⟩ := ent
          have hbe : EntryOK (b, p) := hs _ (by simp)
          have hrest : StackOK rest := fun e he => hs _ (by simp [he])
          have hvb : ValidB b := hbe.1
          have hp : p = 'X' ∨ p = 'O' := entryOK_player _ hbe
          rw [natLoop_cons fuel (b, p) rest st.mask st.boards.length hvb hp]
          simp only [natWinner_eq b hvb, natHasSpace_eq b hvb]
          simp only [reachLoop]
          by_cases hw : (winner b).isSome = true
          · simp only [hw, if_true]
            exact ih rest st hrest
          · simp only [Bool.of_not_eq_true hw, Bool.false_eq_true, if_false]
            by_cases hsp : (!(b.contains ' ')) = true
            · simp only [hsp, if_true]
              exact ih rest st hrest
            · simp only [Bool.of_not_eq_true hsp, Bool.false_eq_true, if_false]
              have hsim := expand_sim b p (if p == 'X' then 'O' else 'X') st rest hbe hrest rfl
              obtain ⟨e1, e2, e3, e4⟩ := hsim
              simp only [e1, e2, e3]
              exact ih _ _ e4

/-! ### Invariants of the traversal -/

theorem entry_push (b : Board) (p np : Char) (hbe : EntryOK (b, p))
    (hnp : np = if p == 'X' then 'O' else 'X') (i : Nat) (hi : i < 9)
    (hcell : cell b i = ' ') : EntryOK (b.set i p, np) := by
  have hvb : ValidB b := hbe.1
  have hp : p = 'X' ∨ p = 'O' := entryOK_player _ hbe
  refine ⟨valid_set b hvb i p hp, ?_⟩
  rcases hp with h | h
  · subst h
    have hpar : b.count 'X' = b.count 'O' := by
      rcases hbe.2 with ⟨_, h2⟩ | ⟨h1, _⟩
      · exact h2
      · simp at h1
    refine Or.inr ⟨by rw [hnp]; rfl, ?_⟩
    rw [count_set_self b hvb.1 i hi 'X' hcell (by decide),
      count_set_other b hvb.1 i hi 'X' 'O' hcell (by decide) (by decide), hpar]
  · subst h
    have hpar : b.count 'X' = b.count 'O' + 1 := by
      rcases hbe.2 with ⟨h1, _⟩ | ⟨_, h2⟩
      · simp at h1
      · exact h2
    refine Or.inl ⟨by rw [hnp]; rfl, ?_⟩
    rw [count_set_self b hvb.1 i hi 'O' hcell (by decide),
      count_set_other b hvb.1 i hi 'O' 'X' hcell (by decide) (by decide), hpar]

theorem insert_stinv (st : SearchState) (nb : Board) (hinv : StInv st) (hv : ValidB nb)
    (hpar : nb.count 'X' = nb.count 'O' ∨ nb.count 'X' = nb.count 'O' + 1)
    (hnew : st.seen nb = false) : StInv (st.insert nb) := by
  obtain ⟨hnd, hval, hbits, hconv, hpars⟩ := hinv
  refine ⟨?_, ?_, ?_, ?_, ?_⟩
  · refine List.Nodup.cons ?_ hnd
    intro hmem
    rw [SearchState.seen] at hnew
    rw [hbits nb hmem] at hnew
    exact Bool.noConfusion hnew
  · intro b2 hb2
    rcases List.mem_cons.mp hb2 with h | h
    · subst h; exact hv
    · exact hval b2 h
  · intro b2 hb2
    simp only [SearchState.insert]
    rcases List.mem_cons.mp hb2 with h | h
    · subst h
      rw [Nat.testBit_or, Nat.one_shiftLeft, Nat.testBit_two_pow_self, Bool.or_true]
    · rw [Nat.testBit_or, hbits b2 h, Bool.true_or]
  · intro e he
    simp only [SearchState.insert] at he
    rw [Nat.testBit_or, Nat.one_shiftLeft, Nat.testBit_two_pow] at he
    rcases Bool.or_eq_true_iff.mp he with h | h
    · obtain ⟨b2, hb2, hb2e⟩ := hconv e h
      exact ⟨b2, List.mem_cons_of_mem _ hb2, hb2e⟩
    · refine ⟨nb, List.mem_cons_self _ _, ?_⟩
      exact of_decide_eq_true h
  · intro b2 hb2
    rcases List.mem_cons.mp hb2 with h | h
    · subst h; exact hpar
    · exact hpars b2 h

theorem push_inv (b : Board) (p np : Char) (hbe : EntryOK (b, p))
    (hnp : np = if p == 'X' then 'O' else 'X') :
    ∀ (acc : SearchState × List (Board × Char)) (ic : Nat × Char), ic ∈ b.enum →
      StInv acc.1 ∧ StackOK acc.2 →
      StInv (pushStep b p np acc ic).1 ∧ StackOK (pushStep b p np acc ic).2 := by
  intro acc ic hmem hPQ
  obtain ⟨hinv, hstk⟩ := hPQ
  have hvb : ValidB b := hbe.1
  obtain ⟨i, ch⟩ := ic
  have hget : b.get? i = some ch := List.mem_enum_iff_get?.mp hmem
  have hilt : i < b.length := by
    by_contra hcon
    rw [List.get?_eq_none.mpr (by omega)] at hget
    cases hget
  have hi9 : i < 9 := by rw [hvb.1] at hilt; exact hilt
  have hcell : cell b i = ch := by
    rw [List.get?_eq_getElem?] at hget
    simp [cell, List.getD_eq_getElem?_getD, hget]
  unfold pushStep
  by_cases hc : (ch == ' ') = true
  · have hsp : cell b i = ' ' := by rw [hcell]; exact eq_of_beq hc
    simp only [hc, if_true]
    by_cases hs2 : acc.1.seen (b.set i p) = true
    · simp only [hs2, if_true]
      exact ⟨hinv, hstk⟩
    · simp only [Bool.of_not_eq_true hs2, Bool.false_eq_true, if_false]
      have hent2 : EntryOK (b.set i p, np) := entry_push b p np hbe hnp i hi9 hsp
      constructor
      · refine insert_stinv acc.1 _ hinv hent2.1 ?_ (Bool.of_not_eq_true hs2)
        rcases hent2.2 with ⟨_, h2⟩ | ⟨_, h2⟩
        · exact Or.inl h2
        · exact Or.inr h2
      · intro ent hent
        rcases List.mem_cons.mp hent with h | h
        · subst h; exact hent2
        · exact hstk ent h
  · simp only [Bool.of_not_eq_true hc, Bool.false_eq_true, if_false]
    exact ⟨hinv, hstk⟩

theorem reachLoop_inv : ∀ (fuel : Nat) (stack : List (Board × Char)) (st st2 : SearchState),
    StackOK stack → StInv st → reachLoop fuel stack st = some st2 → StInv st2 := by
  intro fuel
  induction fuel with
  | zero =>
      intro stack st st2 hs hinv h
      cases stack with
      | nil =>
          have h2 : st = st2 := by simpa [reachLoop] using h
          subst h2
          exact hinv
      | cons ent rest => simp [reachLoop] at h
  | succ fuel ih =>
      intro stack st st2 hs hinv h
      cases stack with
      | nil =>
          have h2 : st = st2 := by simpa [reachLoop] using h
          subst h2
          exact hinv
      | cons ent rest =>
          obtain ⟨b, p⟩ := ent
          have hbe : EntryOK (b, p) := hs _ (by simp)
          have hrest : StackOK rest := fun e he => hs _ (by simp [he])
          simp only [reachLoop] at h
          by_cases hw : (winner b).isSome = true
          · rw [if_pos hw] at h
            exact ih rest st st2 hrest hinv h
          · rw [if_neg (by simp [hw])] at h
            by_cases hsp : (!(b.contains ' ')) = true
            · rw [if_pos hsp] at h
              exact ih rest st st2 hrest hinv h
            · rw [if_neg (by simp at hsp ⊢; exact hsp)] at h
              have hexp : StInv (expand b p (if p == 'X' then 'O' else 'X') st rest).1
                  ∧ StackOK (expand b p (if p == 'X' then 'O' else 'X') st rest).2 := by
                unfold expand
                exact foldl_inv _ (pushStep b p (if p == 'X' then 'O' else 'X')) b.enum
                  (fun a c hc hP => push_inv b p _ hbe rfl a c hc hP) (st, rest) ⟨hinv, hrest⟩
              exact ih _ _ _ hexp.2 hexp.1 h


theorem reachLoop_mono : ∀ (fuel fuel2 : Nat) (stack : List (Board × Char)) (st st2 : SearchState),
    reachLoop fuel stack st = some st2 → fuel ≤ fuel2 → reachLoop fuel2 stack st = some st2 := by
  intro fuel
  induction fuel with
  | zero =>
      intro fuel2 stack st st2 h hle
      cases stack with
      | nil => simpa [reachLoop] using h
      | cons ent rest => simp [reachLoop] at h
  | succ fuel ih =>
      intro fuel2 stack st st2 h hle
      cases stack with
      | nil => simpa [reachLoop] using h
      | cons ent rest =>
          obtain ⟨b, p⟩ := ent
          obtain ⟨f2, rfl⟩ : ∃ f2, fuel2 = f2 + 1 := ⟨fuel2 - 1, by omega⟩
          simp only [reachLoop] at h ⊢
          by_cases hw : (winner b).isSome = true
          · rw [if_pos hw] at h ⊢
            exact ih f2 rest st st2 h (by omega)
          · rw [if_neg (by simp [hw])] at h ⊢
            by_cases hsp : (!(b.contains ' ')) = true
            · rw [if_pos hsp] at h ⊢
              exact ih f2 rest st st2 h (by omega)
            · rw [if_neg (by simp at hsp ⊢; exact hsp)] at h ⊢
              exact ih f2 _ _ st2 h (by omega)

theorem encode_inj (b b2 : Board) (hb : ValidB b) (hb2 : ValidB b2)
    (h : encode b = encode b2) : b = b2 := by
  apply List.ext_getElem (by rw [hb.1, hb2.1])
  intro i h1 h2
  have hi : i < 9 := by rw [hb.1] at h1; exact h1
  have e1 := dig_encode b hb.1 i hi
  have e2 := dig_encode b2 hb2.1 i hi
  rw [h, e2] at e1
  have hc1 : cell b i = b.get ⟨i, h1⟩ := by
    simp [cell, List.getD_eq_getElem?_getD, List.getElem?_eq_getElem h1]
  have hc2 : cell b2 i = b2.get ⟨i, h2⟩ := by
    simp [cell, List.getD_eq_getElem?_getD, List.getElem?_eq_getElem h2]
  have h3 := cell_alpha b hb i hi
  have h4 := cell_alpha b2 hb2 i hi
  show b.get ⟨i, h1⟩ = b2.get ⟨i, h2⟩
  rw [← hc1, ← hc2]
  rcases h3 with h3 | h3 | h3 <;> rcases h4 with h4 | h4 | h4 <;>
    rw [h3, h4] <;> rw [h3, h4] at e1 <;> first
      | rfl
      | exact absurd e1 (by decide)

theorem stackOK_init : StackOK [(start, 'X')] := by
  intro ent hent
  have h : ent = (start, 'X') := by simpa using hent
  subst h
  refine ⟨⟨by rfl, ?_⟩, Or.inl ⟨rfl, by rfl⟩⟩
  intro c hc
  exact Or.inl (List.eq_of_mem_replicate hc)

theorem stinv_init : StInv initState := by
  refine ⟨?_, ?_, ?_, ?_, ?_⟩
  · exact List.nodup_singleton _
  · intro b hb
    have h : b = start := by simpa [initState] using hb
    subst h
    refine ⟨by rfl, ?_⟩
    intro c hc
    exact Or.inl (List.eq_of_mem_replicate hc)
  · intro b hb
    have h : b = start := by simpa [initState] using hb
    subst h
    rfl
  · intro e he
    refine ⟨start, by simp [initState], ?_⟩
    have h1 : (1 : Nat) <<< encode start = 1 := rfl
    rw [initState] at he
    simp only [h1] at he
    rw [Nat.testBit_one_eq_true_iff_self_eq_zero] at he
    rw [he]
    rfl
  · intro b hb
    have h : b = start := by simpa [initState] using hb
    subst h
    exact Or.inl (by rfl)

/-- The faithful traversal halts within the given fuel, and its final
state has the evaluated mask and exactly 5478 visited boards, all
invariants holding. -/
theorem reach_result : ∃ st2, reachLoop FUEL [(start, 'X')] initState = some st2 ∧
    st2.mask = finalMask ∧ st2.boards.length = 5478 ∧ StInv st2 := by
  have hsim := natLoop_sim FUEL [(start, 'X')] initState stackOK_init
  have hstack : natOfStack [(start, 'X')] = 1 := rfl
  have hmask : initState.mask = 1 := rfl
  have hlen : initState.boards.length = 1 := rfl
  cases hre : reachLoop FUEL [(start, 'X')] initState with
  | none =>
      have h2 := hsim.2 hre
      rw [hstack, hmask, hlen, natRun] at h2
      simp at h2
  | some st2 =>
      have h1 := hsim.1 st2 hre
      rw [hstack, hmask, hlen, natRun] at h1
      refine ⟨st2, rfl, ?_, ?_, reachLoop_inv FUEL _ _ _ stackOK_init stinv_init hre⟩
      · exact (congrArg (fun t => t.2.1) h1).symm
      · exact (congrArg (fun t => t.2.2) h1).symm

theorem boardsOf_some (o : Option SearchState) (st2 : SearchState) (h : o = some st2) :
    boardsOf o = st2.boards := by
  subst h
  rfl

theorem reachable_positions_eq (st2 : SearchState)
    (h : reachLoop FUEL [(start, 'X')] initState = some st2) :
    reachable_positions = st2.boards :=
  boardsOf_some (reachLoop FUEL [(start, 'X')] initState) st2 h

/-- The facts about reachable_positions used by the claims: its size,
freedom from duplicates, validity and alternation of every board, and
membership decided by the evaluated bit mask. -/
theorem reachable_facts :
    reachable_positions.length = 5478 ∧ reachable_positions.Nodup ∧
    (∀ b ∈ reachable_positions, ValidB b) ∧
    (∀ b ∈ reachable_positions, b.count 'X' = b.count 'O' ∨ b.count 'X' = b.count 'O' + 1) ∧
    (∀ b : Board, ValidB b → (b ∈ reachable_positions ↔ finalMask.testBit (encode b) = true)) := by
  obtain ⟨st2, hre, hmask, hlen, hinv⟩ := reach_result
  have heq := reachable_positions_eq st2 hre
  rw [heq]
  obtain ⟨hnd, hval, hbits, hconv, hpars⟩ := hinv
  refine ⟨hlen, hnd, hval, hpars, ?_⟩
  intro b hvb
  constructor
  · intro hmem
    rw [← hmask]
    exact hbits b hmem
  · intro hbit
    rw [← hmask] at hbit
    obtain ⟨b2, hb2, hb2e⟩ := hconv _ hbit
    have h := encode_inj b2 b (hval b2 hb2) hvb hb2e
    rw [← h]
    exact hb2

/-! ### The string order and minimum -/

theorem lexLt_irrefl (a : List Char) : lexLt a a = false := by
  induction a with
  | nil => rfl
  | cons x xs ih => simp [lexLt, ih]

theorem lexLt_trichotomy (a : List Char) : ∀ b : List Char,
    lexLt a b = true ∨ a = b ∨ lexLt b a = true := by
  induction a with
  | nil =>
      intro b
      cases b with
      | nil => exact Or.inr (Or.inl rfl)
      | cons y ys => exact Or.inl rfl
  | cons x xs ih =>
      intro b
      cases b with
      | nil => exact Or.inr (Or.inr rfl)
      | cons y ys =>
          rcases lt_trichotomy x y with h | h | h
          · exact Or.inl (by simp [lexLt, h])
          · subst h
            rcases ih ys with h2 | h2 | h2
            · exact Or.inl (by simp [lexLt, lt_irrefl, h2])
            · exact Or.inr (Or.inl (by rw [h2]))
            · exact Or.inr (Or.inr (by simp [lexLt, lt_irrefl, h2]))
          · exact Or.inr (Or.inr (by simp [lexLt, h]))

theorem lexLt_asymm (a : List Char) : ∀ b : List Char,
    lexLt a b = true → lexLt b a = false := by
  induction a with
  | nil =>
      intro b h
      cases b with
      | nil => rfl
      | cons y ys => rfl
  | cons x xs ih =>
      intro b h
      cases b with
      | nil => simp [lexLt] at h
      | cons y ys =>
          simp only [lexLt] at h ⊢
          rcases lt_trichotomy x y with h2 | h2 | h2
          · simp [h2, asymm h2]
          · subst h2
            simp only [lt_irrefl, if_false] at h ⊢
            exact ih ys h
          · simp [h2, asymm h2] at h

theorem lexLt_trans (a : List Char) : ∀ b c : List Char,
    lexLt a b = true → lexLt b c = true → lexLt a c = true := by
  induction a with
  | nil =>
      intro b c hab hbc
      cases c with
      | nil =>
          cases b with
          | nil => exact hab
          | cons y ys => simp [lexLt] at hbc
      | cons z zs => rfl
  | cons x xs ih =>
      intro b c hab hbc
      cases b with
      | nil => simp [lexLt] at hab
      | cons y ys =>
          cases c with
          | nil => simp [lexLt] at hbc
          | cons z zs =>
              simp only [lexLt] at hab hbc ⊢
              rcases lt_trichotomy x y with h1 | h1 | h1
              · rcases lt_trichotomy y z with h2 | h2 | h2
                · simp [lt_trans h1 h2]
                · subst h2; simp [h1]
                · simp [h2, asymm h2] at hbc
              · subst h1
                rcases lt_trichotomy x z with h2 | h2 | h2
                · simp [h2]
                · subst h2
                  simp only [lt_irrefl, if_false] at hab hbc ⊢
                  exact ih ys zs hab hbc
                · simp [h2, asymm h2] at hbc
              · simp [h1, asymm h1] at hab

theorem lexLt_false_trans (a b c : List Char) (h1 : lexLt b a = false)
    (h2 : lexLt c b = false) : lexLt c a = false := by
  cases h3 : lexLt c a
  · rfl
  · exfalso
    rcases lexLt_trichotomy b c with hbc | hbc | hbc
    · rw [lexLt_trans b c a hbc h3] at h1
      cases h1
    · rw [← hbc] at h3
      rw [h3] at h1
      cases h1
    · rw [hbc] at h2
      cases h2

theorem lexLt_antisymm (a b : List Char) (h1 : lexLt a b = false)
    (h2 : lexLt b a = false) : a = b := by
  rcases lexLt_trichotomy a b with h | h | h
  · rw [h] at h1; cases h1
  · exact h
  · rw [h] at h2; cases h2

theorem foldlMin_mem : ∀ (xs : List Board) (cur : Board),
    xs.foldl (fun cur y => if lexLt y cur then y else cur) cur ∈ cur :: xs := by
  intro xs
  induction xs with
  | nil => intro cur; simp
  | cons x xs ih =>
      intro cur
      simp only [List.foldl_cons]
      rcases List.mem_cons.mp (ih (if lexLt x cur then x else cur)) with h2 | h2
      · rw [h2]
        by_cases hc : lexLt x cur = true
        · simp [hc]
        · simp [Bool.of_not_eq_true hc]
      · exact List.mem_cons_of_mem _ (List.mem_cons_of_mem _ h2)

theorem foldlMin_le : ∀ (xs : List Board) (cur : Board) (b : Board), b ∈ cur :: xs →
    lexLt b (xs.foldl (fun cur y => if lexLt y cur then y else cur) cur) = false := by
  intro xs
  induction xs with
  | nil =>
      intro cur b hb
      have h : b = cur := by simpa using hb
      subst h
      exact lexLt_irrefl b
  | cons x xs ih =>
      intro cur b hb
      simp only [List.foldl_cons]
      have hstep_cur : lexLt cur (if lexLt x cur then x else cur) = false := by
        by_cases hc : lexLt x cur = true
        · simp only [hc, if_true]
          exact lexLt_asymm x cur hc
        · simp only [Bool.of_not_eq_true hc, Bool.false_eq_true, if_false]
          exact lexLt_irrefl cur
      have hstep_x : lexLt x (if lexLt x cur then x else cur) = false := by
        by_cases hc : lexLt x cur = true
        · simp only [hc, if_true]
          exact lexLt_irrefl x
        · simp only [Bool.of_not_eq_true hc, Bool.false_eq_true, if_false]
      have hhead := ih (if lexLt x cur then x else cur) (if lexLt x cur then x else cur)
        (by simp)
      rcases List.mem_cons.mp hb with h2 | h2
      · subst h2
        exact lexLt_false_trans _ _ _ hhead hstep_cur
      rcases List.mem_cons.mp h2 with h3 | h3
      · subst h3
        exact lexLt_false_trans _ _ _ hhead hstep_x
      · exact ih _ b (List.mem_cons_of_mem _ h3)

theorem listMin_mem (l : List Board) (h : l ≠ []) : listMin l ∈ l := by
  cases l with
  | nil => exact absurd rfl h
  | cons x xs => exact foldlMin_mem xs x

theorem listMin_le (l : List Board) (b : Board) (hb : b ∈ l) :
    lexLt b (listMin l) = false := by
  cases l with
  | nil => cases hb
  | cons x xs => exact foldlMin_le xs x b hb

theorem listMin_eq_of_same_mem (l1 l2 : List Board) (h1 : l1 ≠ []) (h2 : l2 ≠ [])
    (h : ∀ x, x ∈ l1 ↔ x ∈ l2) : listMin l1 = listMin l2 := by
  have hm1 : listMin l1 ∈ l2 := (h _).mp (listMin_mem l1 h1)
  have hm2 : listMin l2 ∈ l1 := (h _).mpr (listMin_mem l2 h2)
  exact (lexLt_antisymm _ _ (listMin_le l1 _ hm2) (listMin_le l2 _ hm1)).symm

/-! ### The deduplication loop -/

theorem mem_uniqAux : ∀ (l seen : List Board) (x : Board),
    x ∈ uniqAux seen l ↔ x ∈ l ∧ x ∉ seen := by
  intro l
  induction l with
  | nil => intro seen x; simp [uniqAux]
  | cons y l ih =>
      intro seen x
      simp only [uniqAux]
      by_cases hy : y ∈ seen
      · rw [if_pos hy, ih]
        constructor
        · rintro ⟨hx, hns⟩
          exact ⟨List.mem_cons_of_mem _ hx, hns⟩
        · rintro ⟨hx, hns⟩
          rcases List.mem_cons.mp hx with h | h
          · subst h; exact absurd hy hns
          · exact ⟨h, hns⟩
      · rw [if_neg hy]
        constructor
        · intro hx
          rcases List.mem_cons.mp hx with h | h
          · subst h; exact ⟨List.mem_cons_self _ _, hy⟩
          · obtain ⟨ha, hb⟩ := (ih (y :: seen) x).mp h
            exact ⟨List.mem_cons_of_mem _ ha, fun hc => hb (List.mem_cons_of_mem _ hc)⟩
        · rintro ⟨hx, hns⟩
          rcases List.mem_cons.mp hx with h | h
          · subst h; exact List.mem_cons_self _ _
          · by_cases hxy : x = y
            · subst hxy; exact List.mem_cons_self _ _
            · refine List.mem_cons_of_mem _ ((ih (y :: seen) x).mpr ⟨h, ?_⟩)
              intro hc
              rcases List.mem_cons.mp hc with h2 | h2
              · exact hxy h2
              · exact hns h2

theorem mem_uniq (l : List Board) (x : Board) : x ∈ uniq l ↔ x ∈ l := by
  rw [uniq, mem_uniqAux]
  simp

/-! ### The symmetry orbit -/

theorem mem_rawSyms_self (b : Board) : b ∈ rawSyms b := by
  simp [rawSyms]

theorem rotate_len (b : Board) (hb : b.length = 9) : (rotate b).length = 9 := by
  obtain ⟨x0, x1, x2, x3, x4, x5, x6, x7, x8, rfl⟩ := destruct9 b hb
  rfl

theorem reflect_len (b : Board) (hb : b.length = 9) : (reflect b).length = 9 := by
  obtain ⟨x0, x1, x2, x3, x4, x5, x6, x7, x8, rfl⟩ := destruct9 b hb
  rfl

theorem mem_rawSyms_rotate (b : Board) (hb : b.length = 9) :
    ∀ x, x ∈ rawSyms (rotate b) ↔ x ∈ rawSyms b := by
  obtain ⟨x0, x1, x2, x3, x4, x5, x6, x7, x8, rfl⟩ := destruct9 b hb
  intro x
  simp only [rawSyms, rotate, reflect, List.mem_cons, List.not_mem_nil, or_false]
  tauto

theorem mem_rawSyms_reflect (b : Board) (hb : b.length = 9) :
    ∀ x, x ∈ rawSyms (reflect b) ↔ x ∈ rawSyms b := by
  obtain ⟨x0, x1, x2, x3, x4, x5, x6, x7, x8, rfl⟩ := destruct9 b hb
  intro x
  simp only [rawSyms, rotate, reflect, List.mem_cons, List.not_mem_nil, or_false]
  tauto

theorem rawSyms_closed (b : Board) (hb : b.length = 9) (q : Board) (hq : q ∈ rawSyms b) :
    ∀ x, x ∈ rawSyms q ↔ x ∈ rawSyms b := by
  have l1 : (rotate b).length = 9 := rotate_len b hb
  have l2 : (rotate (rotate b)).length = 9 := rotate_len _ l1
  have l3 : (rotate (rotate (rotate b))).length = 9 := rotate_len _ l2
  simp only [rawSyms, List.mem_cons, List.not_mem_nil, or_false] at hq
  rcases hq with rfl | rfl | rfl | rfl | rfl | rfl | rfl | rfl
  · intro x; rfl
  · exact mem_rawSyms_reflect b hb
  · exact mem_rawSyms_rotate b hb
  · intro x
    exact ((mem_rawSyms_reflect (rotate b) l1 x).trans (mem_rawSyms_rotate b hb x))
  · intro x
    exact ((mem_rawSyms_rotate (rotate b) l1 x).trans (mem_rawSyms_rotate b hb x))
  · intro x
    exact ((mem_rawSyms_reflect (rotate (rotate b)) l2 x).trans
      ((mem_rawSyms_rotate (rotate b) l1 x).trans (mem_rawSyms_rotate b hb x)))
  · intro x
    exact ((mem_rawSyms_rotate (rotate (rotate b)) l2 x).trans
      ((mem_rawSyms_rotate (rotate b) l1 x).trans (mem_rawSyms_rotate b hb x)))
  · intro x
    exact ((mem_rawSyms_reflect (rotate (rotate (rotate b))) l3 x).trans
      ((mem_rawSyms_rotate (rotate (rotate b)) l2 x).trans
        ((mem_rawSyms_rotate (rotate b) l1 x).trans (mem_rawSyms_rotate b hb x))))

theorem mem_all_symmetries (b x : Board) : x ∈ all_symmetries b ↔ x ∈ rawSyms b := by
  rw [all_symmetries, mem_uniq]

theorem self_mem_all_symmetries (b : Board) : b ∈ all_symmetries b := by
  rw [mem_all_symmetries]
  exact mem_rawSyms_self b

theorem all_symmetries_ne_nil (b : Board) : all_symmetries b ≠ [] :=
  List.ne_nil_of_mem (self_mem_all_symmetries b)

/-! ### The canonical form -/

theorem canonical_mem (b : Board) : canonical b ∈ all_symmetries b :=
  listMin_mem _ (all_symmetries_ne_nil b)

theorem canonical_mem_raw (b : Board) : canonical b ∈ rawSyms b :=
  (mem_all_symmetries b _).mp (canonical_mem b)

theorem canonical_min (b x : Board) (hx : x ∈ all_symmetries b) :
    lexLt x (canonical b) = false :=
  listMin_le _ x hx

theorem canonical_le_self (b : Board) : lexLt b (canonical b) = false :=
  canonical_min b b (self_mem_all_symmetries b)

theorem canonical_eq_of_mem_raw (b : Board) (hb : b.length = 9) (q : Board)
    (hq : q ∈ rawSyms b) : canonical q = canonical b := by
  apply listMin_eq_of_same_mem _ _ (all_symmetries_ne_nil q) (all_symmetries_ne_nil b)
  intro x
  rw [mem_all_symmetries, mem_all_symmetries]
  exact rawSyms_closed b hb q hq x

theorem canonical_idem (b : Board) (hb : b.length = 9) :
    canonical (canonical b) = canonical b :=
  canonical_eq_of_mem_raw b hb (canonical b) (canonical_mem_raw b)

theorem canonical_eq_iff (p q : Board) (hp : p.length = 9) (hq : q.length = 9) :
    canonical p = canonical q ↔ q ∈ all_symmetries p := by
  constructor
  · intro h
    have hcp : canonical p ∈ rawSyms p := canonical_mem_raw p
    have hcq : canonical p ∈ rawSyms q := h ▸ canonical_mem_raw q
    have h1 := rawSyms_closed p hp (canonical p) hcp
    have h2 := rawSyms_closed q hq (canonical p) hcq
    rw [mem_all_symmetries]
    rw [← h1 q, h2 q]
    exact mem_rawSyms_self q
  · intro h
    exact (canonical_eq_of_mem_raw p hp q ((mem_all_symmetries p q).mp h)).symm

/-! ### Decision positions -/

theorem decisionPred_iff (b : Board) : decisionPred b = true ↔
    (b.count 'X' = b.count 'O' ∧ winner b = none ∧ 1 < b.count ' ') := by
  simp [decisionPred, Bool.and_eq_true, Option.isNone_iff_eq_none, and_assoc]

theorem mem_positions (b : Board) : b ∈ positions ↔
    b ∈ reachable_positions ∧ b.count 'X' = b.count 'O' ∧ winner b = none
      ∧ 1 < b.count ' ' := by
  simp only [positions, positionsOf, List.mem_filter, decisionPred_iff]

theorem valid_start : ValidB start := by
  constructor
  · rfl
  · intro c hc
    exact Or.inl (List.eq_of_mem_replicate hc)

theorem start_mem_reachable : start ∈ reachable_positions :=
  (reachable_facts.2.2.2.2 start valid_start).mpr (by decide)

theorem start_mem_positions : start ∈ positions :=
  (mem_positions start).mpr ⟨start_mem_reachable, by decide, by decide, by decide⟩

theorem mem_positions_valid (b : Board) (hb : b ∈ positions) : ValidB b :=
  reachable_facts.2.2.1 b ((mem_positions b).mp hb).1

theorem lexLe_of (a b : List Char) (h : lexLt b a = false) : lexLe a b = true := by
  simp [lexLe, h]

theorem build_snd : build_menace_boxes.2 = positions := by
  have h : build_menace_boxes = (members, positions) := rfl
  rw [h]

/-! ### Claim theorems -/

/-- C4: a reachable board is retained by the decision-position filter
of build_menace_boxes exactly when its X-count equals its O-count, the
terminal test reports no winner, and more than one cell is empty; all
other reachable boards are discarded. -/
theorem claim_filter_spec : ∀ b : Board, b ∈ build_menace_boxes.2 ↔
    (b ∈ reachable_positions ∧ b.count 'X' = b.count 'O' ∧ winner b = none
      ∧ 1 < b.count ' ') := by
  intro b
  rw [build_snd]
  exact mem_positions b

/-- C5: for every 9-cell board, the orbit produced by all_symmetries
contains the board itself, canonicalization is idempotent, and the
orbit of the canonical form has the same members as the orbit of the
board. -/
theorem claim_symmetry_closure : ∀ b : Board, b.length = 9 →
    b ∈ all_symmetries b ∧ canonical (canonical b) = canonical b ∧
      (∀ x, x ∈ all_symmetries (canonical b) ↔ x ∈ all_symmetries b) := by
  intro b hb
  refine ⟨self_mem_all_symmetries b, canonical_idem b hb, ?_⟩
  intro x
  rw [mem_all_symmetries, mem_all_symmetries]
  exact rawSyms_closed b hb (canonical b) (canonical_mem_raw b) x

/-- C5 witness at the empty board. -/
theorem claim_symmetry_closure_witness :
    start.length = 9 ∧ start ∈ all_symmetries start ∧
      canonical (canonical start) = canonical start ∧
      (start ∈ all_symmetries (canonical start) ↔ start ∈ all_symmetries start) := by
  refine ⟨by decide, (claim_symmetry_closure start (by decide)).1,
    (claim_symmetry_closure start (by decide)).2.1,
    (claim_symmetry_closure start (by decide)).2.2 start⟩

/-- C7: the set returned by reachable_positions has exactly 5478
elements (the visited list has length 5478 and no duplicates). -/
theorem claim_reachable_count :
    reachable_positions.length = 5478 ∧ reachable_positions.Nodup :=
  ⟨reachable_facts.1, reachable_facts.2.1⟩

/-- C9: every board visited by the traversal has an X-count equal to
its O-count or exceeding it by exactly one, so the X-to-move test of
the filter is meaningful on every reachable board. -/
theorem claim_alternation : ∀ b ∈ reachable_positions,
    b.count 'X' = b.count 'O' ∨ b.count 'X' = b.count 'O' + 1 :=
  reachable_facts.2.2.2.1

/-- C9 witness at the empty board. -/
theorem claim_alternation_witness :
    start ∈ reachable_positions ∧
      (start.count 'X' = start.count 'O' ∨ start.count 'X' = start.count 'O' + 1) :=
  ⟨start_mem_reachable, claim_alternation start start_mem_reachable⟩

/-- C10: the canonical form of a 9-cell board is lexicographically at
most the board, and every canonical class key of build_menace_boxes is
at most every member stored under it. -/
theorem claim_canonical_le :
    (∀ b : Board, b.length = 9 → lexLe (canonical b) b = true) ∧
      (∀ k p : Board, p ∈ members k → lexLe k p = true) := by
  constructor
  · intro b _
    exact lexLe_of _ _ (canonical_le_self b)
  · intro k p hp
    rw [members, List.mem_filter] at hp
    have hk : canonical p = k := eq_of_beq hp.2
    rw [← hk]
    exact lexLe_of _ _ (canonical_le_self p)

/-- C10 witness: the empty board is its own canonical form and a
member of its own class. -/
theorem claim_canonical_le_witness :
    lexLe (canonical start) start = true ∧ start ∈ members (canonical start) ∧
      lexLe (canonical start) start = true := by
  refine ⟨claim_canonical_le.1 start (by decide), ?_, ?_⟩
  · rw [members, List.mem_filter]
    exact ⟨start_mem_positions, by simp⟩
  · refine claim_canonical_le.2 (canonical start) start ?_
    rw [members, List.mem_filter]
    exact ⟨start_mem_positions, by simp⟩

/-- C1: two decision positions get the same canonical class key
exactly when one is a symmetry image of the other, and every decision
position lies in the member set of exactly one class. -/
theorem claim_partition :
    (∀ p ∈ positions, ∀ q ∈ positions,
      (canonical p = canonical q ↔ q ∈ all_symmetries p)) ∧
    (∀ p ∈ positions, ∃! k, k ∈ classKeys ∧ p ∈ members k) := by
  constructor
  · intro p hp q hq
    exact canonical_eq_iff p q (mem_positions_valid p hp).1 (mem_positions_valid q hq).1
  · intro p hp
    refine ⟨canonical p, ⟨?_, ?_⟩, ?_⟩
    · rw [classKeys, mem_uniq, List.mem_map]
      exact ⟨p, hp, rfl⟩
    · rw [members, List.mem_filter]
      exact ⟨hp, by simp⟩
    · intro k hk
      rw [members, List.mem_filter] at hk
      exact (eq_of_beq hk.2.2).symm

/-- C1 witness at the empty board. -/
theorem claim_partition_witness :
    (canonical start = canonical start ↔ start ∈ all_symmetries start) ∧
      (∃! k, k ∈ classKeys ∧ start ∈ members k) :=
  ⟨claim_partition.1 start start_mem_positions start start_mem_positions,
    claim_partition.2 start start_mem_positions⟩

/-- The board with three X in the top row. -/
def xxxBoard : Board := ['X', 'X', 'X', ' ', ' ', ' ', ' ', ' ', ' ']

theorem lineWin_iff (b : Board) (t : Nat × Nat × Nat) : lineWin b t = true ↔
    (cell b t.1 ≠ ' ' ∧ cell b t.1 = cell b t.2.1 ∧ cell b t.2.1 = cell b t.2.2) := by
  simp [lineWin, Bool.and_eq_true, and_assoc]

/-- C6: winner returns a mark exactly when one of the 8 fixed triples
holds three identical non-empty values, and any returned mark is
witnessed by such a triple; "XXX      " yields X and the empty board
yields no winner. -/
theorem claim_winner_spec :
    (∀ b : Board,
      ((winner b).isSome ↔ ∃ t ∈ lines,
        cell b t.1 ≠ ' ' ∧ cell b t.1 = cell b t.2.1 ∧ cell b t.2.1 = cell b t.2.2) ∧
      (∀ m, winner b = some m → ∃ t ∈ lines,
        m ≠ ' ' ∧ cell b t.1 = m ∧ cell b t.2.1 = m ∧ cell b t.2.2 = m)) ∧
    winner xxxBoard = some 'X' ∧ winner start = none := by
  refine ⟨?_, by rfl, by rfl⟩
  intro b
  constructor
  · rw [winner, Option.isSome_map', List.find?_isSome]
    constructor
    · rintro ⟨t, ht, hw⟩
      exact ⟨t, ht, (lineWin_iff b t).mp hw⟩
    · rintro ⟨t, ht, hw⟩
      exact ⟨t, ht, (lineWin_iff b t).mpr hw⟩
  · intro m hm
    rw [winner, Option.map_eq_some'] at hm
    obtain ⟨t, hfind, hcell⟩ := hm
    have htmem : t ∈ lines := List.mem_of_find?_eq_some hfind
    have hwin := (lineWin_iff b t).mp (List.find?_some hfind)
    refine ⟨t, htmem, ?_, ?_, ?_, ?_⟩
    · rw [← hcell]; exact hwin.1
    · exact hcell
    · rw [← hwin.2.1]; exact hcell
    · rw [← hwin.2.2, ← hwin.2.1]; exact hcell

/-- C6 witness at the board with three X in the top row. -/
theorem claim_winner_spec_witness :
    ((winner xxxBoard).isSome ↔ ∃ t ∈ lines,
      cell xxxBoard t.1 ≠ ' ' ∧ cell xxxBoard t.1 = cell xxxBoard t.2.1 ∧
        cell xxxBoard t.2.1 = cell xxxBoard t.2.2) ∧
    (∃ t ∈ lines, ('X' : Char) ≠ ' ' ∧ cell xxxBoard t.1 = 'X' ∧
      cell xxxBoard t.2.1 = 'X' ∧ cell xxxBoard t.2.2 = 'X') :=
  ⟨(claim_winner_spec.1 xxxBoard).1,
    (claim_winner_spec.1 xxxBoard).2 'X' (by rfl)⟩

/-- C8: every successor generated by the traversal has strictly fewer
empty cells than its parent, and the stack-driven loop halts: one
final state is reached under every sufficiently large fuel. -/
theorem claim_termination :
    (∀ (b : Board) (i : Nat) (p : Char), b.length = 9 → i < 9 → cell b i = ' ' →
      p ≠ ' ' → (b.set i p).count ' ' < b.count ' ') ∧
    (∃ st2, ∀ fuel, FUEL ≤ fuel →
      reachLoop fuel [(start, 'X')] initState = some st2) := by
  constructor
  · intro b i p hb hi hc hp
    have h := count_set_space b hb i hi p hc hp
    omega
  · obtain ⟨st2, hre, _, _, _⟩ := reach_result
    exact ⟨st2, fun fuel hf => reachLoop_mono FUEL fuel _ _ st2 hre hf⟩

/-- C8 witness: a concrete successor loses an empty cell, and the
loop result is stable at fuel FUEL + 1. -/
theorem claim_termination_witness :
    (start.set 0 'X').count ' ' < start.count ' ' ∧
      ∃ st2, reachLoop (FUEL + 1) [(start, 'X')] initState = some st2 := by
  constructor
  · exact claim_termination.1 start 0 'X' (by decide) (by decide) (by decide) (by decide)
  · obtain ⟨st2, h⟩ := claim_termination.2
    exact ⟨st2, h (FUEL + 1) (by omega)⟩

/-! ### Counting classes at depth 1 -/

theorem rotate_count (b : Board) (hb : b.length = 9) (c : Char) :
    (rotate b).count c = b.count c := by
  obtain ⟨x0, x1, x2, x3, x4, x5, x6, x7, x8, rfl⟩ := destruct9 b hb
  simp only [rotate, List.count_cons, List.count_nil]
  ac_rfl

theorem reflect_count (b : Board) (hb : b.length = 9) (c : Char) :
    (reflect b).count c = b.count c := by
  obtain ⟨x0, x1, x2, x3, x4, x5, x6, x7, x8, rfl⟩ := destruct9 b hb
  simp only [reflect, List.count_cons, List.count_nil]
  ac_rfl

theorem rawSyms_count (b : Board) (hb : b.length = 9) (q : Board) (hq : q ∈ rawSyms b)
    (c : Char) : q.count c = b.count c := by
  have l1 : (rotate b).length = 9 := rotate_len b hb
  have l2 : (rotate (rotate b)).length = 9 := rotate_len _ l1
  have l3 : (rotate (rotate (rotate b))).length = 9 := rotate_len _ l2
  simp only [rawSyms, List.mem_cons, List.not_mem_nil, or_false] at hq
  rcases hq with rfl | rfl | rfl | rfl | rfl | rfl | rfl | rfl
  · rfl
  · exact reflect_count b hb c
  · exact rotate_count b hb c
  · rw [reflect_count _ l1 c, rotate_count b hb c]
  · rw [rotate_count _ l1 c, rotate_count b hb c]
  · rw [reflect_count _ l2 c, rotate_count _ l1 c, rotate_count b hb c]
  · rw [rotate_count _ l2 c, rotate_count _ l1 c, rotate_count b hb c]
  · rw [reflect_count _ l3 c, rotate_count _ l2 c, rotate_count _ l1 c, rotate_count b hb c]

theorem canonical_count (b : Board) (hb : b.length = 9) (c : Char) :
    (canonical b).count c = b.count c :=
  rawSyms_count b hb (canonical b) (canonical_mem_raw b) c

theorem count_one_spec (c : Char) : ∀ l : List Char, l.count c = 1 →
    ∃ i, ∃ hi : i < l.length, l.get ⟨i, hi⟩ = c ∧
      ∀ j (hj : j < l.length), j ≠ i → l.get ⟨j, hj⟩ ≠ c := by
  intro l
  induction l with
  | nil => intro h; simp at h
  | cons x xs ih =>
      intro h
      by_cases hx : x = c
      · subst hx
        have hzero : xs.count x = 0 := by
          rw [List.count_cons_self] at h
          omega
        refine ⟨0, by simp, rfl, ?_⟩
        intro j hj hj0
        obtain ⟨j2, rfl⟩ : ∃ j2, j = j2 + 1 := ⟨j - 1, by omega⟩
        show xs.get ⟨j2, _⟩ ≠ x
        intro hcon
        rw [List.count_eq_zero] at hzero
        exact hzero (hcon ▸ List.get_mem xs j2 _)
      · have hcnt : xs.count c = 1 := by
          rw [List.count_cons_of_ne (Ne.symm hx)] at h
          exact h
        obtain ⟨i, hi, hget, huniq⟩ := ih hcnt
        refine ⟨i + 1, by simpa using hi, hget, ?_⟩
        intro j hj hji
        cases j with
        | zero => exact hx
        | succ j2 =>
            exact huniq j2 (by simpa using hj) (by omega)

theorem one_one_board (b : Board) (hv : ValidB b) (hx : b.count 'X' = 1)
    (ho : b.count 'O' = 1) :
    ∃ i j, i < 9 ∧ j < 9 ∧ i ≠ j ∧ b = (start.set i 'X').set j 'O' := by
  obtain ⟨i, hi, hgi, hui⟩ := count_one_spec 'X' b hx
  obtain ⟨j, hj, hgj, huj⟩ := count_one_spec 'O' b ho
  have hij : i ≠ j := by
    intro h
    subst h
    rw [hgi] at hgj
    cases hgj
  have hi9 : i < 9 := by rw [hv.1] at hi; exact hi
  have hj9 : j < 9 := by rw [hv.1] at hj; exact hj
  refine ⟨i, j, hi9, hj9, hij, ?_⟩
  have hlen2 : ((start.set i 'X').set j 'O').length = 9 := by simp [start]
  apply List.ext_getElem (by rw [hv.1, hlen2])
  intro k hk1 hk2
  have hk9 : k < 9 := by rw [hv.1] at hk1; exact hk1
  have hrhs : ((start.set i 'X').set j 'O')[k] =
      if j = k then 'O' else if i = k then 'X' else ' ' := by
    rw [List.getElem_set]
    by_cases hjk : j = k
    · simp [hjk]
    · rw [if_neg hjk, if_neg hjk, List.getElem_set]
      by_cases hik : i = k
      · simp [hik]
      · rw [if_neg hik, if_neg hik]
        interval_cases k <;> rfl
  rw [hrhs]
  by_cases hjk : j = k
  · subst hjk
    rw [if_pos rfl]
    exact hgj
  · rw [if_neg hjk]
    by_cases hik : i = k
    · subst hik
      rw [if_pos rfl]
      exact hgi
    · rw [if_neg hik]
      show b.get ⟨k, hk1⟩ = ' '
      have hnx : b.get ⟨k, hk1⟩ ≠ 'X' := hui k hk1 (fun h => hik h.symm)
      have hno : b.get ⟨k, hk1⟩ ≠ 'O' := huj k hk1 (fun h => hjk h.symm)
      have halpha := hv.2 (b.get ⟨k, hk1⟩) (List.get_mem b k hk1)
      rcases halpha with h | h | h
      · exact h
      · exact absurd h hnx
      · exact absurd h hno

/-- The 12 canonical class keys at depth 1 (one X and one O). -/
def K12 : List Board :=
  [[' ', ' ', 'O', ' ', ' ', ' ', 'X', ' ', ' '],
   [' ', ' ', ' ', ' ', ' ', 'O', 'X', ' ', ' '],
   [' ', ' ', ' ', ' ', ' ', ' ', 'O', ' ', 'X'],
   [' ', ' ', ' ', ' ', 'O', ' ', ' ', ' ', 'X'],
   [' ', ' ', ' ', ' ', ' ', ' ', ' ', 'O', 'X'],
   [' ', ' ', ' ', ' ', ' ', 'X', 'O', ' ', ' '],
   [' ', ' ', ' ', 'O', ' ', 'X', ' ', ' ', ' '],
   [' ', ' ', ' ', ' ', ' ', 'O', ' ', 'X', ' '],
   [' ', ' ', ' ', ' ', 'O', ' ', ' ', 'X', ' '],
   [' ', ' ', ' ', ' ', ' ', ' ', ' ', 'X', 'O'],
   [' ', ' ', ' ', ' ', 'X', ' ', ' ', ' ', 'O'],
   [' ', ' ', ' ', ' ', 'X', ' ', ' ', 'O', ' ']]

theorem pair_canonical_mem_K12 : ∀ i, i < 9 → ∀ j, j < 9 → i ≠ j →
    canonical ((start.set i 'X').set j 'O') ∈ K12 := by decide

theorem K12_facts : ∀ k ∈ K12,
    (k.length = 9 ∧ ∀ c ∈ k, c = ' ' ∨ c = 'X' ∨ c = 'O') ∧
    finalMask.testBit (encode k) = true ∧
    k.count 'X' = k.count 'O' ∧ winner k = none ∧ 1 < k.count ' ' ∧
    canonical k = k ∧ k.count 'X' = 1 := by decide

theorem K12_mem_classKeys : ∀ k ∈ K12, k ∈ classKeys ∧ k.count 'X' = 1 := by
  intro k hk
  obtain ⟨hv0, hbit, hcnt, hwin, hemp, hcan, hx1⟩ := K12_facts k hk
  have hv : ValidB k := hv0
  have hreach : k ∈ reachable_positions := (reachable_facts.2.2.2.2 k hv).mpr hbit
  have hpos : k ∈ positions := (mem_positions k).mpr ⟨hreach, hcnt, hwin, hemp⟩
  refine ⟨?_, hx1⟩
  rw [classKeys, mem_uniq, List.mem_map]
  exact ⟨k, hpos, hcan⟩

theorem depth1_keys_ext : ∀ x, x ∈ classKeys.filter (fun k => k.count 'X' == 1) ↔
    x ∈ K12 := by
  intro x
  constructor
  · intro hx
    rw [List.mem_filter] at hx
    obtain ⟨hck, hx1⟩ := hx
    rw [classKeys, mem_uniq, List.mem_map] at hck
    obtain ⟨p, hp, hpc⟩ := hck
    have hv : ValidB p := mem_positions_valid p hp
    have hx1n : x.count 'X' = 1 := by simpa using hx1
    have hpx : p.count 'X' = 1 := by
      rw [← canonical_count p hv.1 'X', hpc]
      exact hx1n
    have hpo : p.count 'O' = 1 := by
      rw [← ((mem_positions p).mp hp).2.1]
      exact hpx
    obtain ⟨i, j, hi, hj, hij, hb⟩ := one_one_board p hv hpx hpo
    rw [← hpc, hb]
    exact pair_canonical_mem_K12 i hi j hj hij
  · intro hx
    obtain ⟨hck, hx1⟩ := K12_mem_classKeys x hx
    rw [List.mem_filter]
    exact ⟨hck, by simp [hx1]⟩

/-- The number of canonical classes at depth 1 is 12. -/
theorem depth1_class_count :
    ((classKeys.filter (fun k => k.count 'X' == 1)).toFinset).card = 12 := by
  have h : (classKeys.filter (fun k => k.count 'X' == 1)).toFinset = K12.toFinset := by
    apply Finset.ext
    intro x
    rw [List.mem_toFinset, List.mem_toFinset]
    exact depth1_keys_ext x
  rw [h]
  decide

/-- The board with a single X in the top-left cell. -/
def xBoard : Board := ['X', ' ', ' ', ' ', ' ', ' ', ' ', ' ', ' ']

/-- The canonical form of the single-X corner boards: X bottom-right. -/
def cornerMin : Board := [' ', ' ', ' ', ' ', ' ', ' ', ' ', ' ', 'X']

theorem xBoard_not_position : xBoard ∉ positions := by
  intro h
  exact absurd ((mem_positions xBoard).mp h).2.1 (by decide)

/-- C2 counterexample: the single-X top-left board is not a decision
position of build_menace_boxes at all (its X-count exceeds its
O-count), and its canonical form is the bottom-right board, not
itself. -/
theorem claim_first_move_counterexample :
    xBoard ∉ build_menace_boxes.2 ∧ canonical xBoard = cornerMin ∧ cornerMin ≠ xBoard := by
  refine ⟨?_, by decide, by decide⟩
  rw [build_snd]
  exact xBoard_not_position

/-- C2 amended: the single-X top-left board is not a decision position
and its canonical form is the bottom-right single-X board; the nine
single-X boards collapse to exactly 3 canonical forms (corner, edge,
center); and the canonical mapping of build_menace_boxes has exactly
12 classes at depth 1 (X-count 1). -/
theorem claim_first_move_corrected :
    xBoard ∉ build_menace_boxes.2 ∧
    canonical xBoard = cornerMin ∧
    (uniq (((List.range 9).map (fun i => start.set i 'X')).map canonical)).length = 3 ∧
    ((classKeys.filter (fun k => k.count 'X' == 1)).toFinset).card = 12 := by
  refine ⟨?_, by decide, by decide, depth1_class_count⟩
  rw [build_snd]
  exact xBoard_not_position

/-! ### Model of per_depth_stats -/

/-- One printed record of per_depth_stats.  The numeric text
formatting of the print statements is elided; each record carries the
data that the corresponding line prints. -/
inductive PrintRecord where
  | summaryHeader : PrintRecord
  | summaryLine : Nat → Nat → Nat → PrintRecord
  | examplesHeader : PrintRecord
  | exampleLine : Nat → List (Board × Nat) → PrintRecord
deriving DecidableEq

/-- A Counter increment: Counter[k] += 1 modelled on Nat → Nat. -/
def bump (f : Nat → Nat) (k : Nat) : Nat → Nat :=
  fun x => if x = k then f x + 1 else f x

/-- next(iter(members)): any member of a class; member sets are
non-empty by construction. -/
def anyMember (m : List Board) : Board := m.headD []

/-- The sort order used for the example lines: key (-members, can),
ascending, i.e. larger member count first, ties by key. -/
def sortKeyLe (a b : Board × Nat) : Bool :=
  b.2 < a.2 || (a.2 == b.2 && lexLe a.1 b.1)

/-- Embedding of per_depth_stats.  The dictionary argument is passed
as an association list of (canonical key, stored members).  The
function builds the two per-depth counters and the per-depth example
lists exactly as the source does, prints a summary for depths 0..4
and example lines for depths 0..4 (modelled by the returned list of
records), and falls off the end of the function body, returning None
(the second component). -/
def per_depth_stats (mapping : List (Board × List Board)) (positions : List Board) :
    List PrintRecord × Option Unit :=
  let pos_by_depth := positions.foldl (fun f p => bump f (p.count 'X')) (fun _ => 0)
  let canon_by_depth := mapping.foldl (fun f kv => bump f ((anyMember kv.2).count 'X'))
    (fun _ => 0)
  let canon_members_by_depth : Nat → List (Board × Nat) :=
    mapping.foldl (fun g kv =>
      fun x => if x = (anyMember kv.2).count 'X' then g x ++ [(kv.1, kv.2.length)] else g x)
      (fun _ => [])
  let out :=
    [PrintRecord.summaryHeader] ++
    (List.range 5).map (fun d => PrintRecord.summaryLine d (pos_by_depth d) (canon_by_depth d)) ++
    [PrintRecord.examplesHeader] ++
    (List.range 5).map (fun d =>
      PrintRecord.exampleLine d (((canon_members_by_depth d).mergeSort sortKeyLe).take 10))
  (out, none)

theorem foldl_bump {α : Type} (key : α → Nat) : ∀ (l : List α) (f : Nat → Nat) (d : Nat),
    (l.foldl (fun f p => bump f (key p)) f) d = f d + l.countP (fun p => key p == d) := by
  intro l
  induction l with
  | nil => intro f d; simp
  | cons x xs ih =>
      intro f d
      simp only [List.foldl_cons, List.countP_cons]
      rw [ih]
      by_cases h : key x = d
      · simp [bump, h]
        omega
      · have h2 : (key x == d) = false := by simp [h]
        have h3 : ¬d = key x := fun hc => h hc.symm
        simp [bump, h2, h3]

/-- C3 counterexample: applied to any inputs, even empty ones,
per_depth_stats prints (the printed-record list is non-empty) and its
return value is None, not the counts. -/
theorem claim_per_depth_counterexample :
    (per_depth_stats [] []).1 ≠ [] ∧ (per_depth_stats [] []).2 = none := by
  exact ⟨by decide, rfl⟩

/-- C3 amended: per_depth_stats computes, for every depth d in 0..4,
the number of positions with X-count d and the number of classes
whose members have X-count d, and prints them as the summary line for
depth d; it returns no value. -/
theorem claim_per_depth_corrected :
    ∀ (mapping : List (Board × List Board)) (positions : List Board) (d : Nat), d < 5 →
      PrintRecord.summaryLine d (positions.countP (fun p => p.count 'X' == d))
        (mapping.countP (fun kv => (anyMember kv.2).count 'X' == d))
        ∈ (per_depth_stats mapping positions).1 ∧
      (per_depth_stats mapping positions).2 = none := by
  intro mapping positions d hd
  constructor
  · simp only [per_depth_stats]
    apply List.mem_append.mpr
    left
    apply List.mem_append.mpr
    left
    apply List.mem_append.mpr
    right
    rw [List.mem_map]
    refine ⟨d, List.mem_range.mpr hd, ?_⟩
    rw [foldl_bump (fun p => p.count 'X') positions (fun _ => 0) d,
      foldl_bump (fun kv => (anyMember kv.2).count 'X') mapping (fun _ => 0) d,
      Nat.zero_add, Nat.zero_add]
  · rfl

/-- C3 witness at depth 0 with empty inputs. -/
theorem claim_per_depth_corrected_witness :
    PrintRecord.summaryLine 0 (([] : List Board).countP (fun p => p.count 'X' == 0))
        (([] : List (Board × List Board)).countP (fun kv => (anyMember kv.2).count 'X' == 0))
        ∈ (per_depth_stats [] []).1 ∧
      (per_depth_stats [] []).2 = none :=
  claim_per_depth_corrected [] [] 0 (by decide)

end menace
